import Mathlib

/-!
# DealFlow Pro: NYC property enrichment engine

A shallow embedding of the enrichment code of the repository
(`src/lib/nycData.js`, `src/lib/zolaAPI.js`, `src/lib/apiUsage.js`) and
theorems about it.

Conventions of the embedding.

* A JavaScript field that may be `undefined`/`null` is an `Option`.
* A JavaScript number is the rational (`ℚ`) it denotes. The result of a
  multiplication, subtraction, addition or division is rounded to the nearest
  double (`toDouble`: a 53-bit significand, ties to even). The exponent range
  is taken unbounded: overflow to the infinities, subnormal numbers and `-0`
  are not represented. The number `parseFloat` reads from a field is an
  `Option ℚ`, `none` standing for `NaN` (a missing or non-numeric field).
* Network responses are inputs of the functions that consume them.
-/

namespace DealFlow

/-! ## JavaScript helpers -/

/-- `String.prototype.includes`: `needle` occurs in `s` as a contiguous substring. -/
def includes (s needle : String) : Bool :=
  s.data.tails.any (fun t => needle.data.isPrefixOf t)

/-- The restriction of `String.prototype.toUpperCase` to ASCII letters; used for
concrete evaluations.  General statements take the case mapping as a parameter. -/
def asciiUpper (s : String) : String :=
  ⟨s.data.map Char.toUpper⟩

/-- `parseFloat(x) || 0`: a `NaN` reading (and a zero reading) becomes `0`. -/
def orZero (x : Option ℚ) : ℚ :=
  match x with
  | some q => if q = 0 then 0 else q
  | none => 0

/-- Rounding of a rational to the nearest integer, a tie going to the even one. -/
def roundHalfEven (x : ℚ) : ℤ :=
  if x - ⌊x⌋ < 1 / 2 then ⌊x⌋
  else if 1 / 2 < x - ⌊x⌋ then ⌊x⌋ + 1
  else if ⌊x⌋ % 2 = 0 then ⌊x⌋ else ⌊x⌋ + 1

/-- The spacing of the doubles around `x`: `2 ^ (e - 52)` where
`2 ^ e ≤ |x| < 2 ^ (e + 1)` (a double has a significand of 53 bits). -/
def ulp (x : ℚ) : ℚ :=
  (2 : ℚ) ^ (Int.log 2 |x| - 52)

/-- The double nearest to `x`, as every IEEE 754 operation of JavaScript rounds
its exact result: to the nearest multiple of the spacing, a tie going to the
even significand. -/
def toDouble (x : ℚ) : ℚ :=
  roundHalfEven (x / ulp x) * ulp x

/-- JavaScript division `a / b`: the quotient rounded to the nearest double; a
division by zero yields `Infinity` or `NaN`, which is not a rational (`none`). -/
def jsDiv (a b : ℚ) : Option ℚ :=
  if b = 0 then none else some (toDouble (a / b))

/-- `Math.round`: the nearest integer, a tie going towards `+∞`. -/
def jsRound (x : ℚ) : ℤ :=
  ⌊x + 1 / 2⌋

/-- The test `!s` on a string-valued field: true for `undefined`, `null` and `''`. -/
def falsyString (s : Option String) : Bool :=
  match s with
  | none => true
  | some t => t = ""

/-- `a || b` on string-valued fields: `b` when `a` is `undefined`, `null` or `''`. -/
def orElseString (a b : Option String) : Option String :=
  if falsyString a then b else a

/-- `a || null` on a string-valued field. -/
def orNullString (a : Option String) : Option String :=
  if falsyString a then none else a

/-- `parseInt(x) || 0` on what `parseInt` reads from a field (`none`: `NaN`). -/
def orZeroInt (x : Option ℤ) : ℤ :=
  match x with
  | some n => if n = 0 then 0 else n
  | none => 0

/-! ## HTTP and GeoSearch -/

/-- An exception: `new Error(message)`, the `SyntaxError` of `response.json()` on
a body that is not JSON, the `TypeError` of a property read on `undefined`, or
the rejection of `fetch` itself. -/
inductive JsError where
  | error (message : String)
  | syntaxError
  | typeError
  | network (message : String)
deriving DecidableEq, Repr

/-- What `await fetch(url)` and then `response.json()` yield: `fetch` rejects,
or a response arrives with a status and a body that parses as JSON into a `β`
(`some`) or does not parse (`none`). -/
inductive HttpResult (β : Type) where
  | networkError (message : String)
  | response (status : Nat) (body : Option β)

/-- `response.ok`: the status is in the range 200 to 299. -/
def httpOk (status : Nat) : Bool :=
  decide (200 ≤ status) && decide (status ≤ 299)

/-- `properties.addendum.pad` of a GeoSearch feature. -/
structure Pad where
  bbl : Option String := none
  block : Option String := none
  lot : Option String := none
  bin : Option String := none
deriving DecidableEq, Repr

/-- `properties` of a GeoSearch feature; `pad` is `addendum?.pad`. -/
structure GeoProperties where
  label : Option String := none
  borough : Option String := none
  pad : Option Pad := none
  pad_bbl : Option String := none
  pad_block : Option String := none
  pad_lot : Option String := none
deriving DecidableEq, Repr

/-- `geometry` of a GeoSearch feature; `coordinates` is `[lng, lat]`. -/
structure Geometry where
  coordinates : Option (List ℚ) := none
deriving DecidableEq, Repr

/-- A GeoSearch feature. -/
structure GeoFeature where
  properties : Option GeoProperties := none
  geometry : Option Geometry := none
deriving DecidableEq, Repr

/-- The JSON object of a GeoSearch response. -/
structure GeoBody where
  features : Option (List GeoFeature) := none
deriving DecidableEq, Repr

/-- A well-formed BBL: exactly 10 characters, all decimal digits, the first one
from 1 to 5. -/
def isWellFormedBBL (s : String) : Bool :=
  decide (s.data.length = 10) && s.data.all Char.isDigit &&
    (match s.data.head? with
     | some d => decide ('1' ≤ d) && decide (d ≤ '5')
     | none => false)

/-! ## `nycData.js`: ACRIS records -/

namespace NycData

/-- A row of the ACRIS Legals dataset (only the field that is read). -/
structure Legal where
  document_id : Option String
deriving DecidableEq, Repr

/-- A row of the ACRIS Master dataset (the fields that are read).
`document_amt` holds what `parseFloat` reads from the field. -/
structure MasterDoc where
  document_id : Option String := none
  doc_type : Option String := none
  document_date : Option String := none
  recorded_datetime : Option String := none
  document_amt : Option ℚ := none
  crfn : Option String := none
  borough : Option String := none
deriving DecidableEq, Repr

/-- The `record` object built for each Master document. -/
structure AcrisRecord where
  documentId : Option String
  documentType : Option String
  documentDate : Option String
  recordedDate : Option String
  amount : ℚ
  crfn : Option String
  borough : Option String
deriving DecidableEq, Repr

/-- The parameters `fetchNYCOpenData` receives for the Master query. -/
structure SoqlParams where
  whereClause : String
  order : String
  limit : Nat
deriving DecidableEq, Repr

/-- The object returned by `getACRISRecords`.  The early return for an empty
Legals response has neither `other` nor `rawDocuments`. -/
structure AcrisRecords where
  deeds : List AcrisRecord
  mortgages : List AcrisRecord
  liens : List AcrisRecord
  other : Option (List AcrisRecord)
  rawDocuments : Option (List MasterDoc)
deriving DecidableEq, Repr

/-- The four arrays filled by the categorisation loop. -/
structure Buckets where
  deeds : List AcrisRecord
  mortgages : List AcrisRecord
  liens : List AcrisRecord
  other : List AcrisRecord
deriving DecidableEq, Repr

/-- The `record` literal of the loop body. -/
def toRecord (doc : MasterDoc) : AcrisRecord :=
  { documentId := doc.document_id
    documentType := doc.doc_type
    documentDate := doc.document_date
    recordedDate := doc.recorded_datetime
    amount := orZero doc.document_amt
    crfn := doc.crfn
    borough := doc.borough }

/-- One iteration of `for (const doc of documents)`: build the record and
push it on one of the four arrays. -/
def categorizeStep (toUpperCase : String → String) (acc : Buckets) (doc : MasterDoc) : Buckets :=
  let record := toRecord doc
  let type := toUpperCase (doc.doc_type.getD "")
  if includes type "DEED" || includes type "RPTT" then
    { acc with deeds := acc.deeds ++ [record] }
  else if includes type "MTGE" || includes type "MORTGAGE" || includes type "AGMT" then
    { acc with mortgages := acc.mortgages ++ [record] }
  else if includes type "LIEN" || includes type "JUDGM" || includes type "FTL" then
    { acc with liens := acc.liens ++ [record] }
  else
    { acc with other := acc.other ++ [record] }

/-- The whole categorisation loop, starting from four empty arrays. -/
def categorize (toUpperCase : String → String) (documents : List MasterDoc) : Buckets :=
  documents.foldl (categorizeStep toUpperCase) ⟨[], [], [], []⟩

/-- The distinct document ids, `[...new Set(legals.map(l => l.document_id))]`:
first occurrences, in order. -/
def docIds (legals : List Legal) : List (Option String) :=
  (legals.map (fun l => l.document_id)).eraseDups

/-- The parameters of the single Master query: the first 20 ids joined into a
`document_id in (...)` filter (`join` prints `undefined` as the empty string). -/
def masterQuery (legals : List Legal) : SoqlParams :=
  { whereClause :=
      "document_id in ('" ++
        String.intercalate "','" (((docIds legals).take 20).map (fun i => i.getD "")) ++ "')"
    order := "recorded_datetime DESC"
    limit := 50 }

/-- `getACRISRecords`, given the Legals response and the Master endpoint. -/
def getACRISRecords (toUpperCase : String → String) (legals : List Legal)
    (fetchMaster : SoqlParams → List MasterDoc) : AcrisRecords :=
  if legals.length = 0 then
    { deeds := [], mortgages := [], liens := [], other := none, rawDocuments := none }
  else
    let documents := fetchMaster (masterQuery legals)
    let b := categorize toUpperCase documents
    { deeds := b.deeds, mortgages := b.mortgages, liens := b.liens,
      other := some b.other, rawDocuments := some documents }

/-- The classification as the specification words it: a deed when the
uppercased `doc_type` contains `DEED` or *equals* `RPTT`. Returns the index of
the bucket: 0 deeds, 1 mortgages, 2 liens, 3 other. -/
def specBucket (toUpperCase : String → String) (doc : MasterDoc) : Fin 4 :=
  let type := toUpperCase (doc.doc_type.getD "")
  if includes type "DEED" || type = "RPTT" then 0
  else if includes type "MTGE" || includes type "MORTGAGE" || includes type "AGMT" then 1
  else if includes type "LIEN" || includes type "JUDGM" || includes type "FTL" then 2
  else 3

/-- A document the loop pushes on `deeds`: the first test of the `if` chain. -/
def isDeed (toUpperCase : String → String) (doc : MasterDoc) : Bool :=
  includes (toUpperCase (doc.doc_type.getD "")) "DEED" ||
    includes (toUpperCase (doc.doc_type.getD "")) "RPTT"

/-- The second test of the `if` chain, on its own. -/
def hasMortgageWord (toUpperCase : String → String) (doc : MasterDoc) : Bool :=
  includes (toUpperCase (doc.doc_type.getD "")) "MTGE" ||
    includes (toUpperCase (doc.doc_type.getD "")) "MORTGAGE" ||
    includes (toUpperCase (doc.doc_type.getD "")) "AGMT"

/-- The third test of the `if` chain, on its own. -/
def hasLienWord (toUpperCase : String → String) (doc : MasterDoc) : Bool :=
  includes (toUpperCase (doc.doc_type.getD "")) "LIEN" ||
    includes (toUpperCase (doc.doc_type.getD "")) "JUDGM" ||
    includes (toUpperCase (doc.doc_type.getD "")) "FTL"

/-! ## `nycData.js`: the violation roll-up of `getAllPropertyData` -/

/-- A normalized HPD violation (output of `getHPDViolations`); the roll-up reads
`currentStatus`. -/
structure HpdViolation where
  violationId : Option String := none
  violationClass : Option String := none
  currentStatus : Option String := none
deriving DecidableEq, Repr

/-- A normalized DOB violation (output of `getDOBViolations`); the roll-up reads
`dispositionDate`. -/
structure DobViolation where
  violationNumber : Option String := none
  issueDate : Option String := none
  dispositionDate : Option String := none
deriving DecidableEq, Repr

/-- A normalized ECB violation (output of `getECBViolations`); the roll-up reads
`status`. -/
structure EcbViolation where
  ecbNumber : Option String := none
  issueDate : Option String := none
  status : Option String := none
deriving DecidableEq, Repr

/-- An element of the array spread together for `totalOpen`. -/
inductive Violation where
  | hpd (v : HpdViolation)
  | dob (v : DobViolation)
  | ecb (v : EcbViolation)
deriving DecidableEq, Repr

/-- The array whose length is `violations.totalOpen`:
`[...hpd.filter(v => v.currentStatus !== 'CLOSE'), ...dob.filter(v => !v.dispositionDate),
...ecb.filter(v => v.status !== 'RESOLVE')]`. -/
def openViolations (hpdViolations : List HpdViolation) (dobViolations : List DobViolation)
    (ecbViolations : List EcbViolation) : List Violation :=
  (hpdViolations.filter (fun v => v.currentStatus != some "CLOSE")).map Violation.hpd ++
  (dobViolations.filter (fun v => falsyString v.dispositionDate)).map Violation.dob ++
  (ecbViolations.filter (fun v => v.status != some "RESOLVE")).map Violation.ecb

/-- The field `violations.totalOpen` of the report built by `getAllPropertyData`. -/
def totalOpen (hpdViolations : List HpdViolation) (dobViolations : List DobViolation)
    (ecbViolations : List EcbViolation) : Nat :=
  (openViolations hpdViolations dobViolations ecbViolations).length

/-! ## `nycData.js`: the dataset client, the normalizers and `getAllPropertyData` -/

/-- `fetchNYCOpenData`: the parsed body of a 2xx response; every failure (a
rejected `fetch`, a non-2xx status, a body that is not JSON) is caught, logged
and turned into the empty array. -/
def fetchNYCOpenData {α : Type} (r : HttpResult (List α)) : List α :=
  match r with
  | HttpResult.networkError _ => []
  | HttpResult.response status body =>
      if httpOk status then
        match body with
        | some rows => rows
        | none => []
      else []

/-- The object returned by `nycData.addressToBBL`. -/
structure GeoData where
  bbl : Option String
  borough : Option String
  block : Option String
  lot : Option String
  address : Option String
  coordinates : Option (List ℚ)
  bin : Option String
deriving DecidableEq, Repr

/-- `nycData.addressToBBL`, given the GeoSearch exchange. Everything thrown
inside the `try` (a rejected `fetch`, a body that is not JSON, a first feature
without `properties` or `geometry`) is caught and turned into `null`. -/
def addressToBBL (r : HttpResult GeoBody) : Option GeoData :=
  match r with
  | HttpResult.networkError _ => none
  | HttpResult.response _ none => none
  | HttpResult.response _ (some data) =>
      match data.features with
      | some (feature :: _) =>
          match feature.properties, feature.geometry with
          | some props, some geometry =>
              some
                { bbl := orElseString (props.pad.bind (fun p => p.bbl)) props.pad_bbl
                  borough := props.borough
                  block := orElseString (props.pad.bind (fun p => p.block)) props.pad_block
                  lot := orElseString (props.pad.bind (fun p => p.lot)) props.pad_lot
                  address := props.label
                  coordinates := geometry.coordinates
                  bin := props.pad.bind (fun p => p.bin) }
          | _, _ => none
      | _ => none

/-- A row of the zoning tax lot dataset. -/
structure ZoningLotRow where
  bbl : Option String := none
  borough : Option String := none
  block : Option String := none
  lot : Option String := none
  zonedist1 : Option String := none
  zonedist2 : Option String := none
  zonedist3 : Option String := none
  zonedist4 : Option String := none
  overlay1 : Option String := none
  overlay2 : Option String := none
  spdist1 : Option String := none
  spdist2 : Option String := none
  spdist3 : Option String := none
  ltdheight : Option String := none
  zonemap : Option String := none
deriving DecidableEq, Repr

/-- The object returned by `getZoningInfo`. -/
structure ZoningInfo where
  bbl : Option String
  borough : Option String
  block : Option String
  lot : Option String
  zoningDistrict1 : Option String
  zoningDistrict2 : Option String
  zoningDistrict3 : Option String
  zoningDistrict4 : Option String
  commercialOverlay1 : Option String
  commercialOverlay2 : Option String
  specialDistrict1 : Option String
  specialDistrict2 : Option String
  specialDistrict3 : Option String
  limitedHeightDistrict : Option String
  zoningMapNumber : Option String
deriving DecidableEq, Repr

/-- `getZoningInfo`, given the rows `fetchNYCOpenData` returned: the first row
renamed, or `null` when there is none. -/
def getZoningInfo (data : List ZoningLotRow) : Option ZoningInfo :=
  match data with
  | lot :: _ =>
      some
        { bbl := lot.bbl, borough := lot.borough, block := lot.block, lot := lot.lot
          zoningDistrict1 := lot.zonedist1, zoningDistrict2 := lot.zonedist2
          zoningDistrict3 := lot.zonedist3, zoningDistrict4 := lot.zonedist4
          commercialOverlay1 := lot.overlay1, commercialOverlay2 := lot.overlay2
          specialDistrict1 := lot.spdist1, specialDistrict2 := lot.spdist2
          specialDistrict3 := lot.spdist3
          limitedHeightDistrict := lot.ltdheight, zoningMapNumber := lot.zonemap }
  | [] => none

/-- A PLUTO row as `getPLUTOData` reads it: a numeric field holds what
`parseFloat` (FAR values) or `parseInt` (areas, counts, years) reads from it.
Of the pass-through and numeric fields of the source a representative part is
kept. -/
structure PlutoLot where
  bbl : Option String := none
  address : Option String := none
  borough : Option String := none
  block : Option String := none
  lot : Option String := none
  zonedist1 : Option String := none
  residfar : Option ℚ := none
  commfar : Option ℚ := none
  facilfar : Option ℚ := none
  builtfar : Option ℚ := none
  lotarea : Option ℤ := none
  bldgclass : Option String := none
  landuse : Option String := none
  numfloors : Option ℤ := none
  unitstotal : Option ℤ := none
  bldgarea : Option ℤ := none
  assesstot : Option ℤ := none
  yearbuilt : Option ℤ := none
  ownername : Option String := none
deriving DecidableEq, Repr

/-- The object returned by `getPLUTOData` (the fields kept in `PlutoLot`). -/
structure PlutoData where
  bbl : Option String
  address : Option String
  borough : Option String
  block : Option String
  lot : Option String
  zoneDist1 : Option String
  residentialFAR : ℚ
  commercialFAR : ℚ
  facilityFAR : ℚ
  builtFAR : ℚ
  maxAllowableFAR : ℚ
  lotArea : ℤ
  buildingClass : Option String
  landUse : Option String
  numFloors : ℤ
  unitsTotal : ℤ
  buildingArea : ℤ
  assessedTotal : ℤ
  yearBuilt : ℤ
  ownerName : Option String
deriving DecidableEq, Repr

/-- `getPLUTOData`, given the rows `fetchNYCOpenData` returned: the normalized
first row, or `null` when there is none. -/
def getPLUTOData (data : List PlutoLot) : Option PlutoData :=
  match data with
  | lot :: _ =>
      some
        { bbl := lot.bbl, address := lot.address, borough := lot.borough
          block := lot.block, lot := lot.lot, zoneDist1 := lot.zonedist1
          residentialFAR := orZero lot.residfar
          commercialFAR := orZero lot.commfar
          facilityFAR := orZero lot.facilfar
          builtFAR := orZero lot.builtfar
          maxAllowableFAR :=
            max (orZero lot.residfar) (max (orZero lot.commfar) (orZero lot.facilfar))
          lotArea := orZeroInt lot.lotarea
          buildingClass := lot.bldgclass, landUse := lot.landuse
          numFloors := orZeroInt lot.numfloors
          unitsTotal := orZeroInt lot.unitstotal
          buildingArea := orZeroInt lot.bldgarea
          assessedTotal := orZeroInt lot.assesstot
          yearBuilt := orZeroInt lot.yearbuilt
          ownerName := lot.ownername }
  | [] => none

/-- A row of the HPD violations dataset (the fields kept in `HpdViolation`). -/
structure HpdRow where
  violationid : Option String := none
  violationclass : Option String := none
  currentstatus : Option String := none
deriving DecidableEq, Repr

/-- A row of the DOB violations dataset (the fields kept in `DobViolation`). -/
structure DobRow where
  number : Option String := none
  issue_date : Option String := none
  disposition_date : Option String := none
deriving DecidableEq, Repr

/-- A row of the ECB violations dataset (the fields kept in `EcbViolation`). -/
structure EcbRow where
  ecb_violation_number : Option String := none
  issue_date : Option String := none
  ecb_violation_status : Option String := none
deriving DecidableEq, Repr

/-- A row of the DOB permits dataset (a representative part of its fields). -/
structure PermitRow where
  job : Option String := none
  permit_si_no : Option String := none
  job_type : Option String := none
  permit_status : Option String := none
  issuance_date : Option String := none
  estimated_job_cost : Option ℚ := none
deriving DecidableEq, Repr

/-- A normalized permit (output of `getDOBPermits`). -/
structure Permit where
  jobNumber : Option String
  permitNumber : Option String
  jobType : Option String
  permitStatus : Option String
  issuanceDate : Option String
  estimatedCost : ℚ
deriving DecidableEq, Repr

/-- `getHPDViolations`: `data.map(...)` over the rows `fetchNYCOpenData` returned. -/
def getHPDViolations (data : List HpdRow) : List HpdViolation :=
  data.map (fun v =>
    { violationId := v.violationid, violationClass := v.violationclass
      currentStatus := v.currentstatus })

/-- `getDOBViolations`: `data.map(...)` over the rows `fetchNYCOpenData` returned. -/
def getDOBViolations (data : List DobRow) : List DobViolation :=
  data.map (fun v =>
    { violationNumber := v.number, issueDate := v.issue_date
      dispositionDate := v.disposition_date })

/-- `getECBViolations`: `data.map(...)` over the rows `fetchNYCOpenData` returned. -/
def getECBViolations (data : List EcbRow) : List EcbViolation :=
  data.map (fun v =>
    { ecbNumber := v.ecb_violation_number, issueDate := v.issue_date
      status := v.ecb_violation_status })

/-- `getDOBPermits`: `data.map(...)` over the rows `fetchNYCOpenData` returned. -/
def getDOBPermits (data : List PermitRow) : List Permit :=
  data.map (fun p =>
    { jobNumber := p.job, permitNumber := p.permit_si_no, jobType := p.job_type
      permitStatus := p.permit_status, issuanceDate := p.issuance_date
      estimatedCost := orZero p.estimated_job_cost })

/-- The answers of NYC Open Data to the queries made for a BBL, one per dataset
(the Master dataset is queried with the filter built from the Legals rows). -/
structure NycNet where
  zoningTaxLot : String → HttpResult (List ZoningLotRow)
  pluto : String → HttpResult (List PlutoLot)
  legals : String → HttpResult (List Legal)
  master : SoqlParams → HttpResult (List MasterDoc)
  hpd : String → HttpResult (List HpdRow)
  dob : String → HttpResult (List DobRow)
  ecb : String → HttpResult (List EcbRow)
  permits : String → HttpResult (List PermitRow)

/-- The `violations` object of the report. -/
structure Violations where
  hpd : List HpdViolation
  dob : List DobViolation
  ecb : List EcbViolation
  totalOpen : Nat
deriving DecidableEq, Repr

/-- The report object returned by `getAllPropertyData`. -/
structure PropertyReport where
  address : Option String
  bbl : String
  borough : Option String
  block : Option String
  lot : Option String
  coordinates : Option (List ℚ)
  bin : Option String
  zoning : Option ZoningInfo
  pluto : Option PlutoData
  acris : AcrisRecords
  violations : Violations
  permits : List Permit
deriving DecidableEq, Repr

/-- What `getAllPropertyData` returns: `{ error, geoData: null }` or a report. -/
inductive PropertyResult where
  | errorResult (error : String)
  | report (r : PropertyReport)
deriving DecidableEq, Repr

/-- The dataset identifiers queried for a report, in the order of the
`Promise.all` array; the Master dataset is queried only when Legals has rows. -/
def datasetRequests (legals : List Legal) : List String :=
  ["fdkv-4t4z", "64uk-42ks", "8h5j-fqxa"] ++
    (if legals.length = 0 then [] else ["bnx9-e6tj"]) ++
    ["wvxf-dwi5", "3h2n-5cm9", "6bgk-3dad", "ipu4-2vj7"]

/-- `getAllPropertyData`, given the GeoSearch exchange and the answers of the
datasets: the result, and the list of datasets that were queried. -/
def getAllPropertyData (toUpperCase : String → String) (geo : HttpResult GeoBody)
    (net : NycNet) : PropertyResult × List String :=
  match addressToBBL geo with
  | none => (PropertyResult.errorResult "Address not found in NYC", [])
  | some geoData =>
      if falsyString geoData.bbl then
        (PropertyResult.errorResult "Address not found in NYC", [])
      else
        let bbl := geoData.bbl.getD ""
        let zoning := getZoningInfo (fetchNYCOpenData (net.zoningTaxLot bbl))
        let pluto := getPLUTOData (fetchNYCOpenData (net.pluto bbl))
        let legals := fetchNYCOpenData (net.legals bbl)
        let acris := getACRISRecords toUpperCase legals (fun q => fetchNYCOpenData (net.master q))
        let hpdViolations := getHPDViolations (fetchNYCOpenData (net.hpd bbl))
        let dobViolations := getDOBViolations (fetchNYCOpenData (net.dob bbl))
        let ecbViolations := getECBViolations (fetchNYCOpenData (net.ecb bbl))
        let dobPermits := getDOBPermits (fetchNYCOpenData (net.permits bbl))
        (PropertyResult.report
          { address := geoData.address
            bbl := bbl
            borough := geoData.borough
            block := geoData.block
            lot := geoData.lot
            coordinates := geoData.coordinates
            bin := geoData.bin
            zoning := zoning
            pluto := pluto
            acris := acris
            violations :=
              { hpd := hpdViolations
                dob := dobViolations
                ecb := ecbViolations
                totalOpen := totalOpen hpdViolations dobViolations ecbViolations }
            permits := dobPermits },
         datasetRequests legals)

end NycData

/-! ## `zolaAPI.js`: FAR and building envelope -/

namespace ZolaAPI

/-- A PLUTO row as the functions of `zolaAPI.js` read it: a numeric field holds
what `parseFloat` or `parseInt` reads from it (`none`: missing or non-numeric).
The fields read by `getFARData` are all present; of the fields read by the other
sub-reports a representative part is kept. -/
structure PlutoRow where
  lotarea : Option ℚ := none
  builtfar : Option ℚ := none
  residfar : Option ℚ := none
  commfar : Option ℚ := none
  facilfar : Option ℚ := none
  lotfront : Option ℚ := none
  lotdepth : Option ℚ := none
  lottype : Option String := none
  irrlotcode : Option String := none
  zonedist1 : Option String := none
  zonedist2 : Option String := none
  zonedist3 : Option String := none
  zonedist4 : Option String := none
  overlay1 : Option String := none
  overlay2 : Option String := none
  spdist1 : Option String := none
  spdist2 : Option String := none
  spdist3 : Option String := none
  ltdheight : Option String := none
  zmcode : Option String := none
  landuse : Option String := none
  bldgclass : Option String := none
  ownertype : Option String := none
  ownername : Option String := none
  corner : Option String := none
  yearbuilt : Option ℤ := none
  numbldgs : Option ℤ := none
  numfloors : Option ℚ := none
  unitstotal : Option ℤ := none
  unitsres : Option ℤ := none
  bldgarea : Option ℤ := none
  assessland : Option ℚ := none
  assesstot : Option ℚ := none
  taxclass : Option String := none
  coastalzn : Option String := none
  edesignat : Option String := none
  cd : Option String := none
  council : Option String := none
  zipcode : Option String := none
deriving DecidableEq, Repr

/-- The PLUTO row of the enrichment scenario:
`lotarea=10000, builtfar=4.0, residfar=6.02, commfar=10.0, facilfar=6.5`, each
field holding the double `parseFloat` reads (6.02 is not itself a double). -/
def scenarioRow : PlutoRow :=
  { lotarea := some 10000
    builtfar := some 4.0
    residfar := some (toDouble 6.02)
    commfar := some 10.0
    facilfar := some 6.5 }

/-- A PLUTO row with `lotarea=1250, residfar=1.10, builtfar=0.81`, each field
holding the double `parseFloat` reads. -/
def roundingRow : PlutoRow :=
  { lotarea := some 1250
    builtfar := some (toDouble 0.81)
    residfar := some (toDouble 1.10) }

/-- The object returned by `getFARData`. `utilization_pct` is `none` when the
JavaScript value is not a finite number. -/
structure FarData where
  bbl : String
  lot_area_sf : ℚ
  built_far : ℚ
  residential_far : ℚ
  commercial_far : ℚ
  facility_far : ℚ
  max_far : ℚ
  current_built_sf : ℤ
  max_buildable_sf : ℤ
  remaining_buildable_sf : ℤ
  utilization_pct : Option ℤ
  lot_frontage : Option ℚ
  lot_depth : Option ℚ
  lot_type : Option String
  irregular_lot : Bool
deriving DecidableEq, Repr

/-- `parseFloat(x) || null`. -/
def orNull (x : Option ℚ) : Option ℚ :=
  match x with
  | some q => if q = 0 then none else some q
  | none => none

/-- `getFARData`, given the PLUTO response `data` for the BBL.
`data[0] || {}` is the first row, or a row with no field. The two products, the
difference, the quotient and its product with 100 are each rounded to a double;
`Math.max` and `Math.round` are exact. -/
def getFARData (bbl : String) (data : List PlutoRow) : FarData :=
  let pluto : PlutoRow := data.head?.getD {}
  let lotArea := orZero pluto.lotarea
  let builtFAR := orZero pluto.builtfar
  let residFAR := orZero pluto.residfar
  let commFAR := orZero pluto.commfar
  let facilFAR := orZero pluto.facilfar
  let maxFAR := max residFAR (max commFAR facilFAR)
  let maxBuildable := toDouble (lotArea * maxFAR)
  let currentBuilt := toDouble (lotArea * builtFAR)
  let remainingBuildable := toDouble (maxBuildable - currentBuilt)
  { bbl := bbl
    lot_area_sf := lotArea
    built_far := builtFAR
    residential_far := residFAR
    commercial_far := commFAR
    facility_far := facilFAR
    max_far := maxFAR
    current_built_sf := jsRound currentBuilt
    max_buildable_sf := jsRound maxBuildable
    remaining_buildable_sf := jsRound (max 0 remainingBuildable)
    utilization_pct :=
      if maxFAR > 0 then (jsDiv builtFAR maxFAR).map (fun q => jsRound (toDouble (q * 100)))
      else some 0
    lot_frontage := orNull pluto.lotfront
    lot_depth := orNull pluto.lotdepth
    lot_type := pluto.lottype.bind (fun s => if s = "" then none else some s)
    irregular_lot := pluto.irrlotcode == some "Y" }

/-! ## `zolaAPI.js`: strings and numbers -/

/-- `String.prototype.length`: the number of UTF-16 code units. -/
def jsLength (s : String) : Nat :=
  s.data.foldl (fun n c => n + (if c.val ≥ 0x10000 then 2 else 1)) 0

/-- `s.slice(a, b)` for `0 ≤ a ≤ b`, on strings of the Basic Multilingual Plane. -/
def jsSlice (s : String) (a b : Nat) : String :=
  ⟨(s.data.drop a).take (b - a)⟩

/-- White space and line terminators skipped by the conversion of a string to a
number. -/
def isStrWhiteSpace (c : Char) : Bool :=
  c.val = 0x09 || c.val = 0x0A || c.val = 0x0B || c.val = 0x0C || c.val = 0x0D ||
  c.val = 0x20 || c.val = 0xA0 || c.val = 0x1680 ||
  (decide (0x2000 ≤ c.val) && decide (c.val ≤ 0x200A)) ||
  c.val = 0x2028 || c.val = 0x2029 || c.val = 0x202F || c.val = 0x205F ||
  c.val = 0x3000 || c.val = 0xFEFF

/-- A non-empty run of decimal digits. -/
def isDecimalDigits (l : List Char) : Bool :=
  !l.isEmpty && l.all Char.isDigit

/-- Nothing, or an exponent part `e`/`E`, an optional sign and decimal digits. -/
def isExponentPartOpt (l : List Char) : Bool :=
  match l with
  | [] => true
  | e :: rest =>
      (e = 'e' || e = 'E') &&
        (match rest with
         | '+' :: ds => isDecimalDigits ds
         | '-' :: ds => isDecimalDigits ds
         | ds => isDecimalDigits ds)

/-- `Infinity`, or digits with an optional fraction and exponent, or a fraction
with an optional exponent. -/
def isStrUnsignedDecimalLiteral (l : List Char) : Bool :=
  l = "Infinity".data ||
    (match l.dropWhile Char.isDigit with
     | '.' :: rest =>
         (!(l.takeWhile Char.isDigit).isEmpty || !(rest.takeWhile Char.isDigit).isEmpty) &&
           isExponentPartOpt (rest.dropWhile Char.isDigit)
     | rest => !(l.takeWhile Char.isDigit).isEmpty && isExponentPartOpt rest)

/-- A binary, octal or hexadecimal integer literal `0b…`, `0o…`, `0x…`. -/
def isNonDecimalIntegerLiteral (l : List Char) : Bool :=
  match l with
  | '0' :: x :: ds =>
      !ds.isEmpty &&
        (((x = 'x' || x = 'X') && ds.all (fun c =>
            c.isDigit || (decide ('a' ≤ c) && decide (c ≤ 'f')) ||
              (decide ('A' ≤ c) && decide (c ≤ 'F')))) ||
         ((x = 'o' || x = 'O') && ds.all (fun c => decide ('0' ≤ c) && decide (c ≤ '7'))) ||
         ((x = 'b' || x = 'B') && ds.all (fun c => c = '0' || c = '1')))
  | _ => false

/-- A numeric literal as the conversion of a string to a number accepts it. -/
def isStrNumericLiteral (l : List Char) : Bool :=
  isNonDecimalIntegerLiteral l ||
    (match l with
     | '+' :: rest => isStrUnsignedDecimalLiteral rest
     | '-' :: rest => isStrUnsignedDecimalLiteral rest
     | rest => isStrUnsignedDecimalLiteral rest)

/-- `isNaN(s)` on a string: the string, white space trimmed, is neither empty
nor a numeric literal. -/
def jsIsNaN (s : String) : Bool :=
  let t := (((s.data.dropWhile isStrWhiteSpace).reverse).dropWhile isStrWhiteSpace).reverse
  !(t.isEmpty || isStrNumericLiteral t)

/-- Property read `table[key]` on an object literal with string values (own
properties). -/
def lookupString (table : List (String × String)) (key : String) : Option String :=
  match table with
  | [] => none
  | (k, v) :: rest => if k = key then some v else lookupString rest key

/-! ## `zolaAPI.js`: address resolution -/

/-- `getBoroughCode`. -/
def getBoroughCode (borough : Option String) : Option String :=
  lookupString
    [("Manhattan", "1"), ("Bronx", "2"), ("Brooklyn", "3"), ("Queens", "4"),
     ("Staten Island", "5")] (borough.getD "undefined")

/-- The object returned by `zolaAPI.addressToBBL`; `coordinates` is `(lat, lng)`. -/
structure AddressInfo where
  address : Option String
  bbl : Option String
  borough : Option String
  borough_code : Option String
  block : Option String
  lot : Option String
  bin : Option String
  coordinates : Option ℚ × Option ℚ
deriving DecidableEq, Repr

/-- `zolaAPI.addressToBBL`, given the GeoSearch exchange. -/
def addressToBBL (r : HttpResult GeoBody) : Except JsError AddressInfo :=
  match r with
  | HttpResult.networkError m => .error (JsError.network m)
  | HttpResult.response status body =>
      if !httpOk status then .error (JsError.error "GeoSearch failed")
      else
        match body with
        | none => .error JsError.syntaxError
        | some data =>
            match data.features with
            | none => .error (JsError.error "Address not found")
            | some [] => .error (JsError.error "Address not found")
            | some (feature :: _) =>
                match feature.properties with
                | none => .error JsError.typeError
                | some props =>
                    match feature.geometry.bind (fun g => g.coordinates) with
                    | none => .error JsError.typeError
                    | some coordinates =>
                        .ok
                          { address := props.label
                            bbl := orNullString (props.pad.bind (fun p => p.bbl))
                            borough := props.borough
                            borough_code := getBoroughCode props.borough
                            block := orNullString (props.pad.bind (fun p => p.block))
                            lot := orNullString (props.pad.bind (fun p => p.lot))
                            bin := orNullString (props.pad.bind (fun p => p.bin))
                            coordinates := (coordinates.get? 1, coordinates.get? 0) }

/-! ## `zolaAPI.js`: the sub-reports and the complete report -/

/-- The body of a response as the sub-report functions read it: they call
`response.json()` without looking at the status. -/
def responseJson {β : Type} (r : HttpResult β) : Except JsError β :=
  match r with
  | HttpResult.networkError m => .error (JsError.network m)
  | HttpResult.response _ none => .error JsError.syntaxError
  | HttpResult.response _ (some body) => .ok body

/-- The truthy strings among the given fields, in order (`if (x) list.push(x)`). -/
def truthyStrings (fields : List (Option String)) : List String :=
  fields.filterMap (fun x => if falsyString x then none else x)

/-- `getZoningDescription`: the table entry of the uppercased first two
characters, else the entry of the first character, else the default. -/
def getZoningDescription (toUpperCase : String → String) (zone : Option String) :
    Option String :=
  if falsyString zone then none
  else
    let descriptions : List (String × String) :=
      [("R1", "Single-Family Detached Residences"), ("R2", "Single-Family Detached Residences"),
       ("R3", "Low-Rise Attached & Detached Residences"), ("R4", "Low-Rise Attached Residences"),
       ("R5", "Low-Rise Apartments"), ("R6", "Medium-Density Apartments"),
       ("R7", "Medium-High Density Apartments"), ("R8", "High-Density Apartments"),
       ("R9", "High-Density Apartments (Towers)"), ("R10", "Highest Density Residential"),
       ("C1", "Local Retail (Overlay)"), ("C2", "Local Service (Overlay)"),
       ("C3", "Waterfront Recreation"), ("C4", "General Commercial"),
       ("C5", "Central Commercial"), ("C6", "General Central Commercial"),
       ("C7", "Commercial Amusement"), ("C8", "Heavy Commercial Services"),
       ("M1", "Light Manufacturing"), ("M2", "Medium Manufacturing"),
       ("M3", "Heavy Manufacturing"), ("PA", "Park"), ("BPC", "Battery Park City")]
    match lookupString descriptions (toUpperCase (jsSlice (zone.getD "") 0 2)) with
    | some d => some d
    | none =>
        match lookupString descriptions (jsSlice (zone.getD "") 0 1) with
        | some d => some d
        | none => some "Mixed Use / Special District"

/-- `getPermittedUses`. -/
def getPermittedUses (toUpperCase : String → String) (zone : Option String) : List String :=
  if falsyString zone then []
  else if toUpperCase (jsSlice (zone.getD "") 0 1) = "R" then
    ["Residential", "Community Facilities", "Houses of Worship", "Schools"]
  else if toUpperCase (jsSlice (zone.getD "") 0 1) = "C" then
    ["Retail", "Office", "Residential (in most)", "Restaurants", "Hotels", "Entertainment"]
  else if toUpperCase (jsSlice (zone.getD "") 0 1) = "M" then
    ["Manufacturing", "Warehousing", "Office", "Some Retail", "Auto Services"]
  else ["Mixed Use"]

/-- `getLandUseCategory`. -/
def getLandUseCategory (code : Option String) : String :=
  (lookupString
    [("01", "One & Two Family Buildings"), ("02", "Multi-Family Walk-Up"),
     ("03", "Multi-Family Elevator"), ("04", "Mixed Residential & Commercial"),
     ("05", "Commercial & Office"), ("06", "Industrial & Manufacturing"),
     ("07", "Transportation & Utility"), ("08", "Public Facilities & Institutions"),
     ("09", "Open Space & Recreation"), ("10", "Parking Facilities"), ("11", "Vacant Land")]
    (code.getD "undefined")).getD "Unknown"

/-- `getBuildingClassDescription`. -/
def getBuildingClassDescription (toUpperCase : String → String) (code : Option String) :
    Option String :=
  if falsyString code then none
  else
    some ((lookupString
      [("A", "One Family Dwellings"), ("B", "Two Family Dwellings"),
       ("C", "Walk-Up Apartments"), ("D", "Elevator Apartments"), ("E", "Warehouses"),
       ("F", "Factory & Industrial"), ("G", "Garages & Gas Stations"), ("H", "Hotels"),
       ("I", "Hospitals & Health"), ("J", "Theatres"), ("K", "Stores"), ("L", "Lofts"),
       ("M", "Churches & Religious"), ("N", "Asylums & Homes"), ("O", "Office Buildings"),
       ("P", "Indoor Recreation"), ("Q", "Outdoor Recreation"), ("R", "Condos"),
       ("S", "Mixed Use"), ("T", "Transportation"), ("U", "Utility"), ("V", "Vacant Land"),
       ("W", "Schools"), ("Y", "Government"), ("Z", "Miscellaneous")]
      (toUpperCase (jsSlice (code.getD "") 0 1))).getD "Unknown")

/-- `getOwnershipType`. -/
def getOwnershipType (code : Option String) : String :=
  (lookupString
    [("C", "City"), ("M", "Mixed (City & Private)"), ("O", "Other (Public Authority)"),
     ("P", "Private"), ("X", "Fully Tax Exempt")] (code.getD "undefined")).getD "Private"

/-- `NYC_ZOLA_BASE/l/lot/borough/block/lot`. -/
def zolaLink (bbl : String) : String :=
  "https://zola.planning.nyc.gov/l/lot/" ++ jsSlice bbl 0 1 ++ "/" ++ jsSlice bbl 1 6 ++ "/" ++
    jsSlice bbl 6 (bbl.data.length)

/-- The object returned by `getZoningData`. -/
structure ZoningData where
  bbl : String
  primary_zone : Option String
  all_zones : List String
  overlays : List String
  special_districts : List String
  commercial_overlay : Option String
  limited_height_district : Option String
  zoning_map : Option String
  zoning_description : Option String
  permitted_uses : List String
  zola_link : String
deriving DecidableEq, Repr

/-- The object returned by `getLandUseData` (without `condo`, `landmark`,
`historic_district` and `interior_lot`). -/
structure LandUseData where
  bbl : String
  land_use_code : Option String
  land_use_category : String
  building_class : Option String
  building_class_description : Option String
  ownership_type : String
  owner_name : Option String
  corner_lot : Bool
deriving DecidableEq, Repr

/-- The object returned by `getBuildingData` (without the per-use areas and the
building dimensions). -/
structure BuildingData where
  bbl : String
  year_built : Option ℤ
  num_buildings : ℤ
  num_floors : ℚ
  units_total : ℤ
  units_residential : ℤ
  gross_sf : ℤ
deriving DecidableEq, Repr

/-- The object returned by `getTaxData` (without the exemptions and map fields). -/
structure TaxData where
  bbl : String
  assessed_land : ℚ
  assessed_total : ℚ
  tax_class : Option String
deriving DecidableEq, Repr

/-- A row of the flood zone dataset. -/
structure FloodRow where
  flood_zone : Option String := none
  fld_zone : Option String := none
deriving DecidableEq, Repr

/-- The object returned by `getEnvironmentalData` (without the service-area
fields). -/
structure EnvironmentalData where
  bbl : String
  flood_zone : Option String
  coastal_zone : Bool
  environmental_restrictions : Option String
deriving DecidableEq, Repr

/-- The object returned by `getCommunityData` (without the community board name,
the census fields and the neighbourhood fields). -/
structure CommunityData where
  bbl : String
  community_district : Option String
  council_district : Option String
  zip_code : Option String
deriving DecidableEq, Repr

/-- A row of the zoning actions dataset. -/
structure ActionRow where
  ulurpno : Option String := none
  projectname : Option String := none
  ulurptype : Option String := none
  dcpstatus : Option String := none
  certifieddate : Option String := none
  approveddate : Option String := none
  projectdesc : Option String := none
deriving DecidableEq, Repr

/-- A normalized zoning action. -/
structure ZoningAction where
  ulurp_number : Option String
  project_name : Option String
  action_type : Option String
  status : Option String
  certified_date : Option String
  approved_date : Option String
  description : Option String
deriving DecidableEq, Repr

/-- The object returned by `getZoningActions`. -/
structure ZoningActions where
  bbl : String
  actions : List ZoningAction
deriving DecidableEq, Repr

/-- The answers of the network to the requests of `zolaAPI.js`: GeoSearch by
address text, and by BBL the PLUTO dataset, the zoning tax lot dataset (whose
body is parsed and not used), the flood zone dataset and the zoning actions
dataset. -/
structure ZolaNet where
  geosearch : String → HttpResult GeoBody
  pluto : String → HttpResult (List PlutoRow)
  zoningTaxLot : String → HttpResult Unit
  flood : String → HttpResult (List FloodRow)
  actions : String → HttpResult (List ActionRow)

/-- `getZoningData`. -/
def getZoningData (toUpperCase : String → String) (net : ZolaNet) (bbl : String) :
    Except JsError ZoningData :=
  match responseJson (net.zoningTaxLot bbl) with
  | .error e => .error e
  | .ok _ =>
      match responseJson (net.pluto bbl) with
      | .error e => .error e
      | .ok plutoData =>
          let pluto : PlutoRow := plutoData.head?.getD {}
          let zoningDistricts :=
            truthyStrings [pluto.zonedist1, pluto.zonedist2, pluto.zonedist3, pluto.zonedist4]
          .ok
            { bbl := bbl
              primary_zone := zoningDistricts.head?
              all_zones := zoningDistricts
              overlays := truthyStrings [pluto.overlay1, pluto.overlay2]
              special_districts := truthyStrings [pluto.spdist1, pluto.spdist2, pluto.spdist3]
              commercial_overlay := orNullString pluto.overlay1
              limited_height_district := orNullString pluto.ltdheight
              zoning_map := orNullString pluto.zmcode
              zoning_description := getZoningDescription toUpperCase zoningDistricts.head?
              permitted_uses := getPermittedUses toUpperCase zoningDistricts.head?
              zola_link := zolaLink bbl }

/-- `getFARData` with its request: the FAR object of the PLUTO response. -/
def fetchFARData (net : ZolaNet) (bbl : String) : Except JsError FarData :=
  match responseJson (net.pluto bbl) with
  | .error e => .error e
  | .ok data => .ok (getFARData bbl data)

/-- `getLandUseData`. -/
def getLandUseData (toUpperCase : String → String) (net : ZolaNet) (bbl : String) :
    Except JsError LandUseData :=
  match responseJson (net.pluto bbl) with
  | .error e => .error e
  | .ok data =>
      let pluto : PlutoRow := data.head?.getD {}
      .ok
        { bbl := bbl
          land_use_code := orNullString pluto.landuse
          land_use_category := getLandUseCategory pluto.landuse
          building_class := orNullString pluto.bldgclass
          building_class_description := getBuildingClassDescription toUpperCase pluto.bldgclass
          ownership_type := getOwnershipType pluto.ownertype
          owner_name := orNullString pluto.ownername
          corner_lot := pluto.corner == some "Y" }

/-- `parseInt(x) || null`. -/
def orNullInt (x : Option ℤ) : Option ℤ :=
  match x with
  | some n => if n = 0 then none else some n
  | none => none

/-- `getBuildingData`. -/
def getBuildingData (net : ZolaNet) (bbl : String) : Except JsError BuildingData :=
  match responseJson (net.pluto bbl) with
  | .error e => .error e
  | .ok data =>
      let pluto : PlutoRow := data.head?.getD {}
      .ok
        { bbl := bbl
          year_built := orNullInt pluto.yearbuilt
          num_buildings := orZeroInt pluto.numbldgs
          num_floors := orZero pluto.numfloors
          units_total := orZeroInt pluto.unitstotal
          units_residential := orZeroInt pluto.unitsres
          gross_sf := orZeroInt pluto.bldgarea }

/-- `getTaxData`. -/
def getTaxData (net : ZolaNet) (bbl : String) : Except JsError TaxData :=
  match responseJson (net.pluto bbl) with
  | .error e => .error e
  | .ok data =>
      let pluto : PlutoRow := data.head?.getD {}
      .ok
        { bbl := bbl
          assessed_land := orZero pluto.assessland
          assessed_total := orZero pluto.assesstot
          tax_class := orNullString pluto.taxclass }

/-- `getEnvironmentalData`: a failure of the flood zone request is caught. -/
def getEnvironmentalData (net : ZolaNet) (bbl : String) : Except JsError EnvironmentalData :=
  match responseJson (net.pluto bbl) with
  | .error e => .error e
  | .ok data =>
      let pluto : PlutoRow := data.head?.getD {}
      let floodZone : Option String :=
        match responseJson (net.flood bbl) with
        | .ok (row :: _) => orElseString row.flood_zone row.fld_zone
        | _ => none
      .ok
        { bbl := bbl
          flood_zone := floodZone
          coastal_zone := pluto.coastalzn == some "Y"
          environmental_restrictions := orNullString pluto.edesignat }

/-- `getCommunityData`. -/
def getCommunityData (net : ZolaNet) (bbl : String) : Except JsError CommunityData :=
  match responseJson (net.pluto bbl) with
  | .error e => .error e
  | .ok data =>
      let pluto : PlutoRow := data.head?.getD {}
      .ok
        { bbl := bbl
          community_district := orNullString pluto.cd
          council_district := orNullString pluto.council
          zip_code := orNullString pluto.zipcode }

/-- `getZoningActions`. -/
def getZoningActions (net : ZolaNet) (bbl : String) : Except JsError ZoningActions :=
  match responseJson (net.actions bbl) with
  | .error e => .error e
  | .ok data =>
      .ok
        { bbl := bbl
          actions := data.map (fun action =>
            { ulurp_number := orNullString action.ulurpno
              project_name := orNullString action.projectname
              action_type := orNullString action.ulurptype
              status := orNullString action.dcpstatus
              certified_date := orNullString action.certifieddate
              approved_date := orNullString action.approveddate
              description := orNullString action.projectdesc }) }

/-- The object returned by `getCompleteZolaReport`. -/
structure ZolaReport where
  address : Option AddressInfo
  bbl : String
  zoning : ZoningData
  far : FarData
  land_use : LandUseData
  building : BuildingData
  tax : TaxData
  environmental : EnvironmentalData
  community : CommunityData
  actions : ZoningActions
  generated_at : String
  zola_link : String
deriving DecidableEq, Repr

/-- The eight sub-reports of `Promise.all`, then the report object. When several
sub-reports fail, the failure reported is that of the first in the array. -/
def assembleZolaReport (toUpperCase : String → String) (generatedAt : String) (net : ZolaNet)
    (addressInfo : Option AddressInfo) (bbl : String) : Except JsError ZolaReport :=
  match getZoningData toUpperCase net bbl with
  | .error e => .error e
  | .ok zoning =>
  match fetchFARData net bbl with
  | .error e => .error e
  | .ok far =>
  match getLandUseData toUpperCase net bbl with
  | .error e => .error e
  | .ok landUse =>
  match getBuildingData net bbl with
  | .error e => .error e
  | .ok building =>
  match getTaxData net bbl with
  | .error e => .error e
  | .ok tax =>
  match getEnvironmentalData net bbl with
  | .error e => .error e
  | .ok environmental =>
  match getCommunityData net bbl with
  | .error e => .error e
  | .ok community =>
  match getZoningActions net bbl with
  | .error e => .error e
  | .ok actions =>
      .ok
        { address := addressInfo
          bbl := bbl
          zoning := zoning
          far := far
          land_use := landUse
          building := building
          tax := tax
          environmental := environmental
          community := community
          actions := actions
          generated_at := generatedAt
          zola_link := zolaLink bbl }

/-- `getCompleteZolaReport(addressOrBBL)`; `generatedAt` is `new Date().toISOString()`. -/
def getCompleteZolaReport (toUpperCase : String → String) (generatedAt : String) (net : ZolaNet)
    (addressOrBBL : String) : Except JsError ZolaReport :=
  if jsLength addressOrBBL ≠ 10 || jsIsNaN addressOrBBL then
    match addressToBBL (net.geosearch addressOrBBL) with
    | .error e => .error e
    | .ok addressInfo =>
        if falsyString addressInfo.bbl then .error (JsError.error "Could not determine BBL")
        else assembleZolaReport toUpperCase generatedAt net (some addressInfo)
          (addressInfo.bbl.getD "")
  else
    if addressOrBBL = "" then .error (JsError.error "Could not determine BBL")
    else assembleZolaReport toUpperCase generatedAt net none addressOrBBL

end ZolaAPI

/-! ## `propertyScout.js`: the client -/

namespace PropertyScout

/-- `getApiKey`: the key stored in `localStorage` when it is truthy, else the
build-time environment value, else `null`. -/
def getApiKey (stored env : Option String) : Option String :=
  if falsyString stored then orNullString env else stored

/-- `fetchPropertyScout`, given the stored and build-time keys and the HTTP
exchange: without a key it throws before any request; a non-2xx status throws
an error named after the status; every error is logged and rethrown. -/
def fetchPropertyScout {β : Type} (stored env : Option String) (r : HttpResult β) :
    Except JsError β :=
  if falsyString (getApiKey stored env) then
    .error (JsError.error "PropertyScout API key not configured")
  else
    match r with
    | HttpResult.networkError m => .error (JsError.network m)
    | HttpResult.response status body =>
        if !httpOk status then
          if status = 401 then .error (JsError.error "Invalid API key")
          else if status = 429 then .error (JsError.error "Rate limit exceeded")
          else .error (JsError.error ("API error: " ++ toString status))
        else
          match body with
          | none => .error JsError.syntaxError
          | some data => .ok data

end PropertyScout

/-- The error kinds the specification assigns to HTTP statuses. -/
inductive ErrorKind where
  | rateLimited
  | unauthorized
  | providerUnavailable
  | badRequest
deriving DecidableEq, Repr

/-- The classification as the specification words it: `RateLimited` on 429,
`Unauthorized` on 401, `ProviderUnavailable` on a status of 500 or more,
`BadRequest` on any other 4xx; no error kind on another status. -/
def specErrorKind (status : Nat) : Option ErrorKind :=
  if status = 429 then some ErrorKind.rateLimited
  else if status = 401 then some ErrorKind.unauthorized
  else if 500 ≤ status then some ErrorKind.providerUnavailable
  else if 400 ≤ status then some ErrorKind.badRequest
  else none

/-! ## `apiUsage.js`: usage ledger and cache -/

namespace ApiUsage

/-- A JSON value, as stored by `JSON.stringify` and read back by `JSON.parse`. -/
inductive Json where
  | null
  | bool (b : Bool)
  | num (q : ℚ)
  | str (s : String)
  | arr (items : List Json)
  | obj (fields : List (String × Json))

/-- A value handled by the cache: a JSON value, or `undefined` (`none`). -/
abbrev JsVal := Option Json

/-- JavaScript truthiness, as tested by `if (cached)`. -/
def truthy (v : JsVal) : Bool :=
  match v with
  | none => false
  | some Json.null => false
  | some (Json.bool b) => b
  | some (Json.num q) => decide (q ≠ 0)
  | some (Json.str s) => decide (s ≠ "")
  | some (Json.arr _) => true
  | some (Json.obj _) => true

/-- An entry `{ calls, cached }` of `byEndpoint` or `byDate`. -/
structure Counter where
  calls : Nat
  cached : Nat
deriving DecidableEq, Repr

/-- The usage ledger object. `byEndpoint` and `byDate` are objects used as
maps: association lists in which the first binding of a key is the binding. -/
structure Usage where
  month : String
  monthName : String
  totalCalls : Nat
  cachedHits : Nat
  byEndpoint : List (String × Counter)
  byDate : List (String × Counter)
  lastReset : String
deriving DecidableEq, Repr

/-- What a `localStorage` string holds, seen through `JSON.parse`:
a cache entry `{ data, timestamp }`, a usage ledger, or a string on which
`JSON.parse` throws (for instance the API key). -/
inductive Item where
  | entry (data : JsVal) (timestamp : Int)
  | usage (u : Usage)
  | text (s : String)

/-- The content of `localStorage`; the first binding of a key is the binding. -/
abbrev Storage := List (String × Item)

/-- Exceptions: the `QuotaExceededError` of `localStorage.setItem`, the
`SyntaxError` of `JSON.parse`, and a rejection of `fetchFn`. -/
inductive Exn where
  | quotaExceeded
  | syntaxError
  | fetchFailed (message : String)
deriving DecidableEq, Repr

/-- One reading of the clock: `Date.now()` in milliseconds, the local
`getFullYear()` and `getMonth()` (0 to 11), the `toLocaleDateString` month name,
the UTC date of `toISOString().split('T')[0]` and `toISOString()` itself. -/
structure Clock where
  now : Int
  year : Nat
  monthIndex : Nat
  monthName : String
  today : String
  iso : String
deriving DecidableEq, Repr

def CACHE_PREFIX : String := "ps_cache_"

def USAGE_KEY : String := "propertyscout_usage"

/-- Seven days in milliseconds. -/
def CACHE_DURATION : Int := 7 * 24 * 60 * 60 * 1000

/-- `String.prototype.startsWith`. -/
def startsWith (s pre : String) : Bool :=
  pre.data.isPrefixOf s.data

/-- `localStorage.getItem`. -/
def getItem (st : Storage) (key : String) : Option Item :=
  match st with
  | [] => none
  | (k, v) :: rest => if k = key then some v else getItem rest key

/-- `localStorage.removeItem`. -/
def removeItem (st : Storage) (key : String) : Storage :=
  st.filter (fun kv => kv.1 ≠ key)

/-- The content after a write of `item` under `key` that is accepted. -/
def putItem (st : Storage) (key : String) (item : Item) : Storage :=
  match st with
  | [] => [(key, item)]
  | (k, v) :: rest => if k = key then (k, item) :: rest else (k, v) :: putItem rest key item

/-- `localStorage.setItem`. The browser accepts the write when the resulting
content is within its quota (`quota`, a parameter of the model); otherwise the
content is unchanged and `QuotaExceededError` is thrown. -/
def setItem (quota : Storage → Bool) (st : Storage) (key : String) (item : Item) :
    Except Exn Unit × Storage :=
  if quota (putItem st key item) then (.ok (), putItem st key item)
  else (.error Exn.quotaExceeded, st)

/-- The string `getFullYear()-getMonth()` built from the clock. -/
def monthKey (c : Clock) : String :=
  toString c.year ++ "-" ++ toString c.monthIndex

/-- The ledger object built by `initializeUsage`. -/
def freshUsage (c : Clock) : Usage :=
  { month := monthKey c
    monthName := c.monthName
    totalCalls := 0
    cachedHits := 0
    byEndpoint := []
    byDate := []
    lastReset := c.iso }

/-- `initializeUsage`: write a fresh ledger and return it. -/
def initializeUsage (quota : Storage → Bool) (c : Clock) (st : Storage) :
    Except Exn Usage × Storage :=
  match setItem quota st USAGE_KEY (Item.usage (freshUsage c)) with
  | (.ok _, st1) => (.ok (freshUsage c), st1)
  | (.error e, st1) => (.error e, st1)

/-- `getUsageStats`: the stored ledger, or a fresh one when nothing is stored or
the stored month is not the current one. -/
def getUsageStats (quota : Storage → Bool) (c : Clock) (st : Storage) :
    Except Exn Usage × Storage :=
  match getItem st USAGE_KEY with
  | none => initializeUsage quota c st
  | some (Item.text s) =>
      if s = "" then initializeUsage quota c st else (.error Exn.syntaxError, st)
  | some (Item.entry _ _) => initializeUsage quota c st
  | some (Item.usage usage) =>
      if usage.month ≠ monthKey c then initializeUsage quota c st else (.ok usage, st)

/-- Increment `cached` or `calls` of a counter. -/
def Counter.bump (cached : Bool) (k : Counter) : Counter :=
  if cached then { k with cached := k.cached + 1 } else { k with calls := k.calls + 1 }

/-- Property read `m[key]` on an object used as a map. -/
def lookupCounter (m : List (String × Counter)) (key : String) : Option Counter :=
  match m with
  | [] => none
  | (k, v) :: rest => if k = key then some v else lookupCounter rest key

/-- Apply `f` to the binding of `key`. -/
def modifyCounter (m : List (String × Counter)) (key : String) (f : Counter → Counter) :
    List (String × Counter) :=
  match m with
  | [] => []
  | (k, v) :: rest => if k = key then (k, f v) :: rest else (k, v) :: modifyCounter rest key f

/-- `if (!m[key]) m[key] = { calls: 0, cached: 0 }` followed by the increment. -/
def bumpAt (m : List (String × Counter)) (key : String) (cached : Bool) :
    List (String × Counter) :=
  let m1 := if (lookupCounter m key).isNone then m ++ [(key, ⟨0, 0⟩)] else m
  modifyCounter m1 key (Counter.bump cached)

/-- The updates `trackApiCall` makes to the ledger object: the total, the
endpoint's counter and today's counter. -/
def recordCall (usage : Usage) (endpoint today : String) (cached : Bool) : Usage :=
  { usage with
    totalCalls := if cached then usage.totalCalls else usage.totalCalls + 1
    cachedHits := if cached then usage.cachedHits + 1 else usage.cachedHits
    byEndpoint := bumpAt usage.byEndpoint endpoint cached
    byDate := bumpAt usage.byDate today cached }

/-- `trackApiCall(endpoint, cached)`: read the ledger, update it, write it back. -/
def trackApiCall (quota : Storage → Bool) (c : Clock) (endpoint : String) (cached : Bool)
    (st : Storage) : Except Exn Usage × Storage :=
  match getUsageStats quota c st with
  | (.error e, st1) => (.error e, st1)
  | (.ok usage, st1) =>
      match setItem quota st1 USAGE_KEY (Item.usage (recordCall usage endpoint c.today cached)) with
      | (.ok _, st2) => (.ok (recordCall usage endpoint c.today cached), st2)
      | (.error e, st2) => (.error e, st2)

/-- `getCacheKey`. -/
def getCacheKey (type identifier : String) : String :=
  CACHE_PREFIX ++ type ++ "_" ++ identifier

/-- `getCached`: the value returned (`null` for a miss) and the storage left.
A parsed ledger has neither `data` nor `timestamp`: the comparison with `NaN`
is false and `undefined` is returned. -/
def getCached (c : Clock) (type identifier : String) (st : Storage) : JsVal × Storage :=
  let key := getCacheKey type identifier
  match getItem st key with
  | none => (some Json.null, st)
  | some (Item.text s) =>
      if s = "" then (some Json.null, st) else (some Json.null, removeItem st key)
  | some (Item.usage _) => (none, st)
  | some (Item.entry data timestamp) =>
      if c.now - timestamp > CACHE_DURATION then (some Json.null, removeItem st key)
      else (data, st)

/-- The test of `clearOldCache` on one stored string: expired, or unparsable. -/
def isOld (c : Clock) (item : Item) : Bool :=
  match item with
  | Item.entry _ timestamp => decide (c.now - timestamp > CACHE_DURATION)
  | Item.usage _ => false
  | Item.text _ => true

/-- `clearOldCache`: remove every cache key whose entry is expired or unparsable. -/
def clearOldCache (c : Clock) (st : Storage) : Storage :=
  st.filter (fun kv => !(startsWith kv.1 CACHE_PREFIX && isOld c kv.2))

/-- `setCache`: write the entry; on `QuotaExceededError` sweep the old entries
and retry once, ignoring a second failure. -/
def setCache (quota : Storage → Bool) (c : Clock) (type identifier : String) (data : JsVal)
    (st : Storage) : Storage :=
  let key := getCacheKey type identifier
  let cacheEntry := Item.entry data c.now
  match setItem quota st key cacheEntry with
  | (.ok _, st1) => st1
  | (.error e, st1) =>
      if e = Exn.quotaExceeded then
        let st2 := clearOldCache c st1
        (setItem quota st2 key cacheEntry).2
      else st1

/-- `clearCache(type)`: `none` and `''` clear every cache key. -/
def clearCache (type : Option String) (st : Storage) : Storage :=
  st.filter (fun kv =>
    !(startsWith kv.1 CACHE_PREFIX &&
      (falsyString type || startsWith kv.1 (CACHE_PREFIX ++ type.getD "" ++ "_"))))

/-- The eleven cache types listed by the specification; `getCacheKey` and
`clearCache` themselves accept any string. -/
def cacheTypes : List String :=
  ["geocode", "pluto", "zoning", "acris", "hpd", "dob", "ecb", "permits", "actions",
   "property_scout", "title_report"]

/-- The object `{ data, fromCache }` returned by `cachedFetch`. -/
structure Fetched where
  data : JsVal
  fromCache : Bool

/-- The effect of one `cachedFetch`: its result or the exception it rejects
with, the storage left, and the state of the outside world, which only
`fetchFn` can change. -/
structure Outcome (ω : Type) where
  result : Except Exn Fetched
  storage : Storage
  world : ω

/-- `cachedFetch(type, identifier, fetchFn)`. `c0` is the clock when the call
starts, `c1` the clock when `fetchFn` settles. -/
def cachedFetch {ω : Type} (quota : Storage → Bool) (c0 c1 : Clock) (type identifier : String)
    (fetchFn : ω → Except Exn JsVal × ω) (w : ω) (st : Storage) : Outcome ω :=
  match getCached c0 type identifier st with
  | (cached, st1) =>
    if truthy cached then
      match trackApiCall quota c0 type true st1 with
      | (.ok _, st2) => ⟨.ok ⟨cached, true⟩, st2, w⟩
      | (.error e, st2) => ⟨.error e, st2, w⟩
    else
      match fetchFn w with
      | (.ok data, w1) =>
          let st2 := setCache quota c1 type identifier data st1
          match trackApiCall quota c1 type false st2 with
          | (.ok _, st3) => ⟨.ok ⟨data, false⟩, st3, w1⟩
          | (.error e, st3) =>
              match trackApiCall quota c1 type false st3 with
              | (.ok _, st4) => ⟨.error e, st4, w1⟩
              | (.error e2, st4) => ⟨.error e2, st4, w1⟩
      | (.error e, w1) =>
          match trackApiCall quota c1 type false st1 with
          | (.ok _, st2) => ⟨.error e, st2, w1⟩
          | (.error e2, st2) => ⟨.error e2, st2, w1⟩

/-- The object returned by `getUsageSummary`. `savingsPercent` is `none` when
the JavaScript value is not a finite number. -/
structure UsageSummary where
  month : String
  totalCalls : Nat
  cachedHits : Nat
  todayCalls : Nat
  todayCached : Nat
  savingsPercent : Option ℤ
  byEndpoint : List (String × Counter)
deriving DecidableEq, Repr

/-- The summary `getUsageSummary` builds from the ledger it has read. The sum
of the two counters, the quotient and its product with 100 are each rounded to
a double; `Math.round` is exact. -/
def summarize (usage : Usage) (today : String) : UsageSummary :=
  { month := usage.monthName
    totalCalls := usage.totalCalls
    cachedHits := usage.cachedHits
    todayCalls := ((lookupCounter usage.byDate today).map (fun k => k.calls)).getD 0
    todayCached := ((lookupCounter usage.byDate today).map (fun k => k.cached)).getD 0
    savingsPercent :=
      if toDouble ((usage.totalCalls : ℚ) + (usage.cachedHits : ℚ)) > 0 then
        (jsDiv (usage.cachedHits : ℚ)
          (toDouble ((usage.totalCalls : ℚ) + (usage.cachedHits : ℚ)))).map
          (fun q => jsRound (toDouble (q * 100)))
      else some 0
    byEndpoint := usage.byEndpoint }

/-- `getUsageSummary`: read the ledger with `getUsageStats` and summarize it. -/
def getUsageSummary (quota : Storage → Bool) (c : Clock) (st : Storage) :
    Except Exn UsageSummary × Storage :=
  match getUsageStats quota c st with
  | (.error e, st1) => (.error e, st1)
  | (.ok usage, st1) => (.ok (summarize usage c.today), st1)

/-- The sum over the entries of `byDate` (or `byEndpoint`) of `calls + cached`. -/
def counterTotal (m : List (String × Counter)) : Nat :=
  (m.map (fun kv => kv.2.calls + kv.2.cached)).sum

/-- A sequence of `trackApiCall(endpoint, cached)` calls, each with its own
clock reading, run on a storage; a call that throws leaves the storage it had
reached. -/
def runCalls (quota : Storage → Bool) (calls : List (Clock × String × Bool)) (st : Storage) :
    Storage :=
  calls.foldl (fun s x => (trackApiCall quota x.1 x.2.1 x.2.2 s).2) st

/-- The ledger invariant: the two totals add up to the sum over `byDate`, and
`byDate` has no repeated key (it is an object). -/
def Balanced (u : Usage) : Prop :=
  u.totalCalls + u.cachedHits = counterTotal u.byDate ∧ (u.byDate.map Prod.fst).Nodup

/-- A clock reading at 2024-01-15T12:00:00Z. -/
def clockJan15 : Clock :=
  { now := 1705320000000
    year := 2024
    monthIndex := 0
    monthName := "January 2024"
    today := "2024-01-15"
    iso := "2024-01-15T12:00:00.000Z" }

/-- A clock reading exactly seven days later, at 2024-01-22T12:00:00Z. -/
def clockJan22 : Clock :=
  { now := 1705924800000
    year := 2024
    monthIndex := 0
    monthName := "January 2024"
    today := "2024-01-22"
    iso := "2024-01-22T12:00:00.000Z" }

/-- A clock reading at 2024-02-01T09:00:00Z. -/
def clockFeb01 : Clock :=
  { now := 1706778000000
    year := 2024
    monthIndex := 1
    monthName := "February 2024"
    today := "2024-02-01"
    iso := "2024-02-01T09:00:00.000Z" }

/-- The ledger of the roll-over scenario: seeded with month `2024-01` and 42 calls. -/
def seededLedger : Usage :=
  { month := "2024-01"
    monthName := "January 2024"
    totalCalls := 42
    cachedHits := 0
    byEndpoint := []
    byDate := []
    lastReset := "2024-01-01T00:00:00.000Z" }

/-- A ledger written by the code in January 2024, with three real calls and one
cache hit on 2024-01-15. -/
def januaryLedger : Usage :=
  { month := "2024-0"
    monthName := "January 2024"
    totalCalls := 3
    cachedHits := 1
    byEndpoint := [("pluto", ⟨3, 1⟩)]
    byDate := [("2024-01-15", ⟨3, 1⟩)]
    lastReset := "2024-01-15T12:00:00.000Z" }

/-- A ledger written by the code in January 2024, with 17 real calls and 23
cache hits on 2024-01-15. -/
def roundingLedger : Usage :=
  { month := "2024-0"
    monthName := "January 2024"
    totalCalls := 17
    cachedHits := 23
    byEndpoint := [("pluto", ⟨17, 23⟩)]
    byDate := [("2024-01-15", ⟨17, 23⟩)]
    lastReset := "2024-01-15T12:00:00.000Z" }

end ApiUsage

/-! ## Scenarios for address resolution and report assembly -/

/-- A GeoSearch feature for 350 5th Ave whose `addendum.pad.bbl` and `pad_bbl`
are the given values. -/
def geoFeatureWithBBL (padBbl flatBbl : Option String) : GeoFeature :=
  { properties := some
      { label := some "350 5th Ave, New York, NY, USA", borough := some "Manhattan"
        pad := some { bbl := padBbl }, pad_bbl := flatBbl }
    geometry := some { coordinates := some [-74, 41] } }

/-- A GeoSearch body with the single feature `geoFeatureWithBBL`. -/
def geoBodyWithBBL (padBbl flatBbl : Option String) : GeoBody :=
  { features := some [geoFeatureWithBBL padBbl flatBbl] }

namespace NycData

/-- NYC Open Data answering every query with status 200 and no row. -/
def emptyNycNet : NycNet :=
  { zoningTaxLot := fun _ => HttpResult.response 200 (some [])
    pluto := fun _ => HttpResult.response 200 (some [])
    legals := fun _ => HttpResult.response 200 (some [])
    master := fun _ => HttpResult.response 200 (some [])
    hpd := fun _ => HttpResult.response 200 (some [])
    dob := fun _ => HttpResult.response 200 (some [])
    ecb := fun _ => HttpResult.response 200 (some [])
    permits := fun _ => HttpResult.response 200 (some []) }

/-- NYC Open Data answering every query with status 200 and one row (no row for
ACRIS), except HPD, which answers as given. -/
def sampleNycNet (hpdAnswer : HttpResult (List HpdRow)) : NycNet :=
  { zoningTaxLot := fun _ => HttpResult.response 200 (some [{ zonedist1 := some "C5-3" }])
    pluto := fun _ => HttpResult.response 200 (some [{ zonedist1 := some "C5-3" }])
    legals := fun _ => HttpResult.response 200 (some [])
    master := fun _ => HttpResult.response 200 (some [])
    hpd := fun _ => hpdAnswer
    dob := fun _ => HttpResult.response 200 (some [{ number := some "V1" }])
    ecb := fun _ => HttpResult.response 200 (some [{ ecb_violation_number := some "E1" }])
    permits := fun _ => HttpResult.response 200 (some [{ job := some "J1" }]) }

/-- The given answers with the HPD answer replaced. -/
def withHpd (net : NycNet) (hpdAnswer : HttpResult (List HpdRow)) : NycNet :=
  { net with hpd := fun _ => hpdAnswer }

end NycData

namespace ZolaAPI

/-- The network answering GeoSearch as given and every dataset query with
status 200 and no row. -/
def emptyZolaNet (geo : HttpResult GeoBody) : ZolaNet :=
  { geosearch := fun _ => geo
    pluto := fun _ => HttpResult.response 200 (some [])
    zoningTaxLot := fun _ => HttpResult.response 200 (some ())
    flood := fun _ => HttpResult.response 200 (some [])
    actions := fun _ => HttpResult.response 200 (some []) }

end ZolaAPI

/-! ## Scenarios and orders for the ACRIS queries -/

namespace NycData

/-- The lexicographic order `a ≤ b` on strings given by their characters. -/
def lexLe : List Char → List Char → Bool
  | [], _ => true
  | _ :: _, [] => false
  | a :: as, b :: bs => decide (a < b) || (a == b && lexLe as bs)

/-- The order on recorded datetimes: `a` is not earlier than `b`, the
timestamps compared as the ISO 8601 strings of the dataset (a missing one as
the empty string). -/
def recordedNotBefore (a b : Option String) : Bool :=
  lexLe (b.getD "").data (a.getD "").data

/-- A list of ACRIS records in descending order of recorded datetime. -/
def RecordedDescending (records : List AcrisRecord) : Prop :=
  records.Pairwise (fun a b => recordedNotBefore a.recordedDate b.recordedDate = true)

/-- A Legals response with 21 distinct document ids. -/
def legals21 : List Legal :=
  [⟨some "D01"⟩, ⟨some "D02"⟩, ⟨some "D03"⟩, ⟨some "D04"⟩, ⟨some "D05"⟩, ⟨some "D06"⟩,
   ⟨some "D07"⟩, ⟨some "D08"⟩, ⟨some "D09"⟩, ⟨some "D10"⟩, ⟨some "D11"⟩, ⟨some "D12"⟩,
   ⟨some "D13"⟩, ⟨some "D14"⟩, ⟨some "D15"⟩, ⟨some "D16"⟩, ⟨some "D17"⟩, ⟨some "D18"⟩,
   ⟨some "D19"⟩, ⟨some "D20"⟩, ⟨some "D21"⟩]

/-- A Master endpoint holding one deed for `D01` and one for `D21`: it answers
a query with the documents whose quoted id occurs in the `$where` filter. -/
def masterD01D21 (q : SoqlParams) : List MasterDoc :=
  [({ document_id := some "D21", doc_type := some "DEED",
      recorded_datetime := some "2021-03-01T00:00:00.000" } : MasterDoc),
   { document_id := some "D01", doc_type := some "DEED",
     recorded_datetime := some "2019-05-01T00:00:00.000" }].filter
    (fun d => includes q.whereClause ("'" ++ d.document_id.getD "" ++ "'"))

/-- A Master response that is not in descending order of recorded datetime. -/
def unsortedMaster : List MasterDoc :=
  [{ document_id := some "D01", doc_type := some "DEED",
     recorded_datetime := some "2019-05-01T00:00:00.000" },
   { document_id := some "D02", doc_type := some "DEED",
     recorded_datetime := some "2021-03-01T00:00:00.000" }]

/-- A Master response in descending order of recorded datetime. -/
def sortedMaster : List MasterDoc :=
  [{ document_id := some "D02", doc_type := some "DEED",
     recorded_datetime := some "2021-03-01T00:00:00.000" },
   { document_id := some "D03", doc_type := some "MTGE",
     recorded_datetime := some "2020-07-15T00:00:00.000" },
   { document_id := some "D01", doc_type := some "DEED",
     recorded_datetime := some "2019-05-01T00:00:00.000" }]

end NycData

namespace ApiUsage

/-- A clock reading one day after `clockJan15`, at 2024-01-16T12:00:00Z. -/
def clockJan16 : Clock :=
  { now := 1705406400000
    year := 2024
    monthIndex := 0
    monthName := "January 2024"
    today := "2024-01-16"
    iso := "2024-01-16T12:00:00.000Z" }

/-- A storage holding one cache entry, written at `clockJan15` for the PLUTO row
of BBL 1008350029. -/
def storedPlutoRow : Storage :=
  [(getCacheKey "pluto" "1008350029", Item.entry (some (Json.str "old row")) clockJan15.now)]

/-- A full storage: the browser refuses every write. -/
def quotaFull : Storage → Bool :=
  fun _ => false

end ApiUsage

namespace ApiUsage

/-- A clock reading at 2024-12-25T12:00:00Z. -/
def clockDec25 : Clock :=
  { now := 1735128000000
    year := 2024
    monthIndex := 11
    monthName := "December 2024"
    today := "2024-12-25"
    iso := "2024-12-25T12:00:00.000Z" }

/-- The month string as the specification words it, `YYYY-MM`: the year, a
hyphen, and the calendar month from `01` to `12` on two digits. -/
def specMonthKey (c : Clock) : String :=
  toString c.year ++ "-" ++
    (if c.monthIndex + 1 < 10 then "0" ++ toString (c.monthIndex + 1)
     else toString (c.monthIndex + 1))

end ApiUsage

/-! ## `propertyScout.js`: the Rapid Insights report -/

namespace PropertyScout

/-- An own property of a parsed JSON object; `undefined` when there is none. -/
def lookupField (fields : List (String × ApiUsage.Json)) (name : String) : ApiUsage.JsVal :=
  match fields with
  | [] => none
  | (k, x) :: rest => if k = name then some x else lookupField rest name

/-- The property read `v.name` on a parsed JSON value other than `null`, and
`v?.name` on any value: the own property of an object, `undefined` otherwise. -/
def getProp (v : ApiUsage.JsVal) (name : String) : ApiUsage.JsVal :=
  match v with
  | some (ApiUsage.Json.obj fields) => lookupField fields name
  | _ => none

/-- `a || b`: `a` when it is truthy, else `b`. -/
def jsOr (a b : ApiUsage.JsVal) : ApiUsage.JsVal :=
  if ApiUsage.truthy a then a else b

/-- The `parcel` object of the report. -/
structure Parcel where
  apn : ApiUsage.JsVal
  fips : ApiUsage.JsVal
  county : ApiUsage.JsVal
  state : ApiUsage.JsVal

/-- The `address` object of the report. -/
structure ReportAddress where
  street : ApiUsage.JsVal
  city : ApiUsage.JsVal
  state : ApiUsage.JsVal
  zip : ApiUsage.JsVal
  formatted : ApiUsage.JsVal

/-- The `owner` object of the report. -/
structure Owner where
  name : ApiUsage.JsVal
  type : ApiUsage.JsVal
  mailingAddress : ApiUsage.JsVal
  ownerOccupied : ApiUsage.JsVal

/-- The `property` object of the report. -/
structure PropertyDetails where
  propertyType : ApiUsage.JsVal
  yearBuilt : ApiUsage.JsVal
  bedrooms : ApiUsage.JsVal
  bathrooms : ApiUsage.JsVal
  squareFeet : ApiUsage.JsVal
  lotSize : ApiUsage.JsVal
  stories : ApiUsage.JsVal
  units : ApiUsage.JsVal
  zoning : ApiUsage.JsVal

/-- The `tax` object of the report. -/
structure TaxInfo where
  assessedValue : ApiUsage.JsVal
  assessedLand : ApiUsage.JsVal
  assessedImprovement : ApiUsage.JsVal
  taxAmount : ApiUsage.JsVal
  taxYear : ApiUsage.JsVal

/-- The `valuation` object of the report. -/
structure Valuation where
  estimatedValue : ApiUsage.JsVal
  estimatedEquity : ApiUsage.JsVal
  pricePerSqFt : ApiUsage.JsVal

/-- An element of `salesHistory`. -/
structure Sale where
  date : ApiUsage.JsVal
  price : ApiUsage.JsVal
  buyer : ApiUsage.JsVal
  seller : ApiUsage.JsVal
  documentType : ApiUsage.JsVal

/-- The `mortgage` object of the report. -/
structure Mortgage where
  lender : ApiUsage.JsVal
  amount : ApiUsage.JsVal
  date : ApiUsage.JsVal
  type : ApiUsage.JsVal
  rate : ApiUsage.JsVal
  term : ApiUsage.JsVal

/-- The object returned by `getRapidInsightsReport`. -/
structure RapidInsightsReport where
  parcel : Parcel
  address : ReportAddress
  owner : Owner
  property : PropertyDetails
  tax : TaxInfo
  valuation : Valuation
  salesHistory : List Sale
  mortgage : Mortgage
  raw : ApiUsage.Json

/-- The callback of `salesHistory.map`: a property read on a `null` element
throws a `TypeError`. -/
def saleOf (sale : ApiUsage.Json) : Except JsError Sale :=
  match sale with
  | ApiUsage.Json.null => .error JsError.typeError
  | _ =>
      .ok
        { date := jsOr (getProp (some sale) "date") (getProp (some sale) "saleDate")
          price := jsOr (getProp (some sale) "price") (getProp (some sale) "salePrice")
          buyer := getProp (some sale) "buyer"
          seller := getProp (some sale) "seller"
          documentType :=
            jsOr (getProp (some sale) "document_type") (getProp (some sale) "documentType") }

/-- The callback applied to the elements of an array, in order. -/
def mapSales (items : List ApiUsage.Json) : Except JsError (List Sale) :=
  match items with
  | [] => .ok []
  | sale :: rest =>
      match saleOf sale with
      | .error e => .error e
      | .ok s =>
          match mapSales rest with
          | .error e => .error e
          | .ok ss => .ok (s :: ss)

/-- `(data.sales_history || data.salesHistory || []).map(...)`: on a truthy
value that is not an array, `map` is not a function and a `TypeError` is thrown. -/
def salesHistoryOf (data : ApiUsage.JsVal) : Except JsError (List Sale) :=
  match jsOr (jsOr (getProp data "sales_history") (getProp data "salesHistory"))
      (some (ApiUsage.Json.arr [])) with
  | some (ApiUsage.Json.arr items) => mapSales items
  | _ => .error JsError.typeError

/-- The body of `getRapidInsightsReport` after the request: the report built
from the parsed payload `data`, or `null` when `data` is falsy. -/
def rapidInsightsOf (data : ApiUsage.Json) : Except JsError (Option RapidInsightsReport) :=
  let d : ApiUsage.JsVal := some data
  if ApiUsage.truthy d then
    match salesHistoryOf d with
    | .error e => .error e
    | .ok sales =>
        .ok (some
          { parcel :=
              { apn := getProp d "apn", fips := getProp d "fips", county := getProp d "county"
                state := getProp d "state" }
            address :=
              { street := jsOr (getProp (getProp d "address") "street") (getProp d "street")
                city := jsOr (getProp (getProp d "address") "city") (getProp d "city")
                state := jsOr (getProp (getProp d "address") "state") (getProp d "state")
                zip := jsOr (getProp (getProp d "address") "zip") (getProp d "zip")
                formatted := jsOr (getProp d "formatted_address") (getProp d "formattedAddress") }
            owner :=
              { name := jsOr (getProp d "owner_name") (getProp d "ownerName")
                type := jsOr (getProp d "owner_type") (getProp d "ownerType")
                mailingAddress := jsOr (getProp d "mailing_address") (getProp d "mailingAddress")
                ownerOccupied := jsOr (getProp d "owner_occupied") (getProp d "ownerOccupied") }
            property :=
              { propertyType := jsOr (getProp d "property_type") (getProp d "propertyType")
                yearBuilt := jsOr (getProp d "year_built") (getProp d "yearBuilt")
                bedrooms := getProp d "bedrooms"
                bathrooms := getProp d "bathrooms"
                squareFeet := jsOr (getProp d "square_feet") (getProp d "squareFeet")
                lotSize := jsOr (getProp d "lot_size") (getProp d "lotSize")
                stories := getProp d "stories"
                units := getProp d "units"
                zoning := getProp d "zoning" }
            tax :=
              { assessedValue := jsOr (getProp d "assessed_value") (getProp d "assessedValue")
                assessedLand := jsOr (getProp d "assessed_land") (getProp d "assessedLand")
                assessedImprovement :=
                  jsOr (getProp d "assessed_improvement") (getProp d "assessedImprovement")
                taxAmount := jsOr (getProp d "tax_amount") (getProp d "taxAmount")
                taxYear := jsOr (getProp d "tax_year") (getProp d "taxYear") }
            valuation :=
              { estimatedValue :=
                  jsOr (jsOr (getProp d "estimated_value") (getProp d "estimatedValue"))
                    (getProp d "avm")
                estimatedEquity :=
                  jsOr (getProp d "estimated_equity") (getProp d "estimatedEquity")
                pricePerSqFt := jsOr (getProp d "price_per_sqft") (getProp d "pricePerSqFt") }
            salesHistory := sales
            mortgage :=
              { lender := jsOr (getProp (getProp d "mortgage") "lender") (getProp d "mortgageLender")
                amount := jsOr (getProp (getProp d "mortgage") "amount") (getProp d "mortgageAmount")
                date := jsOr (getProp (getProp d "mortgage") "date") (getProp d "mortgageDate")
                type := jsOr (getProp (getProp d "mortgage") "type") (getProp d "mortgageType")
                rate := jsOr (getProp (getProp d "mortgage") "rate") (getProp d "mortgageRate")
                term := jsOr (getProp (getProp d "mortgage") "term") (getProp d "mortgageTerm") }
            raw := data })
  else .ok none

/-- `getRapidInsightsReport`, given the stored and build-time keys and the HTTP
exchange of the request. -/
def getRapidInsightsReport (stored env : Option String) (r : HttpResult ApiUsage.Json) :
    Except JsError (Option RapidInsightsReport) :=
  match fetchPropertyScout stored env r with
  | .error e => .error e
  | .ok data => rapidInsightsOf data

/-- A Rapid Insights payload with falsy snake_case values next to camelCase
values: `owner_occupied: false`, `owner_name: ''`, `year_built: 0`. -/
def payloadBothNames : ApiUsage.Json :=
  ApiUsage.Json.obj
    [("owner_occupied", ApiUsage.Json.bool false), ("ownerOccupied", ApiUsage.Json.bool true),
     ("owner_name", ApiUsage.Json.str ""), ("ownerName", ApiUsage.Json.str "ACME LLC"),
     ("year_built", ApiUsage.Json.num 0), ("yearBuilt", ApiUsage.Json.num 1931),
     ("owner_type", ApiUsage.Json.str "Corporation"), ("ownerType", ApiUsage.Json.str "Trust")]

/-- The output fields of the report that `getRapidInsightsReport` reads as
`data.snake_name || data.camelName`: the two names and the field. -/
def snakeCamelFields : List (String × String × (RapidInsightsReport → ApiUsage.JsVal)) :=
  [("formatted_address", "formattedAddress", fun r => r.address.formatted),
   ("owner_name", "ownerName", fun r => r.owner.name),
   ("owner_type", "ownerType", fun r => r.owner.type),
   ("mailing_address", "mailingAddress", fun r => r.owner.mailingAddress),
   ("owner_occupied", "ownerOccupied", fun r => r.owner.ownerOccupied),
   ("property_type", "propertyType", fun r => r.property.propertyType),
   ("year_built", "yearBuilt", fun r => r.property.yearBuilt),
   ("square_feet", "squareFeet", fun r => r.property.squareFeet),
   ("lot_size", "lotSize", fun r => r.property.lotSize),
   ("assessed_value", "assessedValue", fun r => r.tax.assessedValue),
   ("assessed_land", "assessedLand", fun r => r.tax.assessedLand),
   ("assessed_improvement", "assessedImprovement", fun r => r.tax.assessedImprovement),
   ("tax_amount", "taxAmount", fun r => r.tax.taxAmount),
   ("tax_year", "taxYear", fun r => r.tax.taxYear),
   ("estimated_equity", "estimatedEquity", fun r => r.valuation.estimatedEquity),
   ("price_per_sqft", "pricePerSqFt", fun r => r.valuation.pricePerSqFt)]

end PropertyScout

/-! ## `nycData.js`: zoning use groups -/

namespace NycData

/-- `getZoningUseGroups`: the first branch whose `startsWith` test the
uppercased district passes. -/
def getZoningUseGroups (toUpperCase : String → String) (zoneDistrict : Option String) :
    List String :=
  if falsyString zoneDistrict then []
  else
    let zone := toUpperCase (zoneDistrict.getD "")
    if ApiUsage.startsWith zone "R1" || ApiUsage.startsWith zone "R2" then
      ["Use Group 1: Single-Family Detached"]
    else if ApiUsage.startsWith zone "R3" || ApiUsage.startsWith zone "R4" ||
        ApiUsage.startsWith zone "R5" then
      ["Use Group 1: Single-Family", "Use Group 2: Multi-Family"]
    else if ApiUsage.startsWith zone "R6" || ApiUsage.startsWith zone "R7" ||
        ApiUsage.startsWith zone "R8" || ApiUsage.startsWith zone "R9" ||
        ApiUsage.startsWith zone "R10" then
      ["Use Groups 1-4: All Residential"]
    else if ApiUsage.startsWith zone "C1" || ApiUsage.startsWith zone "C2" then
      ["Use Groups 1-6: Residential + Local Retail"]
    else if ApiUsage.startsWith zone "C4" || ApiUsage.startsWith zone "C5" ||
        ApiUsage.startsWith zone "C6" then
      ["Use Groups 1-12: Residential + Commercial"]
    else if ApiUsage.startsWith zone "M1" then
      ["Use Groups 4-14: Light Manufacturing + Commercial"]
    else if ApiUsage.startsWith zone "M2" || ApiUsage.startsWith zone "M3" then
      ["Use Groups 6-18: Heavy Manufacturing"]
    else ["Check NYC Zoning Resolution"]

end NycData

end DealFlow

/-! # Theorems -/

namespace DealFlow

namespace NycData

/-- The categorisation loop, started from any four arrays, appends to each array
the records of the documents that pass the corresponding test, in order. -/
theorem foldl_categorizeStep (up : String → String) (docs : List MasterDoc) (acc : Buckets) :
    docs.foldl (categorizeStep up) acc =
      { deeds := acc.deeds ++ (docs.filter (fun d => isDeed up d)).map toRecord
        mortgages := acc.mortgages ++
          (docs.filter (fun d => !isDeed up d && hasMortgageWord up d)).map toRecord
        liens := acc.liens ++
          (docs.filter (fun d =>
            !isDeed up d && !hasMortgageWord up d && hasLienWord up d)).map toRecord
        other := acc.other ++
          (docs.filter (fun d =>
            !isDeed up d && !hasMortgageWord up d && !hasLienWord up d)).map toRecord } := by
  induction docs generalizing acc with
  | nil => simp
  | cons d ds ih =>
    rw [List.foldl_cons, ih]
    by_cases h1 : isDeed up d = true
    · have h1' := h1
      simp only [isDeed] at h1'
      simp [categorizeStep, h1, h1']
    · have h1f : isDeed up d = false := by simpa using h1
      have h1' := h1f
      simp only [isDeed] at h1'
      by_cases h2 : hasMortgageWord up d = true
      · have h2' := h2
        simp only [hasMortgageWord] at h2'
        simp [categorizeStep, h1f, h1', h2, h2']
      · have h2f : hasMortgageWord up d = false := by simpa using h2
        have h2' := h2f
        simp only [hasMortgageWord] at h2'
        by_cases h3 : hasLienWord up d = true
        · have h3' := h3
          simp only [hasLienWord] at h3'
          simp [categorizeStep, h1f, h1', h2f, h2', h3, h3']
        · have h3f : hasLienWord up d = false := by simpa using h3
          have h3' := h3f
          simp only [hasLienWord] at h3'
          simp [categorizeStep, h1f, h1', h2f, h2', h3f, h3']

/-- `getACRISRecords` on a non-empty Legals response: the four lists are the
filters computed by the loop over the Master response. -/
theorem getACRISRecords_eq (up : String → String) (legals : List Legal)
    (fetchMaster : SoqlParams → List MasterDoc) (h : legals ≠ []) :
    getACRISRecords up legals fetchMaster =
      { deeds := ((fetchMaster (masterQuery legals)).filter (fun d => isDeed up d)).map toRecord
        mortgages := ((fetchMaster (masterQuery legals)).filter
          (fun d => !isDeed up d && hasMortgageWord up d)).map toRecord
        liens := ((fetchMaster (masterQuery legals)).filter
          (fun d => !isDeed up d && !hasMortgageWord up d && hasLienWord up d)).map toRecord
        other := some (((fetchMaster (masterQuery legals)).filter
          (fun d => !isDeed up d && !hasMortgageWord up d && !hasLienWord up d)).map toRecord)
        rawDocuments := some (fetchMaster (masterQuery legals)) } := by
  have hlen : ¬ legals.length = 0 := by
    intro h0
    exact h (List.length_eq_zero.mp h0)
  simp [getACRISRecords, hlen, categorize, foldl_categorizeStep]

/-- C1, as stated, fails: the document type `RPTT&RET` neither contains `DEED`
nor equals `RPTT`, so the stated rule sends it to `other`, but the code, which
tests `includes('RPTT')`, pushes its record on `deeds`. -/
theorem acris_rptt_ret_counterexample :
    (getACRISRecords asciiUpper [⟨some "2020010100001001"⟩]
        (fun _ => [{ doc_type := some "RPTT&RET" }])).deeds =
      [toRecord { doc_type := some "RPTT&RET" }] ∧
    (getACRISRecords asciiUpper [⟨some "2020010100001001"⟩]
        (fun _ => [{ doc_type := some "RPTT&RET" }])).other = some [] ∧
    includes (asciiUpper "RPTT&RET") "DEED" = false ∧
    asciiUpper "RPTT&RET" ≠ "RPTT" ∧
    specBucket asciiUpper { doc_type := some "RPTT&RET" } = 3 := by
  refine ⟨?_, ?_, by decide, by decide, by decide⟩
  · rw [getACRISRecords_eq _ _ _ (by simp)]
    have h : isDeed asciiUpper { doc_type := some "RPTT&RET" } = true := by decide
    simp [h]
  · rw [getACRISRecords_eq _ _ _ (by simp)]
    have h : isDeed asciiUpper { doc_type := some "RPTT&RET" } = true := by decide
    simp [h]

/-- For a test that depends on `doc_type` only, the record of a document of the
response is among the records of the filtered documents exactly when the
document passes the test. -/
theorem mem_map_toRecord_filter (p : MasterDoc → Bool)
    (hp : ∀ a b : MasterDoc, a.doc_type = b.doc_type → p a = p b)
    (docs : List MasterDoc) (d : MasterDoc) (hd : d ∈ docs) :
    toRecord d ∈ (docs.filter p).map toRecord ↔ p d = true := by
  constructor
  · intro hm
    obtain ⟨e, he, hrec⟩ := List.mem_map.mp hm
    have hty : e.doc_type = d.doc_type := by
      have := congrArg AcrisRecord.documentType hrec
      simpa [toRecord] using this
    rw [← hp e d hty]
    exact (List.mem_filter.mp he).2
  · intro hpd
    exact List.mem_map.mpr ⟨d, List.mem_filter.mpr ⟨hd, hpd⟩, rfl⟩

/-- C1 (amended). `getACRISRecords` classifies every Master document by its
`doc_type` alone (missing counts as the empty string): its record is in
`deeds` iff the uppercased `doc_type` contains `DEED` or contains `RPTT`;
otherwise in `mortgages` iff it contains `MTGE`, `MORTGAGE` or `AGMT`; otherwise
in `liens` iff it contains `LIEN`, `JUDGM` or `FTL`; otherwise in `other`.
Documents with the same `doc_type` land in the same list, and for the types
`DEED`, `MTGE`, `FEDERAL TAX LIEN FTL`, `POWER OF ATTORNEY` each list receives
exactly one record. -/
theorem acris_classification_by_doc_type :
    (∀ (up : String → String) (legals : List Legal)
        (fetchMaster : SoqlParams → List MasterDoc),
      legals ≠ [] →
      ∀ d ∈ fetchMaster (masterQuery legals),
        (toRecord d ∈ (getACRISRecords up legals fetchMaster).deeds ↔
          (includes (up (d.doc_type.getD "")) "DEED" = true ∨
            includes (up (d.doc_type.getD "")) "RPTT" = true)) ∧
        (toRecord d ∈ (getACRISRecords up legals fetchMaster).mortgages ↔
          (¬ (includes (up (d.doc_type.getD "")) "DEED" = true ∨
              includes (up (d.doc_type.getD "")) "RPTT" = true) ∧
            (includes (up (d.doc_type.getD "")) "MTGE" = true ∨
              includes (up (d.doc_type.getD "")) "MORTGAGE" = true ∨
              includes (up (d.doc_type.getD "")) "AGMT" = true))) ∧
        (toRecord d ∈ (getACRISRecords up legals fetchMaster).liens ↔
          (¬ (includes (up (d.doc_type.getD "")) "DEED" = true ∨
              includes (up (d.doc_type.getD "")) "RPTT" = true) ∧
            ¬ (includes (up (d.doc_type.getD "")) "MTGE" = true ∨
              includes (up (d.doc_type.getD "")) "MORTGAGE" = true ∨
              includes (up (d.doc_type.getD "")) "AGMT" = true) ∧
            (includes (up (d.doc_type.getD "")) "LIEN" = true ∨
              includes (up (d.doc_type.getD "")) "JUDGM" = true ∨
              includes (up (d.doc_type.getD "")) "FTL" = true))) ∧
        (∃ o, (getACRISRecords up legals fetchMaster).other = some o ∧
          (toRecord d ∈ o ↔
            (¬ (includes (up (d.doc_type.getD "")) "DEED" = true ∨
                includes (up (d.doc_type.getD "")) "RPTT" = true) ∧
              ¬ (includes (up (d.doc_type.getD "")) "MTGE" = true ∨
                includes (up (d.doc_type.getD "")) "MORTGAGE" = true ∨
                includes (up (d.doc_type.getD "")) "AGMT" = true) ∧
              ¬ (includes (up (d.doc_type.getD "")) "LIEN" = true ∨
                includes (up (d.doc_type.getD "")) "JUDGM" = true ∨
                includes (up (d.doc_type.getD "")) "FTL" = true))))) ∧
    (∀ (up : String → String) (legals : List Legal)
        (fetchMaster : SoqlParams → List MasterDoc),
      legals ≠ [] →
      ∀ d₁ ∈ fetchMaster (masterQuery legals), ∀ d₂ ∈ fetchMaster (masterQuery legals),
        d₁.doc_type = d₂.doc_type →
        (toRecord d₁ ∈ (getACRISRecords up legals fetchMaster).deeds ↔
          toRecord d₂ ∈ (getACRISRecords up legals fetchMaster).deeds) ∧
        (toRecord d₁ ∈ (getACRISRecords up legals fetchMaster).mortgages ↔
          toRecord d₂ ∈ (getACRISRecords up legals fetchMaster).mortgages) ∧
        (toRecord d₁ ∈ (getACRISRecords up legals fetchMaster).liens ↔
          toRecord d₂ ∈ (getACRISRecords up legals fetchMaster).liens) ∧
        (toRecord d₁ ∈ ((getACRISRecords up legals fetchMaster).other).getD [] ↔
          toRecord d₂ ∈ ((getACRISRecords up legals fetchMaster).other).getD [])) ∧
    (∀ (legals : List Legal), legals ≠ [] →
      ((getACRISRecords asciiUpper legals (fun _ =>
          [{ doc_type := some "DEED" }, { doc_type := some "MTGE" },
           { doc_type := some "FEDERAL TAX LIEN FTL" },
           { doc_type := some "POWER OF ATTORNEY" }])).deeds.length = 1 ∧
       (getACRISRecords asciiUpper legals (fun _ =>
          [{ doc_type := some "DEED" }, { doc_type := some "MTGE" },
           { doc_type := some "FEDERAL TAX LIEN FTL" },
           { doc_type := some "POWER OF ATTORNEY" }])).mortgages.length = 1 ∧
       (getACRISRecords asciiUpper legals (fun _ =>
          [{ doc_type := some "DEED" }, { doc_type := some "MTGE" },
           { doc_type := some "FEDERAL TAX LIEN FTL" },
           { doc_type := some "POWER OF ATTORNEY" }])).liens.length = 1 ∧
       ((getACRISRecords asciiUpper legals (fun _ =>
          [{ doc_type := some "DEED" }, { doc_type := some "MTGE" },
           { doc_type := some "FEDERAL TAX LIEN FTL" },
           { doc_type := some "POWER OF ATTORNEY" }])).other.map List.length) = some 1)) := by
  have hD : ∀ (up : String → String) (a b : MasterDoc), a.doc_type = b.doc_type →
      isDeed up a = isDeed up b := by
    intro up a b h
    simp [isDeed, h]
  have hM : ∀ (up : String → String) (a b : MasterDoc), a.doc_type = b.doc_type →
      (!isDeed up a && hasMortgageWord up a) = (!isDeed up b && hasMortgageWord up b) := by
    intro up a b h
    simp [isDeed, hasMortgageWord, h]
  have hL : ∀ (up : String → String) (a b : MasterDoc), a.doc_type = b.doc_type →
      (!isDeed up a && !hasMortgageWord up a && hasLienWord up a) =
        (!isDeed up b && !hasMortgageWord up b && hasLienWord up b) := by
    intro up a b h
    simp [isDeed, hasMortgageWord, hasLienWord, h]
  have hO : ∀ (up : String → String) (a b : MasterDoc), a.doc_type = b.doc_type →
      (!isDeed up a && !hasMortgageWord up a && !hasLienWord up a) =
        (!isDeed up b && !hasMortgageWord up b && !hasLienWord up b) := by
    intro up a b h
    simp [isDeed, hasMortgageWord, hasLienWord, h]
  refine ⟨?_, ?_, ?_⟩
  · intro up legals fetchMaster hne d hd
    rw [getACRISRecords_eq up legals fetchMaster hne]
    refine ⟨?_, ?_, ?_, ?_⟩
    · rw [mem_map_toRecord_filter _ (hD up) _ d hd]
      simp [isDeed]
    · rw [mem_map_toRecord_filter _ (hM up) _ d hd]
      simp [isDeed, hasMortgageWord, or_assoc]
    · rw [mem_map_toRecord_filter _ (hL up) _ d hd]
      simp [isDeed, hasMortgageWord, hasLienWord, or_assoc, and_assoc]
    · refine ⟨_, rfl, ?_⟩
      rw [mem_map_toRecord_filter _ (hO up) _ d hd]
      simp [isDeed, hasMortgageWord, hasLienWord, and_assoc]
  · intro up legals fetchMaster hne d₁ h₁ d₂ h₂ hty
    rw [getACRISRecords_eq up legals fetchMaster hne]
    refine ⟨?_, ?_, ?_, ?_⟩
    · rw [mem_map_toRecord_filter _ (hD up) _ d₁ h₁, mem_map_toRecord_filter _ (hD up) _ d₂ h₂,
        hD up d₁ d₂ hty]
    · rw [mem_map_toRecord_filter _ (hM up) _ d₁ h₁, mem_map_toRecord_filter _ (hM up) _ d₂ h₂,
        hM up d₁ d₂ hty]
    · rw [mem_map_toRecord_filter _ (hL up) _ d₁ h₁, mem_map_toRecord_filter _ (hL up) _ d₂ h₂,
        hL up d₁ d₂ hty]
    · simp only [Option.getD_some]
      rw [mem_map_toRecord_filter _ (hO up) _ d₁ h₁, mem_map_toRecord_filter _ (hO up) _ d₂ h₂,
        hO up d₁ d₂ hty]
  · intro legals hne
    rw [getACRISRecords_eq asciiUpper legals _ hne]
    have e1 : isDeed asciiUpper { doc_type := some "DEED" } = true := by decide
    have e2 : isDeed asciiUpper { doc_type := some "MTGE" } = false := by decide
    have e3 : isDeed asciiUpper { doc_type := some "FEDERAL TAX LIEN FTL" } = false := by decide
    have e4 : isDeed asciiUpper { doc_type := some "POWER OF ATTORNEY" } = false := by decide
    have m2 : hasMortgageWord asciiUpper { doc_type := some "MTGE" } = true := by decide
    have m3 : hasMortgageWord asciiUpper { doc_type := some "FEDERAL TAX LIEN FTL" } = false := by
      decide
    have m4 : hasMortgageWord asciiUpper { doc_type := some "POWER OF ATTORNEY" } = false := by
      decide
    have l3 : hasLienWord asciiUpper { doc_type := some "FEDERAL TAX LIEN FTL" } = true := by
      decide
    have l4 : hasLienWord asciiUpper { doc_type := some "POWER OF ATTORNEY" } = false := by decide
    simp [List.filter, e1, e2, e3, e4, m2, m3, m4, l3, l4]

/-- Instances of C1 (amended) on concrete Master responses: a `DEED` document
goes to `deeds`, two `MTGE` documents go together, and the four-document
response fills each list once. -/
theorem acris_classification_by_doc_type_witness :
    toRecord { doc_type := some "DEED" } ∈
      (getACRISRecords asciiUpper [⟨some "2020010100001001"⟩]
        (fun _ => [{ doc_type := some "DEED" }])).deeds ∧
    (toRecord { doc_type := some "MTGE" } ∈
        (getACRISRecords asciiUpper [⟨some "2020010100001001"⟩]
          (fun _ => [{ doc_type := some "MTGE" }])).mortgages ↔
      toRecord { doc_type := some "MTGE" } ∈
        (getACRISRecords asciiUpper [⟨some "2020010100001001"⟩]
          (fun _ => [{ doc_type := some "MTGE" }])).mortgages) ∧
    (getACRISRecords asciiUpper [⟨some "2020010100001001"⟩] (fun _ =>
        [{ doc_type := some "DEED" }, { doc_type := some "MTGE" },
         { doc_type := some "FEDERAL TAX LIEN FTL" },
         { doc_type := some "POWER OF ATTORNEY" }])).liens.length = 1 :=
  ⟨((acris_classification_by_doc_type.1 asciiUpper [⟨some "2020010100001001"⟩]
        (fun _ => [{ doc_type := some "DEED" }]) (by simp)
        { doc_type := some "DEED" } (by simp)).1).mpr (Or.inl (by decide)),
   (acris_classification_by_doc_type.2.1 asciiUpper [⟨some "2020010100001001"⟩]
        (fun _ => [{ doc_type := some "MTGE" }]) (by simp)
        { doc_type := some "MTGE" } (by simp) { doc_type := some "MTGE" } (by simp) rfl).2.1,
   (acris_classification_by_doc_type.2.2 [⟨some "2020010100001001"⟩] (by simp)).2.2.1⟩

/-- Splitting a list by a chain of three tests yields four lists that together
are a rearrangement of the list. -/
theorem filter_chain_perm {α : Type} (a b c : α → Bool) (l : List α) :
    (l.filter a ++ (l.filter (fun x => !a x && b x) ++
      (l.filter (fun x => !a x && !b x && c x) ++
        l.filter (fun x => !a x && !b x && !c x)))).Perm l := by
  classical
  rw [List.perm_iff_count]
  intro y
  induction l with
  | nil => simp
  | cons x xs ih =>
    simp only [List.count_append] at ih ⊢
    cases ha : a x <;> cases hb : b x <;> cases hc : c x <;>
      simp [List.filter_cons, ha, hb, hc, List.count_cons] <;> omega

/-- Two filters of the Master response by tests on `doc_type` that exclude each
other give lists of records with no record in common. -/
theorem disjoint_map_toRecord_filter (p q : MasterDoc → Bool)
    (hp : ∀ a b : MasterDoc, a.doc_type = b.doc_type → p a = p b)
    (hpq : ∀ a : MasterDoc, p a = true → q a = false) (docs : List MasterDoc) :
    ((docs.filter p).map toRecord).Disjoint ((docs.filter q).map toRecord) := by
  intro r h1 h2
  obtain ⟨d, hd, hrd⟩ := List.mem_map.mp h1
  obtain ⟨e, he, hre⟩ := List.mem_map.mp h2
  have hty : d.doc_type = e.doc_type := by
    have := congrArg AcrisRecord.documentType (hrd.trans hre.symm)
    simpa [toRecord] using this
  have hpe : p e = true := by
    rw [← hp d e hty]
    exact (List.mem_filter.mp hd).2
  have hqe : q e = true := (List.mem_filter.mp he).2
  rw [hpq e hpe] at hqe
  exact Bool.noConfusion hqe

/-- C2. Whenever `getACRISRecords` classifies a Master response, the four lists
`deeds`, `mortgages`, `liens`, `other` together are a rearrangement of the
records of the response (each record occurrence is in exactly one list), no
record is in two lists, the four lengths sum to the number of documents, and
`rawDocuments` is the whole response. -/
theorem acris_records_partition (up : String → String) (legals : List Legal)
    (fetchMaster : SoqlParams → List MasterDoc) (h : legals ≠ []) :
    ∃ o, (getACRISRecords up legals fetchMaster).other = some o ∧
      ((getACRISRecords up legals fetchMaster).deeds ++
        ((getACRISRecords up legals fetchMaster).mortgages ++
          ((getACRISRecords up legals fetchMaster).liens ++ o))).Perm
        ((fetchMaster (masterQuery legals)).map toRecord) ∧
      (getACRISRecords up legals fetchMaster).deeds.length +
          (getACRISRecords up legals fetchMaster).mortgages.length +
          (getACRISRecords up legals fetchMaster).liens.length + o.length =
        (fetchMaster (masterQuery legals)).length ∧
      (getACRISRecords up legals fetchMaster).deeds.Disjoint
        (getACRISRecords up legals fetchMaster).mortgages ∧
      (getACRISRecords up legals fetchMaster).deeds.Disjoint
        (getACRISRecords up legals fetchMaster).liens ∧
      (getACRISRecords up legals fetchMaster).deeds.Disjoint o ∧
      (getACRISRecords up legals fetchMaster).mortgages.Disjoint
        (getACRISRecords up legals fetchMaster).liens ∧
      (getACRISRecords up legals fetchMaster).mortgages.Disjoint o ∧
      (getACRISRecords up legals fetchMaster).liens.Disjoint o ∧
      (getACRISRecords up legals fetchMaster).rawDocuments =
        some (fetchMaster (masterQuery legals)) := by
  rw [getACRISRecords_eq up legals fetchMaster h]
  refine ⟨_, rfl, ?_⟩
  have hperm := filter_chain_perm (fun d => isDeed up d) (fun d => hasMortgageWord up d)
    (fun d => hasLienWord up d) (fetchMaster (masterQuery legals))
  have hD : ∀ a b : MasterDoc, a.doc_type = b.doc_type → isDeed up a = isDeed up b := by
    intro a b hab
    simp [isDeed, hab]
  have hM : ∀ a b : MasterDoc, a.doc_type = b.doc_type →
      (!isDeed up a && hasMortgageWord up a) = (!isDeed up b && hasMortgageWord up b) := by
    intro a b hab
    simp [isDeed, hasMortgageWord, hab]
  have hL : ∀ a b : MasterDoc, a.doc_type = b.doc_type →
      (!isDeed up a && !hasMortgageWord up a && hasLienWord up a) =
        (!isDeed up b && !hasMortgageWord up b && hasLienWord up b) := by
    intro a b hab
    simp [isDeed, hasMortgageWord, hasLienWord, hab]
  refine ⟨?_, ?_, ?_, ?_, ?_, ?_, ?_, ?_, rfl⟩
  · have := hperm.map toRecord
    simpa [List.map_append] using this
  · have := hperm.length_eq
    simp only [List.length_append] at this
    simp only [List.length_map]
    omega
  · exact disjoint_map_toRecord_filter _ _ hD (by intro a ha; simp [ha]) _
  · exact disjoint_map_toRecord_filter _ _ hD (by intro a ha; simp [ha]) _
  · exact disjoint_map_toRecord_filter _ _ hD (by intro a ha; simp [ha]) _
  · exact disjoint_map_toRecord_filter _ _ hM (by
      intro a ha
      simp only [Bool.and_eq_true, Bool.not_eq_true'] at ha
      simp [ha.1, ha.2]) _
  · exact disjoint_map_toRecord_filter _ _ hM (by
      intro a ha
      simp only [Bool.and_eq_true, Bool.not_eq_true'] at ha
      simp [ha.1, ha.2]) _
  · exact disjoint_map_toRecord_filter _ _ hL (by
      intro a ha
      simp only [Bool.and_eq_true, Bool.not_eq_true'] at ha
      simp [ha.1.1, ha.1.2, ha.2]) _

/-- An instance of C2: a response of three documents is split into lists whose
lengths sum to three. -/
theorem acris_records_partition_witness :
    ∃ o, (getACRISRecords asciiUpper [⟨some "2020010100001001"⟩]
        (fun _ => [{ doc_type := some "DEED" }, { doc_type := none },
          { doc_type := some "deed, correction" }])).other = some o ∧
      (getACRISRecords asciiUpper [⟨some "2020010100001001"⟩]
        (fun _ => [{ doc_type := some "DEED" }, { doc_type := none },
          { doc_type := some "deed, correction" }])).deeds.length +
        (getACRISRecords asciiUpper [⟨some "2020010100001001"⟩]
          (fun _ => [{ doc_type := some "DEED" }, { doc_type := none },
            { doc_type := some "deed, correction" }])).mortgages.length +
        (getACRISRecords asciiUpper [⟨some "2020010100001001"⟩]
          (fun _ => [{ doc_type := some "DEED" }, { doc_type := none },
            { doc_type := some "deed, correction" }])).liens.length + o.length = 3 := by
  obtain ⟨o, ho, _, hlen, _⟩ := acris_records_partition asciiUpper [⟨some "2020010100001001"⟩]
    (fun _ => [{ doc_type := some "DEED" }, { doc_type := none },
      { doc_type := some "deed, correction" }]) (by simp)
  exact ⟨o, ho, hlen⟩

end NycData

/-! ## Rounding -/

theorem jsRound_nonneg (x : ℚ) (h : 0 ≤ x) : 0 ≤ jsRound x := by
  unfold jsRound
  exact Int.floor_nonneg.mpr (by linarith)

theorem jsRound_le (x : ℚ) (n : ℤ) (h : x ≤ n) : jsRound x ≤ n := by
  unfold jsRound
  have hlt : ⌊x + 1 / 2⌋ < n + 1 := by
    apply Int.floor_lt.mpr
    push_cast
    linarith
  omega

theorem jsRound_ge (x : ℚ) (n : ℤ) (h : (n : ℚ) ≤ x) : n ≤ jsRound x := by
  unfold jsRound
  exact Int.le_floor.mpr (by linarith)

/-- The rounded value is within one half of the argument. -/
theorem jsRound_near (x : ℚ) : |(jsRound x : ℚ) - x| ≤ 1 / 2 := by
  unfold jsRound
  have h1 := Int.floor_le (x + 1 / 2)
  have h2 := Int.lt_floor_add_one (x + 1 / 2)
  rw [abs_le]
  constructor <;> linarith

theorem orZero_eq (x : Option ℚ) : orZero x = x.getD 0 := by
  cases x with
  | none => rfl
  | some q =>
    by_cases hq : q = 0
    · simp [orZero, hq]
    · simp [orZero, hq]

/-! ## Rounding to a double -/

theorem roundHalfEven_near (y : ℚ) : |(roundHalfEven y : ℚ) - y| ≤ 1 / 2 := by
  have h1 := Int.floor_le y
  have h2 := Int.lt_floor_add_one y
  unfold roundHalfEven
  split_ifs with ha hb hc
  · rw [abs_le]; constructor <;> linarith
  · rw [abs_le]; push_cast; constructor <;> linarith
  · rw [abs_le]; constructor <;> linarith
  · rw [abs_le]; push_cast; constructor <;> linarith

theorem roundHalfEven_intCast (n : ℤ) : roundHalfEven (n : ℚ) = n := by
  unfold roundHalfEven
  simp

theorem roundHalfEven_le (y : ℚ) (k : ℤ) (h : y ≤ k) : roundHalfEven y ≤ k := by
  have h1 := Int.floor_le y
  have hf : ⌊y⌋ ≤ k := by
    have : ⌊y⌋ < k + 1 := Int.floor_lt.mpr (by push_cast; linarith)
    omega
  unfold roundHalfEven
  split_ifs with ha hb hc
  · exact hf
  · by_contra hcon
    have hk : ⌊y⌋ = k := by omega
    have : y - ⌊y⌋ ≤ 0 := by rw [hk]; linarith
    linarith
  · exact hf
  · by_contra hcon
    have hk : ⌊y⌋ = k := by omega
    have : y - ⌊y⌋ ≤ 0 := by rw [hk]; linarith
    linarith

theorem roundHalfEven_ge (y : ℚ) (k : ℤ) (h : (k : ℚ) ≤ y) : k ≤ roundHalfEven y := by
  have hf : k ≤ ⌊y⌋ := Int.le_floor.mpr h
  unfold roundHalfEven
  split_ifs <;> omega

theorem ulp_pos (x : ℚ) : 0 < ulp x := by
  unfold ulp
  positivity

theorem ulp_le (x : ℚ) (hx : x ≠ 0) : ulp x ≤ |x| / 2 ^ 52 := by
  have hpos : 0 < |x| := abs_pos.mpr hx
  have h := Int.zpow_log_le_self (b := 2) (by norm_num) hpos
  unfold ulp
  rw [zpow_sub₀ (by norm_num : (2 : ℚ) ≠ 0)]
  have : ((2 : ℕ) : ℚ) = 2 := by norm_num
  rw [this] at h
  have h52 : (2 : ℚ) ^ (52 : ℤ) = 2 ^ 52 := by norm_cast
  rw [h52]
  exact div_le_div_of_nonneg_right h (by positivity)

theorem toDouble_near (x : ℚ) : |toDouble x - x| ≤ ulp x / 2 := by
  have hu := ulp_pos x
  have h := roundHalfEven_near (x / ulp x)
  unfold toDouble
  have e : (roundHalfEven (x / ulp x) : ℚ) * ulp x - x =
      ((roundHalfEven (x / ulp x) : ℚ) - x / ulp x) * ulp x := by
    field_simp
  rw [e, abs_mul, abs_of_pos hu]
  calc |(roundHalfEven (x / ulp x) : ℚ) - x / ulp x| * ulp x ≤ 1 / 2 * ulp x :=
        mul_le_mul_of_nonneg_right h hu.le
    _ = ulp x / 2 := by ring

theorem toDouble_zero : toDouble 0 = 0 := by
  simp [toDouble, roundHalfEven]

/-- The relative error of rounding to a double is at most `2 ^ -53`. -/
theorem toDouble_err (x : ℚ) : |toDouble x - x| ≤ |x| / 2 ^ 53 := by
  by_cases hx : x = 0
  · subst hx
    simp [toDouble_zero]
  · have h1 := toDouble_near x
    have h2 := ulp_le x hx
    calc |toDouble x - x| ≤ ulp x / 2 := h1
      _ ≤ |x| / 2 ^ 52 / 2 := by linarith
      _ = |x| / 2 ^ 53 := by ring

theorem toDouble_nonneg (x : ℚ) (h : 0 ≤ x) : 0 ≤ toDouble x := by
  have hu := ulp_pos x
  unfold toDouble
  have : (0 : ℤ) ≤ roundHalfEven (x / ulp x) :=
    roundHalfEven_ge _ 0 (by push_cast; exact div_nonneg h hu.le)
  exact mul_nonneg (by exact_mod_cast this) hu.le

theorem toDouble_nonpos (x : ℚ) (h : x ≤ 0) : toDouble x ≤ 0 := by
  have hu := ulp_pos x
  unfold toDouble
  have : roundHalfEven (x / ulp x) ≤ (0 : ℤ) :=
    roundHalfEven_le _ 0 (by push_cast; exact div_nonpos_of_nonpos_of_nonneg h hu.le)
  exact mul_nonpos_of_nonpos_of_nonneg (by exact_mod_cast this) hu.le

theorem two_natCast : ((2 : ℕ) : ℚ) = 2 := by norm_num

/-- The binade of `x`: `e` when `2 ^ e ≤ |x| < 2 ^ (e + 1)`. -/
theorem log_eq_of_bounds (x : ℚ) (e : ℤ) (h1 : (2 : ℚ) ^ e ≤ |x|) (h2 : |x| < (2 : ℚ) ^ (e + 1)) :
    Int.log 2 |x| = e := by
  have hpos : 0 < |x| := lt_of_lt_of_le (by positivity) h1
  have ha : e ≤ Int.log 2 |x| := by
    rw [← Int.zpow_le_iff_le_log (by norm_num) hpos, two_natCast]
    exact h1
  have hb : Int.log 2 |x| < e + 1 := by
    rw [← Int.lt_zpow_iff_log_lt (by norm_num) hpos, two_natCast]
    exact h2
  omega

theorem log_le_of_lt (x : ℚ) (e : ℤ) (hx : x ≠ 0) (h2 : |x| < (2 : ℚ) ^ (e + 1)) :
    Int.log 2 |x| ≤ e := by
  have hpos : 0 < |x| := abs_pos.mpr hx
  have hb : Int.log 2 |x| < e + 1 := by
    rw [← Int.lt_zpow_iff_log_lt (by norm_num) hpos, two_natCast]
    exact h2
  omega

theorem le_log_of_le (x : ℚ) (e : ℤ) (h1 : (2 : ℚ) ^ e ≤ |x|) : e ≤ Int.log 2 |x| := by
  have hpos : 0 < |x| := lt_of_lt_of_le (by positivity) h1
  rw [← Int.zpow_le_iff_le_log (by norm_num) hpos, two_natCast]
  exact h1

/-- Evaluation of `toDouble` from the binade and the rounded significand. -/
theorem toDouble_eval (x : ℚ) (e n : ℤ) (h1 : (2 : ℚ) ^ e ≤ |x|)
    (h2 : |x| < (2 : ℚ) ^ (e + 1)) (hn : roundHalfEven (x / (2 : ℚ) ^ (e - 52)) = n) :
    toDouble x = n * (2 : ℚ) ^ (e - 52) := by
  unfold toDouble ulp
  rw [log_eq_of_bounds x e h1 h2, hn]

/-- A multiple of the spacing around it is its own nearest double. -/
theorem toDouble_of_multiple (x : ℚ) (k : ℤ) (h : x = k * ulp x) : toDouble x = x := by
  have hu := ulp_pos x
  have hk : x / ulp x = k := by
    rw [div_eq_iff hu.ne']
    exact h
  unfold toDouble
  rw [hk, roundHalfEven_intCast]
  exact h.symm

/-- A number `m · 2 ^ t` is a multiple of the spacing around `x` when the
spacing is at most `2 ^ t`. -/
theorem multiple_of_ulp (x : ℚ) (m t : ℤ) (ht : Int.log 2 |x| - 52 ≤ t) :
    ∃ k : ℤ, (m : ℚ) * (2 : ℚ) ^ t = k * ulp x := by
  refine ⟨m * 2 ^ (t - (Int.log 2 |x| - 52)).toNat, ?_⟩
  unfold ulp
  push_cast
  have hnat : (((t - (Int.log 2 |x| - 52)).toNat : ℕ) : ℤ) = t - (Int.log 2 |x| - 52) :=
    Int.toNat_of_nonneg (by omega)
  have e : (2 : ℚ) ^ (t - (Int.log 2 |x| - 52)).toNat =
      (2 : ℚ) ^ (t - (Int.log 2 |x| - 52)) := by
    rw [← zpow_natCast, hnat]
  rw [e, mul_assoc, ← zpow_add₀ (by norm_num : (2 : ℚ) ≠ 0)]
  congr 2
  ring

theorem toDouble_le_of_multiple (x c : ℚ) (k : ℤ) (hc : c = k * ulp x) (h : x ≤ c) :
    toDouble x ≤ c := by
  have hu := ulp_pos x
  have hk : x / ulp x ≤ k := by
    rw [div_le_iff₀ hu]
    rw [← hc]
    exact h
  unfold toDouble
  rw [hc]
  exact mul_le_mul_of_nonneg_right (by exact_mod_cast roundHalfEven_le _ k hk) hu.le

theorem toDouble_ge_of_multiple (x c : ℚ) (k : ℤ) (hc : c = k * ulp x) (h : c ≤ x) :
    c ≤ toDouble x := by
  have hu := ulp_pos x
  have hk : (k : ℚ) ≤ x / ulp x := by
    rw [le_div_iff₀ hu]
    rw [← hc]
    exact h
  unfold toDouble
  rw [hc]
  exact mul_le_mul_of_nonneg_right (by exact_mod_cast roundHalfEven_ge _ k hk) hu.le

/-- Rounding does not cross a positive double `c = m · 2 ^ t`, `c < 2 ^ (t + 53)`,
from below. -/
theorem toDouble_le_bound (x : ℚ) (m t : ℤ) (hm : 0 < (m : ℚ) * (2 : ℚ) ^ t)
    (hc : (m : ℚ) * (2 : ℚ) ^ t < (2 : ℚ) ^ (t + 53)) (h : x ≤ (m : ℚ) * (2 : ℚ) ^ t) :
    toDouble x ≤ (m : ℚ) * (2 : ℚ) ^ t := by
  by_cases hx : x ≤ 0
  · exact le_trans (toDouble_nonpos x hx) hm.le
  · have hx0 : 0 < x := lt_of_not_le hx
    have hlog : Int.log 2 |x| ≤ t + 52 := by
      apply log_le_of_lt x (t + 52) hx0.ne'
      rw [abs_of_pos hx0]
      calc x ≤ (m : ℚ) * (2 : ℚ) ^ t := h
        _ < (2 : ℚ) ^ (t + 53) := hc
        _ = (2 : ℚ) ^ (t + 52 + 1) := by congr 1; ring
    obtain ⟨k, hk⟩ := multiple_of_ulp x m t (by omega)
    exact toDouble_le_of_multiple x _ k hk h

/-- Rounding does not cross a positive double `c = m · 2 ^ t` from above. -/
theorem toDouble_ge_bound (x : ℚ) (m t : ℤ) (hm : 0 < (m : ℚ) * (2 : ℚ) ^ t)
    (hc : (m : ℚ) * (2 : ℚ) ^ t < (2 : ℚ) ^ (t + 53)) (h : (m : ℚ) * (2 : ℚ) ^ t ≤ x) :
    (m : ℚ) * (2 : ℚ) ^ t ≤ toDouble x := by
  have hx0 : 0 < x := lt_of_lt_of_le hm h
  by_cases hlog : Int.log 2 |x| ≤ t + 52
  · obtain ⟨k, hk⟩ := multiple_of_ulp x m t (by omega)
    exact toDouble_ge_of_multiple x _ k hk h
  · have h53 : (2 : ℚ) ^ (t + 53) ≤ |x| := by
      have hpos : 0 < |x| := abs_pos.mpr hx0.ne'
      have := Int.zpow_log_le_self (b := 2) (by norm_num) hpos
      rw [two_natCast] at this
      refine le_trans ?_ this
      exact zpow_le_zpow_right₀ (by norm_num) (by omega)
    rw [abs_of_pos hx0] at h53
    have herr := toDouble_err x
    rw [abs_of_pos hx0, abs_le] at herr
    have h2 : (2 : ℚ) ^ (t + 53) = 2 ^ t * 2 ^ 53 := by
      rw [zpow_add₀ (by norm_num : (2 : ℚ) ≠ 0)]
      norm_cast
    have ht : (0 : ℚ) < 2 ^ t := by positivity
    have hm53 : (m : ℚ) < 2 ^ 53 := by
      rw [h2, mul_comm ((2 : ℚ) ^ t)] at hc
      exact lt_of_mul_lt_mul_right hc ht.le
    have hmi : m ≤ 2 ^ 53 - 1 := by
      have : m < 2 ^ 53 := by exact_mod_cast hm53
      omega
    have hmq : (m : ℚ) ≤ 2 ^ 53 - 1 := by exact_mod_cast hmi
    have hlow : x - x / 2 ^ 53 ≤ toDouble x := by linarith [herr.1]
    have hx53 : (2 : ℚ) ^ t * 2 ^ 53 ≤ x := by rw [← h2]; exact h53
    have e : x - x / 2 ^ 53 = x * (1 - 1 / 2 ^ 53) := by ring
    have hfac : (0 : ℚ) ≤ 1 - 1 / 2 ^ 53 := by norm_num
    calc (m : ℚ) * 2 ^ t ≤ (2 ^ 53 - 1) * 2 ^ t := mul_le_mul_of_nonneg_right hmq ht.le
      _ = (2 ^ t * 2 ^ 53) * (1 - 1 / 2 ^ 53) := by ring
      _ ≤ x * (1 - 1 / 2 ^ 53) := mul_le_mul_of_nonneg_right hx53 hfac
      _ = x - x / 2 ^ 53 := e.symm
      _ ≤ toDouble x := hlow

theorem toDouble_intCast (k : ℤ) (h : |k| < 2 ^ 53) : toDouble (k : ℚ) = k := by
  by_cases hk : k = 0
  · subst hk
    simp [toDouble_zero]
  · have hx : (k : ℚ) ≠ 0 := by exact_mod_cast hk
    have hlog : Int.log 2 |(k : ℚ)| ≤ 52 := by
      apply log_le_of_lt _ 52 hx
      have : |(k : ℚ)| = ((|k| : ℤ) : ℚ) := by push_cast; rfl
      rw [this]
      have h2 : ((2 : ℚ) ^ ((52 : ℤ) + 1)) = ((2 ^ 53 : ℤ) : ℚ) := by norm_num
      rw [h2]
      exact_mod_cast h
    obtain ⟨j, hj⟩ := multiple_of_ulp (k : ℚ) k 0 (by omega)
    rw [zpow_zero, mul_one] at hj
    exact toDouble_of_multiple _ j hj

/-- Evaluation of `roundHalfEven` away from a tie. -/
theorem roundHalfEven_eval (x : ℚ) (n : ℤ) (h1 : (n : ℚ) - 1 / 2 < x)
    (h2 : x < (n : ℚ) + 1 / 2) : roundHalfEven x = n := by
  have hnear := roundHalfEven_near x
  rw [abs_le] at hnear
  have h3 : (roundHalfEven x : ℚ) < n + 1 := by linarith [hnear.2]
  have h4 : (n : ℚ) - 1 < roundHalfEven x := by linarith [hnear.1]
  have h5 : roundHalfEven x < n + 1 := by exact_mod_cast h3
  have h6 : n - 1 < roundHalfEven x := by exact_mod_cast h4
  omega

theorem toDouble_le_one (x : ℚ) (h : x ≤ 1) : toDouble x ≤ 1 := by
  have := toDouble_le_bound x 1 0 (by norm_num) (by norm_num) (by simpa using h)
  simpa using this

theorem toDouble_one_le (x : ℚ) (h : 1 ≤ x) : 1 ≤ toDouble x := by
  have := toDouble_ge_bound x 1 0 (by norm_num) (by norm_num) (by simpa using h)
  simpa using this

theorem toDouble_le_hundred (x : ℚ) (h : x ≤ 100) : toDouble x ≤ 100 := by
  have e : ((25 : ℤ) : ℚ) * (2 : ℚ) ^ (2 : ℤ) = 100 := by norm_num
  have := toDouble_le_bound x 25 2 (by norm_num) (by norm_num) (by rw [e]; exact h)
  rwa [e] at this

theorem toDouble_hundred_le (x : ℚ) (h : 100 ≤ x) : 100 ≤ toDouble x := by
  have e : ((25 : ℤ) : ℚ) * (2 : ℚ) ^ (2 : ℤ) = 100 := by norm_num
  have := toDouble_ge_bound x 25 2 (by norm_num) (by norm_num) (by rw [e]; exact h)
  rwa [e] at this

/-- The rounded percentage `(x rounded) * 100 rounded` is within a relative
`2 ^ -51` of `100 · x`. -/
theorem percent_close (x : ℚ) : |toDouble (toDouble x * 100) - 100 * x| ≤ |100 * x| / 2 ^ 51 := by
  have h1 := toDouble_err x
  have h2 := toDouble_err (toDouble x * 100)
  have hq : |toDouble x| ≤ |x| + |x| / 2 ^ 53 := by
    have := abs_sub_abs_le_abs_sub (toDouble x) x
    linarith
  have hy : |toDouble x * 100| = 100 * |toDouble x| := by
    rw [abs_mul]
    norm_num
    ring
  have hs : |100 * x| = 100 * |x| := by
    rw [abs_mul]
    norm_num
  have hx0 : 0 ≤ |x| := abs_nonneg x
  have tri : |toDouble (toDouble x * 100) - 100 * x| ≤
      |toDouble (toDouble x * 100) - toDouble x * 100| + 100 * |toDouble x - x| := by
    have e : toDouble (toDouble x * 100) - 100 * x =
        (toDouble (toDouble x * 100) - toDouble x * 100) + 100 * (toDouble x - x) := by ring
    rw [e]
    refine le_trans (abs_add _ _) ?_
    rw [abs_mul]
    norm_num
  rw [hy] at h2
  rw [hs]
  have b1 : 100 * |toDouble x| / 2 ^ 53 ≤ 100 * (|x| + |x| / 2 ^ 53) / 2 ^ 53 := by
    apply div_le_div_of_nonneg_right _ (by positivity)
    linarith
  have b2 : 100 * (|x| + |x| / 2 ^ 53) / 2 ^ 53 + 100 * (|x| / 2 ^ 53) ≤ 100 * |x| / 2 ^ 51 := by
    have : 100 * (|x| + |x| / 2 ^ 53) / 2 ^ 53 + 100 * (|x| / 2 ^ 53) =
        |x| * (100 * (1 + 1 / 2 ^ 53) / 2 ^ 53 + 100 / 2 ^ 53) := by ring
    rw [this]
    have : 100 * |x| / 2 ^ 51 = |x| * (100 / 2 ^ 51) := by ring
    rw [this]
    exact mul_le_mul_of_nonneg_left (by norm_num) hx0
  linarith

/-- Rounding a value close to `s` lands within one half, plus the distance, of `s`. -/
theorem jsRound_close (y s d : ℚ) (h : |y - s| ≤ d) : |(jsRound y : ℚ) - s| ≤ 1 / 2 + d := by
  have h1 := jsRound_near y
  have e : (jsRound y : ℚ) - s = ((jsRound y : ℚ) - y) + (y - s) := by ring
  rw [e]
  exact le_trans (abs_add _ _) (by linarith)

/-- Rounding a value close to `s` gives the rounding of `s`, when `s` is farther
from every tie than the value is from `s`. -/
theorem jsRound_eq_of_away (y s d : ℚ) (h : |y - s| ≤ d)
    (haway : ∀ k : ℤ, d < |s - ((k : ℚ) + 1 / 2)|) : jsRound y = jsRound s := by
  have hlo := Int.floor_le (s + 1 / 2)
  have hhi := Int.lt_floor_add_one (s + 1 / 2)
  rw [abs_le] at h
  have a1 := haway (⌊s + 1 / 2⌋ - 1)
  have a2 := haway ⌊s + 1 / 2⌋
  push_cast at a1
  rw [abs_of_nonneg (by linarith)] at a1
  rw [abs_of_nonpos (by linarith)] at a2
  unfold jsRound
  rw [Int.floor_eq_iff]
  constructor <;> linarith [h.1, h.2]

/-- Evaluation of `toDouble` from the binade of `x` and its nearest multiple of
the unit in the last place. -/
theorem toDouble_of_near (x : ℚ) (e n : ℤ) (h1 : (2 : ℚ) ^ e ≤ |x|)
    (h2 : |x| < (2 : ℚ) ^ (e + 1)) (h3 : (n : ℚ) - 1 / 2 < x / (2 : ℚ) ^ (e - 52))
    (h4 : x / (2 : ℚ) ^ (e - 52) < (n : ℚ) + 1 / 2) :
    toDouble x = (n : ℚ) * (2 : ℚ) ^ (e - 52) :=
  toDouble_eval x e n h1 h2 (roundHalfEven_eval _ _ h3 h4)

/-- An integer is at least one half away from every half-integer. -/
theorem half_le_dist_tie (n k : ℤ) : (1 : ℚ) / 2 ≤ |(n : ℚ) - ((k : ℚ) + 1 / 2)| := by
  rcases le_or_lt n k with h | h
  · have h1 : (n : ℚ) ≤ k := by exact_mod_cast h
    rw [abs_of_nonpos (by linarith)]
    linarith
  · have h1 : (k : ℚ) + 1 ≤ n := by exact_mod_cast h
    rw [abs_of_nonneg (by linarith)]
    linarith

/-- The quotient 0.4 rounded, times 100, rounds to exactly 40. -/
theorem percent_4_10 : toDouble (toDouble (4 / 10) * 100) = 40 := by
  rw [toDouble_of_near (4 / 10) (-2) 7205759403792794 (by norm_num [abs_of_pos])
    (by norm_num [abs_of_pos]) (by norm_num) (by norm_num)]
  rw [toDouble_of_near _ 5 5629499534213120 (by norm_num [abs_of_pos])
    (by norm_num [abs_of_pos]) (by norm_num) (by norm_num)]
  norm_num

/-- The quotient 0.575 rounded, times 100, rounds to a double below 57.5. -/
theorem percent_23_40 :
    toDouble (toDouble (23 / 40) * 100) = 8092405580431359 / 2 ^ 47 := by
  rw [toDouble_of_near (23 / 40) (-1) 5179139571476070 (by norm_num [abs_of_pos])
    (by norm_num [abs_of_pos]) (by norm_num) (by norm_num)]
  rw [toDouble_of_near _ 5 8092405580431359 (by norm_num [abs_of_pos])
    (by norm_num [abs_of_pos]) (by norm_num) (by norm_num)]
  norm_num

/-- The quotient 1.2 rounded, times 100, rounds to exactly 120. -/
theorem percent_12_10 : toDouble (toDouble (12 / 10) * 100) = 120 := by
  rw [toDouble_of_near (12 / 10) 0 5404319552844595 (by norm_num [abs_of_pos])
    (by norm_num [abs_of_pos]) (by norm_num) (by norm_num)]
  rw [toDouble_of_near _ 6 8444249301319680 (by norm_num [abs_of_pos])
    (by norm_num [abs_of_pos]) (by norm_num) (by norm_num)]
  norm_num

/-- The rounded difference of two rounded values is within a relative `2 ^ -51`
of the exact difference, relative to the sum of the magnitudes. -/
theorem sub_close (a c : ℚ) :
    |toDouble (toDouble a - toDouble c) - (a - c)| ≤ (|a| + |c|) / 2 ^ 51 := by
  have h1 := toDouble_err a
  have h2 := toDouble_err c
  have h3 := toDouble_err (toDouble a - toDouble c)
  have ha : |toDouble a| ≤ |a| + |a| / 2 ^ 53 := by
    have := abs_sub_abs_le_abs_sub (toDouble a) a
    linarith
  have hc : |toDouble c| ≤ |c| + |c| / 2 ^ 53 := by
    have := abs_sub_abs_le_abs_sub (toDouble c) c
    linarith
  have hd : |toDouble a - toDouble c| ≤ |toDouble a| + |toDouble c| := abs_sub _ _
  have ha0 : 0 ≤ |a| := abs_nonneg a
  have hc0 : 0 ≤ |c| := abs_nonneg c
  have tri : |toDouble (toDouble a - toDouble c) - (a - c)| ≤
      |toDouble (toDouble a - toDouble c) - (toDouble a - toDouble c)| +
        (|toDouble a - a| + |toDouble c - c|) := by
    have e : toDouble (toDouble a - toDouble c) - (a - c) =
        (toDouble (toDouble a - toDouble c) - (toDouble a - toDouble c)) +
          ((toDouble a - a) - (toDouble c - c)) := by ring
    rw [e]
    refine le_trans (abs_add _ _) ?_
    have := abs_sub (toDouble a - a) (toDouble c - c)
    linarith
  have b1 : |toDouble a - toDouble c| / 2 ^ 53 ≤
      ((|a| + |a| / 2 ^ 53) + (|c| + |c| / 2 ^ 53)) / 2 ^ 53 := by
    apply div_le_div_of_nonneg_right _ (by positivity)
    linarith
  have b2 : ((|a| + |a| / 2 ^ 53) + (|c| + |c| / 2 ^ 53)) / 2 ^ 53 +
      (|a| / 2 ^ 53 + |c| / 2 ^ 53) ≤ (|a| + |c|) / 2 ^ 51 := by
    have e1 : ((|a| + |a| / 2 ^ 53) + (|c| + |c| / 2 ^ 53)) / 2 ^ 53 +
        (|a| / 2 ^ 53 + |c| / 2 ^ 53) =
        (|a| + |c|) * ((1 + 1 / 2 ^ 53) / 2 ^ 53 + 1 / 2 ^ 53) := by ring
    have e2 : (|a| + |c|) / 2 ^ 51 = (|a| + |c|) * (1 / 2 ^ 51) := by ring
    rw [e1, e2]
    exact mul_le_mul_of_nonneg_left (by norm_num) (by linarith)
  linarith

/-- The positive part does not increase distances. -/
theorem max_zero_close (x y : ℚ) : |max 0 x - max 0 y| ≤ |x - y| := by
  rw [max_comm 0 x, max_comm 0 y]
  exact abs_max_sub_max_le_abs x y 0

theorem jsRound_intCast (n : ℤ) : jsRound (n : ℚ) = n := by
  unfold jsRound
  rw [Int.floor_eq_iff]
  constructor <;> linarith

theorem toDouble_pos (x : ℚ) (h : 0 < x) : 0 < toDouble x := by
  have h1 := toDouble_err x
  rw [abs_of_pos h, abs_le] at h1
  have h2 : x / 2 ^ 53 < x := by
    rw [div_lt_iff₀ (by positivity)]
    nlinarith
  linarith [h1.1]

/-- The percentage computed with a rounded divisor: for `0 ≤ h` and `0 < s`,
the rounded quotient of `h` by the rounded `s`, times 100, rounded, is within a
relative `2 ^ -50` of `100 · h / s`. -/
theorem quotient_close (h s : ℚ) (h0 : 0 ≤ h) (hs : 0 < s) :
    |toDouble (toDouble (h / toDouble s) * 100) - 100 * h / s| ≤ 100 * h / s / 2 ^ 50 := by
  have hS := toDouble_err s
  rw [abs_of_pos hs, abs_le] at hS
  have hSpos := toDouble_pos s hs
  have hr : 0 ≤ h / s := div_nonneg h0 (le_of_lt hs)
  have hc : s / toDouble s ≤ 2 ^ 53 / (2 ^ 53 - 1) := by
    rw [div_le_div_iff hSpos (by norm_num)]
    have := hS.1
    have e : s / 2 ^ 53 * 2 ^ 53 = s := by field_simp
    nlinarith
  have hc0 : 0 ≤ s / toDouble s := div_nonneg (le_of_lt hs) (le_of_lt hSpos)
  have hd : |s / toDouble s - 1| ≤ 1 / (2 ^ 53 - 1) := by
    have e : s / toDouble s - 1 = (s - toDouble s) / toDouble s := by field_simp
    rw [e, abs_div, abs_of_pos hSpos, div_le_iff₀ hSpos]
    have h3 : |s - toDouble s| ≤ s / 2 ^ 53 := by
      rw [abs_le]
      constructor <;> linarith [hS.1, hS.2]
    have h4 : s / 2 ^ 53 ≤ 1 / (2 ^ 53 - 1) * toDouble s := by
      have : s / 2 ^ 53 = 1 / (2 ^ 53 - 1) * (s * (1 - 1 / 2 ^ 53)) := by
        field_simp
      rw [this]
      apply mul_le_mul_of_nonneg_left _ (by norm_num)
      have e2 : s * (1 - 1 / 2 ^ 53) = s - s / 2 ^ 53 := by ring
      rw [e2]
      linarith [hS.1]
    linarith
  have hx : h / toDouble s = h / s * (s / toDouble s) := by
    field_simp
  have hxr : |h / toDouble s - h / s| ≤ h / s * (1 / (2 ^ 53 - 1)) := by
    have e : h / toDouble s - h / s = h / s * (s / toDouble s - 1) := by
      rw [hx]
      ring
    rw [e, abs_mul, abs_of_nonneg hr]
    exact mul_le_mul_of_nonneg_left hd hr
  have hxle : h / toDouble s ≤ h / s * (2 ^ 53 / (2 ^ 53 - 1)) := by
    rw [hx]
    exact mul_le_mul_of_nonneg_left hc hr
  have hx0 : 0 ≤ h / toDouble s := div_nonneg h0 (le_of_lt hSpos)
  have hp := percent_close (h / toDouble s)
  have e1 : |100 * (h / toDouble s)| = 100 * (h / toDouble s) :=
    abs_of_nonneg (by positivity)
  rw [e1] at hp
  have tri : |toDouble (toDouble (h / toDouble s) * 100) - 100 * h / s| ≤
      |toDouble (toDouble (h / toDouble s) * 100) - 100 * (h / toDouble s)| +
        100 * |h / toDouble s - h / s| := by
    have e : toDouble (toDouble (h / toDouble s) * 100) - 100 * h / s =
        (toDouble (toDouble (h / toDouble s) * 100) - 100 * (h / toDouble s)) +
          100 * (h / toDouble s - h / s) := by ring
    rw [e]
    refine le_trans (abs_add _ _) ?_
    rw [abs_mul]
    norm_num
  have b : 100 * (h / s * (2 ^ 53 / (2 ^ 53 - 1))) / 2 ^ 51 +
      100 * (h / s * (1 / (2 ^ 53 - 1))) ≤ 100 * h / s / 2 ^ 50 := by
    have e2 : 100 * (h / s * (2 ^ 53 / (2 ^ 53 - 1))) / 2 ^ 51 +
        100 * (h / s * (1 / (2 ^ 53 - 1))) =
        h / s * (100 * (2 ^ 53 / (2 ^ 53 - 1)) / 2 ^ 51 + 100 * (1 / (2 ^ 53 - 1))) := by ring
    have e3 : 100 * h / s / 2 ^ 50 = h / s * (100 / 2 ^ 50) := by ring
    rw [e2, e3]
    exact mul_le_mul_of_nonneg_left (by norm_num) hr
  have b1 : 100 * (h / toDouble s) / 2 ^ 51 ≤
      100 * (h / s * (2 ^ 53 / (2 ^ 53 - 1))) / 2 ^ 51 := by
    apply div_le_div_of_nonneg_right _ (by positivity)
    linarith
  linarith

/-- A quotient of naturals that is not a half-integer is at least `1 / (2 s)`
away from every half-integer. -/
theorem dist_tie_of_ne (h s : ℕ) (hs : 0 < s) (k : ℤ)
    (hne : (200 * h : ℤ) ≠ (2 * k + 1) * s) :
    1 / (2 * (s : ℚ)) ≤ |100 * (h : ℚ) / (s : ℚ) - ((k : ℚ) + 1 / 2)| := by
  have hsq : (0 : ℚ) < (s : ℚ) := by exact_mod_cast hs
  have e : 100 * (h : ℚ) / (s : ℚ) - ((k : ℚ) + 1 / 2) =
      (((200 * h - (2 * k + 1) * s : ℤ)) : ℚ) / (2 * (s : ℚ)) := by
    push_cast
    field_simp
    ring
  rw [e, abs_div, abs_of_pos (by positivity : (0 : ℚ) < 2 * (s : ℚ))]
  apply div_le_div_of_nonneg_right _ (by positivity)
  have hz : (200 * (h : ℤ) - (2 * k + 1) * (s : ℤ)) ≠ 0 := sub_ne_zero.mpr hne
  have h1 : (1 : ℤ) ≤ |200 * (h : ℤ) - (2 * k + 1) * (s : ℤ)| := Int.one_le_abs hz
  have h2 : ((1 : ℤ) : ℚ) ≤ ((|200 * (h : ℤ) - (2 * k + 1) * (s : ℤ)| : ℤ) : ℚ) := by
    exact_mod_cast h1
  rw [Int.cast_abs] at h2
  simpa using h2

/-! ## `getFARData` -/

namespace ZolaAPI

/-- The utilization for a row with a positive `max_far`: the rounded quotient,
times 100, rounded again, then `Math.round`. -/
theorem getFARData_utilization (bbl : String) (data : List PlutoRow)
    (hpos : 0 < (getFARData bbl data).max_far) :
    (getFARData bbl data).utilization_pct =
      some (jsRound (toDouble (toDouble
        ((getFARData bbl data).built_far / (getFARData bbl data).max_far) * 100))) := by
  have hne : (getFARData bbl data).max_far ≠ 0 := ne_of_gt hpos
  simp only [getFARData] at hpos hne ⊢
  rw [if_pos hpos]
  simp only [jsDiv, if_neg hne, Option.map_some']

theorem getFARData_remaining (bbl : String) (data : List PlutoRow) :
    (getFARData bbl data).remaining_buildable_sf =
      jsRound (max 0 (toDouble
        (toDouble ((getFARData bbl data).lot_area_sf * (getFARData bbl data).max_far) -
          toDouble ((getFARData bbl data).lot_area_sf * (getFARData bbl data).built_far)))) :=
  rfl

/-- The double nearest to 6.02 is below 10. -/
theorem toDouble_602_le : toDouble 6.02 ≤ 10 := by
  have e : ((5 : ℤ) : ℚ) * (2 : ℚ) ^ (1 : ℤ) = 10 := by norm_num
  have := toDouble_le_bound 6.02 5 1 (by norm_num) (by norm_num) (by rw [e]; norm_num)
  rwa [e] at this

theorem scenarioRow_max_far (bbl : String) : (getFARData bbl [scenarioRow]).max_far = 10 := by
  have h := toDouble_602_le
  have h0 : toDouble 6.02 ≠ 0 ∨ toDouble 6.02 = 0 := by
    by_cases h : toDouble 6.02 = 0
    · exact Or.inr h
    · exact Or.inl h
  rcases h0 with h0 | h0
  · simp only [getFARData, scenarioRow, List.head?_cons, Option.getD_some, orZero, if_neg h0]
    norm_num
    have e : (301 / 50 : ℚ) = 6.02 := by norm_num
    rw [e]
    exact h
  · simp only [getFARData, scenarioRow, List.head?_cons, Option.getD_some, orZero, h0]
    norm_num

/-- C3, as stated, fails: on a row with built FAR 5.75 and commercial FAR 10,
`max_far` is 10 and positive, the quotient `5.75 / 10` rounds to a double just
below 0.575, and `utilization_pct` is 57, while `round(100 · built_far / max_far)`
is `round(57.5) = 58`. -/
theorem far_utilization_rounding_counterexample :
    (getFARData "1008350029" [{ builtfar := some 5.75, commfar := some 10 }]).built_far = 5.75 ∧
    (getFARData "1008350029" [{ builtfar := some 5.75, commfar := some 10 }]).max_far = 10 ∧
    (getFARData "1008350029"
      [{ builtfar := some 5.75, commfar := some 10 }]).utilization_pct = some 57 ∧
    jsRound (100 *
      (getFARData "1008350029" [{ builtfar := some 5.75, commfar := some 10 }]).built_far /
      (getFARData "1008350029" [{ builtfar := some 5.75, commfar := some 10 }]).max_far) = 58 := by
  have hb : (getFARData "1008350029"
      [{ builtfar := some 5.75, commfar := some 10 }]).built_far = 5.75 := by
    norm_num [getFARData, orZero]
  have hm : (getFARData "1008350029"
      [{ builtfar := some 5.75, commfar := some 10 }]).max_far = 10 := by
    norm_num [getFARData, orZero]
  refine ⟨hb, hm, ?_, ?_⟩
  · rw [getFARData_utilization _ _ (by rw [hm]; norm_num), hb, hm]
    have e : (5.75 : ℚ) / 10 = 23 / 40 := by norm_num
    rw [e, percent_23_40]
    norm_num [jsRound]
  · rw [hb, hm]
    norm_num [jsRound]

/-- C3 (amended). `max_far` is the maximum of the residential, commercial and
facility FAR, each read with a missing or non-numeric value counting as 0. When
`max_far > 0`, `utilization_pct` is an integer within
`1/2 + |100 · built_far / max_far| / 2^51` of `100 · built_far / max_far`, and it
is `round(100 · built_far / max_far)` whenever that quotient is farther than
`|100 · built_far / max_far| / 2^51` from every half-integer; otherwise it is 0.
On the row `builtfar=4.0, residfar=6.02, commfar=10.0, facilfar=6.5` they are 10
and 40. -/
theorem far_max_and_utilization (bbl : String) (data : List PlutoRow) :
    (getFARData bbl data).residential_far = ((data.head?.getD {}).residfar).getD 0 ∧
    (getFARData bbl data).commercial_far = ((data.head?.getD {}).commfar).getD 0 ∧
    (getFARData bbl data).facility_far = ((data.head?.getD {}).facilfar).getD 0 ∧
    (getFARData bbl data).built_far = ((data.head?.getD {}).builtfar).getD 0 ∧
    (getFARData bbl data).max_far =
      max (getFARData bbl data).residential_far
        (max (getFARData bbl data).commercial_far (getFARData bbl data).facility_far) ∧
    (0 < (getFARData bbl data).max_far →
      ∃ u : ℤ, (getFARData bbl data).utilization_pct = some u ∧
        |(u : ℚ) - 100 * (getFARData bbl data).built_far / (getFARData bbl data).max_far| ≤
          1 / 2 +
            |100 * (getFARData bbl data).built_far / (getFARData bbl data).max_far| / 2 ^ 51 ∧
        ((∀ k : ℤ,
            |100 * (getFARData bbl data).built_far / (getFARData bbl data).max_far| / 2 ^ 51 <
              |100 * (getFARData bbl data).built_far / (getFARData bbl data).max_far -
                ((k : ℚ) + 1 / 2)|) →
          u = jsRound
            (100 * (getFARData bbl data).built_far / (getFARData bbl data).max_far))) ∧
    (¬ 0 < (getFARData bbl data).max_far → (getFARData bbl data).utilization_pct = some 0) ∧
    (getFARData bbl [scenarioRow]).max_far = 10 ∧
    (getFARData bbl [scenarioRow]).utilization_pct = some 40 := by
  refine ⟨?_, ?_, ?_, ?_, rfl, ?_, ?_, scenarioRow_max_far bbl, ?_⟩
  · simp [getFARData, orZero_eq]
  · simp [getFARData, orZero_eq]
  · simp [getFARData, orZero_eq]
  · simp [getFARData, orZero_eq]
  · intro hpos
    have hc := percent_close ((getFARData bbl data).built_far / (getFARData bbl data).max_far)
    have e : 100 * ((getFARData bbl data).built_far / (getFARData bbl data).max_far) =
        100 * (getFARData bbl data).built_far / (getFARData bbl data).max_far := by ring
    rw [e] at hc
    exact ⟨_, getFARData_utilization bbl data hpos, jsRound_close _ _ _ hc,
      fun haway => jsRound_eq_of_away _ _ _ hc haway⟩
  · intro hnpos
    simp only [getFARData] at hnpos ⊢
    rw [if_neg hnpos]
  · have hm := scenarioRow_max_far bbl
    have hb : (getFARData bbl [scenarioRow]).built_far = 4 := by
      norm_num [getFARData, scenarioRow, orZero]
    rw [getFARData_utilization _ _ (by rw [hm]; norm_num), hb, hm, percent_4_10]
    norm_num [jsRound]

/-- An instance of C3 (amended) with `max_far > 0`: built FAR 3 of a maximum of
4 has the quotient 75, at distance one half from the nearest half-integer, and
the utilization is `round(75) = 75`; an empty response gives 0. -/
theorem far_max_and_utilization_witness :
    0 < (getFARData "1008350029" [{ builtfar := some 3, residfar := some 4 }]).max_far ∧
    (getFARData "1008350029" [{ builtfar := some 3, residfar := some 4 }]).utilization_pct =
      some (jsRound (100 *
        (getFARData "1008350029" [{ builtfar := some 3, residfar := some 4 }]).built_far /
        (getFARData "1008350029" [{ builtfar := some 3, residfar := some 4 }]).max_far)) ∧
    (getFARData "1008350029" [{ builtfar := some 3, residfar := some 4 }]).utilization_pct =
      some 75 ∧
    (¬ 0 < (getFARData "1008350029" []).max_far ∧
      (getFARData "1008350029" []).utilization_pct = some 0) := by
  have hb : (getFARData "1008350029"
      [{ builtfar := some 3, residfar := some 4 }]).built_far = 3 := by
    norm_num [getFARData, orZero]
  have hm : (getFARData "1008350029"
      [{ builtfar := some 3, residfar := some 4 }]).max_far = 4 := by
    norm_num [getFARData, orZero]
  have hpos : 0 < (getFARData "1008350029"
      [{ builtfar := some 3, residfar := some 4 }]).max_far := by
    rw [hm]
    norm_num
  obtain ⟨u, hu, _, haway⟩ :=
    (far_max_and_utilization "1008350029"
      [{ builtfar := some 3, residfar := some 4 }]).2.2.2.2.2.1 hpos
  have hk : ∀ k : ℤ,
      |100 * (getFARData "1008350029"
          [{ builtfar := some 3, residfar := some 4 }]).built_far /
        (getFARData "1008350029"
          [{ builtfar := some 3, residfar := some 4 }]).max_far| / 2 ^ 51 <
      |100 * (getFARData "1008350029"
          [{ builtfar := some 3, residfar := some 4 }]).built_far /
        (getFARData "1008350029"
          [{ builtfar := some 3, residfar := some 4 }]).max_far - ((k : ℚ) + 1 / 2)| := by
    intro k
    rw [hb, hm]
    have e : (100 : ℚ) * 3 / 4 = ((75 : ℤ) : ℚ) := by norm_num
    rw [e]
    have h2 := half_le_dist_tie 75 k
    have h3 : |((75 : ℤ) : ℚ)| / 2 ^ 51 < 1 / 2 := by norm_num
    linarith
  have hu2 := haway hk
  refine ⟨hpos, ?_, ?_, by norm_num [getFARData, orZero], ?_⟩
  · rw [hu, hu2]
  · rw [hu, hu2, hb, hm]
    norm_num [jsRound]
  · exact (far_max_and_utilization "1008350029" []).2.2.2.2.2.2.1
      (by norm_num [getFARData, orZero])

/-- The double nearest to 0.81. -/
theorem toDouble_081 : toDouble 0.81 = 1823957849085051 / 2 ^ 51 := by
  rw [toDouble_of_near 0.81 (-1) 7295831396340204 (by norm_num [abs_of_pos])
    (by norm_num [abs_of_pos]) (by norm_num) (by norm_num)]
  norm_num

/-- The double nearest to 1.10. -/
theorem toDouble_110 : toDouble 1.10 = 2476979795053773 / 2 ^ 51 := by
  rw [toDouble_of_near 1.10 0 4953959590107546 (by norm_num [abs_of_pos])
    (by norm_num [abs_of_pos]) (by norm_num) (by norm_num)]
  norm_num

/-- C4, as stated, fails: on the row `lotarea=1250, residfar=1.10, builtfar=0.81`
the products are the doubles 1375 and 1012.5000000000001, their difference is
the double just below 362.5, and `remaining_buildable_sf` is 362, while
`max(0, lot_area · max_far − lot_area · built_far)` is above 362.5 and rounds to
363 (as does the decimal value 362.5). -/
theorem far_remaining_rounding_counterexample :
    (getFARData "1008350029" [roundingRow]).lot_area_sf = 1250 ∧
    (getFARData "1008350029" [roundingRow]).max_far = toDouble 1.10 ∧
    (getFARData "1008350029" [roundingRow]).built_far = toDouble 0.81 ∧
    (getFARData "1008350029" [roundingRow]).remaining_buildable_sf = 362 ∧
    jsRound (max 0
      ((getFARData "1008350029" [roundingRow]).lot_area_sf *
          (getFARData "1008350029" [roundingRow]).max_far -
        (getFARData "1008350029" [roundingRow]).lot_area_sf *
          (getFARData "1008350029" [roundingRow]).built_far)) = 363 ∧
    jsRound (max 0 (1250 * 1.10 - 1250 * 0.81)) = 363 := by
  have hL : (getFARData "1008350029" [roundingRow]).lot_area_sf = 1250 := by
    norm_num [getFARData, roundingRow, orZero]
  have hM : (getFARData "1008350029" [roundingRow]).max_far = toDouble 1.10 := by
    simp only [getFARData, roundingRow, toDouble_110]
    norm_num [orZero]
  have hB : (getFARData "1008350029" [roundingRow]).built_far = toDouble 0.81 := by
    simp only [getFARData, roundingRow, toDouble_081]
    norm_num [orZero]
  have p1 : toDouble (1250 * (2476979795053773 / 2 ^ 51)) = 1375 := by
    rw [toDouble_of_near _ 10 6047313952768000 (by norm_num [abs_of_pos])
      (by norm_num [abs_of_pos]) (by norm_num) (by norm_num)]
    norm_num
  have p2 : toDouble (1250 * (1823957849085051 / 2 ^ 51)) = 8906044184985601 / 2 ^ 43 := by
    rw [toDouble_of_near _ 9 8906044184985601 (by norm_num [abs_of_pos])
      (by norm_num [abs_of_pos]) (by norm_num) (by norm_num)]
    norm_num
  have p3 : toDouble (1375 - 8906044184985601 / 2 ^ 43) = 3188583720550399 / 2 ^ 43 := by
    rw [toDouble_of_near _ 8 6377167441100798 (by norm_num [abs_of_pos])
      (by norm_num [abs_of_pos]) (by norm_num) (by norm_num)]
    norm_num
  refine ⟨hL, hM, hB, ?_, ?_, ?_⟩
  · rw [getFARData_remaining, hL, hM, hB, toDouble_110, toDouble_081, p1, p2, p3,
      max_eq_right (by norm_num)]
    norm_num [jsRound]
  · rw [hL, hM, hB, toDouble_110, toDouble_081, max_eq_right (by norm_num)]
    norm_num [jsRound]
  · rw [max_eq_right (by norm_num)]
    norm_num [jsRound]

/-- C4 (amended). With the lot area, built FAR and maximum FAR read from the
row, `remaining_buildable_sf` is an integer, never negative, within
`1/2 + (|lot_area · max_far| + |lot_area · built_far|) / 2^51` of
`max(0, lot_area · max_far − lot_area · built_far)`, and equal to the rounding of
that value whenever the value is farther than the second term from every
half-integer; when the two products are integers below `2^53` in magnitude, as
is their difference, the three square-foot figures are exact. On
`lotarea=10000, builtfar=4.0`, `max_far=10.0` they are 60000, 40000 and 100000. -/
theorem far_remaining_buildable (bbl : String) (data : List PlutoRow) :
    (getFARData bbl data).lot_area_sf = ((data.head?.getD {}).lotarea).getD 0 ∧
    (getFARData bbl data).built_far = ((data.head?.getD {}).builtfar).getD 0 ∧
    (getFARData bbl data).max_far =
      max (((data.head?.getD {}).residfar).getD 0)
        (max (((data.head?.getD {}).commfar).getD 0) (((data.head?.getD {}).facilfar).getD 0)) ∧
    0 ≤ (getFARData bbl data).remaining_buildable_sf ∧
    |((getFARData bbl data).remaining_buildable_sf : ℚ) -
      max 0 ((getFARData bbl data).lot_area_sf * (getFARData bbl data).max_far -
        (getFARData bbl data).lot_area_sf * (getFARData bbl data).built_far)| ≤
      1 / 2 + (|(getFARData bbl data).lot_area_sf * (getFARData bbl data).max_far| +
        |(getFARData bbl data).lot_area_sf * (getFARData bbl data).built_far|) / 2 ^ 51 ∧
    ((∀ k : ℤ,
        (|(getFARData bbl data).lot_area_sf * (getFARData bbl data).max_far| +
          |(getFARData bbl data).lot_area_sf * (getFARData bbl data).built_far|) / 2 ^ 51 <
        |max 0 ((getFARData bbl data).lot_area_sf * (getFARData bbl data).max_far -
          (getFARData bbl data).lot_area_sf * (getFARData bbl data).built_far) -
            ((k : ℚ) + 1 / 2)|) →
      (getFARData bbl data).remaining_buildable_sf =
        jsRound (max 0 ((getFARData bbl data).lot_area_sf * (getFARData bbl data).max_far -
          (getFARData bbl data).lot_area_sf * (getFARData bbl data).built_far))) ∧
    (∀ a c : ℤ,
      (getFARData bbl data).lot_area_sf * (getFARData bbl data).max_far = (a : ℚ) →
      (getFARData bbl data).lot_area_sf * (getFARData bbl data).built_far = (c : ℚ) →
      |a| < 2 ^ 53 → |c| < 2 ^ 53 → |a - c| < 2 ^ 53 →
      (getFARData bbl data).remaining_buildable_sf = max 0 (a - c) ∧
      (getFARData bbl data).current_built_sf = c ∧
      (getFARData bbl data).max_buildable_sf = a) ∧
    (getFARData bbl [scenarioRow]).max_far = 10 ∧
    (getFARData bbl [scenarioRow]).remaining_buildable_sf = 60000 ∧
    (getFARData bbl [scenarioRow]).current_built_sf = 40000 ∧
    (getFARData bbl [scenarioRow]).max_buildable_sf = 100000 := by
  have hclose := le_trans
    (max_zero_close
      (toDouble
        (toDouble ((getFARData bbl data).lot_area_sf * (getFARData bbl data).max_far) -
          toDouble ((getFARData bbl data).lot_area_sf * (getFARData bbl data).built_far)))
      ((getFARData bbl data).lot_area_sf * (getFARData bbl data).max_far -
        (getFARData bbl data).lot_area_sf * (getFARData bbl data).built_far))
    (sub_close ((getFARData bbl data).lot_area_sf * (getFARData bbl data).max_far)
      ((getFARData bbl data).lot_area_sf * (getFARData bbl data).built_far))
  have hexact : ∀ (d : List PlutoRow) (a c : ℤ),
      (getFARData bbl d).lot_area_sf * (getFARData bbl d).max_far = (a : ℚ) →
      (getFARData bbl d).lot_area_sf * (getFARData bbl d).built_far = (c : ℚ) →
      |a| < 2 ^ 53 → |c| < 2 ^ 53 → |a - c| < 2 ^ 53 →
      (getFARData bbl d).remaining_buildable_sf = max 0 (a - c) ∧
      (getFARData bbl d).current_built_sf = c ∧
      (getFARData bbl d).max_buildable_sf = a := by
    intro d a c ha hc hal hcl hdl
    have hcur : (getFARData bbl d).current_built_sf =
        jsRound (toDouble ((getFARData bbl d).lot_area_sf * (getFARData bbl d).built_far)) := rfl
    have hmaxb : (getFARData bbl d).max_buildable_sf =
        jsRound (toDouble ((getFARData bbl d).lot_area_sf * (getFARData bbl d).max_far)) := rfl
    refine ⟨?_, ?_, ?_⟩
    · rw [getFARData_remaining, ha, hc, toDouble_intCast a hal, toDouble_intCast c hcl]
      have e : (a : ℚ) - (c : ℚ) = ((a - c : ℤ) : ℚ) := by push_cast; ring
      rw [e, toDouble_intCast (a - c) hdl]
      have e2 : max (0 : ℚ) ((a - c : ℤ) : ℚ) = ((max 0 (a - c) : ℤ) : ℚ) := by
        rw [Int.cast_max]
        simp
      rw [e2, jsRound_intCast]
    · rw [hcur, hc, toDouble_intCast c hcl, jsRound_intCast]
    · rw [hmaxb, ha, toDouble_intCast a hal, jsRound_intCast]
  have hsm := scenarioRow_max_far bbl
  have hsl : (getFARData bbl [scenarioRow]).lot_area_sf = 10000 := by
    norm_num [getFARData, scenarioRow, orZero]
  have hsb : (getFARData bbl [scenarioRow]).built_far = 4 := by
    norm_num [getFARData, scenarioRow, orZero]
  have hs := hexact [scenarioRow] 100000 40000 (by rw [hsl, hsm]; norm_num)
    (by rw [hsl, hsb]; norm_num) (by norm_num [abs_of_pos]) (by norm_num [abs_of_pos])
    (by norm_num [abs_of_pos])
  refine ⟨?_, ?_, ?_, ?_, ?_, ?_, hexact data, hsm, ?_, hs.2.1, hs.2.2⟩
  · simp [getFARData, orZero_eq]
  · simp [getFARData, orZero_eq]
  · simp [getFARData, orZero_eq]
  · exact jsRound_nonneg _ (le_max_left _ _)
  · rw [getFARData_remaining]
    exact jsRound_close _ _ _ hclose
  · intro haway
    rw [getFARData_remaining]
    exact jsRound_eq_of_away _ _ _ hclose haway
  · rw [hs.1]
    norm_num

/-- An instance of C4 (amended): lot area 5000, built FAR 2 and maximum FAR 3
give the integer products 15000 and 10000, so the remaining buildable area is
5000 square feet, of 15000, with 10000 built. -/
theorem far_remaining_buildable_witness :
    (getFARData "1008350029"
        [{ lotarea := some 5000, builtfar := some 2, residfar := some 3 }]).lot_area_sf *
      (getFARData "1008350029"
        [{ lotarea := some 5000, builtfar := some 2, residfar := some 3 }]).max_far =
        ((15000 : ℤ) : ℚ) ∧
    (getFARData "1008350029"
        [{ lotarea := some 5000, builtfar := some 2, residfar := some 3 }]).lot_area_sf *
      (getFARData "1008350029"
        [{ lotarea := some 5000, builtfar := some 2, residfar := some 3 }]).built_far =
        ((10000 : ℤ) : ℚ) ∧
    (getFARData "1008350029"
      [{ lotarea := some 5000, builtfar := some 2, residfar := some 3 }]).remaining_buildable_sf =
        5000 ∧
    (getFARData "1008350029"
      [{ lotarea := some 5000, builtfar := some 2, residfar := some 3 }]).current_built_sf =
        10000 ∧
    (getFARData "1008350029"
      [{ lotarea := some 5000, builtfar := some 2, residfar := some 3 }]).max_buildable_sf =
        15000 := by
  have ha : (getFARData "1008350029"
        [{ lotarea := some 5000, builtfar := some 2, residfar := some 3 }]).lot_area_sf *
      (getFARData "1008350029"
        [{ lotarea := some 5000, builtfar := some 2, residfar := some 3 }]).max_far =
        ((15000 : ℤ) : ℚ) := by
    norm_num [getFARData, orZero]
  have hc : (getFARData "1008350029"
        [{ lotarea := some 5000, builtfar := some 2, residfar := some 3 }]).lot_area_sf *
      (getFARData "1008350029"
        [{ lotarea := some 5000, builtfar := some 2, residfar := some 3 }]).built_far =
        ((10000 : ℤ) : ℚ) := by
    norm_num [getFARData, orZero]
  have h := (far_remaining_buildable "1008350029"
    [{ lotarea := some 5000, builtfar := some 2, residfar := some 3 }]).2.2.2.2.2.2.1
      15000 10000 ha hc (by norm_num [abs_of_pos]) (by norm_num [abs_of_pos])
      (by norm_num [abs_of_pos])
  refine ⟨ha, hc, ?_, h.2.1, h.2.2⟩
  rw [h.1]
  norm_num

/-- C5, as stated, fails: a row with built FAR 12 and maximum FAR 10 has
`max_far > 0` and `utilization_pct = 120`, above 100. -/
theorem far_utilization_above_100_counterexample :
    0 < (getFARData "1008350029"
      [{ lotarea := some 2500, builtfar := some 12, commfar := some 10 }]).max_far ∧
    (getFARData "1008350029"
      [{ lotarea := some 2500, builtfar := some 12, commfar := some 10 }]).utilization_pct =
        some 120 ∧
    ¬ (∀ u, (getFARData "1008350029"
        [{ lotarea := some 2500, builtfar := some 12, commfar := some 10 }]).utilization_pct =
          some u → 0 ≤ u ∧ u ≤ 100) := by
  have hb : (getFARData "1008350029"
      [{ lotarea := some 2500, builtfar := some 12, commfar := some 10 }]).built_far = 12 := by
    norm_num [getFARData, orZero]
  have hm : (getFARData "1008350029"
      [{ lotarea := some 2500, builtfar := some 12, commfar := some 10 }]).max_far = 10 := by
    norm_num [getFARData, orZero]
  have h : (getFARData "1008350029"
      [{ lotarea := some 2500, builtfar := some 12, commfar := some 10 }]).utilization_pct =
        some 120 := by
    rw [getFARData_utilization _ _ (by rw [hm]; norm_num), hb, hm, percent_12_10]
    norm_num [jsRound]
  refine ⟨by rw [hm]; norm_num, h, ?_⟩
  intro hall
  have := (hall 120 h).2
  omega

/-- C5 (amended). For every PLUTO row with `max_far > 0`, `utilization_pct` is
a finite integer `u`; `0 ≤ u` when `built_far ≥ 0`, `u ≤ 100` when
`built_far ≤ max_far`, and `u ≥ 100` when `built_far ≥ max_far`. -/
theorem far_utilization_bounds (bbl : String) (data : List PlutoRow)
    (hpos : 0 < (getFARData bbl data).max_far) :
    ∃ u, (getFARData bbl data).utilization_pct = some u ∧
      (0 ≤ (getFARData bbl data).built_far → 0 ≤ u) ∧
      ((getFARData bbl data).built_far ≤ (getFARData bbl data).max_far → u ≤ 100) ∧
      ((getFARData bbl data).max_far ≤ (getFARData bbl data).built_far → 100 ≤ u) := by
  refine ⟨_, getFARData_utilization bbl data hpos, ?_, ?_, ?_⟩
  · intro hb
    apply jsRound_nonneg
    apply toDouble_nonneg
    exact mul_nonneg (toDouble_nonneg _ (div_nonneg hb (le_of_lt hpos))) (by norm_num)
  · intro hb
    apply jsRound_le
    have h1 : (getFARData bbl data).built_far / (getFARData bbl data).max_far ≤ 1 :=
      (div_le_one hpos).mpr hb
    have h2 := toDouble_le_one _ h1
    have h3 := toDouble_le_hundred
      (toDouble ((getFARData bbl data).built_far / (getFARData bbl data).max_far) * 100)
      (by linarith)
    push_cast
    exact h3
  · intro hb
    apply jsRound_ge
    have h1 : 1 ≤ (getFARData bbl data).built_far / (getFARData bbl data).max_far :=
      (one_le_div hpos).mpr hb
    have h2 := toDouble_one_le _ h1
    have h3 := toDouble_hundred_le
      (toDouble ((getFARData bbl data).built_far / (getFARData bbl data).max_far) * 100)
      (by linarith)
    push_cast
    exact h3

/-- An instance of C5 (amended): built FAR 3 of a maximum of 4 gives a
utilization between 0 and 100. -/
theorem far_utilization_bounds_witness :
    0 < (getFARData "1008350029" [{ builtfar := some 3, residfar := some 4 }]).max_far ∧
    ∃ u, (getFARData "1008350029"
        [{ builtfar := some 3, residfar := some 4 }]).utilization_pct = some u ∧
      0 ≤ u ∧ u ≤ 100 := by
  have hpos : 0 < (getFARData "1008350029"
      [{ builtfar := some 3, residfar := some 4 }]).max_far := by
    norm_num [getFARData, orZero]
  obtain ⟨u, hu, h0, h100, _⟩ :=
    far_utilization_bounds "1008350029" [{ builtfar := some 3, residfar := some 4 }] hpos
  exact ⟨hpos, u, hu, h0 (by norm_num [getFARData, orZero]),
    h100 (by norm_num [getFARData, orZero])⟩

/-- C6, as stated, fails: a row with no FAR limits (so `max_far = 0`), lot area
1000 and a negative built FAR of −2 gets `remaining_buildable_sf = 2000`, not 0. -/
theorem far_zero_max_remaining_counterexample :
    (getFARData "1008350029" [{ lotarea := some 1000, builtfar := some (-2) }]).max_far = 0 ∧
    (getFARData "1008350029"
      [{ lotarea := some 1000, builtfar := some (-2) }]).remaining_buildable_sf = 2000 := by
  have hm : (getFARData "1008350029"
      [{ lotarea := some 1000, builtfar := some (-2) }]).max_far = 0 := by
    norm_num [getFARData, orZero]
  have hl : (getFARData "1008350029"
      [{ lotarea := some 1000, builtfar := some (-2) }]).lot_area_sf = 1000 := by
    norm_num [getFARData, orZero]
  have hb : (getFARData "1008350029"
      [{ lotarea := some 1000, builtfar := some (-2) }]).built_far = -2 := by
    norm_num [getFARData, orZero]
  have e1 : toDouble (-2000) = -2000 := by
    have := toDouble_intCast (-2000) (by norm_num [abs_of_neg])
    push_cast at this
    exact this
  have e2 : toDouble 2000 = 2000 := by
    have := toDouble_intCast 2000 (by norm_num [abs_of_pos])
    push_cast at this
    exact this
  refine ⟨hm, ?_⟩
  rw [getFARData_remaining, hm, hl, hb]
  norm_num [toDouble_zero, e1, e2, jsRound]

/-- C6 (amended). For every PLUTO row with `max_far = 0`, `utilization_pct = 0`,
and `remaining_buildable_sf = 0` provided `lot_area · built_far ≥ 0` (as for
non-negative lot area and built FAR); `utilization_pct` is a finite number for
every row (the quotient is never taken with a zero divisor); a row with no FAR
field has `max_far = 0`, `utilization_pct = 0` and `remaining_buildable_sf = 0`. -/
theorem far_zero_max (bbl : String) :
    (∀ data : List PlutoRow, (getFARData bbl data).max_far = 0 →
      (getFARData bbl data).utilization_pct = some 0 ∧
      (0 ≤ (getFARData bbl data).lot_area_sf * (getFARData bbl data).built_far →
        (getFARData bbl data).remaining_buildable_sf = 0)) ∧
    (∀ data : List PlutoRow, ∃ u, (getFARData bbl data).utilization_pct = some u) ∧
    (∀ lotarea : Option ℚ,
      (getFARData bbl [{ lotarea := lotarea }]).max_far = 0 ∧
      (getFARData bbl [{ lotarea := lotarea }]).utilization_pct = some 0 ∧
      (getFARData bbl [{ lotarea := lotarea }]).remaining_buildable_sf = 0) := by
  have hfirst : ∀ data : List PlutoRow, (getFARData bbl data).max_far = 0 →
      (getFARData bbl data).utilization_pct = some 0 ∧
      (0 ≤ (getFARData bbl data).lot_area_sf * (getFARData bbl data).built_far →
        (getFARData bbl data).remaining_buildable_sf = 0) := by
    intro data h0
    constructor
    · have hn : ¬ 0 < (getFARData bbl data).max_far := by
        rw [h0]
        exact lt_irrefl 0
      simp only [getFARData] at hn ⊢
      rw [if_neg hn]
    · intro hnn
      rw [getFARData_remaining, h0, mul_zero, toDouble_zero]
      have h1 := toDouble_nonneg _ hnn
      have h2 : toDouble (0 - toDouble
          ((getFARData bbl data).lot_area_sf * (getFARData bbl data).built_far)) ≤ 0 :=
        toDouble_nonpos _ (by linarith)
      rw [max_eq_left h2]
      norm_num [jsRound]
  refine ⟨hfirst, ?_, ?_⟩
  · intro data
    by_cases hpos : 0 < (getFARData bbl data).max_far
    · exact ⟨_, getFARData_utilization bbl data hpos⟩
    · simp only [getFARData] at hpos ⊢
      rw [if_neg hpos]
      exact ⟨_, rfl⟩
  · intro lotarea
    have hm : (getFARData bbl [{ lotarea := lotarea }]).max_far = 0 := by
      norm_num [getFARData, orZero]
    have hb : (getFARData bbl [{ lotarea := lotarea }]).built_far = 0 := by
      norm_num [getFARData, orZero]
    exact ⟨hm, (hfirst _ hm).1, (hfirst _ hm).2 (by rw [hb, mul_zero])⟩

/-- An instance of C6 (amended): an empty PLUTO response has `max_far = 0`, so
utilization and remaining buildable area are 0. -/
theorem far_zero_max_witness :
    (getFARData "1008350029" []).max_far = 0 ∧
    (getFARData "1008350029" []).utilization_pct = some 0 ∧
    (getFARData "1008350029" []).remaining_buildable_sf = 0 :=
  ⟨by norm_num [getFARData, orZero],
   ((far_zero_max "1008350029").1 [] (by norm_num [getFARData, orZero])).1,
   ((far_zero_max "1008350029").1 [] (by norm_num [getFARData, orZero])).2
     (by norm_num [getFARData, orZero])⟩

end ZolaAPI

namespace NycData

theorem falsyString_iff (s : Option String) :
    falsyString s = true ↔ (s = none ∨ s = some "") := by
  cases s with
  | none => simp [falsyString]
  | some t => simp [falsyString]

/-- The length of the spread array is the number of HPD violations whose current
status is not `CLOSE`, plus the number of DOB violations whose disposition date
is null or empty, plus the number of ECB violations whose status is not
`RESOLVE`. -/
theorem totalOpen_eq_counts (hpdViolations : List HpdViolation)
    (dobViolations : List DobViolation) (ecbViolations : List EcbViolation) :
    totalOpen hpdViolations dobViolations ecbViolations =
      hpdViolations.countP (fun v => decide (v.currentStatus ≠ some "CLOSE")) +
      dobViolations.countP
        (fun v => decide (v.dispositionDate = none ∨ v.dispositionDate = some "")) +
      ecbViolations.countP (fun v => decide (v.status ≠ some "RESOLVE")) := by
  have h1 : (fun v : HpdViolation => v.currentStatus != some "CLOSE") =
      (fun v => decide (v.currentStatus ≠ some "CLOSE")) := by
    funext v
    by_cases h : v.currentStatus = some "CLOSE" <;> simp [h]
  have h2 : (fun v : DobViolation => falsyString v.dispositionDate) =
      (fun v => decide (v.dispositionDate = none ∨ v.dispositionDate = some "")) := by
    funext v
    by_cases h : falsyString v.dispositionDate = true
    · rw [h]
      exact (decide_eq_true ((falsyString_iff _).mp h)).symm
    · have hf : falsyString v.dispositionDate = false := by simpa using h
      rw [hf]
      exact (decide_eq_false (fun hc => h ((falsyString_iff _).mpr hc))).symm
  have h3 : (fun v : EcbViolation => v.status != some "RESOLVE") =
      (fun v => decide (v.status ≠ some "RESOLVE")) := by
    funext v
    by_cases h : v.status = some "RESOLVE" <;> simp [h]
  simp only [totalOpen, openViolations, List.length_append, List.length_map,
    List.countP_eq_length_filter, h1, h2, h3]

end NycData

namespace ApiUsage

/-! ## Storage -/

theorem getItem_putItem_same (st : Storage) (key : String) (item : Item) :
    getItem (putItem st key item) key = some item := by
  induction st with
  | nil => simp [putItem, getItem]
  | cons kv rest ih =>
    obtain ⟨k, v⟩ := kv
    by_cases hk : k = key
    · simp [putItem, getItem, hk]
    · simp [putItem, getItem, hk, ih]

theorem getItem_putItem_ne (st : Storage) (key key' : String) (item : Item) (h : key ≠ key') :
    getItem (putItem st key item) key' = getItem st key' := by
  induction st with
  | nil => simp [putItem, getItem, h]
  | cons kv rest ih =>
    obtain ⟨k, v⟩ := kv
    by_cases hk : k = key
    · subst hk
      simp [putItem, getItem, h]
    · by_cases hk' : k = key'
      · subst hk'
        simp [putItem, getItem, hk]
      · simp [putItem, getItem, hk, hk', ih]

theorem getItem_removeItem_same (st : Storage) (key : String) :
    getItem (removeItem st key) key = none := by
  induction st with
  | nil => simp [removeItem, getItem]
  | cons kv rest ih =>
    obtain ⟨k, v⟩ := kv
    have ih' := ih
    simp only [removeItem] at ih'
    by_cases hk : k = key
    · simp only [removeItem, List.filter_cons, hk, ne_eq, not_true_eq_false, decide_False,
        Bool.false_eq_true, if_false]
      exact ih'
    · simp only [removeItem, List.filter_cons, hk, ne_eq, not_false_eq_true, decide_True,
        if_true, getItem, if_false]
      exact ih'

/-- A write is accepted, and the item is put, or rejected with
`QuotaExceededError`, and the content is unchanged. -/
theorem setItem_cases (quota : Storage → Bool) (st : Storage) (key : String) (item : Item) :
    (quota (putItem st key item) = true ∧
      setItem quota st key item = (.ok (), putItem st key item)) ∨
    (quota (putItem st key item) = false ∧
      setItem quota st key item = (.error Exn.quotaExceeded, st)) := by
  unfold setItem
  cases hq : quota (putItem st key item)
  · right
    simp
  · left
    simp

/-- A write under one key does not change what is stored under another key. -/
theorem getItem_setItem_ne (quota : Storage → Bool) (st : Storage) (key key' : String)
    (item : Item) (h : key ≠ key') :
    getItem (setItem quota st key item).2 key' = getItem st key' := by
  rcases setItem_cases quota st key item with ⟨_, h1⟩ | ⟨_, h1⟩
  · rw [h1]
    exact getItem_putItem_ne st key key' item h
  · rw [h1]

theorem getCacheKey_ne_usage (type identifier : String) :
    USAGE_KEY ≠ getCacheKey type identifier := by
  intro h
  have hd := congrArg String.data h
  simp only [getCacheKey, CACHE_PREFIX, USAGE_KEY, String.data_append] at hd
  have := congrArg (fun l => l.get? 1) hd
  simp at this

theorem getItem_initializeUsage (quota : Storage → Bool) (c : Clock) (st : Storage)
    (key : String) (h : USAGE_KEY ≠ key) :
    getItem (initializeUsage quota c st).2 key = getItem st key := by
  unfold initializeUsage
  rcases setItem_cases quota st USAGE_KEY (Item.usage (freshUsage c)) with ⟨_, h1⟩ | ⟨_, h1⟩
  · rw [h1]
    exact getItem_putItem_ne st USAGE_KEY key _ h
  · rw [h1]

theorem getItem_getUsageStats (quota : Storage → Bool) (c : Clock) (st : Storage)
    (key : String) (h : USAGE_KEY ≠ key) :
    getItem (getUsageStats quota c st).2 key = getItem st key := by
  unfold getUsageStats
  split
  · exact getItem_initializeUsage quota c st key h
  · split
    · exact getItem_initializeUsage quota c st key h
    · rfl
  · exact getItem_initializeUsage quota c st key h
  · split
    · exact getItem_initializeUsage quota c st key h
    · rfl

/-- Recording a call touches the ledger key only. -/
theorem getItem_trackApiCall (quota : Storage → Bool) (c : Clock) (endpoint : String)
    (cached : Bool) (st : Storage) (key : String) (h : USAGE_KEY ≠ key) :
    getItem (trackApiCall quota c endpoint cached st).2 key = getItem st key := by
  have hg := getItem_getUsageStats quota c st key h
  unfold trackApiCall
  revert hg
  cases getUsageStats quota c st with
  | mk r s1 =>
    cases r with
    | error e => exact fun hg => hg
    | ok usage =>
      intro hg
      rcases setItem_cases quota s1 USAGE_KEY
        (Item.usage (recordCall usage endpoint c.today cached)) with ⟨_, h1⟩ | ⟨_, h1⟩
      · simp only [h1]
        exact (getItem_putItem_ne s1 USAGE_KEY key _ h).trans hg
      · simp only [h1]
        exact hg

/-! ## `cachedFetch`: the two branches -/

/-- On a hit `cachedFetch` records the hit and returns the cached value; the
outside world is the one it was given. -/
theorem cachedFetch_hit {ω : Type} (quota : Storage → Bool) (c0 c1 : Clock)
    (type identifier : String) (fetchFn : ω → Except Exn JsVal × ω) (w : ω) (st : Storage)
    (h : truthy (getCached c0 type identifier st).1 = true) :
    cachedFetch quota c0 c1 type identifier fetchFn w st =
      match trackApiCall quota c0 type true (getCached c0 type identifier st).2 with
      | (.ok _, st2) => ⟨.ok ⟨(getCached c0 type identifier st).1, true⟩, st2, w⟩
      | (.error e, st2) => ⟨.error e, st2, w⟩ := by
  unfold cachedFetch
  rcases hgc : getCached c0 type identifier st with ⟨cached, st1⟩
  rw [hgc] at h
  simp only at h
  simp only [h, if_true]

/-- On a miss `cachedFetch` calls `fetchFn`, stores a successful result and
records a real call. -/
theorem cachedFetch_miss {ω : Type} (quota : Storage → Bool) (c0 c1 : Clock)
    (type identifier : String) (fetchFn : ω → Except Exn JsVal × ω) (w : ω) (st : Storage)
    (h : truthy (getCached c0 type identifier st).1 = false) :
    cachedFetch quota c0 c1 type identifier fetchFn w st =
      match fetchFn w with
      | (.ok data, w1) =>
          match trackApiCall quota c1 type false
              (setCache quota c1 type identifier data (getCached c0 type identifier st).2) with
          | (.ok _, st3) => ⟨.ok ⟨data, false⟩, st3, w1⟩
          | (.error e, st3) =>
              match trackApiCall quota c1 type false st3 with
              | (.ok _, st4) => ⟨.error e, st4, w1⟩
              | (.error e2, st4) => ⟨.error e2, st4, w1⟩
      | (.error e, w1) =>
          match trackApiCall quota c1 type false (getCached c0 type identifier st).2 with
          | (.ok _, st2) => ⟨.error e, st2, w1⟩
          | (.error e2, st2) => ⟨.error e2, st2, w1⟩ := by
  unfold cachedFetch
  rcases hgc : getCached c0 type identifier st with ⟨cached, st1⟩
  rw [hgc] at h
  simp only at h
  simp only [h, Bool.false_eq_true, if_false]

/-- A result flagged `fromCache` comes from the hit branch. -/
theorem cachedFetch_fromCache {ω : Type} (quota : Storage → Bool) (c0 c1 : Clock)
    (type identifier : String) (fetchFn : ω → Except Exn JsVal × ω) (w : ω) (st : Storage)
    (d : JsVal)
    (h : (cachedFetch quota c0 c1 type identifier fetchFn w st).result = .ok ⟨d, true⟩) :
    truthy d = true ∧ (getCached c0 type identifier st).1 = d := by
  cases ht : truthy (getCached c0 type identifier st).1
  · rw [cachedFetch_miss quota c0 c1 type identifier fetchFn w st ht] at h
    generalize fetchFn w = fr at h
    rcases fr with ⟨r, w1⟩
    cases r with
    | ok data =>
      simp only at h
      generalize trackApiCall quota c1 type false
        (setCache quota c1 type identifier data (getCached c0 type identifier st).2) = tr at h
      rcases tr with ⟨r2, s3⟩
      cases r2 with
      | ok u =>
        simp only [Except.ok.injEq, Fetched.mk.injEq, Bool.false_eq_true, and_false] at h
      | error e =>
        simp only at h
        generalize trackApiCall quota c1 type false s3 = tr2 at h
        rcases tr2 with ⟨r3, s4⟩
        cases r3 <;> simp at h
    | error e =>
      simp only at h
      generalize trackApiCall quota c1 type false (getCached c0 type identifier st).2 = tr at h
      rcases tr with ⟨r2, s2⟩
      cases r2 <;> simp at h
  · rw [cachedFetch_hit quota c0 c1 type identifier fetchFn w st ht] at h
    generalize trackApiCall quota c0 type true (getCached c0 type identifier st).2 = tr at h
    rcases tr with ⟨r, s2⟩
    cases r with
    | error e => simp at h
    | ok u =>
      simp only [Except.ok.injEq, Fetched.mk.injEq, and_true] at h
      rw [h] at ht
      exact ⟨ht, h⟩

/-! ## `getCached` -/

/-- An entry whose age does not exceed the TTL is served and kept. -/
theorem getCached_fresh (c : Clock) (type identifier : String) (st : Storage) (data : JsVal)
    (ts : Int) (hst : getItem st (getCacheKey type identifier) = some (Item.entry data ts))
    (hage : c.now - ts ≤ CACHE_DURATION) :
    getCached c type identifier st = (data, st) := by
  have hn : ¬ c.now - ts > CACHE_DURATION := not_lt.mpr hage
  simp only [getCached, hst, if_neg hn]

/-- An entry older than the TTL is removed and the read is a miss. -/
theorem getCached_stale (c : Clock) (type identifier : String) (st : Storage) (data : JsVal)
    (ts : Int) (hst : getItem st (getCacheKey type identifier) = some (Item.entry data ts))
    (hage : CACHE_DURATION < c.now - ts) :
    getCached c type identifier st =
      (some Json.null, removeItem st (getCacheKey type identifier)) := by
  have hn : c.now - ts > CACHE_DURATION := hage
  simp only [getCached, hst, if_pos hn]

/-- A truthy value returned by `getCached` is the data of a stored entry whose
age does not exceed the TTL, and the storage is left as it was. -/
theorem getCached_truthy (c : Clock) (type identifier : String) (st : Storage) (d : JsVal)
    (ht : truthy d = true) (hd : (getCached c type identifier st).1 = d) :
    ∃ ts, getItem st (getCacheKey type identifier) = some (Item.entry d ts) ∧
      c.now - ts ≤ CACHE_DURATION ∧ (getCached c type identifier st).2 = st := by
  unfold getCached at hd ⊢
  cases hst : getItem st (getCacheKey type identifier) with
  | none =>
    simp only [hst] at hd
    rw [← hd] at ht
    simp [truthy] at ht
  | some item =>
    cases item with
    | text s =>
      simp only [hst] at hd
      have hnull : some Json.null = d := by
        by_cases hs : s = ""
        · simpa [hs] using hd
        · simpa [hs] using hd
      rw [← hnull] at ht
      simp [truthy] at ht
    | usage u =>
      simp only [hst] at hd
      rw [← hd] at ht
      simp [truthy] at ht
    | entry data ts =>
      simp only [hst] at hd ⊢
      by_cases hage : c.now - ts > CACHE_DURATION
      · rw [if_pos hage] at hd
        simp only at hd
        rw [← hd] at ht
        simp [truthy] at ht
      · rw [if_neg hage] at hd ⊢
        simp only at hd
        exact ⟨ts, by rw [hd], not_lt.mp hage, rfl⟩

/-- C9, as stated, fails: an entry stored at 2024-01-15T12:00:00Z and read
exactly seven days later has an age equal to the TTL, not strictly less, yet
`getCached` serves it and leaves it in storage. -/
theorem get_cached_serves_at_ttl_counterexample :
    clockJan22.now - clockJan15.now = CACHE_DURATION ∧
    ¬ (clockJan22.now - clockJan15.now < CACHE_DURATION) ∧
    getCached clockJan22 "pluto" "1008350029"
        [(getCacheKey "pluto" "1008350029", Item.entry (some (Json.str "row")) clockJan15.now)] =
      (some (Json.str "row"),
        [(getCacheKey "pluto" "1008350029",
          Item.entry (some (Json.str "row")) clockJan15.now)]) := by
  refine ⟨by decide, by decide, ?_⟩
  exact getCached_fresh clockJan22 "pluto" "1008350029" _ (some (Json.str "row"))
    clockJan15.now (by simp [getItem]) (by decide)

/-- C9 (amended). Whenever `getCached`, and hence `cachedFetch`, serves a
stored value, `now − timestamp ≤ TTL` (7 days) holds at the moment of the read:
an entry of age exactly the TTL is still served. An entry whose age is strictly
greater than the TTL is stale: the read returns `null` and the entry is removed
from storage. -/
theorem get_cached_freshness (c : Clock) (type identifier : String) (st : Storage) :
    CACHE_DURATION = 604800000 ∧
    (∀ d : JsVal, truthy d = true → (getCached c type identifier st).1 = d →
      ∃ ts, getItem st (getCacheKey type identifier) = some (Item.entry d ts) ∧
        c.now - ts ≤ CACHE_DURATION ∧ (getCached c type identifier st).2 = st) ∧
    (∀ (data : JsVal) (ts : Int),
      getItem st (getCacheKey type identifier) = some (Item.entry data ts) →
      c.now - ts ≤ CACHE_DURATION → getCached c type identifier st = (data, st)) ∧
    (∀ (data : JsVal) (ts : Int),
      getItem st (getCacheKey type identifier) = some (Item.entry data ts) →
      CACHE_DURATION < c.now - ts →
      getCached c type identifier st =
        (some Json.null, removeItem st (getCacheKey type identifier)) ∧
      getItem (getCached c type identifier st).2 (getCacheKey type identifier) = none) ∧
    (∀ (ω : Type) (quota : Storage → Bool) (c1 : Clock) (fetchFn : ω → Except Exn JsVal × ω)
        (w : ω) (d : JsVal),
      (cachedFetch quota c c1 type identifier fetchFn w st).result = .ok ⟨d, true⟩ →
      ∃ ts, getItem st (getCacheKey type identifier) = some (Item.entry d ts) ∧
        c.now - ts ≤ CACHE_DURATION) := by
  refine ⟨by decide, ?_, ?_, ?_, ?_⟩
  · intro d ht hd
    exact getCached_truthy c type identifier st d ht hd
  · intro data ts hst hage
    exact getCached_fresh c type identifier st data ts hst hage
  · intro data ts hst hage
    have h := getCached_stale c type identifier st data ts hst hage
    refine ⟨h, ?_⟩
    rw [h]
    exact getItem_removeItem_same st _
  · intro ω quota c1 fetchFn w d hres
    obtain ⟨ht, hd⟩ := cachedFetch_fromCache quota c c1 type identifier fetchFn w st d hres
    obtain ⟨ts, h1, h2, _⟩ := getCached_truthy c type identifier st d ht hd
    exact ⟨ts, h1, h2⟩

/-- Instances of C9 (amended): an entry read one millisecond after the TTL has
elapsed is evicted, and an entry read exactly at the TTL is served. -/
theorem get_cached_freshness_witness :
    (getCached { clockJan22 with now := clockJan22.now + 1 } "pluto" "1008350029"
        [(getCacheKey "pluto" "1008350029",
          Item.entry (some (Json.str "row")) clockJan15.now)]).1 = some Json.null ∧
    getItem (getCached { clockJan22 with now := clockJan22.now + 1 } "pluto" "1008350029"
        [(getCacheKey "pluto" "1008350029",
          Item.entry (some (Json.str "row")) clockJan15.now)]).2
      (getCacheKey "pluto" "1008350029") = none ∧
    getCached clockJan22 "pluto" "1008350029"
        [(getCacheKey "pluto" "1008350029",
          Item.entry (some (Json.str "row")) clockJan15.now)] =
      (some (Json.str "row"),
        [(getCacheKey "pluto" "1008350029",
          Item.entry (some (Json.str "row")) clockJan15.now)]) := by
  have hst : getItem
      [(getCacheKey "pluto" "1008350029", Item.entry (some (Json.str "row")) clockJan15.now)]
      (getCacheKey "pluto" "1008350029") =
        some (Item.entry (some (Json.str "row")) clockJan15.now) := by
    simp [getItem]
  have h := (get_cached_freshness { clockJan22 with now := clockJan22.now + 1 } "pluto"
    "1008350029" _).2.2.2.1 (some (Json.str "row")) clockJan15.now hst (by decide)
  refine ⟨?_, h.2, ?_⟩
  · rw [h.1]
  · exact (get_cached_freshness clockJan22 "pluto" "1008350029" _).2.2.1
      (some (Json.str "row")) clockJan15.now hst (by decide)

/-! ## `setCache` and the ledger write -/

/-- When the browser accepts the entry, at once or after the sweep of old
entries, `setCache` leaves it stored under the cache key. -/
theorem getItem_setCache_written (quota : Storage → Bool) (c : Clock)
    (type identifier : String) (data : JsVal) (st : Storage)
    (h : quota (putItem st (getCacheKey type identifier) (Item.entry data c.now)) = true ∨
      quota (putItem (clearOldCache c st) (getCacheKey type identifier)
        (Item.entry data c.now)) = true) :
    getItem (setCache quota c type identifier data st) (getCacheKey type identifier) =
      some (Item.entry data c.now) := by
  unfold setCache
  rcases setItem_cases quota st (getCacheKey type identifier) (Item.entry data c.now) with
    ⟨_, h1⟩ | ⟨hq1, h1⟩
  · simp only [h1]
    exact getItem_putItem_same _ _ _
  · simp only [h1, if_true]
    rcases h with h | h
    · rw [hq1] at h
      exact absurd h (by decide)
    · rcases setItem_cases quota (clearOldCache c st) (getCacheKey type identifier)
        (Item.entry data c.now) with ⟨_, h2⟩ | ⟨hq2, _⟩
      · rw [h2]
        exact getItem_putItem_same _ _ _
      · rw [hq2] at h
        exact absurd h (by decide)

/-- A successful `trackApiCall` leaves the ledger it returns under the usage key. -/
theorem trackApiCall_ok_stored (quota : Storage → Bool) (c : Clock) (endpoint : String)
    (cached : Bool) (st : Storage) (u : Usage) (s : Storage)
    (h : trackApiCall quota c endpoint cached st = (.ok u, s)) :
    getItem s USAGE_KEY = some (Item.usage u) := by
  unfold trackApiCall at h
  generalize getUsageStats quota c st = g at h
  rcases g with ⟨r, s1⟩
  cases r with
  | error e => simp at h
  | ok usage =>
    simp only at h
    rcases setItem_cases quota s1 USAGE_KEY
      (Item.usage (recordCall usage endpoint c.today cached)) with ⟨_, h1⟩ | ⟨_, h1⟩
    · rw [h1] at h
      simp only [Prod.mk.injEq, Except.ok.injEq] at h
      rw [← h.1, ← h.2]
      exact getItem_putItem_same _ _ _
    · rw [h1] at h
      simp at h

/-- When storage never overflows, a stored ledger can always be read. -/
theorem getUsageStats_ok_of_stored (quota : Storage → Bool) (hq : ∀ s, quota s = true)
    (c : Clock) (st : Storage) (u0 : Usage) (hst : getItem st USAGE_KEY = some (Item.usage u0)) :
    ∃ u s, getUsageStats quota c st = (.ok u, s) := by
  unfold getUsageStats
  simp only [hst]
  by_cases hm : u0.month ≠ monthKey c
  · rw [if_pos hm]
    unfold initializeUsage
    rcases setItem_cases quota st USAGE_KEY (Item.usage (freshUsage c)) with ⟨_, h1⟩ | ⟨hq1, _⟩
    · rw [h1]
      exact ⟨_, _, rfl⟩
    · rw [hq _] at hq1
      exact absurd hq1 (by decide)
  · rw [if_neg hm]
    exact ⟨_, _, rfl⟩

/-- When storage never overflows and a ledger is stored, `trackApiCall` succeeds. -/
theorem trackApiCall_ok_of_stored (quota : Storage → Bool) (hq : ∀ s, quota s = true)
    (c : Clock) (endpoint : String) (cached : Bool) (st : Storage) (u0 : Usage)
    (hst : getItem st USAGE_KEY = some (Item.usage u0)) :
    ∃ u s, trackApiCall quota c endpoint cached st = (.ok u, s) := by
  obtain ⟨u1, s1, hg⟩ := getUsageStats_ok_of_stored quota hq c st u0 hst
  unfold trackApiCall
  rw [hg]
  simp only
  rcases setItem_cases quota s1 USAGE_KEY
    (Item.usage (recordCall u1 endpoint c.today cached)) with ⟨_, h1⟩ | ⟨hq1, _⟩
  · rw [h1]
    exact ⟨_, _, rfl⟩
  · rw [hq _] at hq1
    exact absurd hq1 (by decide)

/-! ## A miss followed by a read -/

/-- After a miss with a successful fetch, the cache key holds what `setCache` left there. -/
theorem cachedFetch_miss_cache_key {ω : Type} (quota : Storage → Bool) (c0 c1 : Clock)
    (type identifier : String) (fetchFn : ω → Except Exn JsVal × ω) (w w1 : ω) (st : Storage)
    (v : JsVal) (hmiss : truthy (getCached c0 type identifier st).1 = false)
    (hfetch : fetchFn w = (.ok v, w1)) :
    getItem (cachedFetch quota c0 c1 type identifier fetchFn w st).storage
        (getCacheKey type identifier) =
      getItem (setCache quota c1 type identifier v (getCached c0 type identifier st).2)
        (getCacheKey type identifier) := by
  have hne := getCacheKey_ne_usage type identifier
  rw [cachedFetch_miss quota c0 c1 type identifier fetchFn w st hmiss, hfetch]
  simp only
  have h1 := getItem_trackApiCall quota c1 type false
    (setCache quota c1 type identifier v (getCached c0 type identifier st).2) _ hne
  revert h1
  generalize trackApiCall quota c1 type false
    (setCache quota c1 type identifier v (getCached c0 type identifier st).2) = tr
  rcases tr with ⟨r, s3⟩
  cases r with
  | ok u => exact fun h1 => h1
  | error e =>
    intro h1
    simp only at h1 ⊢
    have h2 := getItem_trackApiCall quota c1 type false s3 _ hne
    revert h2
    generalize trackApiCall quota c1 type false s3 = tr2
    rcases tr2 with ⟨r2, s4⟩
    cases r2 with
    | ok u2 => exact fun h2 => h2.trans h1
    | error e2 => exact fun h2 => h2.trans h1

/-- After a miss that returns normally, the ledger is stored under the usage key. -/
theorem cachedFetch_miss_ok_ledger {ω : Type} (quota : Storage → Bool) (c0 c1 : Clock)
    (type identifier : String) (fetchFn : ω → Except Exn JsVal × ω) (w w1 : ω) (st : Storage)
    (v : JsVal) (r : Fetched) (hmiss : truthy (getCached c0 type identifier st).1 = false)
    (hfetch : fetchFn w = (.ok v, w1))
    (hok : (cachedFetch quota c0 c1 type identifier fetchFn w st).result = .ok r) :
    ∃ u, getItem (cachedFetch quota c0 c1 type identifier fetchFn w st).storage USAGE_KEY =
      some (Item.usage u) := by
  rw [cachedFetch_miss quota c0 c1 type identifier fetchFn w st hmiss, hfetch] at hok ⊢
  simp only at hok ⊢
  have h1 := trackApiCall_ok_stored quota c1 type false
    (setCache quota c1 type identifier v (getCached c0 type identifier st).2)
  revert h1 hok
  generalize trackApiCall quota c1 type false
    (setCache quota c1 type identifier v (getCached c0 type identifier st).2) = tr
  rcases tr with ⟨r1, s3⟩
  cases r1 with
  | ok u =>
    intro _ h1
    exact ⟨u, h1 u s3 rfl⟩
  | error e =>
    intro hok _
    simp only at hok
    revert hok
    generalize trackApiCall quota c1 type false s3 = tr2
    rcases tr2 with ⟨r2, s4⟩
    cases r2 <;> simp

/-- C8, as stated, fails for a falsy value: `fetchFn` succeeds with `null` (as
`getZoningInfo` does for a lot without zoning row), the entry is written, and
the next call for the same key, issued with no time elapsed, is again a miss:
`fetchFn` is invoked a second time and `fromCache` is false. The world counts
the invocations of `fetchFn`. -/
theorem cached_fetch_null_never_hits_counterexample :
    (cachedFetch (fun _ => true) clockJan15 clockJan15 "zoning" "1008350029"
        (fun n : Nat => (.ok (some Json.null), n + 1)) 0 []).world = 1 ∧
    getItem (cachedFetch (fun _ => true) clockJan15 clockJan15 "zoning" "1008350029"
        (fun n : Nat => (.ok (some Json.null), n + 1)) 0 []).storage
      (getCacheKey "zoning" "1008350029") = some (Item.entry (some Json.null) clockJan15.now) ∧
    (cachedFetch (fun _ => true) clockJan15 clockJan15 "zoning" "1008350029"
        (fun n : Nat => (.ok (some Json.null), n + 1)) 1
        (cachedFetch (fun _ => true) clockJan15 clockJan15 "zoning" "1008350029"
          (fun n : Nat => (.ok (some Json.null), n + 1)) 0 []).storage).world = 2 ∧
    ∃ d, (cachedFetch (fun _ => true) clockJan15 clockJan15 "zoning" "1008350029"
        (fun n : Nat => (.ok (some Json.null), n + 1)) 1
        (cachedFetch (fun _ => true) clockJan15 clockJan15 "zoning" "1008350029"
          (fun n : Nat => (.ok (some Json.null), n + 1)) 0 []).storage).result =
      .ok ⟨d, false⟩ := by
  refine ⟨rfl, rfl, rfl, ⟨_, rfl⟩⟩

/-- C8 (amended). Let `cachedFetch(type, identifier, fetchFn)` miss, `fetchFn`
succeed with a truthy value `v`, and the browser accept the cache entry (at
once or after the sweep of old entries). Then the entry `{ data: v, timestamp }`
is stored, and the next `cachedFetch` for the same pair, run on the storage the
first call left and at a time with `now − timestamp ≤ TTL`, reads `v` from the
cache and does not invoke its `fetchFn`; it returns `{ data: v, fromCache: true }`
when the hit can be recorded in the ledger, in particular when storage never
overflows and the first call returned normally, and otherwise throws the
exception of the ledger update. -/
theorem cached_fetch_hit_after_miss {ω : Type} (quota : Storage → Bool) (c0 c1 c2 c3 : Clock)
    (type identifier : String) (fetchFn fetchFn2 : ω → Except Exn JsVal × ω) (w w1 w2 : ω)
    (st : Storage) (v : JsVal)
    (hmiss : truthy (getCached c0 type identifier st).1 = false)
    (hfetch : fetchFn w = (.ok v, w1))
    (hv : truthy v = true)
    (hwritten :
      quota (putItem (getCached c0 type identifier st).2 (getCacheKey type identifier)
        (Item.entry v c1.now)) = true ∨
      quota (putItem (clearOldCache c1 (getCached c0 type identifier st).2)
        (getCacheKey type identifier) (Item.entry v c1.now)) = true)
    (httl : c2.now - c1.now ≤ CACHE_DURATION) :
    getItem (cachedFetch quota c0 c1 type identifier fetchFn w st).storage
        (getCacheKey type identifier) = some (Item.entry v c1.now) ∧
    getCached c2 type identifier (cachedFetch quota c0 c1 type identifier fetchFn w st).storage =
      (v, (cachedFetch quota c0 c1 type identifier fetchFn w st).storage) ∧
    (cachedFetch quota c2 c3 type identifier fetchFn2 w2
      (cachedFetch quota c0 c1 type identifier fetchFn w st).storage).world = w2 ∧
    (∀ u s, trackApiCall quota c2 type true
        (cachedFetch quota c0 c1 type identifier fetchFn w st).storage = (.ok u, s) →
      (cachedFetch quota c2 c3 type identifier fetchFn2 w2
        (cachedFetch quota c0 c1 type identifier fetchFn w st).storage).result =
          .ok ⟨v, true⟩) ∧
    (∀ e s, trackApiCall quota c2 type true
        (cachedFetch quota c0 c1 type identifier fetchFn w st).storage = (.error e, s) →
      (cachedFetch quota c2 c3 type identifier fetchFn2 w2
        (cachedFetch quota c0 c1 type identifier fetchFn w st).storage).result = .error e) ∧
    ((∀ s, quota s = true) →
      (cachedFetch quota c0 c1 type identifier fetchFn w st).result = .ok ⟨v, false⟩ →
      (cachedFetch quota c2 c3 type identifier fetchFn2 w2
        (cachedFetch quota c0 c1 type identifier fetchFn w st).storage).result =
          .ok ⟨v, true⟩) := by
  have hstored : getItem (cachedFetch quota c0 c1 type identifier fetchFn w st).storage
      (getCacheKey type identifier) = some (Item.entry v c1.now) := by
    rw [cachedFetch_miss_cache_key quota c0 c1 type identifier fetchFn w w1 st v hmiss hfetch]
    exact getItem_setCache_written quota c1 type identifier v _ hwritten
  have hread := getCached_fresh c2 type identifier _ v c1.now hstored httl
  have hhit : truthy (getCached c2 type identifier
      (cachedFetch quota c0 c1 type identifier fetchFn w st).storage).1 = true := by
    rw [hread]
    exact hv
  have hsecond := cachedFetch_hit quota c2 c3 type identifier fetchFn2 w2
    (cachedFetch quota c0 c1 type identifier fetchFn w st).storage hhit
  rw [hread] at hsecond
  simp only at hsecond
  have hok : ∀ u s, trackApiCall quota c2 type true
      (cachedFetch quota c0 c1 type identifier fetchFn w st).storage = (.ok u, s) →
      (cachedFetch quota c2 c3 type identifier fetchFn2 w2
        (cachedFetch quota c0 c1 type identifier fetchFn w st).storage).result =
          .ok ⟨v, true⟩ := by
    intro u s htr
    rw [hsecond, htr]
  refine ⟨hstored, hread, ?_, hok, ?_, ?_⟩
  · rw [hsecond]
    generalize trackApiCall quota c2 type true
      (cachedFetch quota c0 c1 type identifier fetchFn w st).storage = tr
    rcases tr with ⟨r, s⟩
    cases r <;> rfl
  · intro e s htr
    rw [hsecond, htr]
  · intro hq hfirst
    obtain ⟨u0, hu0⟩ := cachedFetch_miss_ok_ledger quota c0 c1 type identifier fetchFn w w1 st v
      _ hmiss hfetch hfirst
    obtain ⟨u, s, htr⟩ := trackApiCall_ok_of_stored quota hq c2 type true _ u0 hu0
    exact hok u s htr

/-- An instance of C8 (amended): a PLUTO row fetched on 2024-01-15 into an empty
storage that never overflows is served from the cache seven days later, without
a second request. The world counts the invocations of `fetchFn`. -/
theorem cached_fetch_hit_after_miss_witness :
    (cachedFetch (fun _ => true) clockJan22 clockJan22 "pluto" "1008350029"
        (fun n : Nat => (.ok (some (Json.str "row")), n + 1)) 1
        (cachedFetch (fun _ => true) clockJan15 clockJan15 "pluto" "1008350029"
          (fun n : Nat => (.ok (some (Json.str "row")), n + 1)) 0 []).storage).world = 1 ∧
    (cachedFetch (fun _ => true) clockJan22 clockJan22 "pluto" "1008350029"
        (fun n : Nat => (.ok (some (Json.str "row")), n + 1)) 1
        (cachedFetch (fun _ => true) clockJan15 clockJan15 "pluto" "1008350029"
          (fun n : Nat => (.ok (some (Json.str "row")), n + 1)) 0 []).storage).result =
      .ok ⟨some (Json.str "row"), true⟩ := by
  have h := cached_fetch_hit_after_miss (fun _ => true) clockJan15 clockJan15 clockJan22
    clockJan22 "pluto" "1008350029" (fun n : Nat => (.ok (some (Json.str "row")), n + 1))
    (fun n : Nat => (.ok (some (Json.str "row")), n + 1)) 0 1 1 [] (some (Json.str "row"))
    rfl rfl rfl (Or.inl rfl) (by decide)
  exact ⟨h.2.2.1, h.2.2.2.2.2 (fun _ => rfl) rfl⟩

/-! ## Counters of the ledger -/

theorem lookupCounter_modifyCounter_same (m : List (String × Counter)) (key : String)
    (f : Counter → Counter) :
    lookupCounter (modifyCounter m key f) key = (lookupCounter m key).map f := by
  induction m with
  | nil => simp [modifyCounter, lookupCounter]
  | cons kv rest ih =>
    obtain ⟨k, v⟩ := kv
    by_cases hk : k = key
    · simp [modifyCounter, lookupCounter, hk]
    · simp [modifyCounter, lookupCounter, hk, ih]

theorem lookupCounter_modifyCounter_ne (m : List (String × Counter)) (key k' : String)
    (f : Counter → Counter) (h : k' ≠ key) :
    lookupCounter (modifyCounter m key f) k' = lookupCounter m k' := by
  induction m with
  | nil => simp [modifyCounter, lookupCounter]
  | cons kv rest ih =>
    obtain ⟨k, v⟩ := kv
    by_cases hk : k = key
    · subst hk
      have hne : ¬ k = k' := fun e => h e.symm
      simp [modifyCounter, lookupCounter, hne]
    · by_cases hk' : k = k'
      · subst hk'
        simp [modifyCounter, lookupCounter, hk]
      · simp [modifyCounter, lookupCounter, hk, hk', ih]

theorem lookupCounter_append (m : List (String × Counter)) (key k' : String) (v : Counter) :
    lookupCounter (m ++ [(key, v)]) k' =
      match lookupCounter m k' with
      | some x => some x
      | none => if key = k' then some v else none := by
  induction m with
  | nil => simp [lookupCounter]
  | cons kv rest ih =>
    obtain ⟨k, x⟩ := kv
    by_cases hk : k = k'
    · simp [lookupCounter, hk]
    · simp [lookupCounter, hk, ih]

/-- After the update the counter of `key` is the old one (a zero counter when
there was none) incremented. -/
theorem lookupCounter_bumpAt_same (m : List (String × Counter)) (key : String) (cached : Bool) :
    lookupCounter (bumpAt m key cached) key =
      some (Counter.bump cached ((lookupCounter m key).getD ⟨0, 0⟩)) := by
  unfold bumpAt
  simp only
  rw [lookupCounter_modifyCounter_same]
  cases h : lookupCounter m key with
  | none => simp [lookupCounter_append, h]
  | some x => simp [h]

/-- The update leaves the counters of the other keys as they were. -/
theorem lookupCounter_bumpAt_ne (m : List (String × Counter)) (key k' : String) (cached : Bool)
    (h : k' ≠ key) :
    lookupCounter (bumpAt m key cached) k' = lookupCounter m k' := by
  unfold bumpAt
  simp only
  rw [lookupCounter_modifyCounter_ne _ _ _ _ h]
  cases hl : lookupCounter m key with
  | none =>
    have hne : ¬ key = k' := fun e => h e.symm
    simp only [Option.isNone_none, if_true, lookupCounter_append, hne, if_false]
    cases lookupCounter m k' <;> rfl
  | some x => simp

/-! ## The effect of a hit -/

/-- C10, as stated, fails when storage is full: with a quota of one stored item
and the cache entry as that item, the read is a hit, but writing the ledger
overflows, `trackApiCall` throws `QuotaExceededError`, and `cachedFetch` rejects
instead of returning the stored value; no hit is recorded. -/
theorem cached_fetch_hit_ledger_overflow_counterexample :
    truthy (getCached clockJan15 "pluto" "1008350029"
      [(getCacheKey "pluto" "1008350029",
        Item.entry (some (Json.str "row")) clockJan15.now)]).1 = true ∧
    (cachedFetch (fun s => decide (s.length ≤ 1)) clockJan15 clockJan15 "pluto" "1008350029"
        (fun n : Nat => (.ok (some (Json.str "row")), n + 1)) 0
        [(getCacheKey "pluto" "1008350029",
          Item.entry (some (Json.str "row")) clockJan15.now)]).result =
      .error Exn.quotaExceeded ∧
    getItem (cachedFetch (fun s => decide (s.length ≤ 1)) clockJan15 clockJan15 "pluto"
        "1008350029" (fun n : Nat => (.ok (some (Json.str "row")), n + 1)) 0
        [(getCacheKey "pluto" "1008350029",
          Item.entry (some (Json.str "row")) clockJan15.now)]).storage USAGE_KEY = none := by
  refine ⟨rfl, rfl, rfl⟩

/-- C10 (amended). On a cache hit `cachedFetch` never invokes `fetchFn` (the
outside world is unchanged), the value it handles is the stored one, and the
cache entry is left as it was. When the ledger can be read and the browser
accepts the updated ledger, it returns the stored value with `fromCache = true`
and records exactly one cache hit: relative to the ledger `getUsageStats` reads
at that moment, `cachedHits` and the endpoint's and today's `cached` counters
each grow by 1 while `totalCalls` and every `calls` counter, and the counters of
the other endpoints and dates, are unchanged. When the ledger write overflows
storage, or the ledger cannot be read, the call throws that exception. -/
theorem cached_fetch_hit_effect {ω : Type} (quota : Storage → Bool) (c0 c1 : Clock)
    (type identifier : String) (fetchFn : ω → Except Exn JsVal × ω) (w : ω) (st : Storage)
    (hhit : truthy (getCached c0 type identifier st).1 = true) :
    (cachedFetch quota c0 c1 type identifier fetchFn w st).world = w ∧
    (∃ ts, getItem st (getCacheKey type identifier) =
        some (Item.entry (getCached c0 type identifier st).1 ts) ∧
      c0.now - ts ≤ CACHE_DURATION) ∧
    getItem (cachedFetch quota c0 c1 type identifier fetchFn w st).storage
      (getCacheKey type identifier) = getItem st (getCacheKey type identifier) ∧
    (∀ u0 s0, getUsageStats quota c0 st = (.ok u0, s0) →
      quota (putItem s0 USAGE_KEY (Item.usage (recordCall u0 type c0.today true))) = true →
      (cachedFetch quota c0 c1 type identifier fetchFn w st).result =
        .ok ⟨(getCached c0 type identifier st).1, true⟩ ∧
      ∃ u, getItem (cachedFetch quota c0 c1 type identifier fetchFn w st).storage USAGE_KEY =
          some (Item.usage u) ∧
        u.cachedHits = u0.cachedHits + 1 ∧
        u.totalCalls = u0.totalCalls ∧
        lookupCounter u.byEndpoint type =
          some ⟨((lookupCounter u0.byEndpoint type).getD ⟨0, 0⟩).calls,
            ((lookupCounter u0.byEndpoint type).getD ⟨0, 0⟩).cached + 1⟩ ∧
        lookupCounter u.byDate c0.today =
          some ⟨((lookupCounter u0.byDate c0.today).getD ⟨0, 0⟩).calls,
            ((lookupCounter u0.byDate c0.today).getD ⟨0, 0⟩).cached + 1⟩ ∧
        (∀ e, e ≠ type → lookupCounter u.byEndpoint e = lookupCounter u0.byEndpoint e) ∧
        (∀ d, d ≠ c0.today → lookupCounter u.byDate d = lookupCounter u0.byDate d)) ∧
    (∀ u0 s0, getUsageStats quota c0 st = (.ok u0, s0) →
      quota (putItem s0 USAGE_KEY (Item.usage (recordCall u0 type c0.today true))) = false →
      (cachedFetch quota c0 c1 type identifier fetchFn w st).result =
        .error Exn.quotaExceeded ∧
      (cachedFetch quota c0 c1 type identifier fetchFn w st).storage = s0) ∧
    (∀ e s0, getUsageStats quota c0 st = (.error e, s0) →
      (cachedFetch quota c0 c1 type identifier fetchFn w st).result = .error e) := by
  obtain ⟨ts, hts, hage, hsame⟩ :=
    getCached_truthy c0 type identifier st _ hhit rfl
  have hcf := cachedFetch_hit quota c0 c1 type identifier fetchFn w st hhit
  rw [hsame] at hcf
  refine ⟨?_, ⟨ts, hts, hage⟩, ?_, ?_, ?_, ?_⟩
  · rw [hcf]
    generalize trackApiCall quota c0 type true st = tr
    rcases tr with ⟨r, s⟩
    cases r <;> rfl
  · have h1 := getItem_trackApiCall quota c0 type true st _ (getCacheKey_ne_usage type identifier)
    rw [hcf]
    revert h1
    generalize trackApiCall quota c0 type true st = tr
    rcases tr with ⟨r, s⟩
    cases r <;> exact fun h1 => h1
  · intro u0 s0 hg hq
    have htr : trackApiCall quota c0 type true st =
        (.ok (recordCall u0 type c0.today true),
          putItem s0 USAGE_KEY (Item.usage (recordCall u0 type c0.today true))) := by
      unfold trackApiCall
      rw [hg]
      simp only [setItem, hq, if_true]
    rw [hcf, htr]
    refine ⟨rfl, recordCall u0 type c0.today true, getItem_putItem_same _ _ _, ?_, ?_, ?_, ?_,
      ?_, ?_⟩
    · simp [recordCall]
    · simp [recordCall]
    · simp only [recordCall]
      rw [lookupCounter_bumpAt_same]
      simp [Counter.bump]
    · simp only [recordCall]
      rw [lookupCounter_bumpAt_same]
      simp [Counter.bump]
    · intro e he
      simp only [recordCall]
      exact lookupCounter_bumpAt_ne _ _ _ _ he
    · intro d hd
      simp only [recordCall]
      exact lookupCounter_bumpAt_ne _ _ _ _ hd
  · intro u0 s0 hg hq
    have htr : trackApiCall quota c0 type true st = (.error Exn.quotaExceeded, s0) := by
      unfold trackApiCall
      rw [hg]
      simp [setItem, hq]
    rw [hcf, htr]
    exact ⟨rfl, rfl⟩
  · intro e s0 hg
    have htr : trackApiCall quota c0 type true st = (.error e, s0) := by
      unfold trackApiCall
      rw [hg]
    rw [hcf, htr]

/-- An instance of C10 (amended): a hit on a storage that holds the cache entry
and no ledger, with room for the ledger, returns the stored row and leaves a
ledger with one cache hit and no real call. -/
theorem cached_fetch_hit_effect_witness :
    (cachedFetch (fun _ => true) clockJan15 clockJan15 "pluto" "1008350029"
        (fun n : Nat => (.ok (some (Json.str "other")), n + 1)) 0
        [(getCacheKey "pluto" "1008350029",
          Item.entry (some (Json.str "row")) clockJan15.now)]).world = 0 ∧
    (cachedFetch (fun _ => true) clockJan15 clockJan15 "pluto" "1008350029"
        (fun n : Nat => (.ok (some (Json.str "other")), n + 1)) 0
        [(getCacheKey "pluto" "1008350029",
          Item.entry (some (Json.str "row")) clockJan15.now)]).result =
      .ok ⟨some (Json.str "row"), true⟩ ∧
    ∃ u, getItem (cachedFetch (fun _ => true) clockJan15 clockJan15 "pluto" "1008350029"
        (fun n : Nat => (.ok (some (Json.str "other")), n + 1)) 0
        [(getCacheKey "pluto" "1008350029",
          Item.entry (some (Json.str "row")) clockJan15.now)]).storage USAGE_KEY =
        some (Item.usage u) ∧ u.cachedHits = 1 ∧ u.totalCalls = 0 := by
  have h := cached_fetch_hit_effect (fun _ => true) clockJan15 clockJan15 "pluto" "1008350029"
    (fun n : Nat => (.ok (some (Json.str "other")), n + 1)) 0
    [(getCacheKey "pluto" "1008350029", Item.entry (some (Json.str "row")) clockJan15.now)] rfl
  obtain ⟨hres, u, hu, hc, ht, _⟩ := h.2.2.2.1 (freshUsage clockJan15) _ rfl rfl
  exact ⟨h.1, hres, u, hu, hc, ht⟩

/-! ## A failed fetch -/

/-- The read leaves under the cache key what was there, or nothing. -/
theorem getCached_storage_key (c : Clock) (type identifier : String) (st : Storage) :
    getItem (getCached c type identifier st).2 (getCacheKey type identifier) =
        getItem st (getCacheKey type identifier) ∨
      getItem (getCached c type identifier st).2 (getCacheKey type identifier) = none := by
  cases hst : getItem st (getCacheKey type identifier) with
  | none =>
    left
    simp only [getCached, hst]
  | some item =>
    cases item with
    | usage u =>
      left
      simp only [getCached, hst]
    | text s =>
      by_cases hs : s = ""
      · left
        simp only [getCached, hst, if_pos hs]
      · right
        simp only [getCached, hst, if_neg hs]
        exact getItem_removeItem_same st _
    | entry data ts =>
      by_cases hage : c.now - ts > CACHE_DURATION
      · right
        simp only [getCached, hst, if_pos hage]
        exact getItem_removeItem_same st _
      · left
        simp only [getCached, hst, if_neg hage]

/-- On a miss with a failed fetch, `cachedFetch` records a call and rethrows. -/
theorem cachedFetch_miss_error {ω : Type} (quota : Storage → Bool) (c0 c1 : Clock)
    (type identifier : String) (fetchFn : ω → Except Exn JsVal × ω) (w w1 : ω) (st : Storage)
    (e : Exn) (hmiss : truthy (getCached c0 type identifier st).1 = false)
    (hfetch : fetchFn w = (.error e, w1)) :
    cachedFetch quota c0 c1 type identifier fetchFn w st =
      match trackApiCall quota c1 type false (getCached c0 type identifier st).2 with
      | (.ok _, st2) => ⟨.error e, st2, w1⟩
      | (.error e2, st2) => ⟨.error e2, st2, w1⟩ := by
  rw [cachedFetch_miss quota c0 c1 type identifier fetchFn w st hmiss, hfetch]

/-- C11, as stated, fails in two ways. With storage full (a quota of one item,
taken by another key) `fetchFn` fails with `HTTP 503`, but recording the call
overflows storage: `cachedFetch` rejects with `QuotaExceededError`, not with the
error of `fetchFn`, and no call is recorded. And when the miss is due to an
expired entry, the read evicts that entry, so the storage for the pair is not
what it was before the call. -/
theorem cached_fetch_failure_counterexample :
    (cachedFetch (fun s => decide (s.length ≤ 1)) clockJan15 clockJan15 "hpd" "1008350029"
        (fun n : Nat => (.error (Exn.fetchFailed "HTTP 503"), n + 1)) 0
        [("dealflow_settings", Item.text "dark")]).result = .error Exn.quotaExceeded ∧
    getItem (cachedFetch (fun s => decide (s.length ≤ 1)) clockJan15 clockJan15 "hpd"
        "1008350029" (fun n : Nat => (.error (Exn.fetchFailed "HTTP 503"), n + 1)) 0
        [("dealflow_settings", Item.text "dark")]).storage USAGE_KEY = none ∧
    getItem [(getCacheKey "hpd" "1008350029", Item.entry (some (Json.str "rows")) 0)]
      (getCacheKey "hpd" "1008350029") = some (Item.entry (some (Json.str "rows")) 0) ∧
    getItem (cachedFetch (fun _ => true) clockJan15 clockJan15 "hpd" "1008350029"
        (fun n : Nat => (.error (Exn.fetchFailed "HTTP 503"), n + 1)) 0
        [(getCacheKey "hpd" "1008350029", Item.entry (some (Json.str "rows")) 0)]).storage
      (getCacheKey "hpd" "1008350029") = none := by
  refine ⟨rfl, rfl, rfl, rfl⟩

/-- C11 (amended). If `fetchFn` fails on a cache miss, `cachedFetch` writes no
cache entry: the storage for the pair is what the read left (an expired or
unparsable entry is evicted by the read, anything else is untouched). When the
ledger can be read and the browser accepts the updated ledger, it propagates
the error of `fetchFn` and records exactly one real call: relative to the ledger
`getUsageStats` reads at that moment, `totalCalls` and the endpoint's and
today's `calls` counters grow by 1 while `cachedHits` and every `cached` counter
are unchanged. When the ledger write overflows storage, or the ledger cannot be
read, the call rejects with that exception instead. -/
theorem cached_fetch_failure_effect {ω : Type} (quota : Storage → Bool) (c0 c1 : Clock)
    (type identifier : String) (fetchFn : ω → Except Exn JsVal × ω) (w w1 : ω) (st : Storage)
    (e : Exn) (hmiss : truthy (getCached c0 type identifier st).1 = false)
    (hfetch : fetchFn w = (.error e, w1)) :
    (cachedFetch quota c0 c1 type identifier fetchFn w st).world = w1 ∧
    getItem (cachedFetch quota c0 c1 type identifier fetchFn w st).storage
        (getCacheKey type identifier) =
      getItem (getCached c0 type identifier st).2 (getCacheKey type identifier) ∧
    (∀ item, getItem (cachedFetch quota c0 c1 type identifier fetchFn w st).storage
        (getCacheKey type identifier) = some item →
      getItem st (getCacheKey type identifier) = some item) ∧
    (∀ u0 s0, getUsageStats quota c1 (getCached c0 type identifier st).2 = (.ok u0, s0) →
      quota (putItem s0 USAGE_KEY (Item.usage (recordCall u0 type c1.today false))) = true →
      (cachedFetch quota c0 c1 type identifier fetchFn w st).result = .error e ∧
      ∃ u, getItem (cachedFetch quota c0 c1 type identifier fetchFn w st).storage USAGE_KEY =
          some (Item.usage u) ∧
        u.totalCalls = u0.totalCalls + 1 ∧
        u.cachedHits = u0.cachedHits ∧
        lookupCounter u.byEndpoint type =
          some ⟨((lookupCounter u0.byEndpoint type).getD ⟨0, 0⟩).calls + 1,
            ((lookupCounter u0.byEndpoint type).getD ⟨0, 0⟩).cached⟩ ∧
        lookupCounter u.byDate c1.today =
          some ⟨((lookupCounter u0.byDate c1.today).getD ⟨0, 0⟩).calls + 1,
            ((lookupCounter u0.byDate c1.today).getD ⟨0, 0⟩).cached⟩ ∧
        (∀ k, k ≠ type → lookupCounter u.byEndpoint k = lookupCounter u0.byEndpoint k) ∧
        (∀ d, d ≠ c1.today → lookupCounter u.byDate d = lookupCounter u0.byDate d)) ∧
    (∀ u0 s0, getUsageStats quota c1 (getCached c0 type identifier st).2 = (.ok u0, s0) →
      quota (putItem s0 USAGE_KEY (Item.usage (recordCall u0 type c1.today false))) = false →
      (cachedFetch quota c0 c1 type identifier fetchFn w st).result =
        .error Exn.quotaExceeded ∧
      (cachedFetch quota c0 c1 type identifier fetchFn w st).storage = s0) ∧
    (∀ e2 s0, getUsageStats quota c1 (getCached c0 type identifier st).2 = (.error e2, s0) →
      (cachedFetch quota c0 c1 type identifier fetchFn w st).result = .error e2) := by
  have hcf := cachedFetch_miss_error quota c0 c1 type identifier fetchFn w w1 st e hmiss hfetch
  have hkey : getItem (cachedFetch quota c0 c1 type identifier fetchFn w st).storage
      (getCacheKey type identifier) =
      getItem (getCached c0 type identifier st).2 (getCacheKey type identifier) := by
    have h1 := getItem_trackApiCall quota c1 type false (getCached c0 type identifier st).2 _
      (getCacheKey_ne_usage type identifier)
    rw [hcf]
    revert h1
    generalize trackApiCall quota c1 type false (getCached c0 type identifier st).2 = tr
    rcases tr with ⟨r, s⟩
    cases r <;> exact fun h1 => h1
  refine ⟨?_, hkey, ?_, ?_, ?_, ?_⟩
  · rw [hcf]
    generalize trackApiCall quota c1 type false (getCached c0 type identifier st).2 = tr
    rcases tr with ⟨r, s⟩
    cases r <;> rfl
  · intro item hitem
    rw [hkey] at hitem
    rcases getCached_storage_key c0 type identifier st with h | h
    · rw [← h]
      exact hitem
    · rw [h] at hitem
      exact Option.noConfusion hitem
  · intro u0 s0 hg hq
    have htr : trackApiCall quota c1 type false (getCached c0 type identifier st).2 =
        (.ok (recordCall u0 type c1.today false),
          putItem s0 USAGE_KEY (Item.usage (recordCall u0 type c1.today false))) := by
      unfold trackApiCall
      rw [hg]
      simp only [setItem, hq, if_true]
    rw [hcf, htr]
    refine ⟨rfl, recordCall u0 type c1.today false, getItem_putItem_same _ _ _, ?_, ?_, ?_, ?_,
      ?_, ?_⟩
    · simp [recordCall]
    · simp [recordCall]
    · simp only [recordCall]
      rw [lookupCounter_bumpAt_same]
      simp [Counter.bump]
    · simp only [recordCall]
      rw [lookupCounter_bumpAt_same]
      simp [Counter.bump]
    · intro k hk
      simp only [recordCall]
      exact lookupCounter_bumpAt_ne _ _ _ _ hk
    · intro d hd
      simp only [recordCall]
      exact lookupCounter_bumpAt_ne _ _ _ _ hd
  · intro u0 s0 hg hq
    have htr : trackApiCall quota c1 type false (getCached c0 type identifier st).2 =
        (.error Exn.quotaExceeded, s0) := by
      unfold trackApiCall
      rw [hg]
      simp [setItem, hq]
    rw [hcf, htr]
    exact ⟨rfl, rfl⟩
  · intro e2 s0 hg
    have htr : trackApiCall quota c1 type false (getCached c0 type identifier st).2 =
        (.error e2, s0) := by
      unfold trackApiCall
      rw [hg]
    rw [hcf, htr]

/-- An instance of C11 (amended): on an empty storage with room for the ledger,
a fetch failing with `HTTP 503` is rethrown, nothing is cached and the ledger
shows one real call and no cache hit. -/
theorem cached_fetch_failure_effect_witness :
    (cachedFetch (fun _ => true) clockJan15 clockJan15 "hpd" "1008350029"
        (fun n : Nat => (.error (Exn.fetchFailed "HTTP 503"), n + 1)) 0 []).result =
      .error (Exn.fetchFailed "HTTP 503") ∧
    getItem (cachedFetch (fun _ => true) clockJan15 clockJan15 "hpd" "1008350029"
        (fun n : Nat => (.error (Exn.fetchFailed "HTTP 503"), n + 1)) 0 []).storage
      (getCacheKey "hpd" "1008350029") = none ∧
    ∃ u, getItem (cachedFetch (fun _ => true) clockJan15 clockJan15 "hpd" "1008350029"
        (fun n : Nat => (.error (Exn.fetchFailed "HTTP 503"), n + 1)) 0 []).storage USAGE_KEY =
        some (Item.usage u) ∧ u.totalCalls = 1 ∧ u.cachedHits = 0 := by
  have h := cached_fetch_failure_effect (fun _ => true) clockJan15 clockJan15 "hpd" "1008350029"
    (fun n : Nat => (.error (Exn.fetchFailed "HTTP 503"), n + 1)) 0 1 []
    (Exn.fetchFailed "HTTP 503") rfl rfl
  obtain ⟨hres, u, hu, ht, hc, _⟩ := h.2.2.2.1 (freshUsage clockJan15) _ rfl rfl
  exact ⟨hres, h.2.1, u, hu, ht, hc⟩

/-! ## The ledger invariant -/

theorem modifyCounter_keys (m : List (String × Counter)) (key : String) (f : Counter → Counter) :
    (modifyCounter m key f).map Prod.fst = m.map Prod.fst := by
  induction m with
  | nil => rfl
  | cons kv rest ih =>
    obtain ⟨k, v⟩ := kv
    by_cases hk : k = key
    · simp [modifyCounter, hk]
    · simp [modifyCounter, hk, ih]

theorem lookupCounter_eq_none_iff (m : List (String × Counter)) (key : String) :
    lookupCounter m key = none ↔ key ∉ m.map Prod.fst := by
  induction m with
  | nil => simp [lookupCounter]
  | cons kv rest ih =>
    obtain ⟨k, v⟩ := kv
    by_cases hk : k = key
    · simp [lookupCounter, hk]
    · have hk' : ¬ key = k := fun e => hk e.symm
      simp [lookupCounter, hk, hk', ih]

theorem counterTotal_append (m : List (String × Counter)) (key : String) (v : Counter) :
    counterTotal (m ++ [(key, v)]) = counterTotal m + (v.calls + v.cached) := by
  simp [counterTotal]

/-- Incrementing the counter of a key that is bound adds one to the sum. -/
theorem counterTotal_modifyCounter (m : List (String × Counter)) (key : String) (cached : Bool)
    (h : key ∈ m.map Prod.fst) :
    counterTotal (modifyCounter m key (Counter.bump cached)) = counterTotal m + 1 := by
  induction m with
  | nil => simp at h
  | cons kv rest ih =>
    obtain ⟨k, v⟩ := kv
    by_cases hk : k = key
    · cases cached <;> simp [modifyCounter, hk, counterTotal, Counter.bump] <;> omega
    · have hmem : key ∈ rest.map Prod.fst := by
        simp only [List.map_cons, List.mem_cons] at h
        rcases h with h | h
        · exact absurd h.symm hk
        · exact h
      have := ih hmem
      simp only [counterTotal] at this ⊢
      simp only [modifyCounter, hk, if_false, List.map_cons, List.sum_cons, this]
      omega

theorem counterTotal_bumpAt (m : List (String × Counter)) (key : String) (cached : Bool) :
    counterTotal (bumpAt m key cached) = counterTotal m + 1 := by
  unfold bumpAt
  simp only
  cases h : lookupCounter m key with
  | none =>
    simp only [Option.isNone_none, if_true]
    rw [counterTotal_modifyCounter _ _ _ (by simp), counterTotal_append]
    simp
  | some x =>
    simp only [Option.isNone_some, Bool.false_eq_true, if_false]
    apply counterTotal_modifyCounter
    by_contra hmem
    rw [(lookupCounter_eq_none_iff m key).mpr hmem] at h
    exact Option.noConfusion h

theorem bumpAt_keys_nodup (m : List (String × Counter)) (key : String) (cached : Bool)
    (h : (m.map Prod.fst).Nodup) : ((bumpAt m key cached).map Prod.fst).Nodup := by
  unfold bumpAt
  simp only
  rw [modifyCounter_keys]
  cases hl : lookupCounter m key with
  | none =>
    simp only [Option.isNone_none, if_true, List.map_append, List.map_cons, List.map_nil]
    have hnot := (lookupCounter_eq_none_iff m key).mp hl
    rw [List.nodup_append]
    refine ⟨h, List.nodup_singleton _, ?_⟩
    intro a ha hb
    simp only [List.mem_singleton] at hb
    exact hnot (hb ▸ ha)
  | some x =>
    simpa using h

theorem balanced_freshUsage (c : Clock) : Balanced (freshUsage c) := by
  simp [Balanced, freshUsage, counterTotal]

theorem balanced_recordCall (u : Usage) (endpoint today : String) (cached : Bool)
    (h : Balanced u) : Balanced (recordCall u endpoint today cached) := by
  obtain ⟨hsum, hnd⟩ := h
  refine ⟨?_, ?_⟩
  · simp only [recordCall]
    rw [counterTotal_bumpAt]
    cases cached <;> simp <;> omega
  · simp only [recordCall]
    exact bumpAt_keys_nodup _ _ _ hnd

/-- A successful `initializeUsage` leaves the fresh ledger under the usage key. -/
theorem initializeUsage_ok (quota : Storage → Bool) (c : Clock) (st : Storage) (u : Usage)
    (s : Storage) (h : initializeUsage quota c st = (.ok u, s)) :
    u = freshUsage c ∧ getItem s USAGE_KEY = some (Item.usage (freshUsage c)) := by
  unfold initializeUsage at h
  rcases setItem_cases quota st USAGE_KEY (Item.usage (freshUsage c)) with ⟨_, h1⟩ | ⟨_, h1⟩
  · rw [h1] at h
    simp only [Prod.mk.injEq, Except.ok.injEq] at h
    rw [← h.1, ← h.2]
    exact ⟨rfl, getItem_putItem_same _ _ _⟩
  · rw [h1] at h
    simp at h

/-- Whatever `initializeUsage` does, a storage holding a balanced ledger still holds one. -/
theorem initializeUsage_balanced (quota : Storage → Bool) (c : Clock) (st : Storage)
    (h : ∃ u, getItem st USAGE_KEY = some (Item.usage u) ∧ Balanced u) :
    (∃ u, getItem (initializeUsage quota c st).2 USAGE_KEY = some (Item.usage u) ∧ Balanced u) ∧
    (∀ u s, initializeUsage quota c st = (.ok u, s) → Balanced u) := by
  constructor
  · unfold initializeUsage
    rcases setItem_cases quota st USAGE_KEY (Item.usage (freshUsage c)) with ⟨_, h1⟩ | ⟨_, h1⟩
    · rw [h1]
      exact ⟨freshUsage c, getItem_putItem_same _ _ _, balanced_freshUsage c⟩
    · rw [h1]
      exact h
  · intro u s hok
    rw [(initializeUsage_ok quota c st u s hok).1]
    exact balanced_freshUsage c

theorem getUsageStats_balanced (quota : Storage → Bool) (c : Clock) (st : Storage)
    (h : ∃ u, getItem st USAGE_KEY = some (Item.usage u) ∧ Balanced u) :
    (∃ u, getItem (getUsageStats quota c st).2 USAGE_KEY = some (Item.usage u) ∧ Balanced u) ∧
    (∀ u s, getUsageStats quota c st = (.ok u, s) → Balanced u) := by
  obtain ⟨u0, hu0, hb0⟩ := h
  have hinit := initializeUsage_balanced quota c st ⟨u0, hu0, hb0⟩
  unfold getUsageStats
  simp only [hu0]
  by_cases hm : u0.month ≠ monthKey c
  · rw [if_pos hm]
    exact hinit
  · rw [if_neg hm]
    refine ⟨⟨u0, hu0, hb0⟩, ?_⟩
    intro u s hok
    simp only [Prod.mk.injEq, Except.ok.injEq] at hok
    rw [← hok.1]
    exact hb0

/-- `trackApiCall` keeps the ledger balanced, whether it returns or throws. -/
theorem trackApiCall_balanced (quota : Storage → Bool) (c : Clock) (endpoint : String)
    (cached : Bool) (st : Storage)
    (h : ∃ u, getItem st USAGE_KEY = some (Item.usage u) ∧ Balanced u) :
    (∃ u, getItem (trackApiCall quota c endpoint cached st).2 USAGE_KEY = some (Item.usage u) ∧
      Balanced u) ∧
    (∀ u s, trackApiCall quota c endpoint cached st = (.ok u, s) → Balanced u) := by
  obtain ⟨hst, hret⟩ := getUsageStats_balanced quota c st h
  unfold trackApiCall
  revert hst hret
  generalize getUsageStats quota c st = g
  rcases g with ⟨r, s1⟩
  cases r with
  | error e =>
    intro hst _
    refine ⟨hst, ?_⟩
    intro u s hok
    simp at hok
  | ok usage =>
    intro hst hret
    have hb : Balanced (recordCall usage endpoint c.today cached) :=
      balanced_recordCall usage endpoint c.today cached (hret usage s1 rfl)
    simp only
    rcases setItem_cases quota s1 USAGE_KEY
      (Item.usage (recordCall usage endpoint c.today cached)) with ⟨_, h1⟩ | ⟨_, h1⟩
    · rw [h1]
      refine ⟨⟨_, getItem_putItem_same _ _ _, hb⟩, ?_⟩
      intro u s hok
      simp only [Prod.mk.injEq, Except.ok.injEq] at hok
      rw [← hok.1]
      exact hb
    · rw [h1]
      refine ⟨hst, ?_⟩
      intro u s hok
      simp at hok

theorem runCalls_balanced (quota : Storage → Bool) (calls : List (Clock × String × Bool))
    (st : Storage) (h : ∃ u, getItem st USAGE_KEY = some (Item.usage u) ∧ Balanced u) :
    ∃ u, getItem (runCalls quota calls st) USAGE_KEY = some (Item.usage u) ∧ Balanced u := by
  induction calls generalizing st with
  | nil => exact h
  | cons x rest ih =>
    simp only [runCalls, List.foldl_cons]
    exact ih _ (trackApiCall_balanced quota x.1 x.2.1 x.2.2 st h).1

/-- C12. In every storage reached from a freshly initialized ledger by any
sequence of `trackApiCall` updates (any endpoints, cached or not, at any clock
readings, so including month roll-overs, and whether or not a write overflows),
a ledger is stored and its `totalCalls + cachedHits` equals the sum over its
`byDate` entries of `calls + cached`; `byDate` has no repeated date; and every
ledger a further `trackApiCall` returns satisfies the same equation. -/
theorem ledger_invariant (quota : Storage → Bool) (c0 : Clock) (st st0 : Storage) (u0 : Usage)
    (calls : List (Clock × String × Bool))
    (hinit : initializeUsage quota c0 st = (.ok u0, st0)) :
    (∃ u, getItem (runCalls quota calls st0) USAGE_KEY = some (Item.usage u) ∧
      u.totalCalls + u.cachedHits = counterTotal u.byDate ∧ (u.byDate.map Prod.fst).Nodup) ∧
    (∀ (c : Clock) (endpoint : String) (cached : Bool) (u : Usage) (s : Storage),
      trackApiCall quota c endpoint cached (runCalls quota calls st0) = (.ok u, s) →
      u.totalCalls + u.cachedHits = counterTotal u.byDate) := by
  have h0 : ∃ u, getItem st0 USAGE_KEY = some (Item.usage u) ∧ Balanced u :=
    ⟨freshUsage c0, (initializeUsage_ok quota c0 st u0 st0 hinit).2, balanced_freshUsage c0⟩
  have hrun := runCalls_balanced quota calls st0 h0
  refine ⟨?_, ?_⟩
  · obtain ⟨u, hu, hb⟩ := hrun
    exact ⟨u, hu, hb.1, hb.2⟩
  · intro c endpoint cached u s hok
    exact ((trackApiCall_balanced quota c endpoint cached _ hrun).2 u s hok).1

/-- An instance of C12: a real call and a cache hit in January 2024 and a real
call after the roll-over to February leave a stored ledger whose totals add up
to the sum over its dates. -/
theorem ledger_invariant_witness :
    ∃ u, getItem (runCalls (fun _ => true)
        [(clockJan15, "pluto", false), (clockJan22, "pluto", true), (clockFeb01, "hpd", false)]
        [(USAGE_KEY, Item.usage (freshUsage clockJan15))]) USAGE_KEY = some (Item.usage u) ∧
      u.totalCalls + u.cachedHits = counterTotal u.byDate := by
  obtain ⟨u, hu, hsum, _⟩ := (ledger_invariant (fun _ => true) clockJan15 []
    [(USAGE_KEY, Item.usage (freshUsage clockJan15))] (freshUsage clockJan15)
    [(clockJan15, "pluto", false), (clockJan22, "pluto", true), (clockFeb01, "hpd", false)]
    rfl).1
  exact ⟨u, hu, hsum⟩

/-! ## `getUsageSummary` and the month roll-over -/

/-- The savings percentage of a ledger with some activity: the quotient by the
rounded sum, rounded, times 100, rounded again, then `Math.round`. -/
theorem summarize_savings (usage : Usage) (today : String)
    (hpos : 0 < usage.totalCalls + usage.cachedHits) :
    (summarize usage today).savingsPercent =
      some (jsRound (toDouble (toDouble ((usage.cachedHits : ℚ) /
        toDouble ((usage.totalCalls : ℚ) + (usage.cachedHits : ℚ))) * 100))) := by
  have hq : (0 : ℚ) < (usage.totalCalls : ℚ) + (usage.cachedHits : ℚ) := by
    exact_mod_cast hpos
  have hS := toDouble_pos _ hq
  have hgt : toDouble ((usage.totalCalls : ℚ) + (usage.cachedHits : ℚ)) > 0 := hS
  have hne : toDouble ((usage.totalCalls : ℚ) + (usage.cachedHits : ℚ)) ≠ 0 := ne_of_gt hS
  simp only [summarize, if_pos hgt, jsDiv, if_neg hne, Option.map_some']

theorem summarize_idle (usage : Usage) (today : String)
    (hzero : usage.totalCalls + usage.cachedHits = 0) :
    (summarize usage today).savingsPercent = some 0 := by
  have hq : (usage.totalCalls : ℚ) + (usage.cachedHits : ℚ) = 0 := by
    exact_mod_cast hzero
  have hn : ¬ toDouble ((usage.totalCalls : ℚ) + (usage.cachedHits : ℚ)) > 0 := by
    rw [hq, toDouble_zero]
    exact lt_irrefl 0
  simp only [summarize, if_neg hn]

/-- C13, as stated, fails: for a ledger with 17 real calls and 23 cache hits
the quotient `23 / 40` rounds to a double just below 0.575, and
`savingsPercent` is 57, while `round(100 · 23 / 40) = round(57.5)` is 58. -/
theorem usage_savings_rounding_counterexample :
    getUsageSummary (fun _ => true) clockJan15 [(USAGE_KEY, Item.usage roundingLedger)] =
      (.ok (summarize roundingLedger clockJan15.today),
        [(USAGE_KEY, Item.usage roundingLedger)]) ∧
    roundingLedger.totalCalls = 17 ∧ roundingLedger.cachedHits = 23 ∧
    (summarize roundingLedger clockJan15.today).savingsPercent = some 57 ∧
    jsRound (100 * (roundingLedger.cachedHits : ℚ) /
      ((roundingLedger.totalCalls : ℚ) + (roundingLedger.cachedHits : ℚ))) = 58 := by
  refine ⟨rfl, rfl, rfl, ?_, ?_⟩
  · rw [summarize_savings _ _ (by decide)]
    have e1 : ((roundingLedger.totalCalls : ℚ) + (roundingLedger.cachedHits : ℚ)) =
        ((40 : ℤ) : ℚ) := by
      norm_num [roundingLedger]
    have e2 : (roundingLedger.cachedHits : ℚ) = 23 := by
      norm_num [roundingLedger]
    rw [e1, toDouble_intCast 40 (by norm_num [abs_of_pos]), e2]
    have e3 : (23 : ℚ) / ((40 : ℤ) : ℚ) = 23 / 40 := by norm_num
    rw [e3, percent_23_40]
    norm_num [jsRound]
  · norm_num [roundingLedger, jsRound]

/-- C13 (amended). For every ledger `getUsageStats` reads, `getUsageSummary`
returns its totals. With `totalCalls + cachedHits > 0`, `savingsPercent` is an
integer within `1/2 + q / 2^50` of `q = 100 · cachedHits / (totalCalls + cachedHits)`;
it is `round(q)` whenever `q` is farther than `q / 2^50` from every half-integer,
in particular whenever `200 · cachedHits < 2^50` and `q` is not itself a
half-integer. With no activity it is 0. The value is always a finite number
between 0 and 100 (the quotient is only taken with a positive divisor). -/
theorem usage_summary_savings (quota : Storage → Bool) (c : Clock) (st s : Storage)
    (usage : Usage) (h : getUsageStats quota c st = (.ok usage, s)) :
    ∃ summary, getUsageSummary quota c st = (.ok summary, s) ∧
      summary.totalCalls = usage.totalCalls ∧
      summary.cachedHits = usage.cachedHits ∧
      (0 < usage.totalCalls + usage.cachedHits →
        ∃ p : ℤ, summary.savingsPercent = some p ∧
          |(p : ℚ) - 100 * (usage.cachedHits : ℚ) /
              ((usage.totalCalls : ℚ) + (usage.cachedHits : ℚ))| ≤
            1 / 2 + 100 * (usage.cachedHits : ℚ) /
              ((usage.totalCalls : ℚ) + (usage.cachedHits : ℚ)) / 2 ^ 50 ∧
          ((∀ k : ℤ,
              100 * (usage.cachedHits : ℚ) /
                  ((usage.totalCalls : ℚ) + (usage.cachedHits : ℚ)) / 2 ^ 50 <
                |100 * (usage.cachedHits : ℚ) /
                  ((usage.totalCalls : ℚ) + (usage.cachedHits : ℚ)) - ((k : ℚ) + 1 / 2)|) →
            p = jsRound (100 * (usage.cachedHits : ℚ) /
              ((usage.totalCalls : ℚ) + (usage.cachedHits : ℚ)))) ∧
          (200 * usage.cachedHits < 2 ^ 50 →
            (∀ k : ℤ, (200 * usage.cachedHits : ℤ) ≠
              (2 * k + 1) * ((usage.totalCalls + usage.cachedHits : ℕ) : ℤ)) →
            p = jsRound (100 * (usage.cachedHits : ℚ) /
              ((usage.totalCalls : ℚ) + (usage.cachedHits : ℚ))))) ∧
      (usage.totalCalls + usage.cachedHits = 0 → summary.savingsPercent = some 0) ∧
      ∃ p, summary.savingsPercent = some p ∧ 0 ≤ p ∧ p ≤ 100 := by
  have hmain : 0 < usage.totalCalls + usage.cachedHits →
      |toDouble (toDouble ((usage.cachedHits : ℚ) /
          toDouble ((usage.totalCalls : ℚ) + (usage.cachedHits : ℚ))) * 100) -
        100 * (usage.cachedHits : ℚ) / ((usage.totalCalls : ℚ) + (usage.cachedHits : ℚ))| ≤
      100 * (usage.cachedHits : ℚ) /
        ((usage.totalCalls : ℚ) + (usage.cachedHits : ℚ)) / 2 ^ 50 := by
    intro hpos
    have hq : (0 : ℚ) < (usage.totalCalls : ℚ) + (usage.cachedHits : ℚ) := by
      exact_mod_cast hpos
    exact quotient_close _ _ (by positivity) hq
  refine ⟨summarize usage c.today, ?_, rfl, rfl, ?_, ?_, ?_⟩
  · simp only [getUsageSummary, h]
  · intro hpos
    have hc := hmain hpos
    have haway : (∀ k : ℤ,
        100 * (usage.cachedHits : ℚ) /
            ((usage.totalCalls : ℚ) + (usage.cachedHits : ℚ)) / 2 ^ 50 <
          |100 * (usage.cachedHits : ℚ) /
            ((usage.totalCalls : ℚ) + (usage.cachedHits : ℚ)) - ((k : ℚ) + 1 / 2)|) →
        jsRound (toDouble (toDouble ((usage.cachedHits : ℚ) /
          toDouble ((usage.totalCalls : ℚ) + (usage.cachedHits : ℚ))) * 100)) =
        jsRound (100 * (usage.cachedHits : ℚ) /
          ((usage.totalCalls : ℚ) + (usage.cachedHits : ℚ))) :=
      fun hk => jsRound_eq_of_away _ _ _ hc hk
    refine ⟨_, summarize_savings usage c.today hpos, jsRound_close _ _ _ hc, haway, ?_⟩
    intro hsmall hne
    apply haway
    intro k
    have hd := dist_tie_of_ne usage.cachedHits (usage.totalCalls + usage.cachedHits) hpos k
      (hne k)
    have hq : (0 : ℚ) < (usage.totalCalls : ℚ) + (usage.cachedHits : ℚ) := by
      exact_mod_cast hpos
    have hs2 : (200 : ℚ) * (usage.cachedHits : ℚ) < 2 ^ 50 := by
      exact_mod_cast hsmall
    have hlt : 100 * (usage.cachedHits : ℚ) /
        ((usage.totalCalls : ℚ) + (usage.cachedHits : ℚ)) / 2 ^ 50 <
        1 / (2 * ((usage.totalCalls : ℚ) + (usage.cachedHits : ℚ))) := by
      rw [div_div, div_lt_div_iff (by positivity) (by positivity)]
      nlinarith
    push_cast at hd
    linarith
  · intro hzero
    exact summarize_idle usage c.today hzero
  · by_cases hpos : 0 < usage.totalCalls + usage.cachedHits
    · have hc := hmain hpos
      have hq : (0 : ℚ) < (usage.totalCalls : ℚ) + (usage.cachedHits : ℚ) := by
        exact_mod_cast hpos
      have hr1 : (usage.cachedHits : ℚ) /
          ((usage.totalCalls : ℚ) + (usage.cachedHits : ℚ)) ≤ 1 := by
        rw [div_le_one hq]
        have : (0 : ℚ) ≤ (usage.totalCalls : ℚ) := by positivity
        linarith
      have hr0 : 0 ≤ (usage.cachedHits : ℚ) /
          ((usage.totalCalls : ℚ) + (usage.cachedHits : ℚ)) :=
        div_nonneg (by positivity) (le_of_lt hq)
      have e : 100 * (usage.cachedHits : ℚ) /
          ((usage.totalCalls : ℚ) + (usage.cachedHits : ℚ)) =
          100 * ((usage.cachedHits : ℚ) /
            ((usage.totalCalls : ℚ) + (usage.cachedHits : ℚ))) := by ring
      rw [e, abs_le] at hc
      refine ⟨_, summarize_savings usage c.today hpos, ?_, ?_⟩
      · apply jsRound_nonneg
        apply toDouble_nonneg
        exact mul_nonneg (toDouble_nonneg _
          (div_nonneg (by positivity) (le_of_lt (toDouble_pos _ hq)))) (by norm_num)
      · unfold jsRound
        have hlt : ⌊toDouble (toDouble ((usage.cachedHits : ℚ) /
            toDouble ((usage.totalCalls : ℚ) + (usage.cachedHits : ℚ))) * 100) + 1 / 2⌋ <
            101 := by
          apply Int.floor_lt.mpr
          push_cast
          have h1 : 100 * ((usage.cachedHits : ℚ) /
              ((usage.totalCalls : ℚ) + (usage.cachedHits : ℚ))) / 2 ^ 50 ≤ 100 / 2 ^ 50 := by
            apply div_le_div_of_nonneg_right _ (by positivity)
            linarith
          have h2 : (100 : ℚ) / 2 ^ 50 < 1 / 2 := by norm_num
          linarith [hc.2]
        omega
    · have hzero : usage.totalCalls + usage.cachedHits = 0 := by omega
      exact ⟨0, summarize_idle usage c.today hzero, le_refl 0, by norm_num⟩

/-- An instance of C13 (amended): the January ledger, with one cache hit and
three real calls, has `200 · 1 < 2^50` and the quotient 25, not a half-integer,
and gives a savings percentage of 25. -/
theorem usage_summary_savings_witness :
    0 < januaryLedger.totalCalls + januaryLedger.cachedHits ∧
    ∃ summary, getUsageSummary (fun _ => true) clockJan15 [(USAGE_KEY, Item.usage januaryLedger)] =
        (.ok summary, [(USAGE_KEY, Item.usage januaryLedger)]) ∧
      summary.savingsPercent = some 25 := by
  obtain ⟨summary, hs, _, _, hpos, _⟩ := usage_summary_savings (fun _ => true) clockJan15
    [(USAGE_KEY, Item.usage januaryLedger)] [(USAGE_KEY, Item.usage januaryLedger)]
    januaryLedger rfl
  obtain ⟨p, hp, _, _, hexact⟩ := hpos (by decide)
  have hp2 := hexact (by norm_num [januaryLedger]) (by
    intro k
    simp only [januaryLedger]
    push_cast
    omega)
  refine ⟨by decide, summary, hs, ?_⟩
  rw [hp, hp2]
  norm_num [januaryLedger, jsRound]

/-- C14, as stated, fails in two ways. When the browser accepts no write (a
full storage), reading the January ledger in February throws
`QuotaExceededError` and the old ledger, with its totals, stays stored. And a
ledger whose stored month is `2024-01`, read on 2024-01-15, is not returned
unchanged: the key the code compares with is `2024-0`, so the ledger is replaced
by a fresh one and its 42 calls are lost. -/
theorem usage_rollover_counterexample :
    getUsageStats (fun _ => false) clockFeb01 [(USAGE_KEY, Item.usage januaryLedger)] =
      (.error Exn.quotaExceeded, [(USAGE_KEY, Item.usage januaryLedger)]) ∧
    monthKey clockJan15 = "2024-0" ∧
    getUsageStats (fun _ => true) clockJan15 [(USAGE_KEY, Item.usage seededLedger)] =
      (.ok (freshUsage clockJan15), [(USAGE_KEY, Item.usage (freshUsage clockJan15))]) ∧
    (freshUsage clockJan15).totalCalls = 0 ∧ seededLedger.totalCalls = 42 := by
  refine ⟨rfl, by decide, rfl, rfl, rfl⟩

/-- C14 (amended). When the stored ledger's month string differs from the
current key `getFullYear()-getMonth()` (zero-based, unpadded month) and the
browser accepts the write, `getUsageStats` returns and persists a fresh ledger
with `totalCalls = 0`, `cachedHits = 0` and empty `byEndpoint` and `byDate`, named
after the current month; when the browser rejects the write it throws
`QuotaExceededError` and the stored ledger stays. When the stored month string
equals the current key, the stored ledger is returned unchanged and storage is
untouched. A ledger seeded with month `2024-01` and 42 calls, read on 2024-02-01,
yields `total_calls = 0`, `cache_hits = 0` and the month `February 2024`. -/
theorem usage_month_rollover (quota : Storage → Bool) (c : Clock) (st : Storage) (u : Usage)
    (hst : getItem st USAGE_KEY = some (Item.usage u)) :
    (u.month ≠ monthKey c →
      quota (putItem st USAGE_KEY (Item.usage (freshUsage c))) = true →
      getUsageStats quota c st =
          (.ok (freshUsage c), putItem st USAGE_KEY (Item.usage (freshUsage c))) ∧
        getItem (getUsageStats quota c st).2 USAGE_KEY = some (Item.usage (freshUsage c)) ∧
        (freshUsage c).totalCalls = 0 ∧ (freshUsage c).cachedHits = 0 ∧
        (freshUsage c).byEndpoint = [] ∧ (freshUsage c).byDate = [] ∧
        (freshUsage c).month = monthKey c ∧ (freshUsage c).monthName = c.monthName) ∧
    (u.month ≠ monthKey c →
      quota (putItem st USAGE_KEY (Item.usage (freshUsage c))) = false →
      getUsageStats quota c st = (.error Exn.quotaExceeded, st)) ∧
    (u.month = monthKey c → getUsageStats quota c st = (.ok u, st)) ∧
    getUsageStats (fun _ => true) clockFeb01 [(USAGE_KEY, Item.usage seededLedger)] =
      (.ok (freshUsage clockFeb01), [(USAGE_KEY, Item.usage (freshUsage clockFeb01))]) ∧
    (∃ summary, (getUsageSummary (fun _ => true) clockFeb01
          [(USAGE_KEY, Item.usage seededLedger)]).1 = .ok summary ∧
      summary.totalCalls = 0 ∧ summary.cachedHits = 0 ∧ summary.month = "February 2024") := by
  refine ⟨?_, ?_, ?_, rfl, ⟨_, rfl, rfl, rfl, rfl⟩⟩
  · intro hm hq
    have hg : getUsageStats quota c st =
        (.ok (freshUsage c), putItem st USAGE_KEY (Item.usage (freshUsage c))) := by
      simp only [getUsageStats, hst, if_pos hm, initializeUsage, setItem, hq, if_true]
    refine ⟨hg, ?_, rfl, rfl, rfl, rfl, rfl, rfl⟩
    rw [hg]
    exact getItem_putItem_same _ _ _
  · intro hm hq
    simp [getUsageStats, hst, hm, initializeUsage, setItem, hq]
  · intro hm
    have hn : ¬ u.month ≠ monthKey c := fun h => h hm
    simp only [getUsageStats, hst, if_neg hn]

/-- Instances of C14 (amended): the January ledger read in February with room
in storage is replaced by a fresh February ledger; read in January it is
returned as stored. -/
theorem usage_month_rollover_witness :
    getUsageStats (fun _ => true) clockFeb01 [(USAGE_KEY, Item.usage januaryLedger)] =
      (.ok (freshUsage clockFeb01), [(USAGE_KEY, Item.usage (freshUsage clockFeb01))]) ∧
    getUsageStats (fun _ => false) clockFeb01 [(USAGE_KEY, Item.usage januaryLedger)] =
      (.error Exn.quotaExceeded, [(USAGE_KEY, Item.usage januaryLedger)]) ∧
    getUsageStats (fun _ => true) clockJan22 [(USAGE_KEY, Item.usage januaryLedger)] =
      (.ok januaryLedger, [(USAGE_KEY, Item.usage januaryLedger)]) :=
  ⟨((usage_month_rollover (fun _ => true) clockFeb01 [(USAGE_KEY, Item.usage januaryLedger)]
      januaryLedger rfl).1 (by decide) rfl).1,
   (usage_month_rollover (fun _ => false) clockFeb01 [(USAGE_KEY, Item.usage januaryLedger)]
      januaryLedger rfl).2.1 (by decide) rfl,
   (usage_month_rollover (fun _ => true) clockJan22 [(USAGE_KEY, Item.usage januaryLedger)]
      januaryLedger rfl).2.2.1 (by decide)⟩

/-! ## `clearCache` -/

/-- Reading a key from a storage filtered by a test on keys. -/
theorem getItem_filter_key (p : String → Bool) (st : Storage) (key : String) :
    getItem (st.filter (fun kv => p kv.1)) key = if p key = true then getItem st key else none := by
  induction st with
  | nil => simp [getItem]
  | cons kv rest ih =>
    obtain ⟨k, v⟩ := kv
    by_cases hk : k = key
    · subst hk
      cases hp : p k
      · simp only [List.filter_cons, hp, Bool.false_eq_true, if_false, ih]
      · simp only [List.filter_cons, hp, if_true, getItem]
    · cases hp : p k
      · simp only [List.filter_cons, hp, Bool.false_eq_true, if_false, ih, getItem, hk]
      · simp only [List.filter_cons, hp, if_true, getItem, hk, if_false, ih]

theorem startsWith_iff (s pre : String) : startsWith s pre = true ↔ pre.data <+: s.data := by
  unfold startsWith
  exact List.isPrefixOf_iff_prefix

theorem startsWith_base_getCacheKey (type identifier : String) :
    startsWith (getCacheKey type identifier) CACHE_PREFIX = true := by
  rw [startsWith_iff]
  simp only [getCacheKey, String.data_append, List.append_assoc]
  exact List.prefix_append _ _

theorem startsWith_getCacheKey_type (type identifier : String) :
    startsWith (getCacheKey type identifier) (CACHE_PREFIX ++ type ++ "_") = true := by
  rw [startsWith_iff]
  simp only [getCacheKey, String.data_append]
  exact List.prefix_append _ _

/-- A key of one type begins with the marker of another type only if one of
the two markers `type_` begins with the other. -/
theorem startsWith_getCacheKey_other (t t' identifier : String)
    (h : startsWith (getCacheKey t' identifier) (CACHE_PREFIX ++ t ++ "_") = true) :
    startsWith (t' ++ "_") (t ++ "_") = true ∨ startsWith (t ++ "_") (t' ++ "_") = true := by
  rw [startsWith_iff] at h
  simp only [getCacheKey, String.data_append, List.append_assoc] at h
  have h1 : t.data ++ "_".data <+: t'.data ++ ("_".data ++ identifier.data) :=
    (List.prefix_append_right_inj _).mp h
  have h2 : t'.data ++ "_".data <+: t'.data ++ ("_".data ++ identifier.data) := by
    rw [← List.append_assoc]
    exact List.prefix_append _ _
  rcases List.prefix_or_prefix_of_prefix h1 h2 with h3 | h3
  · left
    rw [startsWith_iff]
    simpa only [String.data_append] using h3
  · right
    rw [startsWith_iff]
    simpa only [String.data_append] using h3

/-- Among the eleven cache types no marker `type_` begins with another one. -/
theorem cacheTypes_markers :
    cacheTypes.all (fun t => cacheTypes.all (fun t' =>
      t == t' || !(startsWith (t' ++ "_") (t ++ "_")))) = true := by
  decide

/-- What `clearCache(type)` leaves under a key: nothing when the key has the
cache prefix and either `type` is falsy or the key begins with `ps_cache_type_`,
and what was there otherwise. -/
theorem getItem_clearCache (type : Option String) (st : Storage) (key : String) :
    getItem (clearCache type st) key =
      if (startsWith key CACHE_PREFIX &&
          (falsyString type || startsWith key (CACHE_PREFIX ++ type.getD "" ++ "_"))) = true
      then none else getItem st key := by
  unfold clearCache
  rw [getItem_filter_key (fun k => !(startsWith k CACHE_PREFIX &&
    (falsyString type || startsWith k (CACHE_PREFIX ++ type.getD "" ++ "_")))) st key]
  cases hc : (startsWith key CACHE_PREFIX &&
    (falsyString type || startsWith key (CACHE_PREFIX ++ type.getD "" ++ "_"))) <;> simp

/-- C15, as stated, fails: `clearCache('property')` also removes the entry cached
under the type `property_scout`, whose key begins with `ps_cache_property_`; and
`clearCache('')` removes the entries of every type. -/
theorem clear_cache_other_type_counterexample :
    getItem [(getCacheKey "property_scout" "350 5th avenue", Item.entry (some (Json.str "r")) 0)]
      (getCacheKey "property_scout" "350 5th avenue") =
        some (Item.entry (some (Json.str "r")) 0) ∧
    getItem (clearCache (some "property")
        [(getCacheKey "property_scout" "350 5th avenue", Item.entry (some (Json.str "r")) 0)])
      (getCacheKey "property_scout" "350 5th avenue") = none ∧
    getItem (clearCache (some "")
        [(getCacheKey "pluto" "1008350029", Item.entry (some (Json.str "r")) 0)])
      (getCacheKey "pluto" "1008350029") = none := by
  refine ⟨rfl, rfl, rfl⟩

/-- C15 (amended). `clearCache()` with no argument (or a falsy one) removes
every storage key with the `ps_cache_` prefix. `clearCache(type)` removes every
cache entry of that type and, for a non-empty `type`, leaves every key that does
not begin with `ps_cache_type_`: it removes no entry of another of the eleven
cache types, but it does remove the entries of a type that itself begins with
`type_`. In all cases every key without the cache prefix, such as the ledger
`propertyscout_usage` and the credential `propertyscout_api_key`, is left
unchanged. -/
theorem clear_cache_effect (st : Storage) :
    (∀ key, startsWith key CACHE_PREFIX = true →
      getItem (clearCache none st) key = none ∧ getItem (clearCache (some "") st) key = none) ∧
    (∀ type identifier,
      getItem (clearCache (some type) st) (getCacheKey type identifier) = none) ∧
    (∀ type key, type ≠ "" → startsWith key (CACHE_PREFIX ++ type ++ "_") = false →
      getItem (clearCache (some type) st) key = getItem st key) ∧
    (∀ type other identifier, type ∈ cacheTypes → other ∈ cacheTypes → type ≠ other →
      getItem (clearCache (some type) st) (getCacheKey other identifier) =
        getItem st (getCacheKey other identifier)) ∧
    (∀ (type : Option String) key, startsWith key CACHE_PREFIX = false →
      getItem (clearCache type st) key = getItem st key) ∧
    (∀ type : Option String,
      getItem (clearCache type st) USAGE_KEY = getItem st USAGE_KEY ∧
      getItem (clearCache type st) "propertyscout_api_key" =
        getItem st "propertyscout_api_key") := by
  have hkeep : ∀ (type : Option String) key, startsWith key CACHE_PREFIX = false →
      getItem (clearCache type st) key = getItem st key := by
    intro type key hk
    rw [getItem_clearCache]
    simp [hk]
  have htype : ∀ type key, type ≠ "" → startsWith key (CACHE_PREFIX ++ type ++ "_") = false →
      getItem (clearCache (some type) st) key = getItem st key := by
    intro type key hne hk
    rw [getItem_clearCache]
    simp [falsyString, hne, hk]
  refine ⟨?_, ?_, htype, ?_, hkeep, ?_⟩
  · intro key hk
    constructor
    · rw [getItem_clearCache]
      simp [hk, falsyString]
    · rw [getItem_clearCache]
      simp [hk, falsyString]
  · intro type identifier
    rw [getItem_clearCache]
    simp [startsWith_base_getCacheKey, startsWith_getCacheKey_type]
  · intro type other identifier ht ho hne
    have hall := cacheTypes_markers
    rw [List.all_eq_true] at hall
    have h1 := hall type ht
    rw [List.all_eq_true] at h1
    have h2 := h1 other ho
    have h3 := hall other ho
    rw [List.all_eq_true] at h3
    have h4 := h3 type ht
    have hnb : (type == other) = false := by simpa using hne
    have hnb' : (other == type) = false := by simpa using fun e : other = type => hne e.symm
    rw [hnb] at h2
    rw [hnb'] at h4
    simp only [Bool.false_or, Bool.not_eq_true'] at h2 h4
    have hnonempty : type ≠ "" := by
      intro he
      rw [he] at ht
      revert ht
      decide
    apply htype type _ hnonempty
    cases hs : startsWith (getCacheKey other identifier) (CACHE_PREFIX ++ type ++ "_")
    · rfl
    · rcases startsWith_getCacheKey_other type other identifier hs with h | h
      · rw [h2] at h
        exact Bool.noConfusion h
      · rw [h4] at h
        exact Bool.noConfusion h
  · intro type
    exact ⟨hkeep type USAGE_KEY (by decide), hkeep type "propertyscout_api_key" (by decide)⟩

/-- Instances of C15 (amended): clearing the type `hpd` removes the HPD entry and
keeps the DOB entry and the ledger. -/
theorem clear_cache_effect_witness :
    getItem (clearCache (some "hpd")
        [(getCacheKey "hpd" "1008350029", Item.entry (some (Json.str "h")) 0),
         (getCacheKey "dob" "1008350029", Item.entry (some (Json.str "d")) 0),
         (USAGE_KEY, Item.usage januaryLedger)])
      (getCacheKey "hpd" "1008350029") = none ∧
    getItem (clearCache (some "hpd")
        [(getCacheKey "hpd" "1008350029", Item.entry (some (Json.str "h")) 0),
         (getCacheKey "dob" "1008350029", Item.entry (some (Json.str "d")) 0),
         (USAGE_KEY, Item.usage januaryLedger)])
      (getCacheKey "dob" "1008350029") = some (Item.entry (some (Json.str "d")) 0) ∧
    getItem (clearCache none
        [(getCacheKey "hpd" "1008350029", Item.entry (some (Json.str "h")) 0),
         (getCacheKey "dob" "1008350029", Item.entry (some (Json.str "d")) 0),
         (USAGE_KEY, Item.usage januaryLedger)])
      (getCacheKey "dob" "1008350029") = none := by
  have h := clear_cache_effect
    [(getCacheKey "hpd" "1008350029", Item.entry (some (Json.str "h")) 0),
     (getCacheKey "dob" "1008350029", Item.entry (some (Json.str "d")) 0),
     (USAGE_KEY, Item.usage januaryLedger)]
  refine ⟨h.2.1 "hpd" "1008350029", ?_, (h.1 _ (by decide)).1⟩
  rw [h.2.2.2.1 "hpd" "dob" "1008350029" (by decide) (by decide) (by decide)]
  rfl

end ApiUsage

/-! ## The dataset clients and HTTP statuses -/

/-- C18, as stated, fails for `fetchNYCOpenData`: on the statuses 503, 429, 401
and 404, to which the stated rule assigns the kinds `ProviderUnavailable`,
`RateLimited`, `Unauthorized` and `BadRequest`, it does not fail but returns the
empty array, whatever the body. -/
theorem fetch_nyc_open_data_status_counterexample :
    specErrorKind 503 = some ErrorKind.providerUnavailable ∧
    NycData.fetchNYCOpenData (HttpResult.response 503
      (some [({ violationid := some "1" } : NycData.HpdRow)])) = [] ∧
    specErrorKind 429 = some ErrorKind.rateLimited ∧
    NycData.fetchNYCOpenData (HttpResult.response 429 (none : Option (List NycData.HpdRow))) =
      [] ∧
    specErrorKind 401 = some ErrorKind.unauthorized ∧
    NycData.fetchNYCOpenData (HttpResult.response 401 (none : Option (List NycData.HpdRow))) =
      [] ∧
    specErrorKind 404 = some ErrorKind.badRequest ∧
    NycData.fetchNYCOpenData (HttpResult.response 404 (none : Option (List NycData.HpdRow))) =
      [] := by
  refine ⟨rfl, rfl, rfl, rfl, rfl, rfl, rfl, rfl⟩

/-- C18 (amended). `fetchPropertyScout` fails on every non-2xx response, with an
error determined by the status: `Invalid API key` on 401, `Rate limit exceeded`
on 429, and `API error: <status>` on any other status (5xx and the other 4xx
alike); on a 2xx response it returns the parsed body unchanged; without an API
key it fails before the request. `fetchNYCOpenData` never fails: on a non-2xx
response, on a rejected request and on a body that is not JSON it returns the
empty array, and on a 2xx response it returns the parsed body unchanged. -/
theorem dataset_client_status_handling :
    (∀ (β : Type) (stored env : Option String) (status : Nat) (body : Option β),
      falsyString (PropertyScout.getApiKey stored env) = false → httpOk status = false →
      PropertyScout.fetchPropertyScout stored env (HttpResult.response status body) =
        .error (JsError.error
          (if status = 401 then "Invalid API key"
           else if status = 429 then "Rate limit exceeded"
           else "API error: " ++ toString status))) ∧
    (∀ (β : Type) (stored env : Option String) (status : Nat) (data : β),
      falsyString (PropertyScout.getApiKey stored env) = false → httpOk status = true →
      PropertyScout.fetchPropertyScout stored env (HttpResult.response status (some data)) =
        .ok data) ∧
    (∀ (β : Type) (stored env : Option String) (r : HttpResult β),
      falsyString (PropertyScout.getApiKey stored env) = true →
      PropertyScout.fetchPropertyScout stored env r =
        .error (JsError.error "PropertyScout API key not configured")) ∧
    (∀ (α : Type) (status : Nat) (body : Option (List α)), httpOk status = false →
      NycData.fetchNYCOpenData (HttpResult.response status body) = []) ∧
    (∀ (α : Type) (message : String),
      NycData.fetchNYCOpenData (HttpResult.networkError message : HttpResult (List α)) = []) ∧
    (∀ (α : Type) (status : Nat),
      NycData.fetchNYCOpenData (HttpResult.response status (none : Option (List α))) = []) ∧
    (∀ (α : Type) (status : Nat) (rows : List α), httpOk status = true →
      NycData.fetchNYCOpenData (HttpResult.response status (some rows)) = rows) := by
  refine ⟨?_, ?_, ?_, ?_, ?_, ?_, ?_⟩
  · intro β stored env status body hkey hok
    simp only [PropertyScout.fetchPropertyScout, hkey, hok, Bool.false_eq_true, if_false,
      Bool.not_false, if_true]
    by_cases h401 : status = 401
    · simp [h401]
    · by_cases h429 : status = 429
      · simp [h429]
      · simp [h401, h429]
  · intro β stored env status data hkey hok
    simp [PropertyScout.fetchPropertyScout, hkey, hok]
  · intro β stored env r hkey
    simp [PropertyScout.fetchPropertyScout, hkey]
  · intro α status body hok
    simp [NycData.fetchNYCOpenData, hok]
  · intro α message
    rfl
  · intro α status
    by_cases hok : httpOk status = true
    · simp [NycData.fetchNYCOpenData, hok]
    · simp [NycData.fetchNYCOpenData, hok]
  · intro α status rows hok
    simp [NycData.fetchNYCOpenData, hok]

/-- Instances of C18 (amended): with a stored key, PropertyScout's 503 is thrown
as `API error: 503` and its 200 body is returned; NYC Open Data's 503 becomes the
empty array and its 200 body is returned. -/
theorem dataset_client_status_handling_witness :
    PropertyScout.fetchPropertyScout (some "ps_live_key") none
        (HttpResult.response 503 (some "body")) = .error (JsError.error "API error: 503") ∧
    PropertyScout.fetchPropertyScout (some "ps_live_key") none
        (HttpResult.response 200 (some "body")) = .ok "body" ∧
    PropertyScout.fetchPropertyScout none none (HttpResult.response 200 (some "body")) =
      .error (JsError.error "PropertyScout API key not configured") ∧
    NycData.fetchNYCOpenData (HttpResult.response 503 (some ["row"])) = [] ∧
    NycData.fetchNYCOpenData (HttpResult.response 200 (some ["row"])) = ["row"] :=
  ⟨dataset_client_status_handling.1 String (some "ps_live_key") none 503 (some "body")
      (by decide) (by decide),
   dataset_client_status_handling.2.1 String (some "ps_live_key") none 200 "body"
      (by decide) (by decide),
   dataset_client_status_handling.2.2.1 String none none _ (by decide),
   dataset_client_status_handling.2.2.2.1 String 503 (some ["row"]) (by decide),
   dataset_client_status_handling.2.2.2.2.2.2 String 200 ["row"] (by decide)⟩

/-! ## Address resolution -/

theorem orNullString_eq_some {a : Option String} {b : String} (h : orNullString a = some b) :
    a = some b ∧ b ≠ "" := by
  unfold orNullString at h
  split at h
  · cases h
  · rename_i hf
    refine ⟨h, ?_⟩
    rintro rfl
    rw [h] at hf
    exact hf (by decide)

theorem orElseString_eq_some {a c : Option String} {b : String}
    (h : orElseString a c = some b) : a = some b ∨ c = some b := by
  unfold orElseString at h
  split at h
  · exact Or.inr h
  · exact Or.inl h

theorem zola_bbl_from_provider (r : HttpResult GeoBody) (info : ZolaAPI.AddressInfo)
    (b : String) (h : ZolaAPI.addressToBBL r = .ok info) (hb : info.bbl = some b) :
    ∃ status data feature rest props pad,
      r = HttpResult.response status (some data) ∧ data.features = some (feature :: rest) ∧
      feature.properties = some props ∧ props.pad = some pad ∧ pad.bbl = some b := by
  rcases r with m | ⟨status, body⟩
  · simp [ZolaAPI.addressToBBL] at h
  · rcases body with _ | data
    · by_cases hok : httpOk status = true <;> simp [ZolaAPI.addressToBBL, hok] at h
    · rcases data with ⟨features⟩
      rcases features with _ | ⟨_ | ⟨feature, rest⟩⟩
      · by_cases hok : httpOk status = true <;> simp [ZolaAPI.addressToBBL, hok] at h
      · by_cases hok : httpOk status = true <;> simp [ZolaAPI.addressToBBL, hok] at h
      · rcases feature with ⟨properties, geometry⟩
        rcases properties with _ | props
        · by_cases hok : httpOk status = true <;> simp [ZolaAPI.addressToBBL, hok] at h
        · by_cases hok : httpOk status = true
          · simp only [ZolaAPI.addressToBBL, hok, Bool.not_true, Bool.false_eq_true,
              if_false] at h
            split at h
            · cases h
            · cases h
              obtain ⟨hp, _⟩ := orNullString_eq_some hb
              rcases hpad : props.pad with _ | pad
              · rw [hpad] at hp
                cases hp
              · rw [hpad] at hp
                exact ⟨status, _, _, rest, props, pad, rfl, rfl, rfl, hpad, hp⟩
          · simp [ZolaAPI.addressToBBL, hok] at h

theorem nyc_bbl_from_provider (r : HttpResult GeoBody) (g : NycData.GeoData) (b : String)
    (h : NycData.addressToBBL r = some g) (hb : g.bbl = some b) :
    ∃ status data feature rest props,
      r = HttpResult.response status (some data) ∧ data.features = some (feature :: rest) ∧
      feature.properties = some props ∧
      (props.pad.bind (fun p => p.bbl) = some b ∨ props.pad_bbl = some b) := by
  rcases r with m | ⟨status, body⟩
  · simp [NycData.addressToBBL] at h
  · rcases body with _ | data
    · simp [NycData.addressToBBL] at h
    · rcases data with ⟨features⟩
      rcases features with _ | ⟨_ | ⟨feature, rest⟩⟩
      · simp [NycData.addressToBBL] at h
      · simp [NycData.addressToBBL] at h
      · rcases feature with ⟨properties, geometry⟩
        rcases properties with _ | props
        · simp [NycData.addressToBBL] at h
        · rcases geometry with _ | geometry
          · simp [NycData.addressToBBL] at h
          · simp only [NycData.addressToBBL, Option.some.injEq] at h
            subst h
            exact ⟨status, _, _, rest, props, rfl, rfl, rfl, orElseString_eq_some hb⟩

/-- C19, as stated, fails: `zolaAPI.addressToBBL` returns the five-character
`addendum.pad.bbl` of the provider as `bbl`, and `nycData.addressToBBL` returns
a `pad_bbl` whose first digit is 9; neither is a well-formed BBL. -/
theorem address_bbl_malformed_counterexample :
    (∃ info, ZolaAPI.addressToBBL
        (HttpResult.response 200 (some (geoBodyWithBBL (some "12345") none))) = .ok info ∧
      info.bbl = some "12345") ∧
    isWellFormedBBL "12345" = false ∧
    (∃ g, NycData.addressToBBL
        (HttpResult.response 200 (some (geoBodyWithBBL none (some "9008350029")))) = some g ∧
      g.bbl = some "9008350029") ∧
    isWellFormedBBL "9008350029" = false :=
  ⟨⟨_, rfl, rfl⟩, by decide, ⟨_, rfl, rfl⟩, by decide⟩

/-- C19 (amended). A non-null `bbl` returned by address resolution is the value
the provider sent for the first feature, unchanged and unchecked: for
`zolaAPI.addressToBBL` its `addendum.pad.bbl`; for `nycData.addressToBBL` its
`addendum.pad.bbl` or its `pad_bbl`. It is a well-formed BBL exactly when the
provider's value is. -/
theorem address_bbl_is_provider_value :
    (∀ (r : HttpResult GeoBody) (info : ZolaAPI.AddressInfo) (b : String),
      ZolaAPI.addressToBBL r = .ok info → info.bbl = some b →
      ∃ status data feature rest props pad,
        r = HttpResult.response status (some data) ∧
        data.features = some (feature :: rest) ∧
        feature.properties = some props ∧ props.pad = some pad ∧ pad.bbl = some b) ∧
    (∀ (r : HttpResult GeoBody) (g : NycData.GeoData) (b : String),
      NycData.addressToBBL r = some g → g.bbl = some b →
      ∃ status data feature rest props,
        r = HttpResult.response status (some data) ∧
        data.features = some (feature :: rest) ∧
        feature.properties = some props ∧
        (props.pad.bind (fun p => p.bbl) = some b ∨ props.pad_bbl = some b)) :=
  ⟨zola_bbl_from_provider, nyc_bbl_from_provider⟩

/-- An instance of C19 (amended): GeoSearch sends the well-formed BBL 1008350029
for 350 5th Ave, and that is the `bbl` of the resolution. -/
theorem address_bbl_is_provider_value_witness :
    ∃ info, ZolaAPI.addressToBBL
        (HttpResult.response 200 (some (geoBodyWithBBL (some "1008350029") none))) = .ok info ∧
      info.bbl = some "1008350029" ∧ isWellFormedBBL "1008350029" = true ∧
      ∃ status data feature rest props pad,
        HttpResult.response 200 (some (geoBodyWithBBL (some "1008350029") none)) =
          HttpResult.response status (some data) ∧
        data.features = some (feature :: rest) ∧
        feature.properties = some props ∧ props.pad = some pad ∧
        pad.bbl = some "1008350029" :=
  ⟨_, rfl, rfl, by decide,
    address_bbl_is_provider_value.1 _ _ "1008350029" rfl rfl⟩

theorem zola_addressToBBL_no_features (status : Nat) (data : GeoBody)
    (hok : httpOk status = true) (hf : data.features = none ∨ data.features = some []) :
    ZolaAPI.addressToBBL (HttpResult.response status (some data)) =
      .error (JsError.error "Address not found") := by
  rcases hf with hf | hf <;> simp [ZolaAPI.addressToBBL, hok, hf]

theorem nyc_addressToBBL_no_features (status : Nat) (data : GeoBody)
    (hf : data.features = none ∨ data.features = some []) :
    NycData.addressToBBL (HttpResult.response status (some data)) = none := by
  rcases hf with hf | hf <;> simp [NycData.addressToBBL, hf]

theorem zola_addressToBBL_no_bbl (status : Nat) (data : GeoBody) (feature : GeoFeature)
    (rest : List GeoFeature) (hf : data.features = some (feature :: rest))
    (hb : ∀ props, feature.properties = some props →
      falsyString (props.pad.bind (fun p => p.bbl)) = true)
    (info : ZolaAPI.AddressInfo)
    (h : ZolaAPI.addressToBBL (HttpResult.response status (some data)) = .ok info) :
    falsyString info.bbl = true := by
  by_cases hok : httpOk status = true
  · rcases hp : feature.properties with _ | props
    · simp [ZolaAPI.addressToBBL, hok, hf, hp] at h
    · simp only [ZolaAPI.addressToBBL, hok, hf, hp, Bool.not_true, Bool.false_eq_true,
        if_false] at h
      split at h
      · cases h
      · cases h
        simp only [orNullString, hb props hp, if_true]
        rfl
  · simp [ZolaAPI.addressToBBL, hok] at h

theorem nyc_addressToBBL_no_bbl (status : Nat) (data : GeoBody) (feature : GeoFeature)
    (rest : List GeoFeature) (hf : data.features = some (feature :: rest))
    (hb : ∀ props, feature.properties = some props →
      falsyString (orElseString (props.pad.bind (fun p => p.bbl)) props.pad_bbl) = true)
    (g : NycData.GeoData)
    (h : NycData.addressToBBL (HttpResult.response status (some data)) = some g) :
    falsyString g.bbl = true := by
  rcases hp : feature.properties with _ | props
  · simp [NycData.addressToBBL, hf, hp] at h
  · rcases hg : feature.geometry with _ | geometry
    · simp [NycData.addressToBBL, hf, hp, hg] at h
    · simp only [NycData.addressToBBL, hf, hp, hg, Option.some.injEq] at h
      subst h
      exact hb props hp

/-- C20, as stated, fails for `zolaAPI.addressToBBL`: on a GeoSearch response
with status 500 whose features array is empty, or absent, it throws
`GeoSearch failed`, not `Address not found`, and `getCompleteZolaReport` rejects
with that error. -/
theorem geosearch_failed_counterexample :
    ZolaAPI.addressToBBL (HttpResult.response 500 (some { features := some [] })) =
      .error (JsError.error "GeoSearch failed") ∧
    ZolaAPI.addressToBBL (HttpResult.response 500 (some { features := none })) =
      .error (JsError.error "GeoSearch failed") ∧
    ZolaAPI.getCompleteZolaReport asciiUpper "2024-01-15T12:00:00.000Z"
        (ZolaAPI.emptyZolaNet (HttpResult.response 500 (some { features := some [] })))
        "1 Nowhere St" = .error (JsError.error "GeoSearch failed") ∧
    JsError.error "GeoSearch failed" ≠ JsError.error "Address not found" :=
  ⟨rfl, rfl, rfl, by decide⟩

/-- C20 (amended). When the features array of a 2xx GeoSearch response is empty
or absent, `zolaAPI.addressToBBL` throws `Address not found`, and so does
`getCompleteZolaReport` for an address; on a response that is not 2xx
`zolaAPI.addressToBBL` throws `GeoSearch failed` whatever the body holds. For
every status, `nycData.getAllPropertyData` returns the error result
`Address not found in NYC` without querying any dataset. When the first feature
carries no BBL, no report is produced either: `getCompleteZolaReport` throws
(`Could not determine BBL` when the response is 2xx and the feature is otherwise
complete), and `getAllPropertyData` returns the same error result without
querying any dataset. -/
theorem address_not_found_failure :
    (∀ (status : Nat) (data : GeoBody), httpOk status = true →
      (data.features = none ∨ data.features = some []) →
      ZolaAPI.addressToBBL (HttpResult.response status (some data)) =
        .error (JsError.error "Address not found")) ∧
    (∀ (toUpperCase : String → String) (generatedAt : String) (net : ZolaAPI.ZolaNet)
      (address : String) (status : Nat) (data : GeoBody),
      (ZolaAPI.jsLength address ≠ 10 ∨ ZolaAPI.jsIsNaN address = true) →
      net.geosearch address = HttpResult.response status (some data) → httpOk status = true →
      (data.features = none ∨ data.features = some []) →
      ZolaAPI.getCompleteZolaReport toUpperCase generatedAt net address =
        .error (JsError.error "Address not found")) ∧
    (∀ (toUpperCase : String → String) (status : Nat) (data : GeoBody) (net : NycData.NycNet),
      (data.features = none ∨ data.features = some []) →
      NycData.getAllPropertyData toUpperCase (HttpResult.response status (some data)) net =
        (NycData.PropertyResult.errorResult "Address not found in NYC", [])) ∧
    (∀ (toUpperCase : String → String) (generatedAt : String) (net : ZolaAPI.ZolaNet)
      (address : String) (status : Nat) (data : GeoBody) (feature : GeoFeature)
      (rest : List GeoFeature),
      (ZolaAPI.jsLength address ≠ 10 ∨ ZolaAPI.jsIsNaN address = true) →
      net.geosearch address = HttpResult.response status (some data) →
      data.features = some (feature :: rest) →
      (∀ props, feature.properties = some props →
        falsyString (props.pad.bind (fun p => p.bbl)) = true) →
      (∃ e, ZolaAPI.getCompleteZolaReport toUpperCase generatedAt net address = .error e) ∧
      (httpOk status = true → feature.properties ≠ none →
        feature.geometry.bind (fun g => g.coordinates) ≠ none →
        ZolaAPI.getCompleteZolaReport toUpperCase generatedAt net address =
          .error (JsError.error "Could not determine BBL"))) ∧
    (∀ (toUpperCase : String → String) (status : Nat) (data : GeoBody) (feature : GeoFeature)
      (rest : List GeoFeature) (net : NycData.NycNet),
      data.features = some (feature :: rest) →
      (∀ props, feature.properties = some props →
        falsyString (orElseString (props.pad.bind (fun p => p.bbl)) props.pad_bbl) = true) →
      NycData.getAllPropertyData toUpperCase (HttpResult.response status (some data)) net =
        (NycData.PropertyResult.errorResult "Address not found in NYC", [])) ∧
    (∀ (status : Nat) (body : Option GeoBody), httpOk status = false →
      ZolaAPI.addressToBBL (HttpResult.response status body) =
        .error (JsError.error "GeoSearch failed")) := by
  refine ⟨zola_addressToBBL_no_features, ?_, ?_, ?_, ?_, ?_⟩
  · intro toUpperCase generatedAt net address status data haddr hgeo hok hf
    have hc : (decide (ZolaAPI.jsLength address ≠ 10) || ZolaAPI.jsIsNaN address) = true := by
      rcases haddr with h | h <;> simp [h]
    simp only [ZolaAPI.getCompleteZolaReport, hc, if_true, hgeo,
      zola_addressToBBL_no_features status data hok hf]
  · intro toUpperCase status data net hf
    simp only [NycData.getAllPropertyData, nyc_addressToBBL_no_features status data hf]
  · intro toUpperCase generatedAt net address status data feature rest haddr hgeo hf hb
    have hc : (decide (ZolaAPI.jsLength address ≠ 10) || ZolaAPI.jsIsNaN address) = true := by
      rcases haddr with h | h <;> simp [h]
    have key := zola_addressToBBL_no_bbl status data feature rest hf hb
    constructor
    · simp only [ZolaAPI.getCompleteZolaReport, hc, if_true, hgeo]
      rcases hr : ZolaAPI.addressToBBL (HttpResult.response status (some data)) with e | info
      · exact ⟨e, rfl⟩
      · exact ⟨JsError.error "Could not determine BBL", by simp only [key info hr, if_true]⟩
    · intro hok hp hg
      simp only [ZolaAPI.getCompleteZolaReport, hc, if_true, hgeo]
      rcases hr : ZolaAPI.addressToBBL (HttpResult.response status (some data)) with e | info
      · exfalso
        rcases hp2 : feature.properties with _ | props
        · exact hp hp2
        · rcases hg2 : feature.geometry.bind (fun g => g.coordinates) with _ | coordinates
          · exact hg hg2
          · simp [ZolaAPI.addressToBBL, hok, hf, hp2, hg2] at hr
      · simp only [key info hr, if_true]
  · intro toUpperCase status data feature rest net hf hb
    have key := nyc_addressToBBL_no_bbl status data feature rest hf hb
    simp only [NycData.getAllPropertyData]
    rcases hr : NycData.addressToBBL (HttpResult.response status (some data)) with _ | g
    · rfl
    · simp only [key g hr, if_true]
  · intro status body hok
    simp [ZolaAPI.addressToBBL, hok]

/-- Instances of C20 (amended): a GeoSearch answer with no feature for
"1 Nowhere St", and an answer whose only feature has no BBL. -/
theorem address_not_found_failure_witness :
    ZolaAPI.addressToBBL (HttpResult.response 200 (some { features := some [] })) =
      .error (JsError.error "Address not found") ∧
    ZolaAPI.getCompleteZolaReport asciiUpper "2024-01-15T12:00:00.000Z"
        (ZolaAPI.emptyZolaNet (HttpResult.response 200 (some { features := none })))
        "1 Nowhere St" = .error (JsError.error "Address not found") ∧
    NycData.getAllPropertyData asciiUpper (HttpResult.response 200 (some { features := some [] }))
        NycData.emptyNycNet =
      (NycData.PropertyResult.errorResult "Address not found in NYC", []) ∧
    ZolaAPI.getCompleteZolaReport asciiUpper "2024-01-15T12:00:00.000Z"
        (ZolaAPI.emptyZolaNet (HttpResult.response 200 (some (geoBodyWithBBL none none))))
        "1 Nowhere St" = .error (JsError.error "Could not determine BBL") ∧
    NycData.getAllPropertyData asciiUpper
        (HttpResult.response 200 (some (geoBodyWithBBL none none))) NycData.emptyNycNet =
      (NycData.PropertyResult.errorResult "Address not found in NYC", []) :=
  ⟨address_not_found_failure.1 200 _ (by decide) (Or.inr rfl),
   address_not_found_failure.2.1 asciiUpper _ _ "1 Nowhere St" 200 _ (Or.inl (by decide)) rfl
     (by decide) (Or.inl rfl),
   address_not_found_failure.2.2.1 asciiUpper 200 _ _ (Or.inr rfl),
   (address_not_found_failure.2.2.2.1 asciiUpper _ _ "1 Nowhere St" 200 _
     (geoFeatureWithBBL none none) [] (Or.inl (by decide)) rfl rfl
     (by intro props hp; cases hp; rfl)).2 (by decide) (by simp [geoFeatureWithBBL])
     (by simp [geoFeatureWithBBL]),
   address_not_found_failure.2.2.2.2.1 asciiUpper 200 _ (geoFeatureWithBBL none none) [] _ rfl
     (by intro props hp; cases hp; rfl)⟩

/-! ## Report assembly -/

theorem assembleZolaReport_empty_pluto (toUpperCase : String → String) (generatedAt : String)
    (net : ZolaAPI.ZolaNet) (addressInfo : Option ZolaAPI.AddressInfo) (bbl : String)
    (acts : List ZolaAPI.ActionRow)
    (hz : ZolaAPI.responseJson (net.zoningTaxLot bbl) = .ok ())
    (hp : ZolaAPI.responseJson (net.pluto bbl) = .ok [])
    (ha : ZolaAPI.responseJson (net.actions bbl) = .ok acts) :
    ∃ r, ZolaAPI.assembleZolaReport toUpperCase generatedAt net addressInfo bbl = .ok r ∧
      r.bbl = bbl ∧ r.address = addressInfo ∧ r.far = ZolaAPI.getFARData bbl [] ∧
      r.zoning.primary_zone = none ∧ r.land_use.land_use_code = none ∧
      r.building.year_built = none := by
  simp only [ZolaAPI.assembleZolaReport, ZolaAPI.getZoningData, ZolaAPI.fetchFARData,
    ZolaAPI.getLandUseData, ZolaAPI.getBuildingData, ZolaAPI.getTaxData,
    ZolaAPI.getEnvironmentalData, ZolaAPI.getCommunityData, ZolaAPI.getZoningActions,
    hz, hp, ha]
  exact ⟨_, rfl, rfl, rfl, rfl, rfl, rfl, rfl⟩

theorem getFARData_empty (bbl : String) :
    (ZolaAPI.getFARData bbl []).lot_area_sf = 0 ∧ (ZolaAPI.getFARData bbl []).max_far = 0 ∧
    (ZolaAPI.getFARData bbl []).max_buildable_sf = 0 ∧
    (ZolaAPI.getFARData bbl []).utilization_pct = some 0 := by
  refine ⟨?_, ?_, ?_, ?_⟩ <;> norm_num [ZolaAPI.getFARData, orZero, jsRound, toDouble_zero]

theorem getAllPropertyData_report (toUpperCase : String → String) (geo : HttpResult GeoBody)
    (net : NycData.NycNet) (g : NycData.GeoData) (hg : NycData.addressToBBL geo = some g)
    (hb : falsyString g.bbl = false) :
    ∃ r, NycData.getAllPropertyData toUpperCase geo net =
        (NycData.PropertyResult.report r,
          NycData.datasetRequests (NycData.fetchNYCOpenData (net.legals (g.bbl.getD "")))) ∧
      r.bbl = g.bbl.getD "" ∧
      r.zoning =
        NycData.getZoningInfo (NycData.fetchNYCOpenData (net.zoningTaxLot (g.bbl.getD ""))) ∧
      r.pluto = NycData.getPLUTOData (NycData.fetchNYCOpenData (net.pluto (g.bbl.getD ""))) ∧
      r.acris = NycData.getACRISRecords toUpperCase
        (NycData.fetchNYCOpenData (net.legals (g.bbl.getD "")))
        (fun q => NycData.fetchNYCOpenData (net.master q)) ∧
      r.violations.hpd =
        NycData.getHPDViolations (NycData.fetchNYCOpenData (net.hpd (g.bbl.getD ""))) ∧
      r.violations.dob =
        NycData.getDOBViolations (NycData.fetchNYCOpenData (net.dob (g.bbl.getD ""))) ∧
      r.violations.ecb =
        NycData.getECBViolations (NycData.fetchNYCOpenData (net.ecb (g.bbl.getD ""))) ∧
      r.permits =
        NycData.getDOBPermits (NycData.fetchNYCOpenData (net.permits (g.bbl.getD ""))) := by
  simp only [NycData.getAllPropertyData, hg, hb, Bool.false_eq_true, if_false]
  exact ⟨_, rfl, rfl, rfl, rfl, rfl, rfl, rfl, rfl, rfl⟩

theorem jsLength_ten_ne_empty (bbl : String) (h : ZolaAPI.jsLength bbl = 10) : bbl ≠ "" := by
  rintro rfl
  revert h
  decide

theorem fetchNYCOpenData_not_ok {α : Type} (status : Nat) (body : Option (List α))
    (hok : httpOk status = false) :
    NycData.fetchNYCOpenData (HttpResult.response status body) = [] := by
  simp [NycData.fetchNYCOpenData, hok]

/-- C16, as stated, fails: for BBL 1008350029 with a PLUTO dataset that returns
no row, `getCompleteZolaReport` returns a report (its FAR object computed from an
empty row, its primary zone `null`), and `getAllPropertyData` returns a report
whose `pluto` is `null`. -/
theorem missing_pluto_report_counterexample :
    ZolaAPI.responseJson
        ((ZolaAPI.emptyZolaNet (HttpResult.networkError "offline")).pluto "1008350029") =
      .ok [] ∧
    (∃ r, ZolaAPI.getCompleteZolaReport asciiUpper "2024-01-15T12:00:00.000Z"
        (ZolaAPI.emptyZolaNet (HttpResult.networkError "offline")) "1008350029" = .ok r ∧
      r.far = ZolaAPI.getFARData "1008350029" [] ∧ r.zoning.primary_zone = none) ∧
    NycData.fetchNYCOpenData (NycData.emptyNycNet.pluto "1008350029") = [] ∧
    (∃ r, (NycData.getAllPropertyData asciiUpper
        (HttpResult.response 200 (some (geoBodyWithBBL (some "1008350029") none)))
        NycData.emptyNycNet).1 = NycData.PropertyResult.report r ∧
      r.bbl = "1008350029" ∧ r.pluto = none) :=
  ⟨rfl, ⟨_, rfl, rfl, rfl⟩, rfl, ⟨_, rfl, rfl, rfl⟩⟩

/-- C16 (amended). When the PLUTO dataset returns no row for the BBL, a report is
still returned. `getCompleteZolaReport`, called with a BBL or with an address
that resolves to one, returns a report whose sub-reports are computed from an
empty row (the FAR object of no row, with lot area, maximum FAR and buildable
area 0; primary zone, land use code and year built `null`), provided its zoning
and zoning-actions requests answer with JSON. `getAllPropertyData` returns a
report whose `pluto` is `null`. -/
theorem missing_pluto_report :
    (∀ (toUpperCase : String → String) (generatedAt : String) (net : ZolaAPI.ZolaNet)
      (bbl : String) (acts : List ZolaAPI.ActionRow),
      ZolaAPI.jsLength bbl = 10 → ZolaAPI.jsIsNaN bbl = false →
      ZolaAPI.responseJson (net.zoningTaxLot bbl) = .ok () →
      ZolaAPI.responseJson (net.pluto bbl) = .ok [] →
      ZolaAPI.responseJson (net.actions bbl) = .ok acts →
      ∃ r, ZolaAPI.getCompleteZolaReport toUpperCase generatedAt net bbl = .ok r ∧
        r.bbl = bbl ∧ r.address = none ∧ r.far = ZolaAPI.getFARData bbl [] ∧
        r.far.lot_area_sf = 0 ∧ r.far.max_far = 0 ∧ r.far.max_buildable_sf = 0 ∧
        r.zoning.primary_zone = none ∧ r.land_use.land_use_code = none ∧
        r.building.year_built = none) ∧
    (∀ (toUpperCase : String → String) (generatedAt : String) (net : ZolaAPI.ZolaNet)
      (address : String) (info : ZolaAPI.AddressInfo) (acts : List ZolaAPI.ActionRow),
      (ZolaAPI.jsLength address ≠ 10 ∨ ZolaAPI.jsIsNaN address = true) →
      ZolaAPI.addressToBBL (net.geosearch address) = .ok info →
      falsyString info.bbl = false →
      ZolaAPI.responseJson (net.zoningTaxLot (info.bbl.getD "")) = .ok () →
      ZolaAPI.responseJson (net.pluto (info.bbl.getD "")) = .ok [] →
      ZolaAPI.responseJson (net.actions (info.bbl.getD "")) = .ok acts →
      ∃ r, ZolaAPI.getCompleteZolaReport toUpperCase generatedAt net address = .ok r ∧
        r.bbl = info.bbl.getD "" ∧ r.address = some info ∧
        r.far = ZolaAPI.getFARData (info.bbl.getD "") [] ∧
        r.far.lot_area_sf = 0 ∧ r.far.max_far = 0 ∧ r.far.max_buildable_sf = 0 ∧
        r.zoning.primary_zone = none ∧ r.land_use.land_use_code = none ∧
        r.building.year_built = none) ∧
    (∀ (toUpperCase : String → String) (geo : HttpResult GeoBody) (net : NycData.NycNet)
      (g : NycData.GeoData),
      NycData.addressToBBL geo = some g → falsyString g.bbl = false →
      NycData.fetchNYCOpenData (net.pluto (g.bbl.getD "")) = [] →
      ∃ r, (NycData.getAllPropertyData toUpperCase geo net).1 =
          NycData.PropertyResult.report r ∧
        r.bbl = g.bbl.getD "" ∧ r.pluto = none) := by
  refine ⟨?_, ?_, ?_⟩
  · intro toUpperCase generatedAt net bbl acts hlen hnum hz hp ha
    obtain ⟨r, hr, h1, h2, h3, h4, h5, h6⟩ :=
      assembleZolaReport_empty_pluto toUpperCase generatedAt net none bbl acts hz hp ha
    have hne := jsLength_ten_ne_empty bbl hlen
    refine ⟨r, ?_, h1, h2, h3, ?_, ?_, ?_, h4, h5, h6⟩
    · simp [ZolaAPI.getCompleteZolaReport, hlen, hnum, hne, hr]
    · rw [h3]; exact (getFARData_empty bbl).1
    · rw [h3]; exact (getFARData_empty bbl).2.1
    · rw [h3]; exact (getFARData_empty bbl).2.2.1
  · intro toUpperCase generatedAt net address info acts haddr hgeo hb hz hp ha
    obtain ⟨r, hr, h1, h2, h3, h4, h5, h6⟩ :=
      assembleZolaReport_empty_pluto toUpperCase generatedAt net (some info)
        (info.bbl.getD "") acts hz hp ha
    have hc : (decide (ZolaAPI.jsLength address ≠ 10) || ZolaAPI.jsIsNaN address) = true := by
      rcases haddr with h | h <;> simp [h]
    refine ⟨r, ?_, h1, h2, h3, ?_, ?_, ?_, h4, h5, h6⟩
    · simp only [ZolaAPI.getCompleteZolaReport, hc, if_true, hgeo, hb, Bool.false_eq_true,
        if_false, hr]
    · rw [h3]; exact (getFARData_empty _).1
    · rw [h3]; exact (getFARData_empty _).2.1
    · rw [h3]; exact (getFARData_empty _).2.2.1
  · intro toUpperCase geo net g hg hb hp
    obtain ⟨r, hr, h1, _, h3, _⟩ := getAllPropertyData_report toUpperCase geo net g hg hb
    refine ⟨r, by rw [hr], h1, ?_⟩
    rw [h3, hp]
    rfl

/-- Instances of C16 (amended): BBL 1008350029 and the address 350 5th Ave, with
datasets that answer 200 and no row. -/
theorem missing_pluto_report_witness :
    (∃ r, ZolaAPI.getCompleteZolaReport asciiUpper "2024-01-15T12:00:00.000Z"
        (ZolaAPI.emptyZolaNet (HttpResult.networkError "offline")) "1008350029" = .ok r ∧
      r.bbl = "1008350029" ∧ r.address = none ∧
      r.far = ZolaAPI.getFARData "1008350029" [] ∧
      r.far.lot_area_sf = 0 ∧ r.far.max_far = 0 ∧ r.far.max_buildable_sf = 0 ∧
      r.zoning.primary_zone = none ∧ r.land_use.land_use_code = none ∧
      r.building.year_built = none) ∧
    (∃ r, (NycData.getAllPropertyData asciiUpper
        (HttpResult.response 200 (some (geoBodyWithBBL (some "1008350029") none)))
        NycData.emptyNycNet).1 = NycData.PropertyResult.report r ∧
      r.bbl = "1008350029" ∧ r.pluto = none) ∧
    (∃ r, ZolaAPI.getCompleteZolaReport asciiUpper "2024-01-15T12:00:00.000Z"
        (ZolaAPI.emptyZolaNet
          (HttpResult.response 200 (some (geoBodyWithBBL (some "1008350029") none))))
        "350 5th Ave" = .ok r ∧
      r.bbl = "1008350029" ∧ r.far.max_far = 0 ∧ r.zoning.primary_zone = none) :=
  ⟨missing_pluto_report.1 asciiUpper "2024-01-15T12:00:00.000Z"
      (ZolaAPI.emptyZolaNet (HttpResult.networkError "offline")) "1008350029" []
      (by decide) (by decide) rfl rfl rfl,
   missing_pluto_report.2.2 asciiUpper
      (HttpResult.response 200 (some (geoBodyWithBBL (some "1008350029") none)))
      NycData.emptyNycNet _ rfl (by decide) rfl,
   (missing_pluto_report.2.1 asciiUpper "2024-01-15T12:00:00.000Z"
      (ZolaAPI.emptyZolaNet
        (HttpResult.response 200 (some (geoBodyWithBBL (some "1008350029") none))))
      "350 5th Ave" _ [] (Or.inl (by decide)) rfl (by decide) rfl rfl rfl).imp
      (fun _ h => ⟨h.1, h.2.1, h.2.2.2.2.2.1, h.2.2.2.2.2.2.2.1⟩)⟩

/-- C17, as stated, fails: with HPD answering 503 and every other dataset
answering 200, the report is returned with `violations.hpd` the empty list, and
it is the very result obtained when HPD answers 200 with no row, so that nothing
in it records the failure. -/
theorem hpd_unavailable_counterexample :
    (∃ r, (NycData.getAllPropertyData asciiUpper
        (HttpResult.response 200 (some (geoBodyWithBBL (some "1008350029") none)))
        (NycData.sampleNycNet (HttpResult.response 503 none))).1 =
          NycData.PropertyResult.report r ∧
      r.violations.hpd = [] ∧ r.zoning ≠ none ∧ r.pluto ≠ none) ∧
    NycData.getAllPropertyData asciiUpper
        (HttpResult.response 200 (some (geoBodyWithBBL (some "1008350029") none)))
        (NycData.sampleNycNet (HttpResult.response 503 none)) =
      NycData.getAllPropertyData asciiUpper
        (HttpResult.response 200 (some (geoBodyWithBBL (some "1008350029") none)))
        (NycData.sampleNycNet (HttpResult.response 200 (some []))) :=
  ⟨⟨_, rfl, rfl, by simp [NycData.sampleNycNet, NycData.fetchNYCOpenData, httpOk,
      NycData.getZoningInfo, NycData.getPLUTOData]⟩, rfl⟩

/-- C17 (amended). When the HPD request is answered with a non-2xx status (503
for one) and the address resolves to a BBL, `getAllPropertyData` returns its
report with `violations.hpd` the empty list; every other sub-report is what its
own dataset gives (`zoning` and `pluto` non-null when their datasets return a
row), `totalOpen` counts the DOB and ECB violations only, and the result is the
one obtained when HPD answers 200 with no row: the report has no entry that
records the failure. -/
theorem hpd_failure_degrades_to_empty (toUpperCase : String → String)
    (geo : HttpResult GeoBody) (net : NycData.NycNet) (g : NycData.GeoData) (status : Nat)
    (body : Option (List NycData.HpdRow))
    (hg : NycData.addressToBBL geo = some g) (hb : falsyString g.bbl = false)
    (hhpd : net.hpd (g.bbl.getD "") = HttpResult.response status body)
    (hok : httpOk status = false) :
    (∃ r, (NycData.getAllPropertyData toUpperCase geo net).1 =
        NycData.PropertyResult.report r ∧
      r.violations.hpd = [] ∧
      r.violations.dob =
        NycData.getDOBViolations (NycData.fetchNYCOpenData (net.dob (g.bbl.getD ""))) ∧
      r.violations.ecb =
        NycData.getECBViolations (NycData.fetchNYCOpenData (net.ecb (g.bbl.getD ""))) ∧
      r.violations.totalOpen = NycData.totalOpen [] r.violations.dob r.violations.ecb ∧
      r.zoning =
        NycData.getZoningInfo (NycData.fetchNYCOpenData (net.zoningTaxLot (g.bbl.getD ""))) ∧
      r.pluto = NycData.getPLUTOData (NycData.fetchNYCOpenData (net.pluto (g.bbl.getD ""))) ∧
      r.permits =
        NycData.getDOBPermits (NycData.fetchNYCOpenData (net.permits (g.bbl.getD ""))) ∧
      (NycData.fetchNYCOpenData (net.zoningTaxLot (g.bbl.getD "")) ≠ [] → r.zoning ≠ none) ∧
      (NycData.fetchNYCOpenData (net.pluto (g.bbl.getD "")) ≠ [] → r.pluto ≠ none)) ∧
    NycData.getAllPropertyData toUpperCase geo net =
      NycData.getAllPropertyData toUpperCase geo
        (NycData.withHpd net (HttpResult.response 200 (some []))) := by
  have hfetch : NycData.fetchNYCOpenData (net.hpd (g.bbl.getD "")) = [] := by
    rw [hhpd]
    exact fetchNYCOpenData_not_ok status body hok
  constructor
  · simp only [NycData.getAllPropertyData, hg, hb, Bool.false_eq_true, if_false, hfetch]
    refine ⟨_, rfl, rfl, rfl, rfl, rfl, rfl, rfl, rfl, ?_, ?_⟩
    · intro h
      rcases hz : NycData.fetchNYCOpenData (net.zoningTaxLot (g.bbl.getD "")) with _ | ⟨x, xs⟩
      · exact absurd hz h
      · simp [NycData.getZoningInfo]
    · intro h
      rcases hz : NycData.fetchNYCOpenData (net.pluto (g.bbl.getD "")) with _ | ⟨x, xs⟩
      · exact absurd hz h
      · simp [NycData.getPLUTOData]
  · simp only [NycData.getAllPropertyData, hg, hb, Bool.false_eq_true, if_false, hfetch,
      NycData.withHpd]
    rfl

/-- An instance of C17 (amended): 350 5th Ave, HPD answering 503 and every other
dataset answering 200 with one row. -/
theorem hpd_failure_degrades_to_empty_witness :
    httpOk 503 = false ∧
    (∃ r, (NycData.getAllPropertyData asciiUpper
        (HttpResult.response 200 (some (geoBodyWithBBL (some "1008350029") none)))
        (NycData.sampleNycNet (HttpResult.response 503 none))).1 =
          NycData.PropertyResult.report r ∧
      r.violations.hpd = [] ∧ r.violations.totalOpen = 2) :=
  ⟨by decide,
   (hpd_failure_degrades_to_empty asciiUpper
      (HttpResult.response 200 (some (geoBodyWithBBL (some "1008350029") none)))
      (NycData.sampleNycNet (HttpResult.response 503 none)) _ 503 none rfl (by decide) rfl
      (by decide)).1.imp
      (fun _ h => ⟨h.1, h.2.1, by rw [h.2.2.2.2.1, h.2.2.1, h.2.2.2.1]; rfl⟩)⟩

/-! ## ACRIS: the Master query and the order of the lists -/

namespace NycData

/-- C21, as stated, fails: with 21 distinct document ids in the Legals response
the one Master query made filters on `D01` to `D20` only; `D21` is in no query,
and the deed recorded for it is missing from the result. -/
theorem acris_master_single_query_counterexample :
    (docIds legals21).length = 21 ∧
    (masterQuery legals21).whereClause =
      "document_id in ('D01','D02','D03','D04','D05','D06','D07','D08','D09','D10'," ++
        "'D11','D12','D13','D14','D15','D16','D17','D18','D19','D20')" ∧
    includes (masterQuery legals21).whereClause "D21" = false ∧
    (getACRISRecords asciiUpper legals21 masterD01D21).rawDocuments =
      some [{ document_id := some "D01", doc_type := some "DEED",
              recorded_datetime := some "2019-05-01T00:00:00.000" }] := by
  refine ⟨by decide, by decide, by decide, by decide⟩

theorem eraseDups_loop_mem {α : Type} [BEq α] [LawfulBEq α] (as bs : List α) (x : α) :
    x ∈ List.eraseDups.loop as bs ↔ x ∈ as ∨ x ∈ bs := by
  induction as generalizing bs with
  | nil => simp [List.eraseDups.loop]
  | cons a as ih =>
    unfold List.eraseDups.loop
    cases h : bs.elem a
    · simp only [ih, List.mem_cons]
      tauto
    · simp only [ih, List.mem_cons]
      have ha : a ∈ bs := List.elem_iff.mp h
      constructor
      · tauto
      · rintro ((rfl | h1) | h1)
        · exact Or.inr ha
        · exact Or.inl h1
        · exact Or.inr h1

theorem eraseDups_loop_nodup {α : Type} [BEq α] [LawfulBEq α] (as bs : List α)
    (h : bs.Nodup) : (List.eraseDups.loop as bs).Nodup := by
  induction as generalizing bs with
  | nil => simpa [List.eraseDups.loop] using h
  | cons a as ih =>
    unfold List.eraseDups.loop
    cases h1 : bs.elem a
    · apply ih
      refine List.nodup_cons.mpr ⟨?_, h⟩
      intro ha
      rw [List.elem_iff.mpr ha] at h1
      exact Bool.noConfusion h1
    · exact ih bs h

/-- The distinct document ids are the ids of the Legals rows, each once. -/
theorem docIds_spec (legals : List Legal) :
    (docIds legals).Nodup ∧
    ∀ i, i ∈ docIds legals ↔ ∃ l ∈ legals, l.document_id = i := by
  constructor
  · exact eraseDups_loop_nodup _ _ List.nodup_nil
  · intro i
    unfold docIds List.eraseDups
    rw [eraseDups_loop_mem]
    simp

/-- The lists of `getACRISRecords` are sub-sequences of the records of the
Master response. -/
theorem getACRISRecords_sublists (up : String → String) (legals : List Legal)
    (fetchMaster : SoqlParams → List MasterDoc) (h : legals ≠ []) :
    ∃ o, (getACRISRecords up legals fetchMaster).other = some o ∧
      (getACRISRecords up legals fetchMaster).deeds.Sublist
        ((fetchMaster (masterQuery legals)).map toRecord) ∧
      (getACRISRecords up legals fetchMaster).mortgages.Sublist
        ((fetchMaster (masterQuery legals)).map toRecord) ∧
      (getACRISRecords up legals fetchMaster).liens.Sublist
        ((fetchMaster (masterQuery legals)).map toRecord) ∧
      o.Sublist ((fetchMaster (masterQuery legals)).map toRecord) := by
  rw [getACRISRecords_eq up legals fetchMaster h]
  exact ⟨_, rfl, (List.filter_sublist _).map _, (List.filter_sublist _).map _,
    (List.filter_sublist _).map _, (List.filter_sublist _).map _⟩

/-- C21 (amended). `getACRISRecords` makes one Master query, whatever the
number of distinct document ids: its filter lists the first 20 distinct ids of
the Legals response, in order of first occurrence, with `recorded_datetime DESC`
and a limit of 50. The result is computed from the answer to that one query
(`rawDocuments` is that answer, unchanged), so ids after the 20th have no
influence on it; every distinct id is in the filter exactly when there are at
most 20 of them. -/
theorem acris_master_single_query (up : String → String) (legals : List Legal)
    (fetchMaster : SoqlParams → List MasterDoc) (h : legals ≠ []) :
    (docIds legals).Nodup ∧
    (∀ i, i ∈ docIds legals ↔ ∃ l ∈ legals, l.document_id = i) ∧
    masterQuery legals =
      { whereClause := "document_id in ('" ++
          String.intercalate "','" (((docIds legals).take 20).map (fun i => i.getD "")) ++ "')"
        order := "recorded_datetime DESC"
        limit := 50 } ∧
    ((docIds legals).take 20).length = min 20 (docIds legals).length ∧
    ((docIds legals).length ≤ 20 → (docIds legals).take 20 = docIds legals) ∧
    (∀ i, 20 < (docIds legals).length → i ∈ (docIds legals).drop 20 →
      i ∉ (docIds legals).take 20) ∧
    (getACRISRecords up legals fetchMaster).rawDocuments =
      some (fetchMaster (masterQuery legals)) ∧
    (∀ fetchMaster' : SoqlParams → List MasterDoc,
      fetchMaster' (masterQuery legals) = fetchMaster (masterQuery legals) →
      getACRISRecords up legals fetchMaster' = getACRISRecords up legals fetchMaster) ∧
    (∀ legals' : List Legal, legals' ≠ [] →
      (docIds legals').take 20 = (docIds legals).take 20 →
      getACRISRecords up legals' fetchMaster = getACRISRecords up legals fetchMaster) := by
  have hnd := (docIds_spec legals).1
  refine ⟨hnd, (docIds_spec legals).2, rfl, List.length_take _ _, ?_, ?_, ?_, ?_, ?_⟩
  · intro hle
    exact List.take_of_length_le hle
  · intro i _ hdrop htake
    have hsplit : (docIds legals).take 20 ++ (docIds legals).drop 20 = docIds legals :=
      List.take_append_drop 20 _
    rw [← hsplit] at hnd
    exact (List.nodup_append.mp hnd).2.2 htake hdrop
  · rw [getACRISRecords_eq up legals fetchMaster h]
  · intro fetchMaster' hsame
    rw [getACRISRecords_eq up legals fetchMaster' h, getACRISRecords_eq up legals fetchMaster h,
      hsame]
  · intro legals' h' hsame
    have hq : masterQuery legals' = masterQuery legals := by
      simp only [masterQuery, hsame]
    rw [getACRISRecords_eq up legals' fetchMaster h', getACRISRecords_eq up legals fetchMaster h,
      hq]

/-- An instance of C21 (amended): for the Legals response with 21 distinct ids
the answer to the one query is the raw result, and `D21`, the 21st id, is not
among the ids of the filter. -/
theorem acris_master_single_query_witness :
    legals21 ≠ [] ∧
    (getACRISRecords asciiUpper legals21 masterD01D21).rawDocuments =
      some (masterD01D21 (masterQuery legals21)) ∧
    some "D21" ∉ (docIds legals21).take 20 :=
  ⟨by decide,
   (acris_master_single_query asciiUpper legals21 masterD01D21 (by decide)).2.2.2.2.2.2.1,
   (acris_master_single_query asciiUpper legals21 masterD01D21 (by decide)).2.2.2.2.2.1
     (some "D21") (by decide) (by decide)⟩

/-- C22, as stated, fails: for a Master response that is not in descending
order of recorded datetime, `deeds` is in the order of the response, here with
the deed recorded in 2019 before the deed recorded in 2021. -/
theorem acris_lists_unsorted_counterexample :
    (getACRISRecords asciiUpper [⟨some "D01"⟩, ⟨some "D02"⟩] (fun _ => unsortedMaster)).deeds =
      unsortedMaster.map toRecord ∧
    ¬ RecordedDescending
      (getACRISRecords asciiUpper [⟨some "D01"⟩, ⟨some "D02"⟩] (fun _ => unsortedMaster)).deeds := by
  have h : (getACRISRecords asciiUpper [⟨some "D01"⟩, ⟨some "D02"⟩]
      (fun _ => unsortedMaster)).deeds = unsortedMaster.map toRecord := by
    rw [getACRISRecords_eq _ _ _ (by simp)]
    have h1 : unsortedMaster.filter (fun d => isDeed asciiUpper d) = unsortedMaster := by
      decide
    simp only [h1]
  refine ⟨h, ?_⟩
  rw [h]
  unfold RecordedDescending
  decide

/-- C22 (amended). `getACRISRecords` does not sort: it asks the Master dataset
for `recorded_datetime DESC` and keeps the order of the response. Whenever the
records of the Master response are in descending order of recorded datetime,
each of `deeds`, `mortgages`, `liens` and `other` is in descending order too. -/
theorem acris_lists_follow_master_order (up : String → String) (legals : List Legal)
    (fetchMaster : SoqlParams → List MasterDoc) (h : legals ≠ [])
    (hsorted : RecordedDescending ((fetchMaster (masterQuery legals)).map toRecord)) :
    (masterQuery legals).order = "recorded_datetime DESC" ∧
    ∃ o, (getACRISRecords up legals fetchMaster).other = some o ∧
      RecordedDescending (getACRISRecords up legals fetchMaster).deeds ∧
      RecordedDescending (getACRISRecords up legals fetchMaster).mortgages ∧
      RecordedDescending (getACRISRecords up legals fetchMaster).liens ∧
      RecordedDescending o := by
  obtain ⟨o, ho, h1, h2, h3, h4⟩ := getACRISRecords_sublists up legals fetchMaster h
  exact ⟨rfl, o, ho, List.Pairwise.sublist h1 hsorted, List.Pairwise.sublist h2 hsorted,
    List.Pairwise.sublist h3 hsorted, List.Pairwise.sublist h4 hsorted⟩

/-- An instance of C22 (amended): a Master response of two deeds and a mortgage
in descending order of recorded datetime. -/
theorem acris_lists_follow_master_order_witness :
    RecordedDescending (sortedMaster.map toRecord) ∧
    RecordedDescending
      (getACRISRecords asciiUpper [⟨some "D01"⟩] (fun _ => sortedMaster)).deeds ∧
    RecordedDescending
      (getACRISRecords asciiUpper [⟨some "D01"⟩] (fun _ => sortedMaster)).mortgages :=
  ⟨by unfold RecordedDescending; decide,
   (acris_lists_follow_master_order asciiUpper [⟨some "D01"⟩] (fun _ => sortedMaster)
      (by decide) (by unfold RecordedDescending; decide)).2.elim (fun _ ho => ho.2.1),
   (acris_lists_follow_master_order asciiUpper [⟨some "D01"⟩] (fun _ => sortedMaster)
      (by decide) (by unfold RecordedDescending; decide)).2.elim (fun _ ho => ho.2.2.1)⟩

/-- C28. For a non-empty Legals response, each of `deeds`, `mortgages`, `liens`
and `other` is the list of records of the Master documents of its class, in the
order of the response: a sub-sequence of the records of the response. So any
order in which the recorded datetimes of the response stand, the descending one
included, is the order of every one of the four lists. -/
theorem acris_lists_stable_partition (up : String → String) (legals : List Legal)
    (fetchMaster : SoqlParams → List MasterDoc) (h : legals ≠ []) :
    (getACRISRecords up legals fetchMaster).deeds =
      ((fetchMaster (masterQuery legals)).filter (fun d => isDeed up d)).map toRecord ∧
    (getACRISRecords up legals fetchMaster).mortgages =
      ((fetchMaster (masterQuery legals)).filter
        (fun d => !isDeed up d && hasMortgageWord up d)).map toRecord ∧
    (getACRISRecords up legals fetchMaster).liens =
      ((fetchMaster (masterQuery legals)).filter
        (fun d => !isDeed up d && !hasMortgageWord up d && hasLienWord up d)).map toRecord ∧
    (getACRISRecords up legals fetchMaster).other =
      some (((fetchMaster (masterQuery legals)).filter
        (fun d => !isDeed up d && !hasMortgageWord up d && !hasLienWord up d)).map toRecord) ∧
    (∃ o, (getACRISRecords up legals fetchMaster).other = some o ∧
      (getACRISRecords up legals fetchMaster).deeds.Sublist
        ((fetchMaster (masterQuery legals)).map toRecord) ∧
      (getACRISRecords up legals fetchMaster).mortgages.Sublist
        ((fetchMaster (masterQuery legals)).map toRecord) ∧
      (getACRISRecords up legals fetchMaster).liens.Sublist
        ((fetchMaster (masterQuery legals)).map toRecord) ∧
      o.Sublist ((fetchMaster (masterQuery legals)).map toRecord) ∧
      ∀ r : Option String → Option String → Prop,
        ((fetchMaster (masterQuery legals)).map (fun d => d.recorded_datetime)).Pairwise r →
        ((getACRISRecords up legals fetchMaster).deeds.map (fun x => x.recordedDate)).Pairwise r ∧
        ((getACRISRecords up legals fetchMaster).mortgages.map
          (fun x => x.recordedDate)).Pairwise r ∧
        ((getACRISRecords up legals fetchMaster).liens.map (fun x => x.recordedDate)).Pairwise r ∧
        (o.map (fun x => x.recordedDate)).Pairwise r) := by
  obtain ⟨o, ho, h1, h2, h3, h4⟩ := getACRISRecords_sublists up legals fetchMaster h
  have heq := getACRISRecords_eq up legals fetchMaster h
  refine ⟨by rw [heq], by rw [heq], by rw [heq], by rw [heq], o, ho, h1, h2, h3, h4, ?_⟩
  intro r hr
  have hr' : (((fetchMaster (masterQuery legals)).map toRecord).map
      (fun x => x.recordedDate)).Pairwise r := by
    rw [List.map_map]
    exact hr
  exact ⟨List.Pairwise.sublist (h1.map _) hr', List.Pairwise.sublist (h2.map _) hr',
    List.Pairwise.sublist (h3.map _) hr', List.Pairwise.sublist (h4.map _) hr'⟩

/-- An instance of C28: the deeds of a sorted Master response of two deeds and
a mortgage are its first and third records. -/
theorem acris_lists_stable_partition_witness :
    (getACRISRecords asciiUpper [⟨some "D01"⟩] (fun _ => sortedMaster)).deeds =
      [toRecord { document_id := some "D02", doc_type := some "DEED",
                  recorded_datetime := some "2021-03-01T00:00:00.000" },
       toRecord { document_id := some "D01", doc_type := some "DEED",
                  recorded_datetime := some "2019-05-01T00:00:00.000" }] :=
  (acris_lists_stable_partition asciiUpper [⟨some "D01"⟩] (fun _ => sortedMaster)
    (by decide)).1.trans (by
      have h1 : sortedMaster.filter (fun d => isDeed asciiUpper d) =
          [{ document_id := some "D02", doc_type := some "DEED",
             recorded_datetime := some "2021-03-01T00:00:00.000" },
           { document_id := some "D01", doc_type := some "DEED",
             recorded_datetime := some "2019-05-01T00:00:00.000" }] := by decide
      simp only [h1, List.map])

end NycData

/-! ## `setCache` on a full storage -/

namespace ApiUsage

theorem getItem_filter_keep (p : String × Item → Bool) (st : Storage) (key : String)
    (item : Item) (h : getItem st key = some item) (hp : p (key, item) = true) :
    getItem (st.filter p) key = some item := by
  induction st with
  | nil => simp [getItem] at h
  | cons kv rest ih =>
    obtain ⟨k, v⟩ := kv
    by_cases hk : k = key
    · subst hk
      simp only [getItem, if_true, Option.some.injEq] at h
      subst h
      simp only [List.filter_cons, hp, if_true, getItem]
    · simp only [getItem, hk, if_false] at h
      cases hq : p (k, v)
      · simp only [List.filter_cons, hq, Bool.false_eq_true, if_false]
        exact ih h
      · simp only [List.filter_cons, hq, if_true, getItem, hk, if_false]
        exact ih h

theorem getItem_filter_absent (p : String × Item → Bool) (st : Storage) (key : String)
    (h : getItem st key = none) : getItem (st.filter p) key = none := by
  induction st with
  | nil => simp [getItem]
  | cons kv rest ih =>
    obtain ⟨k, v⟩ := kv
    by_cases hk : k = key
    · subst hk
      simp [getItem] at h
    · simp only [getItem, hk, if_false] at h
      cases hq : p (k, v)
      · simp only [List.filter_cons, hq, Bool.false_eq_true, if_false]
        exact ih h
      · simp only [List.filter_cons, hq, if_true, getItem, hk, if_false]
        exact ih h

/-- The three outcomes of `setCache`: the write accepted, the write accepted
after the sweep, and the write dropped after the sweep. -/
theorem setCache_cases (quota : Storage → Bool) (c : Clock) (type identifier : String)
    (data : JsVal) (st : Storage) :
    (quota (putItem st (getCacheKey type identifier) (Item.entry data c.now)) = true →
      setCache quota c type identifier data st =
        putItem st (getCacheKey type identifier) (Item.entry data c.now)) ∧
    (quota (putItem st (getCacheKey type identifier) (Item.entry data c.now)) = false →
      quota (putItem (clearOldCache c st) (getCacheKey type identifier)
        (Item.entry data c.now)) = true →
      setCache quota c type identifier data st =
        putItem (clearOldCache c st) (getCacheKey type identifier) (Item.entry data c.now)) ∧
    (quota (putItem st (getCacheKey type identifier) (Item.entry data c.now)) = false →
      quota (putItem (clearOldCache c st) (getCacheKey type identifier)
        (Item.entry data c.now)) = false →
      setCache quota c type identifier data st = clearOldCache c st) := by
  refine ⟨?_, ?_, ?_⟩
  · intro h1
    simp [setCache, setItem, h1]
  · intro h1 h2
    simp [setCache, setItem, h1, h2]
  · intro h1 h2
    simp [setCache, setItem, h1, h2]

/-- C23, as stated, fails: with a full storage that already holds an entry for
the key, one day old, the dropped write leaves that entry in place, and the
next `getCached` for the key returns the old value, not `null`. -/
theorem set_cache_dropped_write_counterexample :
    setCache quotaFull clockJan16 "pluto" "1008350029" (some (Json.str "new row"))
      storedPlutoRow = storedPlutoRow ∧
    getItem (setCache quotaFull clockJan16 "pluto" "1008350029" (some (Json.str "new row"))
      storedPlutoRow) (getCacheKey "pluto" "1008350029") =
        some (Item.entry (some (Json.str "old row")) clockJan15.now) ∧
    (getCached clockJan16 "pluto" "1008350029"
      (setCache quotaFull clockJan16 "pluto" "1008350029" (some (Json.str "new row"))
        storedPlutoRow)).1 = some (Json.str "old row") := by
  have h : setCache quotaFull clockJan16 "pluto" "1008350029" (some (Json.str "new row"))
      storedPlutoRow = storedPlutoRow := by
    rw [(setCache_cases quotaFull clockJan16 "pluto" "1008350029" (some (Json.str "new row"))
      storedPlutoRow).2.2 rfl rfl]
    have hfresh : isOld clockJan16 (Item.entry (some (Json.str "old row")) clockJan15.now) =
        false := by decide
    simp [clearOldCache, storedPlutoRow, hfresh]
  have hget : getItem storedPlutoRow (getCacheKey "pluto" "1008350029") =
      some (Item.entry (some (Json.str "old row")) clockJan15.now) := by
    simp [storedPlutoRow, getItem]
  refine ⟨h, ?_, ?_⟩
  · rw [h]
    exact hget
  · rw [h, getCached_fresh clockJan16 "pluto" "1008350029" storedPlutoRow
      (some (Json.str "old row")) clockJan15.now hget (by decide)]

/-- C23 (amended). `setCache` returns normally in every case. When the write
overflows storage it removes every entry under the cache prefix that is older
than the TTL or cannot be parsed, and retries the write once; when the retry is
refused too, the storage is left as swept, with nothing written. Then a key that
had no entry has none, and `getCached` for it is a miss at any time; a key that
held an entry no older than the TTL still holds it, and `getCached` returns that
earlier value. -/
theorem set_cache_overflow (quota : Storage → Bool) (c : Clock) (type identifier : String)
    (data : JsVal) (st : Storage) :
    (quota (putItem st (getCacheKey type identifier) (Item.entry data c.now)) = true →
      setCache quota c type identifier data st =
        putItem st (getCacheKey type identifier) (Item.entry data c.now)) ∧
    (quota (putItem st (getCacheKey type identifier) (Item.entry data c.now)) = false →
      quota (putItem (clearOldCache c st) (getCacheKey type identifier)
        (Item.entry data c.now)) = true →
      setCache quota c type identifier data st =
        putItem (clearOldCache c st) (getCacheKey type identifier) (Item.entry data c.now)) ∧
    (quota (putItem st (getCacheKey type identifier) (Item.entry data c.now)) = false →
      quota (putItem (clearOldCache c st) (getCacheKey type identifier)
        (Item.entry data c.now)) = false →
      setCache quota c type identifier data st = clearOldCache c st ∧
      (getItem st (getCacheKey type identifier) = none →
        getItem (setCache quota c type identifier data st) (getCacheKey type identifier) =
          none ∧
        ∀ c' : Clock,
          getCached c' type identifier (setCache quota c type identifier data st) =
            (some Json.null, setCache quota c type identifier data st)) ∧
      (∀ (d : JsVal) (ts : Int),
        getItem st (getCacheKey type identifier) = some (Item.entry d ts) →
        c.now - ts ≤ CACHE_DURATION →
        getItem (setCache quota c type identifier data st) (getCacheKey type identifier) =
          some (Item.entry d ts) ∧
        getCached c type identifier (setCache quota c type identifier data st) =
          (d, setCache quota c type identifier data st))) ∧
    (∀ (k : String) (item : Item), (k, item) ∈ clearOldCache c st ↔
      (k, item) ∈ st ∧ ¬ (startsWith k CACHE_PREFIX = true ∧ isOld c item = true)) ∧
    (∀ (k : String) (d : JsVal) (ts : Int), startsWith k CACHE_PREFIX = true →
      CACHE_DURATION < c.now - ts → (k, Item.entry d ts) ∉ clearOldCache c st) := by
  obtain ⟨h1, h2, h3⟩ := setCache_cases quota c type identifier data st
  refine ⟨h1, h2, ?_, ?_, ?_⟩
  · intro hq1 hq2
    have hs := h3 hq1 hq2
    refine ⟨hs, ?_, ?_⟩
    · intro hnone
      have hg : getItem (clearOldCache c st) (getCacheKey type identifier) = none :=
        getItem_filter_absent _ st _ hnone
      rw [hs]
      refine ⟨hg, ?_⟩
      intro c'
      simp only [getCached, hg]
    · intro d ts hst hage
      have hnot : isOld c (Item.entry d ts) = false := by
        simp only [isOld, decide_eq_false_iff_not, not_lt]
        exact hage
      have hg : getItem (clearOldCache c st) (getCacheKey type identifier) =
          some (Item.entry d ts) :=
        getItem_filter_keep _ st _ _ hst (by simp [hnot])
      rw [hs]
      exact ⟨hg, getCached_fresh c type identifier _ d ts hg hage⟩
  · intro k item
    simp only [clearOldCache, List.mem_filter, Bool.not_eq_true', Bool.and_eq_false_iff,
      not_and, Bool.not_eq_true]
    constructor
    · rintro ⟨hm, h | h⟩
      · exact ⟨hm, fun hk => by rw [hk] at h; exact Bool.noConfusion h⟩
      · exact ⟨hm, fun _ => h⟩
    · rintro ⟨hm, h⟩
      refine ⟨hm, ?_⟩
      cases hk : startsWith k CACHE_PREFIX
      · exact Or.inl rfl
      · exact Or.inr (h hk)
  · intro k d ts hk hage hmem
    simp only [clearOldCache, List.mem_filter, Bool.not_eq_true', Bool.and_eq_false_iff] at hmem
    rcases hmem.2 with h | h
    · rw [hk] at h
      exact Bool.noConfusion h
    · simp only [isOld, decide_eq_false_iff_not, not_lt] at h
      exact absurd hage (not_lt.mpr h)

/-- An instance of C23 (amended): a full storage holding one fresh entry; a
write for another key is dropped and the next read of that key is a miss. -/
theorem set_cache_overflow_witness :
    setCache quotaFull clockJan16 "zoning" "1008350029" (some (Json.str "row"))
      storedPlutoRow = clearOldCache clockJan16 storedPlutoRow ∧
    getItem (setCache quotaFull clockJan16 "zoning" "1008350029" (some (Json.str "row"))
      storedPlutoRow) (getCacheKey "zoning" "1008350029") = none :=
  ⟨((set_cache_overflow quotaFull clockJan16 "zoning" "1008350029" (some (Json.str "row"))
      storedPlutoRow).2.2.1 rfl rfl).1,
   (((set_cache_overflow quotaFull clockJan16 "zoning" "1008350029" (some (Json.str "row"))
      storedPlutoRow).2.2.1 rfl rfl).2.1
      (by simp [storedPlutoRow, getItem, getCacheKey, CACHE_PREFIX])).1⟩

end ApiUsage

/-! ## Cache keys of distinct pairs -/

namespace ApiUsage

theorem getItem_absent_of_not_mem (st : Storage) (key : String)
    (h : key ∉ st.map Prod.fst) : getItem st key = none := by
  induction st with
  | nil => simp [getItem]
  | cons kv rest ih =>
    obtain ⟨k, v⟩ := kv
    simp only [List.map_cons, List.mem_cons, not_or] at h
    have hk : ¬ k = key := fun e => h.1 e.symm
    simp only [getItem, hk, if_false]
    exact ih h.2

/-- With each key bound once, removing bindings by a test leaves under a key
what was there when the test accepts it, and nothing otherwise. -/
theorem getItem_filter_nodup (p : String × Item → Bool) (st : Storage) (key : String)
    (hnd : (st.map Prod.fst).Nodup) :
    getItem (st.filter p) key = getItem st key ∨ getItem (st.filter p) key = none := by
  induction st with
  | nil => simp [getItem]
  | cons kv rest ih =>
    obtain ⟨k, v⟩ := kv
    simp only [List.map_cons, List.nodup_cons] at hnd
    by_cases hk : k = key
    · subst hk
      cases hq : p (k, v)
      · right
        simp only [List.filter_cons, hq, Bool.false_eq_true, if_false]
        exact getItem_filter_absent p rest k (getItem_absent_of_not_mem rest k hnd.1)
      · left
        simp only [List.filter_cons, hq, if_true, getItem]
    · cases hq : p (k, v)
      · simp only [List.filter_cons, hq, Bool.false_eq_true, if_false, getItem, hk]
        exact ih hnd.2
      · simp only [List.filter_cons, hq, if_true, getItem, hk, if_false]
        exact ih hnd.2

/-- What `getCached` returns depends on the storage through the key only. -/
theorem getCached_value_congr (c : Clock) (type identifier : String) (st st' : Storage)
    (h : getItem st' (getCacheKey type identifier) = getItem st (getCacheKey type identifier)) :
    (getCached c type identifier st').1 = (getCached c type identifier st).1 := by
  unfold getCached
  simp only [h]
  rcases getItem st (getCacheKey type identifier) with _ | item
  · rfl
  · cases item with
    | text s => by_cases hs : s = "" <;> simp [hs]
    | usage u => rfl
    | entry d ts => by_cases ha : c.now - ts > CACHE_DURATION <;> simp [ha]

theorem getCached_value_absent (c : Clock) (type identifier : String) (st : Storage)
    (h : getItem st (getCacheKey type identifier) = none) :
    (getCached c type identifier st).1 = some Json.null := by
  simp only [getCached, h]

/-- The keys of two of the eleven cache types agree only for the same type and
the same identifier. -/
theorem getCacheKey_injective (t t' identifier identifier' : String) (ht : t ∈ cacheTypes)
    (ht' : t' ∈ cacheTypes) (h : getCacheKey t identifier = getCacheKey t' identifier') :
    t = t' ∧ identifier = identifier' := by
  have htt : t = t' := by
    by_contra hne
    have hall := cacheTypes_markers
    rw [List.all_eq_true] at hall
    have h1 := hall t ht
    rw [List.all_eq_true] at h1
    have h2 := h1 t' ht'
    have h3 := hall t' ht'
    rw [List.all_eq_true] at h3
    have h4 := h3 t ht
    have hnb : (t == t') = false := by simpa using hne
    have hnb' : (t' == t) = false := by simpa using fun e : t' = t => hne e.symm
    rw [hnb] at h2
    rw [hnb'] at h4
    simp only [Bool.false_or, Bool.not_eq_true'] at h2 h4
    have hs : startsWith (getCacheKey t' identifier') (CACHE_PREFIX ++ t ++ "_") = true := by
      rw [← h]
      exact startsWith_getCacheKey_type t identifier
    rcases startsWith_getCacheKey_other t t' identifier' hs with h5 | h5
    · rw [h2] at h5
      exact Bool.noConfusion h5
    · rw [h4] at h5
      exact Bool.noConfusion h5
  refine ⟨htt, ?_⟩
  subst htt
  have hd := congrArg String.data h
  simp only [getCacheKey, String.data_append, List.append_assoc] at hd
  have := List.append_cancel_left (List.append_cancel_left (List.append_cancel_left hd))
  exact String.ext this

/-- C29. For the eleven cache types and arbitrary identifiers, equal cache keys
come from the same type and the same identifier. So `setCache` for one pair
writes under a key that is not the key of a different pair: in a storage where
each key is bound once, what `getCached` returns for the other pair after the
write is what it returned before, or `null` when the overflow sweep evicted
that pair's entry; when the write is accepted at once it is what it returned
before. -/
theorem cache_keys_do_not_collide :
    (∀ t t' identifier identifier', t ∈ cacheTypes → t' ∈ cacheTypes →
      getCacheKey t identifier = getCacheKey t' identifier' →
      t = t' ∧ identifier = identifier') ∧
    (∀ (quota : Storage → Bool) (c c' : Clock) (t identifier t' identifier' : String)
      (data : JsVal) (st : Storage), t ∈ cacheTypes → t' ∈ cacheTypes →
      ¬ (t = t' ∧ identifier = identifier') → (st.map Prod.fst).Nodup →
      ((getCached c' t' identifier' (setCache quota c t identifier data st)).1 =
          (getCached c' t' identifier' st).1 ∨
        (getCached c' t' identifier' (setCache quota c t identifier data st)).1 =
          some Json.null) ∧
      (quota (putItem st (getCacheKey t identifier) (Item.entry data c.now)) = true →
        (getCached c' t' identifier' (setCache quota c t identifier data st)).1 =
          (getCached c' t' identifier' st).1)) := by
  refine ⟨fun t t' i i' ht ht' h => getCacheKey_injective t t' i i' ht ht' h, ?_⟩
  intro quota c c' t identifier t' identifier' data st ht ht' hne hnd
  have hkey : getCacheKey t identifier ≠ getCacheKey t' identifier' :=
    fun h => hne (getCacheKey_injective t t' identifier identifier' ht ht' h)
  obtain ⟨h1, h2, h3⟩ := setCache_cases quota c t identifier data st
  have hsweep := getItem_filter_nodup
    (fun kv => !(startsWith kv.1 CACHE_PREFIX && isOld c kv.2)) st
    (getCacheKey t' identifier') hnd
  have hacc : quota (putItem st (getCacheKey t identifier) (Item.entry data c.now)) = true →
      (getCached c' t' identifier' (setCache quota c t identifier data st)).1 =
        (getCached c' t' identifier' st).1 := by
    intro hq
    apply getCached_value_congr
    rw [h1 hq]
    exact getItem_putItem_ne st _ _ _ hkey
  refine ⟨?_, hacc⟩
  cases hq1 : quota (putItem st (getCacheKey t identifier) (Item.entry data c.now))
  · have hafter : getItem (setCache quota c t identifier data st)
        (getCacheKey t' identifier') =
        getItem (clearOldCache c st) (getCacheKey t' identifier') := by
      cases hq2 : quota (putItem (clearOldCache c st) (getCacheKey t identifier)
          (Item.entry data c.now))
      · rw [h3 hq1 hq2]
      · rw [h2 hq1 hq2]
        exact getItem_putItem_ne _ _ _ _ hkey
    rcases hsweep with hs | hs
    · left
      apply getCached_value_congr
      rw [hafter]
      exact hs
    · right
      apply getCached_value_absent
      rw [hafter]
      exact hs
  · exact Or.inl (hacc hq1)

/-- An instance of C29: the PLUTO and zoning keys of BBL 1008350029 differ, and
a write for the zoning pair leaves the read of the PLUTO pair as it was. -/
theorem cache_keys_do_not_collide_witness :
    getCacheKey "zoning" "1008350029" ≠ getCacheKey "pluto" "1008350029" ∧
    (getCached clockJan16 "pluto" "1008350029"
      (setCache (fun _ => true) clockJan16 "zoning" "1008350029" (some (Json.str "z"))
        storedPlutoRow)).1 =
      (getCached clockJan16 "pluto" "1008350029" storedPlutoRow).1 :=
  ⟨fun h => absurd (cache_keys_do_not_collide.1 "zoning" "pluto" "1008350029" "1008350029"
      (by decide) (by decide) h).1 (by decide),
   (cache_keys_do_not_collide.2 (fun _ => true) clockJan16 clockJan16 "zoning" "1008350029"
      "pluto" "1008350029" (some (Json.str "z")) storedPlutoRow (by decide) (by decide)
      (by decide) (by simp [storedPlutoRow])).2 rfl⟩

end ApiUsage

/-! ## The month key of the ledger -/

namespace ApiUsage

theorem getUsageStats_ok_month (quota : Storage → Bool) (c : Clock) (st : Storage) (u : Usage)
    (s : Storage) (h : getUsageStats quota c st = (.ok u, s)) : u.month = monthKey c := by
  have hinit : ∀ u s, initializeUsage quota c st = (.ok u, s) → u.month = monthKey c := by
    intro u s hi
    rw [(initializeUsage_ok quota c st u s hi).1]
    rfl
  unfold getUsageStats at h
  rcases hst : getItem st USAGE_KEY with _ | item
  · rw [hst] at h
    exact hinit u s h
  · rw [hst] at h
    cases item with
    | text t =>
      by_cases ht : t = ""
      · simp only [ht, if_true] at h
        exact hinit u s h
      · simp [ht] at h
    | entry d ts => exact hinit u s h
    | usage v =>
      by_cases hm : v.month ≠ monthKey c
      · simp only [hm, ne_eq, not_false_eq_true, if_true] at h
        exact hinit u s h
      · simp only [hm, if_false, Prod.mk.injEq, Except.ok.injEq] at h
        rw [← h.1]
        exact not_not.mp hm

/-- C25, as stated, fails: a ledger initialized on 2024-01-15 has the month
field `2024-0`, not `2024-01`; one initialized on 2024-12-25 has `2024-11`, which
has the stated form but names November. -/
theorem usage_month_format_counterexample :
    (∃ s, initializeUsage (fun _ => true) clockJan15 [] = (.ok (freshUsage clockJan15), s)) ∧
    (freshUsage clockJan15).month = "2024-0" ∧ specMonthKey clockJan15 = "2024-01" ∧
    (∃ s, initializeUsage (fun _ => true) clockDec25 [] = (.ok (freshUsage clockDec25), s)) ∧
    (freshUsage clockDec25).month = "2024-11" ∧ specMonthKey clockDec25 = "2024-12" := by
  refine ⟨⟨_, rfl⟩, by decide, by decide, ⟨_, rfl⟩, by decide, by decide⟩

/-- C25 (amended). The month field of every ledger that `initializeUsage` or
`getUsageStats` returns is the string `getFullYear()-getMonth()` of the moment of
the call: the year in decimal, a hyphen, and the zero-based month index from 0 to
11 in decimal, without padding. It is never the `YYYY-MM` string of that month.
`initializeUsage` returns its ledger whenever the browser accepts the write. -/
theorem usage_month_key (quota : Storage → Bool) (c : Clock) (st : Storage) :
    (∀ u s, initializeUsage quota c st = (.ok u, s) →
      u.month = toString c.year ++ "-" ++ toString c.monthIndex) ∧
    (∀ u s, getUsageStats quota c st = (.ok u, s) →
      u.month = toString c.year ++ "-" ++ toString c.monthIndex) ∧
    (quota (putItem st USAGE_KEY (Item.usage (freshUsage c))) = true →
      initializeUsage quota c st =
        (.ok (freshUsage c), putItem st USAGE_KEY (Item.usage (freshUsage c)))) ∧
    (c.monthIndex < 12 →
      toString c.year ++ "-" ++ toString c.monthIndex ≠ specMonthKey c) := by
  refine ⟨?_, ?_, ?_, ?_⟩
  · intro u s h
    rw [(initializeUsage_ok quota c st u s h).1]
    rfl
  · intro u s h
    exact getUsageStats_ok_month quota c st u s h
  · intro hq
    simp [initializeUsage, setItem, hq]
  · intro hm heq
    have hd := congrArg String.data heq
    simp only [specMonthKey, String.data_append, List.append_assoc] at hd
    have hd2 := List.append_cancel_left (List.append_cancel_left hd)
    have hs : toString c.monthIndex =
        (if c.monthIndex + 1 < 10 then "0" ++ toString (c.monthIndex + 1)
         else toString (c.monthIndex + 1)) := String.ext hd2
    generalize c.monthIndex = m at hm hs
    interval_cases m <;> revert hs <;> decide

/-- An instance of C25 (amended): the ledger initialized on 2024-12-25. -/
theorem usage_month_key_witness :
    (freshUsage clockDec25).month = toString clockDec25.year ++ "-" ++
      toString clockDec25.monthIndex ∧
    toString clockDec25.year ++ "-" ++ toString clockDec25.monthIndex ≠
      specMonthKey clockDec25 :=
  ⟨(usage_month_key (fun _ => true) clockDec25 []).1 (freshUsage clockDec25)
      [(USAGE_KEY, Item.usage (freshUsage clockDec25))] rfl,
   (usage_month_key (fun _ => true) clockDec25 []).2.2.2 (by decide)⟩

end ApiUsage

/-! ## The Rapid Insights report: fields under two names -/

namespace PropertyScout

theorem jsOr_eq (a b : ApiUsage.JsVal) :
    (ApiUsage.truthy a = true → jsOr a b = a) ∧ (ApiUsage.truthy a = false → jsOr a b = b) := by
  constructor
  · intro h
    simp [jsOr, h]
  · intro h
    simp [jsOr, h]

/-- The fields of the report that are read under a snake_case and a camelCase
name, for a truthy payload whose sales history can be mapped. -/
theorem rapidInsightsOf_fields (data : ApiUsage.Json) (sales : List Sale)
    (ht : ApiUsage.truthy (some data) = true) (hs : salesHistoryOf (some data) = .ok sales) :
    ∃ r, rapidInsightsOf data = .ok (some r) ∧ r.raw = data ∧ r.salesHistory = sales ∧
      r.address.formatted =
        jsOr (getProp (some data) "formatted_address") (getProp (some data) "formattedAddress") ∧
      r.owner.name = jsOr (getProp (some data) "owner_name") (getProp (some data) "ownerName") ∧
      r.owner.type = jsOr (getProp (some data) "owner_type") (getProp (some data) "ownerType") ∧
      r.owner.mailingAddress =
        jsOr (getProp (some data) "mailing_address") (getProp (some data) "mailingAddress") ∧
      r.owner.ownerOccupied =
        jsOr (getProp (some data) "owner_occupied") (getProp (some data) "ownerOccupied") ∧
      r.property.propertyType =
        jsOr (getProp (some data) "property_type") (getProp (some data) "propertyType") ∧
      r.property.yearBuilt =
        jsOr (getProp (some data) "year_built") (getProp (some data) "yearBuilt") ∧
      r.property.squareFeet =
        jsOr (getProp (some data) "square_feet") (getProp (some data) "squareFeet") ∧
      r.property.lotSize =
        jsOr (getProp (some data) "lot_size") (getProp (some data) "lotSize") ∧
      r.tax.assessedValue =
        jsOr (getProp (some data) "assessed_value") (getProp (some data) "assessedValue") ∧
      r.tax.assessedLand =
        jsOr (getProp (some data) "assessed_land") (getProp (some data) "assessedLand") ∧
      r.tax.assessedImprovement =
        jsOr (getProp (some data) "assessed_improvement")
          (getProp (some data) "assessedImprovement") ∧
      r.tax.taxAmount =
        jsOr (getProp (some data) "tax_amount") (getProp (some data) "taxAmount") ∧
      r.tax.taxYear = jsOr (getProp (some data) "tax_year") (getProp (some data) "taxYear") ∧
      r.valuation.estimatedValue =
        jsOr (jsOr (getProp (some data) "estimated_value") (getProp (some data) "estimatedValue"))
          (getProp (some data) "avm") ∧
      r.valuation.estimatedEquity =
        jsOr (getProp (some data) "estimated_equity") (getProp (some data) "estimatedEquity") ∧
      r.valuation.pricePerSqFt =
        jsOr (getProp (some data) "price_per_sqft") (getProp (some data) "pricePerSqFt") := by
  simp only [rapidInsightsOf, ht, if_true, hs]
  exact ⟨_, rfl, rfl, rfl, rfl, rfl, rfl, rfl, rfl, rfl, rfl, rfl, rfl, rfl, rfl, rfl, rfl, rfl,
    rfl, rfl, rfl⟩

theorem payloadBothNames_sales : salesHistoryOf (some payloadBothNames) = .ok [] := by
  simp [salesHistoryOf, jsOr, getProp, payloadBothNames, lookupField, ApiUsage.truthy,
    mapSales]

theorem getRapidInsightsReport_ok (stored env : Option String) (status : Nat)
    (data : ApiUsage.Json) (hkey : falsyString (getApiKey stored env) = false)
    (hok : httpOk status = true) :
    getRapidInsightsReport stored env (HttpResult.response status (some data)) =
      rapidInsightsOf data := by
  simp [getRapidInsightsReport, fetchPropertyScout, hkey, hok]

/-- C24, as stated, fails: for a payload with `owner_occupied: false` next to
`ownerOccupied: true`, `owner_name: ''` next to `ownerName: 'ACME LLC'` and
`year_built: 0` next to `yearBuilt: 1931`, the report carries the camelCase
values; a truthy snake_case value (`owner_type`) is the one kept. -/
theorem rapid_insights_falsy_snake_counterexample :
    ∃ r, getRapidInsightsReport (some "ps_live_key") none
        (HttpResult.response 200 (some payloadBothNames)) = .ok (some r) ∧
      getProp (some payloadBothNames) "owner_occupied" = some (ApiUsage.Json.bool false) ∧
      r.owner.ownerOccupied = some (ApiUsage.Json.bool true) ∧
      getProp (some payloadBothNames) "owner_name" = some (ApiUsage.Json.str "") ∧
      r.owner.name = some (ApiUsage.Json.str "ACME LLC") ∧
      getProp (some payloadBothNames) "year_built" = some (ApiUsage.Json.num 0) ∧
      r.property.yearBuilt = some (ApiUsage.Json.num 1931) ∧
      r.owner.type = some (ApiUsage.Json.str "Corporation") := by
  obtain ⟨r, hr, _, _, _, hname, htype, _, hocc, _, hyear, _⟩ :=
    rapidInsightsOf_fields payloadBothNames [] rfl payloadBothNames_sales
  refine ⟨r, ?_, rfl, ?_, rfl, ?_, rfl, ?_, ?_⟩
  · rw [getRapidInsightsReport_ok _ _ _ _ (by decide) (by decide)]
    exact hr
  · rw [hocc]
    simp [jsOr, getProp, payloadBothNames, lookupField, ApiUsage.truthy]
  · rw [hname]
    simp [jsOr, getProp, payloadBothNames, lookupField, ApiUsage.truthy]
  · rw [hyear]
    simp [jsOr, getProp, payloadBothNames, lookupField, ApiUsage.truthy]
  · rw [htype]
    simp [jsOr, getProp, payloadBothNames, lookupField, ApiUsage.truthy]

theorem truthy_falsy_values (a : ApiUsage.JsVal)
    (h : a = none ∨ a = some ApiUsage.Json.null ∨ a = some (ApiUsage.Json.bool false) ∨
      a = some (ApiUsage.Json.num 0) ∨ a = some (ApiUsage.Json.str "")) :
    ApiUsage.truthy a = false := by
  rcases h with h | h | h | h | h <;> subst h <;> simp [ApiUsage.truthy]

theorem salesHistoryOf_absent (d : ApiUsage.JsVal)
    (h1 : ApiUsage.truthy (getProp d "sales_history") = false)
    (h2 : ApiUsage.truthy (getProp d "salesHistory") = false) :
    salesHistoryOf d = .ok [] := by
  have e1 : jsOr (getProp d "sales_history") (getProp d "salesHistory") =
      getProp d "salesHistory" := (jsOr_eq _ _).2 h1
  have e2 : jsOr (getProp d "salesHistory") (some (ApiUsage.Json.arr [])) =
      some (ApiUsage.Json.arr []) := (jsOr_eq _ _).2 h2
  simp only [salesHistoryOf, e1, e2, mapSales]

/-- C24 (amended). For every truthy Rapid Insights payload of a successful
request whose sales history can be mapped, `getRapidInsightsReport` returns a
report in which each field read under a snake_case and a camelCase name is the
snake_case value when that value is truthy, and the camelCase value otherwise:
a snake_case value that is absent, `null`, `false`, `0` or the empty string is
replaced by the camelCase value. `estimatedValue` falls back further, to `avm`. -/
theorem rapid_insights_snake_or_camel (stored env : Option String) (status : Nat)
    (data : ApiUsage.Json) (sales : List Sale)
    (hkey : falsyString (getApiKey stored env) = false) (hok : httpOk status = true)
    (ht : ApiUsage.truthy (some data) = true)
    (hs : salesHistoryOf (some data) = .ok sales) :
    ∃ r, getRapidInsightsReport stored env (HttpResult.response status (some data)) =
        .ok (some r) ∧
      (∀ snake camel out, (snake, camel, out) ∈ snakeCamelFields →
        (ApiUsage.truthy (getProp (some data) snake) = true →
          out r = getProp (some data) snake) ∧
        (ApiUsage.truthy (getProp (some data) snake) = false →
          out r = getProp (some data) camel) ∧
        ((getProp (some data) snake = none ∨
            getProp (some data) snake = some ApiUsage.Json.null ∨
            getProp (some data) snake = some (ApiUsage.Json.bool false) ∨
            getProp (some data) snake = some (ApiUsage.Json.num 0) ∨
            getProp (some data) snake = some (ApiUsage.Json.str "")) →
          out r = getProp (some data) camel)) ∧
      (ApiUsage.truthy (getProp (some data) "estimated_value") = true →
        r.valuation.estimatedValue = getProp (some data) "estimated_value") ∧
      (ApiUsage.truthy (getProp (some data) "estimated_value") = false →
        r.valuation.estimatedValue =
          jsOr (getProp (some data) "estimatedValue") (getProp (some data) "avm")) ∧
      r.salesHistory = sales ∧ r.raw = data := by
  obtain ⟨r, hr, hraw, hsales, h1, h2, h3, h4, h5, h6, h7, h8, h9, h10, h11, h12, h13, h14,
    h15, h16, h17⟩ := rapidInsightsOf_fields data sales ht hs
  have key : ∀ (snake camel : String) (v : ApiUsage.JsVal),
      v = jsOr (getProp (some data) snake) (getProp (some data) camel) →
      (ApiUsage.truthy (getProp (some data) snake) = true → v = getProp (some data) snake) ∧
      (ApiUsage.truthy (getProp (some data) snake) = false → v = getProp (some data) camel) ∧
      ((getProp (some data) snake = none ∨
          getProp (some data) snake = some ApiUsage.Json.null ∨
          getProp (some data) snake = some (ApiUsage.Json.bool false) ∨
          getProp (some data) snake = some (ApiUsage.Json.num 0) ∨
          getProp (some data) snake = some (ApiUsage.Json.str "")) →
        v = getProp (some data) camel) := by
    intro snake camel v hv
    refine ⟨fun h => ?_, fun h => ?_, fun h => ?_⟩
    · rw [hv]
      exact (jsOr_eq _ _).1 h
    · rw [hv]
      exact (jsOr_eq _ _).2 h
    · rw [hv]
      exact (jsOr_eq _ _).2 (truthy_falsy_values _ h)
  refine ⟨r, ?_, ?_, ?_, ?_, hsales, hraw⟩
  · rw [getRapidInsightsReport_ok stored env status data hkey hok]
    exact hr
  · intro snake camel out hmem
    simp only [snakeCamelFields, List.mem_cons, Prod.mk.injEq, List.mem_singleton,
      List.not_mem_nil, or_false] at hmem
    rcases hmem with ⟨rfl, rfl, rfl⟩ | ⟨rfl, rfl, rfl⟩ | ⟨rfl, rfl, rfl⟩ | ⟨rfl, rfl, rfl⟩ |
      ⟨rfl, rfl, rfl⟩ | ⟨rfl, rfl, rfl⟩ | ⟨rfl, rfl, rfl⟩ | ⟨rfl, rfl, rfl⟩ | ⟨rfl, rfl, rfl⟩ |
      ⟨rfl, rfl, rfl⟩ | ⟨rfl, rfl, rfl⟩ | ⟨rfl, rfl, rfl⟩ | ⟨rfl, rfl, rfl⟩ | ⟨rfl, rfl, rfl⟩ |
      ⟨rfl, rfl, rfl⟩ | ⟨rfl, rfl, rfl⟩
    · exact key _ _ _ h1
    · exact key _ _ _ h2
    · exact key _ _ _ h3
    · exact key _ _ _ h4
    · exact key _ _ _ h5
    · exact key _ _ _ h6
    · exact key _ _ _ h7
    · exact key _ _ _ h8
    · exact key _ _ _ h9
    · exact key _ _ _ h10
    · exact key _ _ _ h11
    · exact key _ _ _ h12
    · exact key _ _ _ h13
    · exact key _ _ _ h14
    · exact key _ _ _ h16
    · exact key _ _ _ h17
  · intro h
    have e1 : jsOr (getProp (some data) "estimated_value")
        (getProp (some data) "estimatedValue") = getProp (some data) "estimated_value" :=
      (jsOr_eq _ _).1 h
    rw [h15, e1]
    exact (jsOr_eq _ _).1 h
  · intro h
    rw [h15, (jsOr_eq (getProp (some data) "estimated_value")
      (getProp (some data) "estimatedValue")).2 h]

/-- An instance of C24 (amended): in the report of the payload with
`owner_occupied: false` and `ownerOccupied: true`, `ownerOccupied` is the
camelCase value of the payload. -/
theorem rapid_insights_snake_or_camel_witness :
    ApiUsage.truthy (getProp (some payloadBothNames) "owner_occupied") = false ∧
    ∃ r, getRapidInsightsReport (some "ps_live_key") none
        (HttpResult.response 200 (some payloadBothNames)) = .ok (some r) ∧
      r.owner.ownerOccupied = getProp (some payloadBothNames) "ownerOccupied" :=
  ⟨rfl,
   (rapid_insights_snake_or_camel (some "ps_live_key") none 200 payloadBothNames []
      (by decide) (by decide) rfl payloadBothNames_sales).imp
      (fun r h => ⟨h.1,
        (h.2.1 "owner_occupied" "ownerOccupied" (fun r => r.owner.ownerOccupied)
          (by simp [snakeCamelFields])).2.1 rfl⟩)⟩

end PropertyScout

/-! ## Zoning districts that begin with R10 -/

namespace NycData

theorem startsWith_R10_R1 (zone : String) (h : ApiUsage.startsWith zone "R10" = true) :
    ApiUsage.startsWith zone "R1" = true := by
  rw [ApiUsage.startsWith_iff] at h ⊢
  exact List.IsPrefix.trans (by decide : "R1".data <+: "R10".data) h

/-- C27: the code at the failing inputs. For the districts `R10`, `R10A` and
`r10-1`, whose uppercased form starts with `R10`, `getZoningUseGroups` returns
the single-family result of the `R1`/`R2` branch, not the result of the branch
that tests `R10`. -/
theorem zoning_use_groups_r10_divergence :
    ApiUsage.startsWith (asciiUpper "R10") "R10" = true ∧
    getZoningUseGroups asciiUpper (some "R10") = ["Use Group 1: Single-Family Detached"] ∧
    getZoningUseGroups asciiUpper (some "R10A") = ["Use Group 1: Single-Family Detached"] ∧
    getZoningUseGroups asciiUpper (some "r10-1") = ["Use Group 1: Single-Family Detached"] ∧
    getZoningUseGroups asciiUpper (some "R10") ≠ ["Use Groups 1-4: All Residential"] := by
  refine ⟨by decide, by decide, by decide, by decide, by decide⟩

/-- The extent of the defect in `getZoningUseGroups`: for every zoning district
string whose uppercased form starts with `R10` it returns
`['Use Group 1: Single-Family Detached']`, the result of the `R1`/`R2` branch,
which is tested first. The all-residential result of the branch that lists `R10`
is returned exactly for the districts whose uppercased form starts with `R6`,
`R7`, `R8` or `R9`. -/
theorem zoning_use_groups_r10 (toUpperCase : String → String) (zoneDistrict : Option String)
    (hz : falsyString zoneDistrict = false) :
    (ApiUsage.startsWith (toUpperCase (zoneDistrict.getD "")) "R10" = true →
      getZoningUseGroups toUpperCase zoneDistrict = ["Use Group 1: Single-Family Detached"]) ∧
    (getZoningUseGroups toUpperCase zoneDistrict = ["Use Groups 1-4: All Residential"] ↔
      (ApiUsage.startsWith (toUpperCase (zoneDistrict.getD "")) "R6" = true ∨
        ApiUsage.startsWith (toUpperCase (zoneDistrict.getD "")) "R7" = true ∨
        ApiUsage.startsWith (toUpperCase (zoneDistrict.getD "")) "R8" = true ∨
        ApiUsage.startsWith (toUpperCase (zoneDistrict.getD "")) "R9" = true)) := by
  have hpre : ∀ (a b : String), a.data.take 1 = b.data.take 1 → a.data.get? 1 ≠ b.data.get? 1 →
      b.data.length = 2 → a.data.length = 2 →
      ApiUsage.startsWith (toUpperCase (zoneDistrict.getD "")) a = true →
      ApiUsage.startsWith (toUpperCase (zoneDistrict.getD "")) b = false := by
    intro a b _ hne hb ha h
    cases hb' : ApiUsage.startsWith (toUpperCase (zoneDistrict.getD "")) b
    · rfl
    · exfalso
      rw [ApiUsage.startsWith_iff] at h hb'
      have h1 := List.prefix_of_prefix_length_le h hb' (by omega)
      have h2 := List.IsPrefix.eq_of_length h1 (by omega)
      rw [h2] at hne
      exact hne rfl
  constructor
  · intro h
    have h1 := startsWith_R10_R1 _ h
    simp [getZoningUseGroups, hz, h1]
  · constructor
    · intro h
      unfold getZoningUseGroups at h
      simp only [hz, Bool.false_eq_true, if_false] at h
      split at h
      · exact absurd h (by decide)
      · split at h
        · exact absurd h (by decide)
        · rename_i h12 _
          split at h
          · rename_i h6
            simp only [Bool.or_eq_true] at h6 h12
            rcases h6 with (((h6 | h6) | h6) | h6) | h6
            · exact Or.inl h6
            · exact Or.inr (Or.inl h6)
            · exact Or.inr (Or.inr (Or.inl h6))
            · exact Or.inr (Or.inr (Or.inr h6))
            · exact absurd (Or.inl (startsWith_R10_R1 _ h6)) h12
          · split at h
            · exact absurd h (by decide)
            · split at h
              · exact absurd h (by decide)
              · split at h
                · exact absurd h (by decide)
                · split at h
                  · exact absurd h (by decide)
                  · exact absurd h (by decide)
    · intro h
      have e1 : ApiUsage.startsWith (toUpperCase (zoneDistrict.getD "")) "R1" = false := by
        rcases h with h | h | h | h
        · exact hpre "R6" "R1" rfl (by decide) rfl rfl h
        · exact hpre "R7" "R1" rfl (by decide) rfl rfl h
        · exact hpre "R8" "R1" rfl (by decide) rfl rfl h
        · exact hpre "R9" "R1" rfl (by decide) rfl rfl h
      have e2 : ApiUsage.startsWith (toUpperCase (zoneDistrict.getD "")) "R2" = false := by
        rcases h with h | h | h | h
        · exact hpre "R6" "R2" rfl (by decide) rfl rfl h
        · exact hpre "R7" "R2" rfl (by decide) rfl rfl h
        · exact hpre "R8" "R2" rfl (by decide) rfl rfl h
        · exact hpre "R9" "R2" rfl (by decide) rfl rfl h
      have e3 : ApiUsage.startsWith (toUpperCase (zoneDistrict.getD "")) "R3" = false := by
        rcases h with h | h | h | h
        · exact hpre "R6" "R3" rfl (by decide) rfl rfl h
        · exact hpre "R7" "R3" rfl (by decide) rfl rfl h
        · exact hpre "R8" "R3" rfl (by decide) rfl rfl h
        · exact hpre "R9" "R3" rfl (by decide) rfl rfl h
      have e4 : ApiUsage.startsWith (toUpperCase (zoneDistrict.getD "")) "R4" = false := by
        rcases h with h | h | h | h
        · exact hpre "R6" "R4" rfl (by decide) rfl rfl h
        · exact hpre "R7" "R4" rfl (by decide) rfl rfl h
        · exact hpre "R8" "R4" rfl (by decide) rfl rfl h
        · exact hpre "R9" "R4" rfl (by decide) rfl rfl h
      have e5 : ApiUsage.startsWith (toUpperCase (zoneDistrict.getD "")) "R5" = false := by
        rcases h with h | h | h | h
        · exact hpre "R6" "R5" rfl (by decide) rfl rfl h
        · exact hpre "R7" "R5" rfl (by decide) rfl rfl h
        · exact hpre "R8" "R5" rfl (by decide) rfl rfl h
        · exact hpre "R9" "R5" rfl (by decide) rfl rfl h
      unfold getZoningUseGroups
      simp only [hz, Bool.false_eq_true, if_false, e1, e2, e3, e4, e5, Bool.or_self]
      rcases h with h | h | h | h <;> simp [h]

/-- An instance: the district `R10A`. -/
theorem zoning_use_groups_r10_witness :
    ApiUsage.startsWith (asciiUpper "R10A") "R10" = true ∧
    getZoningUseGroups asciiUpper (some "R10A") = ["Use Group 1: Single-Family Detached"] :=
  ⟨by decide, (zoning_use_groups_r10 asciiUpper (some "R10A") (by decide)).1 (by decide)⟩

end NycData

/-! ## Zoning descriptions -/

namespace ZolaAPI

theorem lookupString_eq_none (table : List (String × String)) (key : String)
    (h : ∀ kv ∈ table, kv.1 ≠ key) : lookupString table key = none := by
  induction table with
  | nil => rfl
  | cons kv rest ih =>
    obtain ⟨k, v⟩ := kv
    have hk : k ≠ key := h (k, v) (List.mem_cons_self _ _)
    simp only [lookupString, hk, if_false]
    exact ih (fun kv hkv => h kv (List.mem_cons_of_mem _ hkv))

theorem lookupString_mem (table : List (String × String)) (key d : String)
    (h : lookupString table key = some d) : (key, d) ∈ table := by
  induction table with
  | nil => simp [lookupString] at h
  | cons kv rest ih =>
    obtain ⟨k, v⟩ := kv
    by_cases hk : k = key
    · simp only [lookupString, hk, if_true, Option.some.injEq] at h
      rw [hk, h]
      exact List.mem_cons_self _ _
    · simp only [lookupString, hk, if_false] at h
      exact List.mem_cons_of_mem _ (ih h)

/-- The one-character slice is the key of no table entry: every key has two
characters or more. -/
theorem jsSlice_one_no_key (zone : String) (k : String) (hk : 2 ≤ k.data.length) :
    k ≠ jsSlice zone 0 1 := by
  intro h
  have hl := congrArg (fun s : String => s.data.length) h
  simp only [jsSlice, List.drop_zero, Nat.sub_zero, List.length_take] at hl
  omega

/-- `getZoningDescription` on a non-empty district: the table entry of the
uppercased two-character slice, or the default; the lookup of the
one-character slice never finds an entry. -/
theorem getZoningDescription_eq (toUpperCase : String → String) (zone : Option String)
    (hf : falsyString zone = false) :
    getZoningDescription toUpperCase zone =
      some ((lookupString
        [("R1", "Single-Family Detached Residences"), ("R2", "Single-Family Detached Residences"),
         ("R3", "Low-Rise Attached & Detached Residences"), ("R4", "Low-Rise Attached Residences"),
         ("R5", "Low-Rise Apartments"), ("R6", "Medium-Density Apartments"),
         ("R7", "Medium-High Density Apartments"), ("R8", "High-Density Apartments"),
         ("R9", "High-Density Apartments (Towers)"), ("R10", "Highest Density Residential"),
         ("C1", "Local Retail (Overlay)"), ("C2", "Local Service (Overlay)"),
         ("C3", "Waterfront Recreation"), ("C4", "General Commercial"),
         ("C5", "Central Commercial"), ("C6", "General Central Commercial"),
         ("C7", "Commercial Amusement"), ("C8", "Heavy Commercial Services"),
         ("M1", "Light Manufacturing"), ("M2", "Medium Manufacturing"),
         ("M3", "Heavy Manufacturing"), ("PA", "Park"), ("BPC", "Battery Park City")]
        (toUpperCase (jsSlice (zone.getD "") 0 2))).getD "Mixed Use / Special District") := by
  have hlen : ∀ kv ∈
      [("R1", "Single-Family Detached Residences"), ("R2", "Single-Family Detached Residences"),
       ("R3", "Low-Rise Attached & Detached Residences"), ("R4", "Low-Rise Attached Residences"),
       ("R5", "Low-Rise Apartments"), ("R6", "Medium-Density Apartments"),
       ("R7", "Medium-High Density Apartments"), ("R8", "High-Density Apartments"),
       ("R9", "High-Density Apartments (Towers)"), ("R10", "Highest Density Residential"),
       ("C1", "Local Retail (Overlay)"), ("C2", "Local Service (Overlay)"),
       ("C3", "Waterfront Recreation"), ("C4", "General Commercial"),
       ("C5", "Central Commercial"), ("C6", "General Central Commercial"),
       ("C7", "Commercial Amusement"), ("C8", "Heavy Commercial Services"),
       ("M1", "Light Manufacturing"), ("M2", "Medium Manufacturing"),
       ("M3", "Heavy Manufacturing"), ("PA", "Park"), ("BPC", "Battery Park City")],
      2 ≤ (kv : String × String).1.data.length := by decide
  have h1 := lookupString_eq_none _ (jsSlice (zone.getD "") 0 1)
    (fun kv hkv => jsSlice_one_no_key (zone.getD "") kv.1 (hlen kv hkv))
  unfold getZoningDescription
  simp only [hf, Bool.false_eq_true, if_false, h1]
  cases lookupString _ (toUpperCase (jsSlice (zone.getD "") 0 2)) <;> rfl

theorem asciiUpper_length (s : String) : (asciiUpper s).data.length = s.data.length := by
  simp [asciiUpper]

/-- C26: the code at the failing inputs. For the districts `R10`, `R10A` and
`r10-1` the lookup key is the two-character slice `R1`, and
`getZoningDescription` returns the `R1` entry, not the `R10` entry that its own
table holds for them. -/
theorem zoning_description_r10_divergence :
    getZoningDescription asciiUpper (some "R10") = some "Single-Family Detached Residences" ∧
    getZoningDescription asciiUpper (some "R10A") = some "Single-Family Detached Residences" ∧
    getZoningDescription asciiUpper (some "r10-1") = some "Single-Family Detached Residences" ∧
    getZoningDescription asciiUpper (some "R10") ≠ some "Highest Density Residential" := by
  refine ⟨by decide, by decide, by decide, by decide⟩

/-- The extent of the defect in `getZoningDescription`: it looks up the
uppercased first two characters of the district. For every district that begins
with `R10`, in any letter case, that key is `R1` and the result is the `R1` entry
'Single-Family Detached Residences'; the `R10` entry of the table can be returned
only for a key `R10`, which the uppercased two-character slice never is under
ASCII case mapping. For a district whose key is in no table entry the result is
'Mixed Use / Special District'. -/
theorem zoning_description_two_char_key :
    (∀ (toUpperCase : String → String) (zone : Option String), falsyString zone = false →
      toUpperCase (jsSlice (zone.getD "") 0 2) = "R1" →
      getZoningDescription toUpperCase zone = some "Single-Family Detached Residences") ∧
    (∀ rest : List Char,
      getZoningDescription asciiUpper (some ⟨'R' :: '1' :: '0' :: rest⟩) =
        some "Single-Family Detached Residences" ∧
      getZoningDescription asciiUpper (some ⟨'r' :: '1' :: '0' :: rest⟩) =
        some "Single-Family Detached Residences") ∧
    (∀ (toUpperCase : String → String) (zone : Option String),
      getZoningDescription toUpperCase zone = some "Highest Density Residential" →
      toUpperCase (jsSlice (zone.getD "") 0 2) = "R10") ∧
    (∀ zone : Option String,
      getZoningDescription asciiUpper zone ≠ some "Highest Density Residential") ∧
    (∀ (toUpperCase : String → String) (zone : Option String), falsyString zone = false →
      toUpperCase (jsSlice (zone.getD "") 0 2) ∉
        ["R1", "R2", "R3", "R4", "R5", "R6", "R7", "R8", "R9", "R10", "C1", "C2", "C3", "C4",
         "C5", "C6", "C7", "C8", "M1", "M2", "M3", "PA", "BPC"] →
      getZoningDescription toUpperCase zone = some "Mixed Use / Special District") := by
  have hR1 : ∀ (toUpperCase : String → String) (zone : Option String),
      falsyString zone = false → toUpperCase (jsSlice (zone.getD "") 0 2) = "R1" →
      getZoningDescription toUpperCase zone = some "Single-Family Detached Residences" := by
    intro up zone hf h
    rw [getZoningDescription_eq up zone hf, h]
    rfl
  have hR10 : ∀ (toUpperCase : String → String) (zone : Option String),
      getZoningDescription toUpperCase zone = some "Highest Density Residential" →
      toUpperCase (jsSlice (zone.getD "") 0 2) = "R10" := by
    intro up zone h
    cases hf : falsyString zone
    · rw [getZoningDescription_eq up zone hf] at h
      rcases hl : lookupString _ (up (jsSlice (zone.getD "") 0 2)) with _ | d
      · rw [hl] at h
        exact absurd h (by decide)
      · rw [hl] at h
        simp only [Option.getD_some, Option.some.injEq] at h
        subst h
        have hm := lookupString_mem _ _ _ hl
        simp only [List.mem_cons, Prod.mk.injEq, List.mem_singleton, List.not_mem_nil,
          or_false] at hm
        rcases hm with h | h | h | h | h | h | h | h | h | h | h | h | h | h | h | h | h | h |
          h | h | h | h | h
        all_goals first
          | exact h.1
          | exact absurd h.2 (by decide)
    · simp [getZoningDescription, hf] at h
  refine ⟨hR1, ?_, hR10, ?_, ?_⟩
  · intro rest
    constructor
    · exact hR1 asciiUpper _ (by simp [falsyString, String.ext_iff]) rfl
    · exact hR1 asciiUpper _ (by simp [falsyString, String.ext_iff]) rfl
  · intro zone h
    have h10 := hR10 asciiUpper zone h
    have hl : (asciiUpper (jsSlice (zone.getD "") 0 2)).data.length = 3 := by
      rw [h10]
      rfl
    rw [asciiUpper_length] at hl
    simp only [jsSlice, List.drop_zero, Nat.sub_zero, List.length_take] at hl
    omega
  · intro up zone hf hnot
    rw [getZoningDescription_eq up zone hf, lookupString_eq_none]
    · rfl
    · intro kv hkv heq
      apply hnot
      rw [← heq]
      simp only [List.mem_cons, List.mem_singleton, List.not_mem_nil, or_false] at hkv ⊢
      rcases hkv with h | h | h | h | h | h | h | h | h | h | h | h | h | h | h | h | h | h |
        h | h | h | h | h <;> subst h <;> simp

/-- Instances: the district `R10A` gets the `R1` entry, and the district `ZR-7`,
whose key `ZR` is in no entry, gets the default. -/
theorem zoning_description_two_char_key_witness :
    asciiUpper (jsSlice "R10A" 0 2) = "R1" ∧
    getZoningDescription asciiUpper (some "R10A") = some "Single-Family Detached Residences" ∧
    getZoningDescription asciiUpper (some "ZR-7") = some "Mixed Use / Special District" :=
  ⟨by decide,
   zoning_description_two_char_key.1 asciiUpper (some "R10A") (by decide) (by decide),
   zoning_description_two_char_key.2.2.2.2 asciiUpper (some "ZR-7") (by decide) (by decide)⟩

end ZolaAPI

/-! ## The BBL test of `getCompleteZolaReport` -/

namespace ZolaAPI

theorem isDigit_val (c : Char) (h : c.isDigit = true) : 48 ≤ c.val.toNat ∧ c.val.toNat ≤ 57 := by
  simp only [Char.isDigit, Bool.and_eq_true, decide_eq_true_eq] at h
  exact ⟨h.1, h.2⟩

theorem isDigit_not_white (c : Char) (h : c.isDigit = true) : isStrWhiteSpace c = false := by
  have hv := isDigit_val c h
  have hne2 : ∀ n : UInt32, (n.toNat < 48 ∨ 57 < n.toNat) → c.val ≠ n := by
    intro n hn he
    rw [he] at hv
    omega
  have hr : ¬ ((0x2000 : UInt32) ≤ c.val) := by
    intro hle
    have : (0x2000 : UInt32).toNat ≤ c.val.toNat := hle
    have h2 : (0x2000 : UInt32).toNat = 8192 := by decide
    omega
  simp only [isStrWhiteSpace, hr, decide_False, Bool.false_and, Bool.or_false,
    hne2 0x09 (by decide), hne2 0x0A (by decide), hne2 0x0B (by decide), hne2 0x0C (by decide),
    hne2 0x0D (by decide), hne2 0x20 (by decide), hne2 0xA0 (by decide),
    hne2 0x1680 (by decide), hne2 0x2028 (by decide), hne2 0x2029 (by decide),
    hne2 0x202F (by decide), hne2 0x205F (by decide), hne2 0x3000 (by decide),
    hne2 0xFEFF (by decide), Bool.or_self]


theorem jsLength_digits (l : List Char) (n : Nat) (h : ∀ c ∈ l, c.isDigit = true) :
    l.foldl (fun n c => n + (if c.val ≥ 0x10000 then 2 else 1)) n = n + l.length := by
  induction l generalizing n with
  | nil => rfl
  | cons c cs ih =>
    have hv := isDigit_val c (h c (List.mem_cons_self _ _))
    have hc : ¬ c.val ≥ 0x10000 := by
      intro hle
      have : (0x10000 : UInt32).toNat ≤ c.val.toNat := hle
      have h2 : (0x10000 : UInt32).toNat = 65536 := by decide
      omega
    simp only [List.foldl_cons, hc, if_false, List.length_cons]
    rw [ih _ (fun c hc => h c (List.mem_cons_of_mem _ hc))]
    omega

theorem isStrUnsignedDecimalLiteral_digits (l : List Char) (hne : l ≠ [])
    (h : ∀ c ∈ l, c.isDigit = true) : isStrUnsignedDecimalLiteral l = true := by
  have hd : l.dropWhile Char.isDigit = [] := List.dropWhile_eq_nil_iff.mpr h
  have ht : l.takeWhile Char.isDigit = l := List.takeWhile_eq_self_iff.mpr h
  have he : l.isEmpty = false := by
    cases l with
    | nil => exact absurd rfl hne
    | cons _ _ => rfl
  simp only [isStrUnsignedDecimalLiteral, hd, ht, he, isExponentPartOpt, Bool.not_false,
    Bool.and_self, Bool.or_true]

theorem isStrNumericLiteral_digits (l : List Char) (hne : l ≠ [])
    (h : ∀ c ∈ l, c.isDigit = true) : isStrNumericLiteral l = true := by
  have hu := isStrUnsignedDecimalLiteral_digits l hne h
  unfold isStrNumericLiteral
  rw [Bool.or_eq_true]
  right
  split
  · rename_i rest
    exact absurd (h '+' (List.mem_cons_self _ _)) (by decide)
  · rename_i rest
    exact absurd (h '-' (List.mem_cons_self _ _)) (by decide)
  · exact hu

theorem jsIsNaN_digits (s : String) (hne : s.data ≠ [])
    (h : ∀ c ∈ s.data, c.isDigit = true) : jsIsNaN s = false := by
  have hw : ∀ c ∈ s.data, isStrWhiteSpace c = false := fun c hc => isDigit_not_white c (h c hc)
  have h1 : s.data.dropWhile isStrWhiteSpace = s.data := by
    cases hs : s.data with
    | nil => rfl
    | cons c cs =>
      have := hw c (by rw [hs]; exact List.mem_cons_self _ _)
      simp [List.dropWhile, this]
  have h2 : s.data.reverse.dropWhile isStrWhiteSpace = s.data.reverse := by
    cases hs : s.data.reverse with
    | nil => rfl
    | cons c cs =>
      have hm : c ∈ s.data := by
        rw [← List.mem_reverse, hs]
        exact List.mem_cons_self _ _
      simp [List.dropWhile, hw c hm]
  have he : s.data.isEmpty = false := by
    cases hs : s.data with
    | nil => exact absurd hs hne
    | cons _ _ => rfl
  simp only [jsIsNaN, h1, h2, List.reverse_reverse, he, Bool.false_or,
    isStrNumericLiteral_digits s.data hne h, Bool.not_true]

/-- A well-formed BBL passes the test of `getCompleteZolaReport`: ten code units
that convert to a number. -/
theorem wellFormed_passes (s : String) (h : isWellFormedBBL s = true) :
    jsLength s = 10 ∧ jsIsNaN s = false := by
  simp only [isWellFormedBBL, Bool.and_eq_true, decide_eq_true_eq, List.all_eq_true] at h
  obtain ⟨⟨hlen, hall⟩, _⟩ := h
  have hne : s.data ≠ [] := by
    intro he
    rw [he] at hlen
    simp at hlen
  refine ⟨?_, jsIsNaN_digits s hne hall⟩
  unfold jsLength
  rw [jsLength_digits s.data 0 hall, hlen]

/-- C30, as stated, fails: `9008350029` (first digit 9), `0x1234567f` (a
hexadecimal literal), `1.23456789` and a string of ten spaces are not well-formed
BBLs, yet each has ten code units and converts to a number, so
`getCompleteZolaReport` uses it as the BBL: with a GeoSearch that rejects every
request the report is still returned, with `address` `null`. -/
theorem bbl_test_accepts_malformed_counterexample :
    isWellFormedBBL "9008350029" = false ∧ isWellFormedBBL "0x1234567f" = false ∧
    isWellFormedBBL "1.23456789" = false ∧ isWellFormedBBL "          " = false ∧
    (∃ r, getCompleteZolaReport asciiUpper "2024-01-15T12:00:00.000Z"
        (emptyZolaNet (HttpResult.networkError "offline")) "9008350029" = .ok r ∧
      r.bbl = "9008350029" ∧ r.address = none) ∧
    (∃ r, getCompleteZolaReport asciiUpper "2024-01-15T12:00:00.000Z"
        (emptyZolaNet (HttpResult.networkError "offline")) "0x1234567f" = .ok r ∧
      r.bbl = "0x1234567f" ∧ r.address = none) ∧
    (∃ r, getCompleteZolaReport asciiUpper "2024-01-15T12:00:00.000Z"
        (emptyZolaNet (HttpResult.networkError "offline")) "1.23456789" = .ok r ∧
      r.bbl = "1.23456789" ∧ r.address = none) ∧
    (∃ r, getCompleteZolaReport asciiUpper "2024-01-15T12:00:00.000Z"
        (emptyZolaNet (HttpResult.networkError "offline")) "          " = .ok r ∧
      r.bbl = "          " ∧ r.address = none) :=
  ⟨by decide, by decide, by decide, by decide, ⟨_, rfl, rfl, rfl⟩, ⟨_, rfl, rfl, rfl⟩,
    ⟨_, rfl, rfl, rfl⟩, ⟨_, rfl, rfl, rfl⟩⟩

/-- C30 (amended). `getCompleteZolaReport` uses its argument directly as the
BBL, without any GeoSearch request, exactly when the argument has ten UTF-16
code units and converts to a number (`isNaN` is false); every other argument is
first resolved through `addressToBBL`. Every well-formed BBL passes that test,
but so do other strings of ten code units that convert to a number. -/
theorem bbl_argument_test (toUpperCase : String → String) (generatedAt : String)
    (net : ZolaNet) (s : String) :
    (jsLength s = 10 → jsIsNaN s = false →
      getCompleteZolaReport toUpperCase generatedAt net s =
        assembleZolaReport toUpperCase generatedAt net none s ∧
      ∀ geosearch : String → HttpResult GeoBody,
        getCompleteZolaReport toUpperCase generatedAt { net with geosearch := geosearch } s =
          getCompleteZolaReport toUpperCase generatedAt net s) ∧
    ((jsLength s ≠ 10 ∨ jsIsNaN s = true) →
      (∀ e, addressToBBL (net.geosearch s) = .error e →
        getCompleteZolaReport toUpperCase generatedAt net s = .error e) ∧
      (∀ info, addressToBBL (net.geosearch s) = .ok info →
        getCompleteZolaReport toUpperCase generatedAt net s =
          if falsyString info.bbl then .error (JsError.error "Could not determine BBL")
          else assembleZolaReport toUpperCase generatedAt net (some info)
            (info.bbl.getD ""))) ∧
    (isWellFormedBBL s = true → jsLength s = 10 ∧ jsIsNaN s = false) ∧
    (isWellFormedBBL s = true →
      getCompleteZolaReport toUpperCase generatedAt net s =
        assembleZolaReport toUpperCase generatedAt net none s) := by
  have hdirect : ∀ net : ZolaNet, jsLength s = 10 → jsIsNaN s = false →
      getCompleteZolaReport toUpperCase generatedAt net s =
        assembleZolaReport toUpperCase generatedAt net none s := by
    intro net hlen hnum
    have hne := jsLength_ten_ne_empty s hlen
    simp [getCompleteZolaReport, hlen, hnum, hne]
  refine ⟨?_, ?_, wellFormed_passes s, ?_⟩
  · intro hlen hnum
    refine ⟨hdirect net hlen hnum, ?_⟩
    intro geosearch
    rw [hdirect net hlen hnum, hdirect _ hlen hnum]
    rfl
  · intro haddr
    have hc : (decide (jsLength s ≠ 10) || jsIsNaN s) = true := by
      rcases haddr with h | h <;> simp [h]
    constructor
    · intro e he
      simp only [getCompleteZolaReport, hc, if_true, he]
    · intro info hi
      simp only [getCompleteZolaReport, hc, if_true, hi]
  · intro h
    exact hdirect net (wellFormed_passes s h).1 (wellFormed_passes s h).2

/-- Instances of C30 (amended): the well-formed BBL `1008350029` passes the
test and is used directly, and so is the hexadecimal literal `0x1234567f`. -/
theorem bbl_argument_test_witness :
    isWellFormedBBL "1008350029" = true ∧
    (jsLength "1008350029" = 10 ∧ jsIsNaN "1008350029" = false) ∧
    getCompleteZolaReport asciiUpper "2024-01-15T12:00:00.000Z"
        (emptyZolaNet (HttpResult.networkError "offline")) "0x1234567f" =
      assembleZolaReport asciiUpper "2024-01-15T12:00:00.000Z"
        (emptyZolaNet (HttpResult.networkError "offline")) none "0x1234567f" :=
  ⟨by decide,
   (bbl_argument_test asciiUpper "2024-01-15T12:00:00.000Z"
      (emptyZolaNet (HttpResult.networkError "offline")) "1008350029").2.2.1 (by decide),
   ((bbl_argument_test asciiUpper "2024-01-15T12:00:00.000Z"
      (emptyZolaNet (HttpResult.networkError "offline")) "0x1234567f").1 (by decide)
      (by decide)).1⟩

end ZolaAPI

/-! ## The roll-up of open violations in the report -/

namespace NycData

/-- C7. In every report that `getAllPropertyData` returns, `violations.totalOpen`
is the number of the report's HPD violations whose current status is not `CLOSE`,
plus the number of its DOB violations whose disposition date is null or empty,
plus the number of its ECB violations whose status is not `RESOLVE`; and every
triple of normalized violation lists is the triple of some report. -/
theorem total_open_rollup (toUpperCase : String → String) (geo : HttpResult GeoBody)
    (g : GeoData) (hg : addressToBBL geo = some g) (hb : falsyString g.bbl = false) :
    (∀ net : NycNet, ∃ r, (getAllPropertyData toUpperCase geo net).1 = PropertyResult.report r ∧
      r.violations.hpd = getHPDViolations (fetchNYCOpenData (net.hpd (g.bbl.getD ""))) ∧
      r.violations.dob = getDOBViolations (fetchNYCOpenData (net.dob (g.bbl.getD ""))) ∧
      r.violations.ecb = getECBViolations (fetchNYCOpenData (net.ecb (g.bbl.getD ""))) ∧
      r.violations.totalOpen =
        r.violations.hpd.countP (fun v => decide (v.currentStatus ≠ some "CLOSE")) +
        r.violations.dob.countP
          (fun v => decide (v.dispositionDate = none ∨ v.dispositionDate = some "")) +
        r.violations.ecb.countP (fun v => decide (v.status ≠ some "RESOLVE"))) ∧
    (∀ (hpdViolations : List HpdViolation) (dobViolations : List DobViolation)
      (ecbViolations : List EcbViolation),
      ∃ (net : NycNet) (r : PropertyReport),
        (getAllPropertyData toUpperCase geo net).1 = PropertyResult.report r ∧
        r.violations.hpd = hpdViolations ∧ r.violations.dob = dobViolations ∧
        r.violations.ecb = ecbViolations ∧
        r.violations.totalOpen =
          hpdViolations.countP (fun v => decide (v.currentStatus ≠ some "CLOSE")) +
          dobViolations.countP
            (fun v => decide (v.dispositionDate = none ∨ v.dispositionDate = some "")) +
          ecbViolations.countP (fun v => decide (v.status ≠ some "RESOLVE"))) := by
  have hrep : ∀ net : NycNet, ∃ r,
      (getAllPropertyData toUpperCase geo net).1 = PropertyResult.report r ∧
      r.violations.hpd = getHPDViolations (fetchNYCOpenData (net.hpd (g.bbl.getD ""))) ∧
      r.violations.dob = getDOBViolations (fetchNYCOpenData (net.dob (g.bbl.getD ""))) ∧
      r.violations.ecb = getECBViolations (fetchNYCOpenData (net.ecb (g.bbl.getD ""))) ∧
      r.violations.totalOpen =
        totalOpen r.violations.hpd r.violations.dob r.violations.ecb := by
    intro net
    simp only [getAllPropertyData, hg, hb, Bool.false_eq_true, if_false]
    exact ⟨_, rfl, rfl, rfl, rfl, rfl⟩
  constructor
  · intro net
    obtain ⟨r, hr, h1, h2, h3, h4⟩ := hrep net
    exact ⟨r, hr, h1, h2, h3, by rw [h4, totalOpen_eq_counts]⟩
  · intro hpdViolations dobViolations ecbViolations
    obtain ⟨r, hr, h1, h2, h3, h4⟩ := hrep
      { emptyNycNet with
        hpd := fun _ => HttpResult.response 200 (some (hpdViolations.map (fun v =>
          { violationid := v.violationId, violationclass := v.violationClass
            currentstatus := v.currentStatus })))
        dob := fun _ => HttpResult.response 200 (some (dobViolations.map (fun v =>
          { number := v.violationNumber, issue_date := v.issueDate
            disposition_date := v.dispositionDate })))
        ecb := fun _ => HttpResult.response 200 (some (ecbViolations.map (fun v =>
          { ecb_violation_number := v.ecbNumber, issue_date := v.issueDate
            ecb_violation_status := v.status }))) }
    have e1 : r.violations.hpd = hpdViolations := by
      rw [h1]
      simp [fetchNYCOpenData, httpOk, getHPDViolations, Function.comp_def]
    have e2 : r.violations.dob = dobViolations := by
      rw [h2]
      simp [fetchNYCOpenData, httpOk, getDOBViolations, Function.comp_def]
    have e3 : r.violations.ecb = ecbViolations := by
      rw [h3]
      simp [fetchNYCOpenData, httpOk, getECBViolations, Function.comp_def]
    refine ⟨_, r, hr, e1, e2, e3, ?_⟩
    rw [h4, totalOpen_eq_counts, e1, e2, e3]

/-- An instance of C7: 350 5th Ave with HPD answering one open and one closed
violation, DOB one violation without disposition date and ECB one resolved
violation: two open violations. -/
theorem total_open_rollup_witness :
    ∃ r, (getAllPropertyData asciiUpper
        (HttpResult.response 200 (some (geoBodyWithBBL (some "1008350029") none)))
        (sampleNycNet (HttpResult.response 200
          (some [{ violationid := some "H1", currentstatus := some "OPEN" },
                 { violationid := some "H2", currentstatus := some "CLOSE" }])))).1 =
          PropertyResult.report r ∧
      r.violations.totalOpen = 3 :=
  ((total_open_rollup asciiUpper
      (HttpResult.response 200 (some (geoBodyWithBBL (some "1008350029") none))) _ rfl
      (by decide)).1
    (sampleNycNet (HttpResult.response 200
      (some [{ violationid := some "H1", currentstatus := some "OPEN" },
             { violationid := some "H2", currentstatus := some "CLOSE" }])))).imp
    (fun r h => ⟨h.1, by rw [h.2.2.2.2, h.2.1, h.2.2.1, h.2.2.2.1]; rfl⟩)

end NycData

end DealFlow
